import Mathlib

/-!
# Intel 8080 interpreter (`i8080.c`): shallow embedding and verified properties

Conventions of the embedding.

* `uint8_t` / `uint16_t` values are natural numbers; every store into such an object is
  reduced `% 256` / `% 65536`. One-bit bitfields (`flags_t`) are reduced `% 2`.
* Values of C type `int` whose sign matters (array indices such as `state->sp - 1`, the
  `int8_t` parameters of `i8080_update_flags`, the accumulator of `i8080_parity`) are
  integers.
* `state->mem` is a C array indexed by an `int`; it is a total map from the index to
  the byte found there. No wrap-around is applied to an index: `mem[sp + 1]` with
  `sp = 0xffff` is index `0x10000`, exactly as the C expression computes it. The array
  itself has the indices `0 .. mem_sizeb - 1`; an index outside that range is an access
  outside the buffer.
* The two function-pointer slots of `i8080_state_t` live in `machine_t`, next to the
  state of the host collaborators the handlers act on.
* `printf` diagnostics have no effect on the machine and are not modelled.
-/

namespace I8080

/-- Flag bundle `flags_t`: five one-bit fields. -/
structure flags_t where
  s : Nat
  z : Nat
  p : Nat
  cy : Nat
  ac : Nat

/-- Data fields of `i8080_state_t` (all but the two function pointers). -/
structure i8080_state_t where
  a : Nat
  b : Nat
  c : Nat
  d : Nat
  e : Nat
  h : Nat
  l : Nat
  i : Nat
  sp : Nat
  pc : Nat
  f : flags_t
  mem : Int → Nat
  mem_sizeb : Int
  irq_set_cnt : Nat
  irq_clr_cnt : Nat
  halt_req : Int

/-- Port handler `i8080_io_fn_t`: port, byte, direction; it may act on the host state
and, through its saved pointer, on the CPU state. -/
abbrev i8080_io_fn_t (H : Type) : Type :=
  Nat → Nat → Int → i8080_state_t → H → Nat × i8080_state_t × H

/-- Pre-decode handler `i8080_instr_fn_t`: it receives the CPU state and returns a
status. -/
abbrev i8080_instr_fn_t (H : Type) : Type :=
  i8080_state_t → H → Int × i8080_state_t × H

/-- The CPU state together with its two handler slots and the host state `H` the
handlers act on. -/
structure machine_t (H : Type) where
  state : i8080_state_t
  host : H
  io_handler : Option (i8080_io_fn_t H)
  instr_func : Option (i8080_instr_fn_t H)

def DEVICE_IN : Int := 0
def DEVICE_OUT : Int := 1

/-- Conversion of an `int` to `int8_t` (two's complement wrap). -/
def to_int8 (x : Int) : Int :=
  if x % 256 ≥ 128 then x % 256 - 256 else x % 256

/-- Conversion of an `int` to `uint8_t`. -/
def to_uint8 (x : Int) : Nat := (x % 256).toNat

/-- Conversion of an `int` to `uint16_t`. -/
def to_uint16 (x : Int) : Nat := (x % 65536).toNat

/-- Store `mem[idx] = v` of a `uint8_t`. -/
def mem_write (mem : Int → Nat) (idx : Int) (v : Nat) : Int → Nat :=
  fun k => if k = idx then v % 256 else mem k

/-- `i8080_parity`: the loop adds `val >> i` for `i = 0 .. 7` on the `int8_t` argument
(arithmetic shift), then tests the low bit of the sum. -/
def i8080_parity (val : Int) : Nat :=
  let v := to_int8 val
  let parity := (List.range 8).foldl (fun (acc : Int) (i : Nat) => acc + (v >>> i)) 0
  if Int.land parity 1 = 0 then 1 else 0

/-- `i8080_update_flags (state, result, dst, src)`; `result` is a `uint16_t`, `dst` and
`src` are converted to `int8_t` at the call. -/
def i8080_update_flags (state : i8080_state_t) (result : Nat) (dst src : Int) :
    i8080_state_t :=
  let dst8 := to_int8 dst
  let src8 := to_int8 src
  { state with f :=
    { ac := if Int.land (Int.xor (Int.xor dst8 (result : Int)) src8) 0x10 ≠ 0 then 1 else 0
      s := if result &&& 0x80 = 0 then 0 else 1
      z := if result &&& 0xff = 0 then 1 else 0
      p := i8080_parity ((result &&& 0xff : Nat) : Int)
      cy := if result &&& 0x100 = 0 then 0 else 1 } }

/-- Targets of the pointer returned by `reg_ptr`. -/
inductive reg_t where
  | a | b | c | d | e | h | l
  deriving DecidableEq, Repr

/-- Read through a register pointer. -/
def reg_read (state : i8080_state_t) : reg_t → Nat
  | .a => state.a
  | .b => state.b
  | .c => state.c
  | .d => state.d
  | .e => state.e
  | .h => state.h
  | .l => state.l

/-- Write a `uint8_t` through a register pointer. -/
def reg_write (state : i8080_state_t) (r : reg_t) (v : Nat) : i8080_state_t :=
  match r with
  | .a => { state with a := v % 256 }
  | .b => { state with b := v % 256 }
  | .c => { state with c := v % 256 }
  | .d => { state with d := v % 256 }
  | .e => { state with e := v % 256 }
  | .h => { state with h := v % 256 }
  | .l => { state with l := v % 256 }

/-- `reg_ptr`: selector to register pointer; an invalid selector sets `halt_req` and
falls back to `&state->a`. -/
def reg_ptr (state : i8080_state_t) (reg : Nat) : i8080_state_t × reg_t :=
  match reg with
  | 0 => (state, .b)
  | 1 => (state, .c)
  | 2 => (state, .d)
  | 3 => (state, .e)
  | 4 => (state, .h)
  | 5 => (state, .l)
  | 7 => (state, .a)
  | _ => ({ state with halt_req := 1 }, .a)

def movr2r (state : i8080_state_t) : i8080_state_t :=
  let opcode := state.mem state.pc
  let src_nr := opcode &&& 0x7
  let dst_nr := (opcode &&& 0x38) >>> 3
  let (state, src) := reg_ptr state src_nr
  let (state, dst) := reg_ptr state dst_nr
  let state := reg_write state dst (reg_read state src)
  { state with pc := (state.pc + 1) % 65536 }

def movr2m (state : i8080_state_t) (hl : Nat) : i8080_state_t :=
  let opcode := state.mem state.pc
  let src_nr := opcode &&& 0x7
  let (state, src) := reg_ptr state src_nr
  let state := { state with mem := mem_write state.mem hl (reg_read state src) }
  { state with pc := (state.pc + 1) % 65536 }

def movm2r (state : i8080_state_t) (hl : Nat) : i8080_state_t :=
  let opcode := state.mem state.pc
  let dst_nr := (opcode &&& 0x38) >>> 3
  let (state, dst) := reg_ptr state dst_nr
  let state := reg_write state dst (state.mem hl)
  { state with pc := (state.pc + 1) % 65536 }

def mvi (state : i8080_state_t) : i8080_state_t :=
  let opcode := state.mem state.pc
  let dst_nr := (opcode &&& 0x38) >>> 3
  let byte := state.mem ((state.pc : Int) + 1)
  let (state, dst) := reg_ptr state dst_nr
  let state := reg_write state dst byte
  { state with pc := (state.pc + 2) % 65536 }

def add (state : i8080_state_t) : i8080_state_t :=
  let opcode := state.mem state.pc
  let src_nr := opcode &&& 0x7
  let (state, src) := reg_ptr state src_nr
  let result := to_uint16 ((state.a : Int) + reg_read state src)
  let v := reg_read state src
  let state := i8080_update_flags state result state.a v
  let state := { state with a := (result &&& 0xff) % 256 }
  { state with pc := (state.pc + 1) % 65536 }

def adc (state : i8080_state_t) : i8080_state_t :=
  let opcode := state.mem state.pc
  let src_nr := opcode &&& 0x7
  let (state, src) := reg_ptr state src_nr
  let result := to_uint16 ((state.a : Int) + reg_read state src + state.f.cy)
  let v : Int := (reg_read state src : Int) + state.f.cy
  let state := i8080_update_flags state result state.a v
  let state := { state with a := (result &&& 0xff) % 256 }
  { state with pc := (state.pc + 1) % 65536 }

def sub (state : i8080_state_t) : i8080_state_t :=
  let opcode := state.mem state.pc
  let src_nr := opcode &&& 0x7
  let (state, src) := reg_ptr state src_nr
  let result := to_uint16 ((state.a : Int) - reg_read state src)
  let v := reg_read state src
  let state := i8080_update_flags state result state.a v
  let state := { state with a := (result &&& 0xff) % 256 }
  { state with pc := (state.pc + 1) % 65536 }

def cmp (state : i8080_state_t) : i8080_state_t :=
  let opcode := state.mem state.pc
  let src_nr := opcode &&& 0x7
  let (state, src) := reg_ptr state src_nr
  let result := to_uint16 ((state.a : Int) - reg_read state src)
  let v := reg_read state src
  let state := i8080_update_flags state result state.a v
  { state with pc := (state.pc + 1) % 65536 }

def sbb (state : i8080_state_t) : i8080_state_t :=
  let opcode := state.mem state.pc
  let src_nr := opcode &&& 0x7
  let (state, src) := reg_ptr state src_nr
  let result := to_uint16 ((state.a : Int) - reg_read state src - state.f.cy)
  let v : Int := (reg_read state src : Int) + state.f.cy
  let state := i8080_update_flags state result state.a v
  let state := { state with a := (result &&& 0xff) % 256 }
  { state with pc := (state.pc + 1) % 65536 }

def inr (state : i8080_state_t) : i8080_state_t :=
  let opcode := state.mem state.pc
  let dst_nr := (opcode &&& 0x38) >>> 3
  let (state, dst) := reg_ptr state dst_nr
  let cy := state.f.cy
  let result := to_uint16 ((reg_read state dst : Int) + 1)
  let state := i8080_update_flags state result (reg_read state dst) 1
  let state := { state with f := { state.f with cy := cy % 2 } }
  let state := reg_write state dst (result &&& 0xff)
  { state with pc := (state.pc + 1) % 65536 }

def dcr (state : i8080_state_t) : i8080_state_t :=
  let opcode := state.mem state.pc
  let dst_nr := (opcode &&& 0x38) >>> 3
  let (state, dst) := reg_ptr state dst_nr
  let cy := state.f.cy
  let result := to_uint16 ((reg_read state dst : Int) - 1)
  let state := i8080_update_flags state result (reg_read state dst) 1
  let state := { state with f := { state.f with cy := cy % 2 } }
  let state := reg_write state dst (result &&& 0xff)
  { state with pc := (state.pc + 1) % 65536 }

def call (state : i8080_state_t) (address : Nat) : i8080_state_t :=
  let state := { state with
    mem := mem_write state.mem ((state.sp : Int) - 1) (((state.pc + 3) &&& 0xff00) >>> 8) }
  let state := { state with
    mem := mem_write state.mem ((state.sp : Int) - 2) (((state.pc + 3) &&& 0x00ff) >>> 0) }
  let state := { state with sp := to_uint16 ((state.sp : Int) - 2) }
  { state with pc := address % 65536 }

def rst (state : i8080_state_t) : i8080_state_t :=
  let nnn := ((state.mem state.pc >>> 3) &&& 0x7) % 256
  let state := { state with
    mem := mem_write state.mem ((state.sp : Int) - 1) (((state.pc + 1) &&& 0xff00) >>> 8) }
  let state := { state with
    mem := mem_write state.mem ((state.sp : Int) - 2) (((state.pc + 1) &&& 0x00ff) >>> 0) }
  let state := { state with sp := to_uint16 ((state.sp : Int) - 2) }
  { state with pc := (nnn * 8) % 65536 }

def ret (state : i8080_state_t) : i8080_state_t :=
  let state := { state with
    pc := ((state.mem ((state.sp : Int) + 1) <<< 8) ||| state.mem state.sp) % 65536 }
  { state with sp := (state.sp + 2) % 65536 }

def ana (state : i8080_state_t) : i8080_state_t :=
  let opcode := state.mem state.pc
  let src_nr := opcode &&& 0x7
  let (state, src) := reg_ptr state src_nr
  let result := (state.a &&& reg_read state src) % 65536
  let v := reg_read state src
  let state := i8080_update_flags state result state.a v
  let state := { state with a := (result &&& 0xff) % 256 }
  let state := { state with f := { state.f with cy := 0 } }
  { state with pc := (state.pc + 1) % 65536 }

def xra (state : i8080_state_t) : i8080_state_t :=
  let opcode := state.mem state.pc
  let src_nr := opcode &&& 0x7
  let (state, src) := reg_ptr state src_nr
  let result := (state.a ^^^ reg_read state src) % 65536
  let v := reg_read state src
  let state := i8080_update_flags state result state.a v
  let state := { state with a := (result &&& 0xff) % 256 }
  let state := { state with f := { state.f with cy := 0 } }
  let state := { state with f := { state.f with ac := 0 } }
  { state with pc := (state.pc + 1) % 65536 }

def ora (state : i8080_state_t) : i8080_state_t :=
  let opcode := state.mem state.pc
  let src_nr := opcode &&& 0x7
  let (state, src) := reg_ptr state src_nr
  let result := (state.a ||| reg_read state src) % 65536
  let v := reg_read state src
  let state := i8080_update_flags state result state.a v
  let state := { state with a := (result &&& 0xff) % 256 }
  let state := { state with f := { state.f with cy := 0 } }
  let state := { state with f := { state.f with ac := 0 } }
  { state with pc := (state.pc + 1) % 65536 }

/-- The expression `(state->mem[state->pc+1] | state->mem[state->pc+2] << 8)` assigned
to a `uint16_t`. -/
def imm16 (state : i8080_state_t) : Nat :=
  (state.mem ((state.pc : Int) + 1) ||| (state.mem ((state.pc : Int) + 2) <<< 8)) % 65536

/-- `state->pc += n` on the `uint16_t` program counter. -/
def pc_add (state : i8080_state_t) (n : Nat) : i8080_state_t :=
  { state with pc := (state.pc + n) % 65536 }

/-- `state->f.cy = v` on the one-bit field. -/
def set_cy (state : i8080_state_t) (v : Nat) : i8080_state_t :=
  { state with f := { state.f with cy := v % 2 } }

/-- `state->f.ac = v` on the one-bit field. -/
def set_ac (state : i8080_state_t) (v : Nat) : i8080_state_t :=
  { state with f := { state.f with ac := v % 2 } }

/-- `state->a = v` on the `uint8_t` accumulator. -/
def set_a (state : i8080_state_t) (v : Nat) : i8080_state_t :=
  { state with a := v % 256 }

/-- `state->mem[idx] = v`. -/
def set_mem (state : i8080_state_t) (idx : Int) (v : Nat) : i8080_state_t :=
  { state with mem := mem_write state.mem idx v }

/-- Body shared by the four `dad` cases: `result = hl + rp` as `int32_t`, then `cy`,
`h`, `l` and `pc++`. -/
def dad (state : i8080_state_t) (hl rp : Nat) : i8080_state_t :=
  let result := hl + rp
  let state := set_cy state (if result &&& 0x10000 = 0 then 0 else 1)
  let state := { state with h := ((result &&& 0xff00) >>> 8) % 256 }
  let state := { state with l := ((result &&& 0x00ff) >>> 0) % 256 }
  pc_add state 1

/-- Body of `case 0x27` (daa). -/
def daa (state : i8080_state_t) : i8080_state_t :=
  let cy := state.f.cy
  let lnibble := (state.a &&& 0xf) % 256
  let state :=
    if lnibble > 9 ∨ state.f.ac ≠ 0 then
      let result := ((state.a + 6) &&& 0xff) % 65536
      let state := i8080_update_flags state result state.a 6
      let state := set_ac state 1
      set_a state (result &&& 0xff)
    else
      set_ac state 0
  let ac := state.f.ac
  let hnibble := ((state.a >>> 4) &&& 0xf) % 256
  let state :=
    if hnibble > 9 ∨ cy ≠ 0 then
      let result := (state.a + 0x60) % 65536
      let state := i8080_update_flags state result state.a 0x60
      let state := set_cy state 1
      set_a state (result &&& 0xff)
    else
      set_cy state 0
  let state := set_ac state ac
  pc_add state 1

/-- Body of `case 0xf5` (push psw). -/
def push_psw (state : i8080_state_t) : i8080_state_t :=
  let state := set_mem state ((state.sp : Int) - 1) state.a
  let state := set_mem state ((state.sp : Int) - 2)
    ((state.f.cy <<< 0) ||| (1 <<< 1) ||| (state.f.p <<< 2) ||| (0 <<< 3) |||
     (state.f.ac <<< 4) ||| (0 <<< 5) ||| (state.f.z <<< 6) ||| (state.f.s <<< 7))
  let state := { state with sp := to_uint16 ((state.sp : Int) - 2) }
  pc_add state 1

/-- Body of `case 0xf1` (pop psw). -/
def pop_psw (state : i8080_state_t) : i8080_state_t :=
  let state := set_a state (state.mem ((state.sp : Int) + 1))
  let state := set_cy state ((state.mem state.sp >>> 0) &&& 1)
  let state := { state with f := { state.f with p := ((state.mem state.sp >>> 2) &&& 1) % 2 } }
  let state := set_ac state ((state.mem state.sp >>> 4) &&& 1)
  let state := { state with f := { state.f with z := ((state.mem state.sp >>> 6) &&& 1) % 2 } }
  let state := { state with f := { state.f with s := ((state.mem state.sp >>> 7) &&& 1) % 2 } }
  let state := { state with sp := (state.sp + 2) % 65536 }
  pc_add state 1

/-- Body of `case 0x07` (rlc). -/
def rlc (state : i8080_state_t) : i8080_state_t :=
  let b7 := (state.a >>> 7) % 256
  let state := set_a state (state.a <<< 1)
  let state := set_a state (state.a ||| b7)
  let state := set_cy state b7
  pc_add state 1

/-- Body of `case 0x0f` (rrc). -/
def rrc (state : i8080_state_t) : i8080_state_t :=
  let b0 := (state.a &&& 1) % 256
  let state := set_a state (state.a >>> 1)
  let state := set_a state (state.a ||| (b0 <<< 7))
  let state := set_cy state b0
  pc_add state 1

/-- Body of `case 0x17` (ral). -/
def ral (state : i8080_state_t) : i8080_state_t :=
  let b7 := (state.a >>> 7) % 256
  let state := set_a state (state.a <<< 1)
  let state := set_a state (state.a ||| state.f.cy)
  let state := set_cy state b7
  pc_add state 1

/-- Body of `case 0x1f` (rar). -/
def rar (state : i8080_state_t) : i8080_state_t :=
  let b0 := (state.a &&& 1) % 256
  let state := set_a state (state.a >>> 1)
  let state := set_a state (state.a ||| (state.f.cy <<< 7))
  let state := set_cy state b0
  pc_add state 1

/-- Body of `case 0x3a` (lda). -/
def lda (state : i8080_state_t) : i8080_state_t :=
  let word := imm16 state
  pc_add (set_a state (state.mem word)) 3

/-- Body of `case 0x36` (mvi m). -/
def mvi_m (state : i8080_state_t) (hl : Nat) : i8080_state_t :=
  let byte := state.mem ((state.pc : Int) + 1)
  pc_add (set_mem state hl byte) 2

/-- Body of `case 0x32` (sta). -/
def sta (state : i8080_state_t) : i8080_state_t :=
  let word := imm16 state
  pc_add (set_mem state word state.a) 3

/-- Body of `case 0x01` (lxi b). -/
def lxi_b (state : i8080_state_t) : i8080_state_t :=
  let word := imm16 state
  let state := { state with b := (word >>> 8) % 256 }
  let state := { state with c := (word &&& 0xff) % 256 }
  pc_add state 3

/-- Body of `case 0x11` (lxi d). -/
def lxi_d (state : i8080_state_t) : i8080_state_t :=
  let word := imm16 state
  let state := { state with d := (word >>> 8) % 256 }
  let state := { state with e := (word &&& 0xff) % 256 }
  pc_add state 3

/-- Body of `case 0x21` (lxi h). -/
def lxi_h (state : i8080_state_t) : i8080_state_t :=
  let word := imm16 state
  let state := { state with h := (word >>> 8) % 256 }
  let state := { state with l := (word &&& 0xff) % 256 }
  pc_add state 3

/-- Body of `case 0x31` (lxi sp). -/
def lxi_sp (state : i8080_state_t) : i8080_state_t :=
  let word := imm16 state
  let state := { state with sp := word % 65536 }
  pc_add state 3

/-- Body of `case 0x2a` (lhld). -/
def lhld (state : i8080_state_t) : i8080_state_t :=
  let addr := imm16 state
  let state := { state with l := state.mem ((addr : Int) + 0) % 256 }
  let state := { state with h := state.mem ((addr : Int) + 1) % 256 }
  pc_add state 3

/-- Body of `case 0x22` (shld). -/
def shld (state : i8080_state_t) : i8080_state_t :=
  let addr := imm16 state
  let state := set_mem state ((addr : Int) + 0) state.l
  let state := set_mem state ((addr : Int) + 1) state.h
  pc_add state 3

/-- Body of `case 0xeb` (xchg). -/
def xchg (state : i8080_state_t) (de : Nat) (hl : Nat) : i8080_state_t :=
  let state := { state with h := ((de >>> 8) &&& 0xff) % 256 }
  let state := { state with l := (de &&& 0xff) % 256 }
  let state := { state with d := ((hl >>> 8) &&& 0xff) % 256 }
  let state := { state with e := (hl &&& 0xff) % 256 }
  pc_add state 1

/-- Body of `case 0xe3` (xthl). -/
def xthl (state : i8080_state_t) (hl : Nat) : i8080_state_t :=
  let state := { state with h := state.mem ((state.sp : Int) + 1) % 256 }
  let state := { state with l := state.mem state.sp % 256 }
  let state := set_mem state ((state.sp : Int) + 1) (hl >>> 8)
  let state := set_mem state state.sp (hl &&& 0xff)
  pc_add state 1

/-- Body of `case 0x86` (add m). -/
def add_m (state : i8080_state_t) (hl : Nat) : i8080_state_t :=
  let result := to_uint16 ((state.a : Int) + state.mem hl)
  let state := i8080_update_flags state result state.a (state.mem hl)
  let state := set_a state (result &&& 0xff)
  pc_add state 1

/-- Body of `case 0xc6` (adi). -/
def adi (state : i8080_state_t) : i8080_state_t :=
  let result := to_uint16 ((state.a : Int) + state.mem ((state.pc : Int) + 1))
  let state := i8080_update_flags state result state.a (state.mem ((state.pc : Int) + 1))
  let state := set_a state (result &&& 0xff)
  pc_add state 2

/-- Body of `case 0x8e` (adc m). -/
def adc_m (state : i8080_state_t) (hl : Nat) : i8080_state_t :=
  let result := to_uint16 ((state.a : Int) + state.mem hl + state.f.cy)
  let state := i8080_update_flags state result state.a ((state.mem hl : Int) + state.f.cy)
  let state := set_a state (result &&& 0xff)
  pc_add state 1

/-- Body of `case 0xce` (aci). -/
def aci (state : i8080_state_t) : i8080_state_t :=
  let result := to_uint16 ((state.a : Int) + state.mem ((state.pc : Int) + 1) + state.f.cy)
  let state := i8080_update_flags state result state.a
    ((state.mem ((state.pc : Int) + 1) : Int) + state.f.cy)
  let state := set_a state (result &&& 0xff)
  pc_add state 2

/-- Body of `case 0x96` (sub m). -/
def sub_m (state : i8080_state_t) (hl : Nat) : i8080_state_t :=
  let result := to_uint16 ((state.a : Int) - state.mem hl)
  let state := i8080_update_flags state result state.a (state.mem hl)
  let state := set_a state (result &&& 0xff)
  pc_add state 1

/-- Body of `case 0xd6` (sui). -/
def sui (state : i8080_state_t) : i8080_state_t :=
  let result := to_uint16 ((state.a : Int) - state.mem ((state.pc : Int) + 1))
  let state := i8080_update_flags state result state.a (state.mem ((state.pc : Int) + 1))
  let state := set_a state (result &&& 0xff)
  pc_add state 2

/-- Body of `case 0x9e` (sbb m). -/
def sbb_m (state : i8080_state_t) (hl : Nat) : i8080_state_t :=
  let result := to_uint16 ((state.a : Int) - state.mem hl - state.f.cy)
  let state := i8080_update_flags state result state.a ((state.mem hl : Int) - state.f.cy)
  let state := set_a state (result &&& 0xff)
  pc_add state 1

/-- Body of `case 0xde` (sbi). -/
def sbi (state : i8080_state_t) : i8080_state_t :=
  let result := to_uint16 ((state.a : Int) - state.mem ((state.pc : Int) + 1) - state.f.cy)
  let state := i8080_update_flags state result state.a
    ((state.mem ((state.pc : Int) + 1) : Int) - state.f.cy)
  let state := set_a state (result &&& 0xff)
  pc_add state 2

/-- Body of `case 0x34` (inr m). -/
def inr_m (state : i8080_state_t) (hl : Nat) : i8080_state_t :=
  let cy := state.f.cy
  let result := to_uint16 ((state.mem hl : Int) + 1)
  let state := i8080_update_flags state result (state.mem hl) 1
  let state := set_cy state cy
  let state := set_mem state hl (result &&& 0xff)
  pc_add state 1

/-- Body of `case 0x35` (dcr m). -/
def dcr_m (state : i8080_state_t) (hl : Nat) : i8080_state_t :=
  let cy := state.f.cy
  let result := to_uint16 ((state.mem hl : Int) - 1)
  let state := i8080_update_flags state result (state.mem hl) 1
  let state := set_cy state cy
  let state := set_mem state hl (result &&& 0xff)
  pc_add state 1

/-- Body of `case 0x03` (inx b). -/
def inx_b (state : i8080_state_t) (bc : Nat) : i8080_state_t :=
  let bc := (bc + 1) % 65536
  let state := { state with b := ((bc &&& 0xff00) >>> 8) % 256 }
  let state := { state with c := ((bc &&& 0x00ff) >>> 0) % 256 }
  pc_add state 1

/-- Body of `case 0x13` (inx d). -/
def inx_d (state : i8080_state_t) (de : Nat) : i8080_state_t :=
  let de := (de + 1) % 65536
  let state := { state with d := ((de &&& 0xff00) >>> 8) % 256 }
  let state := { state with e := ((de &&& 0x00ff) >>> 0) % 256 }
  pc_add state 1

/-- Body of `case 0x23` (inx h). -/
def inx_h (state : i8080_state_t) (hl : Nat) : i8080_state_t :=
  let hl := (hl + 1) % 65536
  let state := { state with h := ((hl &&& 0xff00) >>> 8) % 256 }
  let state := { state with l := ((hl &&& 0x00ff) >>> 0) % 256 }
  pc_add state 1

/-- Body of `case 0x0b` (dcx b). -/
def dcx_b (state : i8080_state_t) (bc : Nat) : i8080_state_t :=
  let bc := to_uint16 ((bc : Int) - 1)
  let state := { state with b := ((bc &&& 0xff00) >>> 8) % 256 }
  let state := { state with c := ((bc &&& 0x00ff) >>> 0) % 256 }
  pc_add state 1

/-- Body of `case 0x1b` (dcx d). -/
def dcx_d (state : i8080_state_t) (de : Nat) : i8080_state_t :=
  let de := to_uint16 ((de : Int) - 1)
  let state := { state with d := ((de &&& 0xff00) >>> 8) % 256 }
  let state := { state with e := ((de &&& 0x00ff) >>> 0) % 256 }
  pc_add state 1

/-- Body of `case 0x2b` (dcx h). -/
def dcx_h (state : i8080_state_t) (hl : Nat) : i8080_state_t :=
  let hl := to_uint16 ((hl : Int) - 1)
  let state := { state with h := ((hl &&& 0xff00) >>> 8) % 256 }
  let state := { state with l := ((hl &&& 0x00ff) >>> 0) % 256 }
  pc_add state 1

/-- Body of `case 0xa6` (ana m). -/
def ana_m (state : i8080_state_t) (hl : Nat) : i8080_state_t :=
  let result := (state.a &&& state.mem hl) % 65536
  let state := i8080_update_flags state result state.a (state.mem hl)
  let state := set_a state (result &&& 0xff)
  let state := set_cy state 0
  pc_add state 1

/-- Body of `case 0xe6` (ani). -/
def ani (state : i8080_state_t) : i8080_state_t :=
  let result := (state.a &&& state.mem ((state.pc : Int) + 1)) % 65536
  let state := i8080_update_flags state result state.a (state.mem ((state.pc : Int) + 1))
  let state := set_a state (result &&& 0xff)
  let state := set_cy state 0
  let state := set_ac state 0
  pc_add state 2

/-- Body of `case 0xae` (xra m). -/
def xra_m (state : i8080_state_t) (hl : Nat) : i8080_state_t :=
  let result := (state.a ^^^ state.mem hl) % 65536
  let state := i8080_update_flags state result state.a (state.mem hl)
  let state := set_a state (result &&& 0xff)
  let state := set_cy state 0
  let state := set_ac state 0
  pc_add state 1

/-- Body of `case 0xee` (xri). -/
def xri (state : i8080_state_t) : i8080_state_t :=
  let result := (state.a ^^^ state.mem ((state.pc : Int) + 1)) % 65536
  let state := i8080_update_flags state result state.a (state.mem ((state.pc : Int) + 1))
  let state := set_a state (result &&& 0xff)
  let state := set_cy state 0
  let state := set_ac state 0
  pc_add state 2

/-- Body of `case 0xb6` (ora m). -/
def ora_m (state : i8080_state_t) (hl : Nat) : i8080_state_t :=
  let result := (state.a ||| state.mem hl) % 65536
  let state := i8080_update_flags state result state.a (state.mem hl)
  let state := set_a state (result &&& 0xff)
  let state := set_cy state 0
  let state := set_ac state 0
  pc_add state 1

/-- Body of `case 0xf6` (ori). -/
def ori (state : i8080_state_t) : i8080_state_t :=
  let result := (state.a ||| state.mem ((state.pc : Int) + 1)) % 65536
  let state := i8080_update_flags state result state.a (state.mem ((state.pc : Int) + 1))
  let state := set_a state (result &&& 0xff)
  let state := set_cy state 0
  let state := set_ac state 0
  pc_add state 2

/-- Body of `case 0xbe` (cmp m). -/
def cmp_m (state : i8080_state_t) (hl : Nat) : i8080_state_t :=
  let result := to_uint16 ((state.a : Int) - state.mem hl)
  let state := i8080_update_flags state result state.a (state.mem hl)
  pc_add state 1

/-- Body of `case 0xfe` (cpi). -/
def cpi (state : i8080_state_t) : i8080_state_t :=
  let result := to_uint16 ((state.a : Int) - state.mem ((state.pc : Int) + 1))
  let state := i8080_update_flags state result state.a (state.mem ((state.pc : Int) + 1))
  pc_add state 2

/-- Body of `case 0xc3` (jmp). -/
def jmp (state : i8080_state_t) : i8080_state_t :=
  let address := imm16 state
  { state with pc := address % 65536 }

/-- Body of `case 0xc2` (jnz). -/
def jnz (state : i8080_state_t) : i8080_state_t :=
  let address := imm16 state
  if state.f.z = 0 then { state with pc := address % 65536 } else pc_add state 3

/-- Body of `case 0xca` (jz). -/
def jz (state : i8080_state_t) : i8080_state_t :=
  let address := imm16 state
  if state.f.z = 1 then { state with pc := address % 65536 } else pc_add state 3

/-- Body of `case 0xd2` (jnc). -/
def jnc (state : i8080_state_t) : i8080_state_t :=
  let address := imm16 state
  if state.f.cy = 0 then { state with pc := address % 65536 } else pc_add state 3

/-- Body of `case 0xda` (jc). -/
def jc (state : i8080_state_t) : i8080_state_t :=
  let address := imm16 state
  if state.f.cy = 1 then { state with pc := address % 65536 } else pc_add state 3

/-- Body of `case 0xe2` (jpo). -/
def jpo (state : i8080_state_t) : i8080_state_t :=
  let address := imm16 state
  if state.f.p = 0 then { state with pc := address % 65536 } else pc_add state 3

/-- Body of `case 0xea` (jpe). -/
def jpe (state : i8080_state_t) : i8080_state_t :=
  let address := imm16 state
  if state.f.p = 1 then { state with pc := address % 65536 } else pc_add state 3

/-- Body of `case 0xf2` (jp). -/
def jp (state : i8080_state_t) : i8080_state_t :=
  let address := imm16 state
  if state.f.s = 0 then { state with pc := address % 65536 } else pc_add state 3

/-- Body of `case 0xfa` (jm). -/
def jm (state : i8080_state_t) : i8080_state_t :=
  let address := imm16 state
  if state.f.s = 1 then { state with pc := address % 65536 } else pc_add state 3

/-- Body of `case 0xcd` (call). -/
def call_imm (state : i8080_state_t) : i8080_state_t :=
  let address := imm16 state
  call state address

/-- Body of `case 0xc4` (cnz). -/
def cnz (state : i8080_state_t) : i8080_state_t :=
  let address := imm16 state
  if state.f.z = 0 then call state address else pc_add state 3

/-- Body of `case 0xcc` (cz). -/
def cz (state : i8080_state_t) : i8080_state_t :=
  let address := imm16 state
  if state.f.z = 1 then call state address else pc_add state 3

/-- Body of `case 0xd4` (cnc). -/
def cnc (state : i8080_state_t) : i8080_state_t :=
  let address := imm16 state
  if state.f.cy = 0 then call state address else pc_add state 3

/-- Body of `case 0xdc` (cc). -/
def cc (state : i8080_state_t) : i8080_state_t :=
  let address := imm16 state
  if state.f.cy = 1 then call state address else pc_add state 3

/-- Body of `case 0xe4` (cpo). -/
def cpo (state : i8080_state_t) : i8080_state_t :=
  let address := imm16 state
  if state.f.p = 0 then call state address else pc_add state 3

/-- Body of `case 0xec` (cpe). -/
def cpe (state : i8080_state_t) : i8080_state_t :=
  let address := imm16 state
  if state.f.p = 1 then call state address else pc_add state 3

/-- Body of `case 0xf4` (cp). -/
def cp (state : i8080_state_t) : i8080_state_t :=
  let address := imm16 state
  if state.f.s = 0 then call state address else pc_add state 3

/-- Body of `case 0xfc` (cm). -/
def cm (state : i8080_state_t) : i8080_state_t :=
  let address := imm16 state
  if state.f.s = 1 then call state address else pc_add state 3

/-- Body of `case 0xc5` (push b). -/
def push_b (state : i8080_state_t) : i8080_state_t :=
  let state := set_mem state ((state.sp : Int) - 1) state.b
  let state := set_mem state ((state.sp : Int) - 2) state.c
  let state := { state with sp := to_uint16 ((state.sp : Int) - 2) }
  pc_add state 1

/-- Body of `case 0xd5` (push d). -/
def push_d (state : i8080_state_t) : i8080_state_t :=
  let state := set_mem state ((state.sp : Int) - 1) state.d
  let state := set_mem state ((state.sp : Int) - 2) state.e
  let state := { state with sp := to_uint16 ((state.sp : Int) - 2) }
  pc_add state 1

/-- Body of `case 0xe5` (push h). -/
def push_h (state : i8080_state_t) : i8080_state_t :=
  let state := set_mem state ((state.sp : Int) - 1) state.h
  let state := set_mem state ((state.sp : Int) - 2) state.l
  let state := { state with sp := to_uint16 ((state.sp : Int) - 2) }
  pc_add state 1

/-- Body of `case 0xc1` (pop b). -/
def pop_b (state : i8080_state_t) : i8080_state_t :=
  let state := { state with c := state.mem state.sp % 256 }
  let state := { state with b := state.mem ((state.sp : Int) + 1) % 256 }
  let state := { state with sp := (state.sp + 2) % 65536 }
  pc_add state 1

/-- Body of `case 0xd1` (pop d). -/
def pop_d (state : i8080_state_t) : i8080_state_t :=
  let state := { state with e := state.mem state.sp % 256 }
  let state := { state with d := state.mem ((state.sp : Int) + 1) % 256 }
  let state := { state with sp := (state.sp + 2) % 65536 }
  pc_add state 1

/-- Body of `case 0xe1` (pop h). -/
def pop_h (state : i8080_state_t) : i8080_state_t :=
  let state := { state with l := state.mem state.sp % 256 }
  let state := { state with h := state.mem ((state.sp : Int) + 1) % 256 }
  let state := { state with sp := (state.sp + 2) % 65536 }
  pc_add state 1

set_option maxRecDepth 100000 in
/-- The `switch` statement of `i8080_exec`, entered with `opcode` the value of the
controlling expression `state->mem[state->pc]`; `bc`, `de`, `hl` are the locals computed
at function entry. Each `case` list is one condition, in source order. The result is
the returned status and the machine. -/
def i8080_exec_switch {H : Type} (opcode : Nat) (m : machine_t H) (bc de hl : Nat) :
    Int × machine_t H :=
  let state := m.state
  let ok : i8080_state_t → Int × machine_t H := fun st => (0, { m with state := st })
  if opcode = 0x7f ∨ opcode = 0x78 ∨ opcode = 0x79 ∨ opcode = 0x7a ∨ opcode = 0x7b ∨ opcode = 0x7c ∨ opcode = 0x7d then
    ok (movr2r state)
  else if opcode = 0x7e then
    ok (movm2r state hl)
  else if opcode = 0x0a then
    ok (pc_add (set_a state (state.mem bc)) 1)
  else if opcode = 0x07 then
    ok (rlc state)
  else if opcode = 0x0f then
    ok (rrc state)
  else if opcode = 0x17 then
    ok (ral state)
  else if opcode = 0x1f then
    ok (rar state)
  else if opcode = 0x1a then
    ok (pc_add (set_a state (state.mem de)) 1)
  else if opcode = 0x3a then
    ok (lda state)
  else if opcode = 0x47 ∨ opcode = 0x40 ∨ opcode = 0x41 ∨ opcode = 0x42 ∨ opcode = 0x43 ∨ opcode = 0x44 ∨ opcode = 0x45 then
    ok (movr2r state)
  else if opcode = 0x46 then
    ok (movm2r state hl)
  else if opcode = 0x4f ∨ opcode = 0x48 ∨ opcode = 0x49 ∨ opcode = 0x4a ∨ opcode = 0x4b ∨ opcode = 0x4c ∨ opcode = 0x4d then
    ok (movr2r state)
  else if opcode = 0x4e then
    ok (movm2r state hl)
  else if opcode = 0x57 ∨ opcode = 0x50 ∨ opcode = 0x51 ∨ opcode = 0x52 ∨ opcode = 0x53 ∨ opcode = 0x54 ∨ opcode = 0x55 then
    ok (movr2r state)
  else if opcode = 0x56 then
    ok (movm2r state hl)
  else if opcode = 0x5f ∨ opcode = 0x58 ∨ opcode = 0x59 ∨ opcode = 0x5a ∨ opcode = 0x5b ∨ opcode = 0x5c ∨ opcode = 0x5d then
    ok (movr2r state)
  else if opcode = 0x5e then
    ok (movm2r state hl)
  else if opcode = 0x67 ∨ opcode = 0x60 ∨ opcode = 0x61 ∨ opcode = 0x62 ∨ opcode = 0x63 ∨ opcode = 0x64 ∨ opcode = 0x65 then
    ok (movr2r state)
  else if opcode = 0x66 then
    ok (movm2r state hl)
  else if opcode = 0x6f ∨ opcode = 0x68 ∨ opcode = 0x69 ∨ opcode = 0x6a ∨ opcode = 0x6b ∨ opcode = 0x6c ∨ opcode = 0x6d then
    ok (movr2r state)
  else if opcode = 0x6e then
    ok (movm2r state hl)
  else if opcode = 0x77 ∨ opcode = 0x70 ∨ opcode = 0x71 ∨ opcode = 0x72 ∨ opcode = 0x73 ∨ opcode = 0x74 ∨ opcode = 0x75 then
    ok (movr2m state hl)
  else if opcode = 0x3e ∨ opcode = 0x06 ∨ opcode = 0x0e ∨ opcode = 0x16 ∨ opcode = 0x1e ∨ opcode = 0x26 ∨ opcode = 0x2e then
    ok (mvi state)
  else if opcode = 0x36 then
    ok (mvi_m state hl)
  else if opcode = 0x02 then
    ok (pc_add (set_mem state bc state.a) 1)
  else if opcode = 0x12 then
    ok (pc_add (set_mem state de state.a) 1)
  else if opcode = 0x32 then
    ok (sta state)
  else if opcode = 0x01 then
    ok (lxi_b state)
  else if opcode = 0x11 then
    ok (lxi_d state)
  else if opcode = 0x21 then
    ok (lxi_h state)
  else if opcode = 0x31 then
    ok (lxi_sp state)
  else if opcode = 0x2a then
    ok (lhld state)
  else if opcode = 0x22 then
    ok (shld state)
  else if opcode = 0xf9 then
    ok (pc_add { state with sp := hl % 65536 } 1)
  else if opcode = 0xeb then
    ok (xchg state de hl)
  else if opcode = 0xe3 then
    ok (xthl state hl)
  else if opcode = 0x87 ∨ opcode = 0x80 ∨ opcode = 0x81 ∨ opcode = 0x82 ∨ opcode = 0x83 ∨ opcode = 0x84 ∨ opcode = 0x85 then
    ok (add state)
  else if opcode = 0x86 then
    ok (add_m state hl)
  else if opcode = 0xc6 then
    ok (adi state)
  else if opcode = 0x8f ∨ opcode = 0x88 ∨ opcode = 0x89 ∨ opcode = 0x8a ∨ opcode = 0x8b ∨ opcode = 0x8c ∨ opcode = 0x8d then
    ok (adc state)
  else if opcode = 0x8e then
    ok (adc_m state hl)
  else if opcode = 0xce then
    ok (aci state)
  else if opcode = 0x97 ∨ opcode = 0x90 ∨ opcode = 0x91 ∨ opcode = 0x92 ∨ opcode = 0x93 ∨ opcode = 0x94 ∨ opcode = 0x95 then
    ok (sub state)
  else if opcode = 0x96 then
    ok (sub_m state hl)
  else if opcode = 0xd6 then
    ok (sui state)
  else if opcode = 0x9f ∨ opcode = 0x98 ∨ opcode = 0x99 ∨ opcode = 0x9a ∨ opcode = 0x9b ∨ opcode = 0x9c ∨ opcode = 0x9d then
    ok (sbb state)
  else if opcode = 0x9e then
    ok (sbb_m state hl)
  else if opcode = 0xde then
    ok (sbi state)
  else if opcode = 0x09 then
    ok (dad state hl bc)
  else if opcode = 0x19 then
    ok (dad state hl de)
  else if opcode = 0x29 then
    ok (dad state hl hl)
  else if opcode = 0x39 then
    ok (dad state hl state.sp)
  else if opcode = 0xf3 then
    ok (pc_add { state with i := 0 } 1)
  else if opcode = 0xfb then
    ok (pc_add { state with i := 1 } 1)
  else if opcode = 0x00 then
    ok (pc_add state 1)
  else if opcode = 0x76 then
    (-1, m)
  else if opcode = 0x3c ∨ opcode = 0x04 ∨ opcode = 0x0c ∨ opcode = 0x14 ∨ opcode = 0x1c ∨ opcode = 0x24 ∨ opcode = 0x2c then
    ok (inr state)
  else if opcode = 0x34 then
    ok (inr_m state hl)
  else if opcode = 0x3d ∨ opcode = 0x05 ∨ opcode = 0x0d ∨ opcode = 0x15 ∨ opcode = 0x1d ∨ opcode = 0x25 ∨ opcode = 0x2d then
    ok (dcr state)
  else if opcode = 0x35 then
    ok (dcr_m state hl)
  else if opcode = 0x03 then
    ok (inx_b state bc)
  else if opcode = 0x13 then
    ok (inx_d state de)
  else if opcode = 0x23 then
    ok (inx_h state hl)
  else if opcode = 0x33 then
    ok (pc_add { state with sp := (state.sp + 1) % 65536 } 1)
  else if opcode = 0x0b then
    ok (dcx_b state bc)
  else if opcode = 0x1b then
    ok (dcx_d state de)
  else if opcode = 0x27 then
    ok (daa state)
  else if opcode = 0x2b then
    ok (dcx_h state hl)
  else if opcode = 0x3b then
    ok (pc_add { state with sp := to_uint16 ((state.sp : Int) - 1) } 1)
  else if opcode = 0x2f then
    ok (pc_add { state with a := to_uint8 (-(state.a : Int) - 1) } 1)
  else if opcode = 0x37 then
    ok (pc_add (set_cy state 1) 1)
  else if opcode = 0x3f then
    ok (pc_add (set_cy state (Int.land (-(state.f.cy : Int) - 1) 1).toNat) 1)
  else if opcode = 0xa7 ∨ opcode = 0xa0 ∨ opcode = 0xa1 ∨ opcode = 0xa2 ∨ opcode = 0xa3 ∨ opcode = 0xa4 ∨ opcode = 0xa5 then
    ok (ana state)
  else if opcode = 0xa6 then
    ok (ana_m state hl)
  else if opcode = 0xe6 then
    ok (ani state)
  else if opcode = 0xaf ∨ opcode = 0xa8 ∨ opcode = 0xa9 ∨ opcode = 0xaa ∨ opcode = 0xab ∨ opcode = 0xac ∨ opcode = 0xad then
    ok (xra state)
  else if opcode = 0xae then
    ok (xra_m state hl)
  else if opcode = 0xee then
    ok (xri state)
  else if opcode = 0xb7 ∨ opcode = 0xb0 ∨ opcode = 0xb1 ∨ opcode = 0xb2 ∨ opcode = 0xb3 ∨ opcode = 0xb4 ∨ opcode = 0xb5 then
    ok (ora state)
  else if opcode = 0xb6 then
    ok (ora_m state hl)
  else if opcode = 0xf6 then
    ok (ori state)
  else if opcode = 0xbf ∨ opcode = 0xb8 ∨ opcode = 0xb9 ∨ opcode = 0xba ∨ opcode = 0xbb ∨ opcode = 0xbc ∨ opcode = 0xbd then
    ok (cmp state)
  else if opcode = 0xbe then
    ok (cmp_m state hl)
  else if opcode = 0xfe then
    ok (cpi state)
  else if opcode = 0xc3 then
    ok (jmp state)
  else if opcode = 0xc2 then
    ok (jnz state)
  else if opcode = 0xca then
    ok (jz state)
  else if opcode = 0xd2 then
    ok (jnc state)
  else if opcode = 0xda then
    ok (jc state)
  else if opcode = 0xe2 then
    ok (jpo state)
  else if opcode = 0xea then
    ok (jpe state)
  else if opcode = 0xf2 then
    ok (jp state)
  else if opcode = 0xfa then
    ok (jm state)
  else if opcode = 0xe9 then
    ok { state with pc := hl % 65536 }
  else if opcode = 0xcd then
    ok (call_imm state)
  else if opcode = 0xc4 then
    ok (cnz state)
  else if opcode = 0xcc then
    ok (cz state)
  else if opcode = 0xd4 then
    ok (cnc state)
  else if opcode = 0xdc then
    ok (cc state)
  else if opcode = 0xe4 then
    ok (cpo state)
  else if opcode = 0xec then
    ok (cpe state)
  else if opcode = 0xf4 then
    ok (cp state)
  else if opcode = 0xfc then
    ok (cm state)
  else if opcode = 0xc9 then
    ok (ret state)
  else if opcode = 0xc0 then
    ok (if state.f.z = 0 then ret state else pc_add state 1)
  else if opcode = 0xc8 then
    ok (if state.f.z = 1 then ret state else pc_add state 1)
  else if opcode = 0xd0 then
    ok (if state.f.cy = 0 then ret state else pc_add state 1)
  else if opcode = 0xd8 then
    ok (if state.f.cy = 1 then ret state else pc_add state 1)
  else if opcode = 0xe0 then
    ok (if state.f.p = 0 then ret state else pc_add state 1)
  else if opcode = 0xe8 then
    ok (if state.f.p = 1 then ret state else pc_add state 1)
  else if opcode = 0xf0 then
    ok (if state.f.s = 0 then ret state else pc_add state 1)
  else if opcode = 0xf8 then
    ok (if state.f.s = 1 then ret state else pc_add state 1)
  else if opcode = 0xc7 ∨ opcode = 0xcf ∨ opcode = 0xd7 ∨ opcode = 0xdf ∨ opcode = 0xe7 ∨ opcode = 0xef ∨ opcode = 0xf7 ∨ opcode = 0xff then
    ok (rst state)
  else if opcode = 0xc5 then
    ok (push_b state)
  else if opcode = 0xd5 then
    ok (push_d state)
  else if opcode = 0xe5 then
    ok (push_h state)
  else if opcode = 0xf5 then
    ok (push_psw state)
  else if opcode = 0xc1 then
    ok (pop_b state)
  else if opcode = 0xd1 then
    ok (pop_d state)
  else if opcode = 0xe1 then
    ok (pop_h state)
  else if opcode = 0xf1 then
    ok (pop_psw state)
  else if opcode = 0xdb then
    let port := state.mem ((state.pc : Int) + 1) % 256
    let after : i8080_state_t × H :=
      match m.io_handler with
      | some io =>
        let r := io port 0xee DEVICE_IN state m.host
        (set_a r.2.1 r.1, r.2.2)
      | none => (state, m.host)
    (0, { m with state := pc_add after.1 2, host := after.2 })
  else if opcode = 0xd3 then
    let port := state.mem ((state.pc : Int) + 1) % 256
    let after : i8080_state_t × H :=
      match m.io_handler with
      | some io =>
        let r := io port state.a DEVICE_OUT state m.host
        (r.2.1, r.2.2)
      | none => (state, m.host)
    (0, { m with state := pc_add after.1 2, host := after.2 })
  else
    (-1, m)

/-- The expression `((uint8_t)hi << 8 | (uint8_t)lo)` assigned to a `uint16_t`. -/
def reg_pair (hi lo : Nat) : Nat :=
  ((hi % 256) <<< 8 ||| (lo % 256)) % 65536

/-- `i8080_exec`: one step. Returns the status (`0` to continue, non-zero when
stopped) and the machine after the call. -/
def i8080_exec {H : Type} (m : machine_t H) : Int × machine_t H :=
  let state := m.state
  let bc := reg_pair state.b state.c
  let de := reg_pair state.d state.e
  let hl := reg_pair state.h state.l
  if state.halt_req ≠ 0 then (-1, m)
  else if (state.pc : Int) ≥ state.mem_sizeb - 1 then (-1, m)
  else
    match m.instr_func with
    | some instr =>
      let r := instr state m.host
      let status := r.1
      let m := { m with state := r.2.1, host := r.2.2 }
      if status ≠ 0 then (status, m)
      else i8080_exec_switch (m.state.mem m.state.pc) m bc de hl
    | none => i8080_exec_switch (state.mem state.pc) m bc de hl

/-- `i8080_interrupt (state, nnn)`. -/
def i8080_interrupt (state : i8080_state_t) (nnn : Nat) : i8080_state_t :=
  if state.i ≠ 0 then
    let state := set_mem state ((state.sp : Int) - 1) ((state.pc &&& 0xeff00) >>> 8)
    let state := set_mem state ((state.sp : Int) - 2) ((state.pc &&& 0x00ff) >>> 0)
    let state := { state with i := 0 }
    let state := { state with sp := to_uint16 ((state.sp : Int) - 2) }
    { state with pc := ((nnn % 256) * 8) % 65536 }
  else state

/-! ## Definitions used to state the properties -/

/-- Register selector of the instruction encoding: 0→B, 1→C, 2→D, 3→E, 4→H, 5→L,
6→memory at HL, 7→A. -/
def reg_sel (st : i8080_state_t) (k : Nat) : Nat :=
  match k with
  | 0 => st.b
  | 1 => st.c
  | 2 => st.d
  | 3 => st.e
  | 4 => st.h
  | 5 => st.l
  | 6 => st.mem (reg_pair st.h st.l)
  | _ => st.a

/-- Operand of an ALU instruction: the immediate byte for the `11 fff 110` opcodes, the
register or memory location selected by bits 2..0 for the `10 fff sss` opcodes. -/
def alu_operand (st : i8080_state_t) : Nat :=
  if st.mem st.pc / 64 = 3 then st.mem ((st.pc : Int) + 1) else reg_sel st (st.mem st.pc % 8)

/-- Length of an ALU instruction: 2 for the immediate opcodes, 1 otherwise. -/
def alu_length (st : i8080_state_t) : Nat :=
  if st.mem st.pc / 64 = 3 then 2 else 1

/-- Common shape of `add r`, `add m` and `adi` with operand value `v` and length `n`. -/
def add_with (st : i8080_state_t) (v n : Nat) : i8080_state_t :=
  let result := to_uint16 ((st.a : Int) + v)
  pc_add (set_a (i8080_update_flags st result st.a v) (result &&& 0xff)) n

/-- Common shape of `adc r`, `adc m` and `aci` with operand value `v` and length `n`. -/
def adc_with (st : i8080_state_t) (v n : Nat) : i8080_state_t :=
  let result := to_uint16 ((st.a : Int) + v + st.f.cy)
  pc_add (set_a (i8080_update_flags st result st.a ((v : Int) + st.f.cy)) (result &&& 0xff)) n

/-- Common shape of `sub r`, `sub m` and `sui` with operand value `v` and length `n`. -/
def sub_with (st : i8080_state_t) (v n : Nat) : i8080_state_t :=
  let result := to_uint16 ((st.a : Int) - v)
  pc_add (set_a (i8080_update_flags st result st.a v) (result &&& 0xff)) n

/-- Common shape of `sbb r` (which passes `src + cy` to `i8080_update_flags`) and of
`sbb m` and `sbi` (which pass `src - cy`): operand value `v`, flag source `fsrc`,
length `n`. -/
def sbb_with (st : i8080_state_t) (v : Nat) (fsrc : Int) (n : Nat) : i8080_state_t :=
  let result := to_uint16 ((st.a : Int) - v - st.f.cy)
  pc_add (set_a (i8080_update_flags st result st.a fsrc) (result &&& 0xff)) n

/-- Common shape of `cmp r`, `cmp m` and `cpi` with operand value `v` and length `n`. -/
def cmp_with (st : i8080_state_t) (v n : Nat) : i8080_state_t :=
  let result := to_uint16 ((st.a : Int) - v)
  pc_add (i8080_update_flags st result st.a v) n

/-- A CPU state with the given registers, flags and memory, a 64 KiB buffer, interrupts
disabled, both counters zero and no halt request. -/
def mk_state (a b c d e h l sp pc : Nat) (f : flags_t) (mem : Int → Nat) : i8080_state_t :=
  { a := a, b := b, c := c, d := d, e := e, h := h, l := l, i := 0, sp := sp, pc := pc,
    f := f, mem := mem, mem_sizeb := 65536, irq_set_cnt := 0, irq_clr_cnt := 0,
    halt_req := 0 }

/-- A machine with no handler installed. -/
def mk_machine (st : i8080_state_t) : machine_t Unit :=
  { state := st, host := (), io_handler := none, instr_func := none }

/-- Memory holding `bytes` from index `base` on and zero elsewhere. -/
def mem_of (base : Int) (bytes : List Nat) : Int → Nat :=
  fun k => if base ≤ k then bytes.getD (k - base).toNat 0 else 0

/-- All five flags clear. -/
def flags_zero : flags_t := { s := 0, z := 0, p := 0, cy := 0, ac := 0 }

/-- Store of a byte into the location named by a register selector (selector 6 is the
memory byte at HL). -/
def reg_store (st : i8080_state_t) (k : Nat) (x : Nat) : i8080_state_t :=
  match k with
  | 0 => { st with b := x % 256 }
  | 1 => { st with c := x % 256 }
  | 2 => { st with d := x % 256 }
  | 3 => { st with e := x % 256 }
  | 4 => { st with h := x % 256 }
  | 5 => { st with l := x % 256 }
  | 6 => set_mem st (reg_pair st.h st.l) x
  | _ => { st with a := x % 256 }

/-- Common shape of `inr r` and `inr m` on the location with selector `k`. -/
def inr_with (st : i8080_state_t) (k : Nat) : i8080_state_t :=
  let result := to_uint16 ((reg_sel st k : Int) + 1)
  let st1 := set_cy (i8080_update_flags st result (reg_sel st k) 1) st.f.cy
  pc_add (reg_store st1 k (result &&& 0xff)) 1

/-- Common shape of `dcr r` and `dcr m` on the location with selector `k`. -/
def dcr_with (st : i8080_state_t) (k : Nat) : i8080_state_t :=
  let result := to_uint16 ((reg_sel st k : Int) - 1)
  let st1 := set_cy (i8080_update_flags st result (reg_sel st k) 1) st.f.cy
  pc_add (reg_store st1 k (result &&& 0xff)) 1

/-- Third argument of `i8080_update_flags` in the `sbb` forms: `sbb r` passes
`src + cy`, `sbb m` and `sbi` pass `src - cy`. -/
def sbb_flag_src (st : i8080_state_t) : Int :=
  if st.mem st.pc / 8 = 0x13 ∧ st.mem st.pc ≠ 0x9e then (alu_operand st : Int) + st.f.cy
  else (alu_operand st : Int) - st.f.cy

/-- Value of a packed-BCD byte. -/
def bcd_value (x : Nat) : Nat := (x / 16) * 10 + x % 16

/-- Packed-BCD encoding of a number below 100. -/
def bcd_encode (n : Nat) : Nat := (n / 10) * 16 + n % 10

/-- Opcode bytes on which `i8080_exec` stops: `hlt` and the twelve bytes that are not
8080 instructions. -/
def stop_opcodes : List Nat :=
  [0x76, 0x08, 0x10, 0x18, 0x20, 0x28, 0x30, 0x38, 0xcb, 0xd9, 0xdd, 0xed, 0xfd]


/-- Opcode bytes below 256 on which `i8080_exec` continues. -/
def continue_opcodes : List Nat :=
  (List.range 256).filter (fun op => op ∉ stop_opcodes)

/-- Number of set bits among the low eight bits. -/
def popcount8 (v : Nat) : Nat :=
  ((List.range 8).filter (fun i => v.testBit i)).length

/-! ## Concrete machines -/

/-- `nop` at address 0. -/
def demo_nop : machine_t Unit :=
  mk_machine (mk_state 0 0 0 0 0 0 0 0x2400 0 flags_zero (mem_of 0 [0x00]))

/-- Interrupts enabled, PC = 0x1234, SP = 0x2400. -/
def demo_irq : i8080_state_t :=
  { mk_state 0 0 0 0 0 0 0 0x2400 0x1234 flags_zero (mem_of 0 []) with i := 1 }

/-- `push psw ; pop psw` at address 0 with A = 0xA5, S = P = CY = 1, Z = AC = 0. -/
def demo_push_psw : machine_t Unit :=
  mk_machine (mk_state 0xa5 0 0 0 0 0 0 0x2400 0 { s := 1, z := 0, p := 1, cy := 1, ac := 0 }
    (mem_of 0 [0xf5, 0xf1]))

/-- The machine after the `push psw` of `demo_push_psw`, with A and the flags
overwritten before the `pop psw`. -/
def demo_pop_psw : machine_t Unit :=
  { (i8080_exec demo_push_psw).2 with
    state := { (i8080_exec demo_push_psw).2.state with a := 0x3c, f := flags_zero } }

/-- `add b ; daa` with A = 0x99 and B = 0x66. -/
def demo_daa : machine_t Unit :=
  mk_machine (mk_state 0x99 0x66 0 0 0 0 0 0x2400 0 flags_zero (mem_of 0 [0x80, 0x27]))

/-- `add b` with A = 0xF0 and B = 0x20. -/
def demo_add_carry : machine_t Unit :=
  mk_machine (mk_state 0xf0 0x20 0 0 0 0 0 0x2400 0 flags_zero (mem_of 0 [0x80]))

/-- `add b` with A = 0x0F and B = 0x01. -/
def demo_add : machine_t Unit :=
  mk_machine (mk_state 0x0f 0x01 0 0 0 0 0 0x2400 0 flags_zero (mem_of 0 [0x80]))

/-- `adc b` with A = 0x00, B = 0x0F and CY = 1. -/
def demo_adc : machine_t Unit :=
  mk_machine (mk_state 0x00 0x0f 0 0 0 0 0 0x2400 0 { flags_zero with cy := 1 }
    (mem_of 0 [0x88]))

/-- `sbb b` with A = 0x00, B = 0x0F and CY = 1. -/
def demo_sbb : machine_t Unit :=
  mk_machine (mk_state 0x00 0x0f 0 0 0 0 0 0x2400 0 { flags_zero with cy := 1 }
    (mem_of 0 [0x98]))

/-- `sbi 0x00` with A = 0x00 and CY = 1. -/
def demo_sbi : machine_t Unit :=
  mk_machine (mk_state 0x00 0 0 0 0 0 0 0x2400 0 { flags_zero with cy := 1 }
    (mem_of 0 [0xde, 0x00]))

/-- `inr b` with B = 0xFF and CY = 1. -/
def demo_inr : machine_t Unit :=
  mk_machine (mk_state 0 0xff 0 0 0 0 0 0x2400 0 { flags_zero with cy := 1 }
    (mem_of 0 [0x04]))

/-- `cmp b` with A = 0x05 and B = 0x07. -/
def demo_cmp : machine_t Unit :=
  mk_machine (mk_state 0x05 0x07 0 0 0 0 0 0x2400 0 flags_zero (mem_of 0 [0xb8]))

/-- `sub b` with A = 0x05 and B = 0x07. -/
def demo_sub : machine_t Unit :=
  mk_machine (mk_state 0x05 0x07 0 0 0 0 0 0x2400 0 flags_zero (mem_of 0 [0x90]))

/-! ## Definitions used to state the properties of the logical, rotate, branch, move and
stack instructions -/

/-- Common shape of `ana r` and `ana m` with operand value `v` (AC keeps the value set
by `i8080_update_flags`). -/
def ana_with (st : i8080_state_t) (v n : Nat) : i8080_state_t :=
  let result := (st.a &&& v) % 65536
  pc_add (set_cy (set_a (i8080_update_flags st result st.a v) (result &&& 0xff)) 0) n

/-- Common shape of `xra r`, `xra m` and `xri` with operand value `v` and length `n`. -/
def xra_with (st : i8080_state_t) (v n : Nat) : i8080_state_t :=
  let result := (st.a ^^^ v) % 65536
  pc_add (set_ac (set_cy (set_a (i8080_update_flags st result st.a v) (result &&& 0xff)) 0) 0) n

/-- Common shape of `ora r`, `ora m` and `ori` with operand value `v` and length `n`. -/
def ora_with (st : i8080_state_t) (v n : Nat) : i8080_state_t :=
  let result := (st.a ||| v) % 65536
  pc_add (set_ac (set_cy (set_a (i8080_update_flags st result st.a v) (result &&& 0xff)) 0) 0) n

/-- `xra a` with A = 0x5A and every flag set except Z. -/
def demo_xra : machine_t Unit :=
  mk_machine (mk_state 0x5a 0 0 0 0 0 0 0x2400 0 { s := 1, z := 0, p := 0, cy := 1, ac := 1 }
    (mem_of 0 [0xaf]))

/-- Register pair added by `dad`: opcode `00 rp 1001` with rp 0→BC, 1→DE, 2→HL, 3→SP. -/
def dad_operand (st : i8080_state_t) : Nat :=
  match st.mem st.pc / 16 with
  | 0 => reg_pair st.b st.c
  | 1 => reg_pair st.d st.e
  | 2 => reg_pair st.h st.l
  | _ => st.sp

/-- `dad h` with HL = 0x8000. -/
def demo_dad : machine_t Unit :=
  mk_machine (mk_state 0 0 0 0 0 0x80 0x00 0x2400 0 flags_zero (mem_of 0 [0x29]))

/-- `ral` with A = 0xB5 and CY = 0. -/
def demo_ral : machine_t Unit :=
  mk_machine (mk_state 0xb5 0 0 0 0 0 0 0x2400 0 { s := 1, z := 0, p := 1, cy := 0, ac := 1 }
    (mem_of 0 [0x17]))

/-- Condition selected by bits 5..3 of a conditional jump, call or return:
0→NZ (Z = 0), 1→Z (Z = 1), 2→NC (CY = 0), 3→C (CY = 1), 4→PO (P = 0), 5→PE (P = 1),
6→P (S = 0), 7→M (S = 1). -/
def cc_holds (st : i8080_state_t) (cc : Nat) : Prop :=
  match cc with
  | 0 => st.f.z = 0
  | 1 => st.f.z = 1
  | 2 => st.f.cy = 0
  | 3 => st.f.cy = 1
  | 4 => st.f.p = 0
  | 5 => st.f.p = 1
  | 6 => st.f.s = 0
  | _ => st.f.s = 1

/-- `jpe 0x1234` with P = 1. -/
def demo_jpe : machine_t Unit :=
  mk_machine (mk_state 0 0 0 0 0 0 0 0x2400 0 { s := 0, z := 0, p := 1, cy := 0, ac := 0 }
    (mem_of 0 [0xea, 0x34, 0x12]))

/-- `rnc` with CY = 1 (not taken). -/
def demo_rnc : machine_t Unit :=
  mk_machine (mk_state 0 0 0 0 0 0 0 0x2400 0 { s := 0, z := 0, p := 0, cy := 1, ac := 0 }
    (mem_of 0 [0xd0]))

/-- `call 0x0200` at address 0x0100 with SP = 0x2400 and `ret` at address 0x0200. -/
def demo_call : machine_t Unit :=
  mk_machine (mk_state 0 0 0 0 0 0 0 0x2400 0x100 flags_zero
    (fun k => if k = 0x200 then 0xc9 else mem_of 0x100 [0xcd, 0x00, 0x02] k))

/-- `mov m, e` with HL = 0x2000 and E = 0x5a. -/
def demo_mov : machine_t Unit :=
  mk_machine (mk_state 1 2 3 4 0x5a 0x20 0x00 0x2400 0 { s := 1, z := 0, p := 1, cy := 1, ac := 0 }
    (mem_of 0 [0x73]))

/-- `push d ; pop d` at address 0 with D = 0x12, E = 0x34 and SP = 0x2400. -/
def demo_push_pop : machine_t Unit :=
  mk_machine (mk_state 1 2 3 0x12 0x34 5 6 0x2400 0 { s := 1, z := 0, p := 1, cy := 1, ac := 0 }
    (mem_of 0 [0xd5, 0xd1]))

/-- `xchg ; xchg` at address 0 with DE = 0x1234 and HL = 0x5678. -/
def demo_xchg : machine_t Unit :=
  mk_machine (mk_state 1 2 3 0x12 0x34 0x56 0x78 0x2400 0
    { s := 1, z := 0, p := 1, cy := 1, ac := 0 } (mem_of 0 [0xeb, 0xeb]))

/-- `xthl ; xthl` at address 0 with HL = 0x5678, SP = 0x2400, `mem[SP] = 0xcd` and
`mem[SP+1] = 0xab`. -/
def demo_xthl : machine_t Unit :=
  mk_machine (mk_state 1 2 3 4 5 0x56 0x78 0x2400 0 { s := 1, z := 0, p := 1, cy := 1, ac := 0 }
    (fun k => if k = 0x2400 then 0xcd else if k = 0x2401 then 0xab else mem_of 0 [0xe3, 0xe3] k))

/-! ## Definitions used to state the program-counter and stack-pointer invariant -/

/-- Instruction length in bytes in the 8080 opcode table: 3 for LXI, SHLD, LHLD, STA, LDA,
JMP, Jcc, CALL and Ccc; 2 for MVI, the immediate ALU group, IN and OUT; 1 otherwise. -/
def opcode_length (op : Nat) : Nat :=
  if op = 0x01 ∨ op = 0x11 ∨ op = 0x21 ∨ op = 0x31 ∨ op = 0x22 ∨ op = 0x2a ∨ op = 0x32 ∨
      op = 0x3a ∨ op = 0xc3 ∨ op = 0xcd ∨ (0xc0 ≤ op ∧ (op % 8 = 2 ∨ op % 8 = 4)) then 3
  else if (op < 0x40 ∧ op % 8 = 6) ∨ (0xc0 ≤ op ∧ op % 8 = 6) ∨ op = 0xd3 ∨ op = 0xdb then 2
  else 1

/-- Conditional opcode: Rcc (`11 ccc 000`), Jcc (`11 ccc 010`) or Ccc (`11 ccc 100`). -/
def is_conditional (op : Nat) : Prop :=
  0xc0 ≤ op ∧ op < 0x100 ∧ (op % 8 = 0 ∨ op % 8 = 2 ∨ op % 8 = 4)

/-- Unconditional transfer of control: JMP, PCHL, CALL, RET or RST n (`11 nnn 111`). -/
def is_transfer (op : Nat) : Prop :=
  op = 0xc3 ∨ op = 0xe9 ∨ op = 0xcd ∨ op = 0xc9 ∨ (0xc0 ≤ op ∧ op < 0x100 ∧ op % 8 = 7)

/-- The instruction at PC transfers control: an unconditional transfer, or a conditional one
whose condition (bits 5..3) holds. -/
def branch_taken (st : i8080_state_t) (op : Nat) : Prop :=
  is_transfer op ∨ (is_conditional op ∧ cc_holds st (op / 8 % 8))

/-- Target of the transfer: HL for PCHL, `8 n` for RST n, the word popped from the stack for
RET and Rcc, the immediate word for JMP, Jcc, CALL and Ccc. -/
def branch_target (st : i8080_state_t) (op : Nat) : Nat :=
  if op = 0xe9 then reg_pair st.h st.l
  else if op % 8 = 7 then 8 * (op / 8 % 8)
  else if op = 0xc9 ∨ op % 8 = 0 then
    ((st.mem ((st.sp : Int) + 1) <<< 8) ||| st.mem st.sp) % 65536
  else imm16 st

/-- Opcodes that always write SP: PUSH, POP, CALL, RET, RST, SPHL, LXI SP, INX SP,
DCX SP. -/
def sp_opcode (op : Nat) : Prop :=
  op = 0xc5 ∨ op = 0xd5 ∨ op = 0xe5 ∨ op = 0xf5 ∨ op = 0xc1 ∨ op = 0xd1 ∨ op = 0xe1 ∨
  op = 0xf1 ∨ op = 0xcd ∨ op = 0xc9 ∨ (0xc0 ≤ op ∧ op < 0x100 ∧ op % 8 = 7) ∨ op = 0xf9 ∨
  op = 0x31 ∨ op = 0x33 ∨ op = 0x3b

/-- The instruction at PC may write SP: one of `sp_opcode`, or a taken Rcc or Ccc. -/
def changes_sp (st : i8080_state_t) (op : Nat) : Prop :=
  sp_opcode op ∨
  (0xc0 ≤ op ∧ op < 0x100 ∧ (op % 8 = 0 ∨ op % 8 = 4) ∧ cc_holds st (op / 8 % 8))

/-- Case labels of `i8080_exec` whose body calls `movr2r`. -/
def movr2r_opcodes : List Nat :=
  [0x40, 0x41, 0x42, 0x43, 0x44, 0x45, 0x47, 0x48, 0x49, 0x4a, 0x4b, 0x4c, 0x4d, 0x4f, 0x50,
   0x51, 0x52, 0x53, 0x54, 0x55, 0x57, 0x58, 0x59, 0x5a, 0x5b, 0x5c, 0x5d, 0x5f, 0x60, 0x61,
   0x62, 0x63, 0x64, 0x65, 0x67, 0x68, 0x69, 0x6a, 0x6b, 0x6c, 0x6d, 0x6f, 0x78, 0x79, 0x7a,
   0x7b, 0x7c, 0x7d, 0x7f]

/-- Case labels of `i8080_exec` whose body calls `movm2r`. -/
def movm2r_opcodes : List Nat :=
  [0x46, 0x4e, 0x56, 0x5e, 0x66, 0x6e, 0x7e]

/-- Case labels of `i8080_exec` whose body calls `movr2m`. -/
def movr2m_opcodes : List Nat :=
  [0x70, 0x71, 0x72, 0x73, 0x74, 0x75, 0x77]

/-- Case labels of `i8080_exec` whose body calls `mvi`. -/
def mvi_opcodes : List Nat :=
  [0x06, 0x0e, 0x16, 0x1e, 0x26, 0x2e, 0x3e]

/-- Case labels of `i8080_exec` whose body calls `add`. -/
def add_opcodes : List Nat :=
  [0x80, 0x81, 0x82, 0x83, 0x84, 0x85, 0x87]

/-- Case labels of `i8080_exec` whose body calls `adc`. -/
def adc_opcodes : List Nat :=
  [0x88, 0x89, 0x8a, 0x8b, 0x8c, 0x8d, 0x8f]

/-- Case labels of `i8080_exec` whose body calls `sub`. -/
def sub_opcodes : List Nat :=
  [0x90, 0x91, 0x92, 0x93, 0x94, 0x95, 0x97]

/-- Case labels of `i8080_exec` whose body calls `sbb`. -/
def sbb_opcodes : List Nat :=
  [0x98, 0x99, 0x9a, 0x9b, 0x9c, 0x9d, 0x9f]

/-- Case labels of `i8080_exec` whose body calls `ana`. -/
def ana_opcodes : List Nat :=
  [0xa0, 0xa1, 0xa2, 0xa3, 0xa4, 0xa5, 0xa7]

/-- Case labels of `i8080_exec` whose body calls `xra`. -/
def xra_opcodes : List Nat :=
  [0xa8, 0xa9, 0xaa, 0xab, 0xac, 0xad, 0xaf]

/-- Case labels of `i8080_exec` whose body calls `ora`. -/
def ora_opcodes : List Nat :=
  [0xb0, 0xb1, 0xb2, 0xb3, 0xb4, 0xb5, 0xb7]

/-- Case labels of `i8080_exec` whose body calls `cmp`. -/
def cmp_opcodes : List Nat :=
  [0xb8, 0xb9, 0xba, 0xbb, 0xbc, 0xbd, 0xbf]

/-- Case labels of `i8080_exec` whose body calls `inr`. -/
def inr_opcodes : List Nat :=
  [0x04, 0x0c, 0x14, 0x1c, 0x24, 0x2c, 0x3c]

/-- Case labels of `i8080_exec` whose body calls `dcr`. -/
def dcr_opcodes : List Nat :=
  [0x05, 0x0d, 0x15, 0x1d, 0x25, 0x2d, 0x3d]

/-- Case labels of `i8080_exec` whose body calls `rst`. -/
def rst_opcodes : List Nat :=
  [0xc7, 0xcf, 0xd7, 0xdf, 0xe7, 0xef, 0xf7, 0xff]

/-- PUSH and POP of the four pairs, SPHL, LXI SP, INX SP and DCX SP. -/
def stack_opcodes : List Nat :=
  [0x31, 0x33, 0x3b, 0xc1, 0xc5, 0xd1, 0xd5, 0xe1, 0xe5, 0xf1, 0xf5, 0xf9]

/-- Rcc, Jcc and Ccc for the eight conditions. -/
def conditional_opcodes : List Nat :=
  [0xc0, 0xc2, 0xc4, 0xc8, 0xca, 0xcc, 0xd0, 0xd2, 0xd4, 0xd8, 0xda, 0xdc, 0xe0, 0xe2, 0xe4,
   0xe8, 0xea, 0xec, 0xf0, 0xf2, 0xf4, 0xf8, 0xfa, 0xfc]

/-- The remaining opcodes: their case body sets PC to `PC + length` itself, without a
register-selector helper, and does not assign SP (DAA, `0x27`, is treated apart). -/
def inline_opcodes : List Nat :=
  [0x00, 0x01, 0x02, 0x03, 0x07, 0x09, 0x0a, 0x0b, 0x0f, 0x11, 0x12, 0x13, 0x17, 0x19, 0x1a,
   0x1b, 0x1f, 0x21, 0x22, 0x23, 0x29, 0x2a, 0x2b, 0x2f, 0x32, 0x34, 0x35, 0x36, 0x37,
   0x39, 0x3a, 0x3f, 0x86, 0x8e, 0x96, 0x9e, 0xa6, 0xae, 0xb6, 0xbe, 0xc6, 0xce, 0xd6, 0xde,
   0xe3, 0xe6, 0xeb, 0xee, 0xf3, 0xf6, 0xfb, 0xfe]

instance (op : Nat) : Decidable (is_conditional op) := by
  unfold is_conditional
  infer_instance

instance (op : Nat) : Decidable (is_transfer op) := by
  unfold is_transfer
  infer_instance

instance (op : Nat) : Decidable (sp_opcode op) := by
  unfold sp_opcode
  infer_instance

/-- Shape of the invariant for a step result `r` on opcode `op`: if the status is 0 then PC
is the branch target for a transfer and `PC + length` otherwise, and SP is unchanged unless
the opcode is one of `sp_opcode`. -/
def step_pc_sp {H : Type} (m : machine_t H) (op : Nat) (r : Int × machine_t H) : Prop :=
  r.1 = 0 →
    (is_transfer op → r.2.state.pc = branch_target m.state op) ∧
    (¬ is_transfer op → r.2.state.pc = (m.state.pc + opcode_length op) % 65536) ∧
    (sp_opcode op ∨ r.2.state.sp = m.state.sp)

instance (st : i8080_state_t) (k : Nat) : Decidable (cc_holds st k) := by
  unfold cc_holds
  split <;> infer_instance

instance (st : i8080_state_t) (op : Nat) : Decidable (branch_taken st op) := by
  unfold branch_taken
  infer_instance

instance (st : i8080_state_t) (op : Nat) : Decidable (changes_sp st op) := by
  unfold changes_sp
  infer_instance

/-- `nop` at address 0 in a machine whose port handler returns 0 and changes nothing. -/
def demo_step : machine_t Unit :=
  { mk_machine (mk_state 0 0 0 0 0 0 0 0x2400 0 flags_zero (mem_of 0 [0x00])) with
    io_handler := some (fun _ _ _ st h => (0, st, h)) }

/-- `in 1` at address 0 in a machine whose port handler returns 0x5a and changes nothing. -/
def demo_in : machine_t Unit :=
  { mk_machine (mk_state 0 0 0 0 0 0 0 0x2400 0 flags_zero (mem_of 0 [0xdb, 0x01])) with
    io_handler := some (fun _ _ _ st h => (0x5a, st, h)) }

/-! ## Space Invaders ports (`invaders_io.c`, `keyboard.h`) -/

/-- The bitfield `struct input_ports`: twenty-four one-bit fields. -/
structure input_ports where
  dip4 : Nat
  bit01 : Nat
  bit02 : Nat
  bit03 : Nat
  fire : Nat
  left : Nat
  right : Nat
  bit07 : Nat
  credit : Nat
  p2 : Nat
  p1 : Nat
  bit13 : Nat
  p1shot : Nat
  p1left : Nat
  p1right : Nat
  bit17 : Nat
  dip3 : Nat
  dip5 : Nat
  tilt : Nat
  dip6 : Nat
  p2shot : Nat
  p2left : Nat
  p2right : Nat
  dip7 : Nat

/-- Objects of static storage duration in `invaders_io.c`: the file-scope `inputs` and the
function-static `shift_reg` (`uint16_t`) and `shift_off` (`int`) of `io_handler`. The saved
pointer `i8080_state_ptr` is modelled by passing the CPU state to the functions below. -/
structure invaders_io_t where
  inputs : input_ports
  shift_reg : Nat
  shift_off : Int

/-- All twenty-four input bits clear (`memset (&inputs, 0, ...)`). -/
def inputs_zero : input_ports :=
  { dip4 := 0, bit01 := 0, bit02 := 0, bit03 := 0, fire := 0, left := 0, right := 0,
    bit07 := 0, credit := 0, p2 := 0, p1 := 0, bit13 := 0, p1shot := 0, p1left := 0,
    p1right := 0, bit17 := 0, dip3 := 0, dip5 := 0, tilt := 0, dip6 := 0, p2shot := 0,
    p2left := 0, p2right := 0, dip7 := 0 }

/-- Values of the static objects at program start (zero initialisation). -/
def io_startup : invaders_io_t :=
  { inputs := inputs_zero, shift_reg := 0, shift_off := 0 }

/-- `io_init`: clears `inputs`, then sets the hard-wired bits and the DIP switches. -/
def io_init (io : invaders_io_t) : invaders_io_t :=
  let inputs := inputs_zero
  let inputs := { inputs with bit01 := 1 }
  let inputs := { inputs with bit02 := 1 }
  let inputs := { inputs with bit03 := 1 }
  let inputs := { inputs with bit13 := 1 }
  let inputs := { inputs with dip3 := 1 }
  let inputs := { inputs with dip5 := 1 }
  let inputs := { inputs with dip6 := 1 }
  { io with inputs := inputs }

/-- `io_handler (port, byte, direction)`: the returned `uint8_t`, the CPU state (only
`halt_req` is ever written, through `i8080_state_ptr`) and the static objects. -/
def io_handler (port byte : Nat) (direction : Int) (state : i8080_state_t)
    (io : invaders_io_t) : Nat × i8080_state_t × invaders_io_t :=
  let inputs := io.inputs
  let ret := 0
  if direction = DEVICE_IN then
    if port = 0 then
      (ret, state, io)
    else if port = 1 then
      let ret := ((inputs.credit <<< 0) ||| (inputs.p2 <<< 1) ||| (inputs.p1 <<< 2) |||
        (inputs.bit13 <<< 3) ||| (inputs.p1shot <<< 4) ||| (inputs.p1left <<< 5) |||
        (inputs.p1right <<< 6) ||| (inputs.bit17 <<< 7)) % 256
      (ret, state, io)
    else if port = 2 then
      let ret := ((inputs.dip3 <<< 0) ||| (inputs.dip5 <<< 1) ||| (inputs.tilt <<< 2) |||
        (inputs.dip6 <<< 3) ||| (inputs.p2shot <<< 4) ||| (inputs.p2left <<< 5) |||
        (inputs.p2right <<< 6) ||| (inputs.dip7 <<< 7)) % 256
      (ret, state, io)
    else if port = 3 then
      let ret := ((io.shift_reg >>> (8 - io.shift_off).toNat) &&& 0xff) % 256
      (ret, state, io)
    else
      (ret, { state with halt_req := 1 }, io)
  else
    if port = 2 then
      (ret, state, { io with shift_off := ((byte &&& 0x7 : Nat) : Int) })
    else if port = 3 then
      (ret, state, io)
    else if port = 4 then
      let io := { io with shift_reg := (io.shift_reg >>> 8) % 65536 }
      let io := { io with shift_reg := (io.shift_reg ||| (byte <<< 8)) % 65536 }
      (ret, state, io)
    else if port = 5 then
      (ret, state, io)
    else if port = 6 then
      (ret, state, io)
    else
      (ret, { state with halt_req := 1 }, io)

def KEY_SPACE : Nat := 0x0039
def KEY_CONTROL : Nat := 0x001d
def KEY_LEFT : Nat := 0xe04b
def KEY_RIGHT : Nat := 0xe04d
def KEY_5 : Nat := 0x0006
def KEY_1 : Nat := 0x0002
def KEY_2 : Nat := 0x0003
def KEY_ESCAPE : Nat := 0x0001

def KEY_PRESS_EVENT : Nat := 1
def KEY_RELEASE_EVENT : Nat := 0

/-- `io_keyevent_fn (key, event)`: an assignment to a one-bit field keeps `event % 2`. -/
def io_keyevent_fn (key event : Nat) (state : i8080_state_t) (io : invaders_io_t) :
    i8080_state_t × invaders_io_t :=
  if key = KEY_SPACE then
    (state, { io with inputs := { io.inputs with p1shot := event % 2 } })
  else if key = KEY_CONTROL then
    (state, { io with inputs := { io.inputs with p1shot := event % 2 } })
  else if key = KEY_LEFT then
    (state, { io with inputs := { io.inputs with p1left := event % 2 } })
  else if key = KEY_RIGHT then
    (state, { io with inputs := { io.inputs with p1right := event % 2 } })
  else if key = KEY_5 then
    (state, { io with inputs := { io.inputs with credit := event % 2 } })
  else if key = KEY_1 then
    (state, { io with inputs := { io.inputs with p1 := event % 2 } })
  else if key = KEY_2 then
    (state, { io with inputs := { io.inputs with p2 := event % 2 } })
  else if key = KEY_ESCAPE then
    ({ state with halt_req := 1 }, io)
  else
    (state, io)

/-! ## Definitions used to state the port properties -/

/-- A sequence of `io_handler (port, byte, DEVICE_OUT)` calls, oldest first. -/
def io_writes (ws : List (Nat × Nat)) (state : i8080_state_t) (io : invaders_io_t) :
    i8080_state_t × invaders_io_t :=
  ws.foldl (fun s w => (io_handler w.1 w.2 DEVICE_OUT s.1 s.2).2) (state, io)

/-- The bytes written to `port`, most recent first. -/
def written (port : Nat) (ws : List (Nat × Nat)) : List Nat :=
  ((ws.filter (fun w => w.1 = port)).map (fun w => w.2)).reverse

/-- A sequence of `io_keyevent_fn (key, event)` calls, oldest first. -/
def io_keyevents (evs : List (Nat × Nat)) (state : i8080_state_t) (io : invaders_io_t) :
    i8080_state_t × invaders_io_t :=
  evs.foldl (fun s e => io_keyevent_fn e.1 e.2 s.1 s.2) (state, io)

/-- Value of the most recent event for one of `keys` (0 if there is none). -/
def last_event (keys : List Nat) (evs : List (Nat × Nat)) : Nat :=
  (((evs.filter (fun e => e.1 ∈ keys)).map (fun e => e.2)).reverse).getD 0 0

/-! ## Start-up, image loading and the CP/M BDOS trap (`i8080.c`, `bdos.c`, `main.c`) -/

/-- `i8080_init (state, ram, sizeb)`: every field cleared, then `mem`, `mem_sizeb` set and
the first `sizeb` bytes of `ram` cleared. -/
def i8080_init {H : Type} (host : H) (ram : Int → Nat) (sizeb : Int) : machine_t H :=
  { state :=
      { a := 0, b := 0, c := 0, d := 0, e := 0, h := 0, l := 0, i := 0, sp := 0, pc := 0,
        f := { s := 0, z := 0, p := 0, cy := 0, ac := 0 },
        mem := fun k => if 0 ≤ k ∧ k < sizeb then 0 else ram k,
        mem_sizeb := sizeb, irq_set_cnt := 0, irq_clr_cnt := 0, halt_req := 0 },
    host := host, io_handler := none, instr_func := none }

/-- `i8080_set_pc (state, pc)` with a `uint16_t` argument. -/
def i8080_set_pc (state : i8080_state_t) (pc : Nat) : i8080_state_t :=
  { state with pc := pc % 65536 }

/-- `i8080_set_instr_handler (state, instr_func)`. -/
def i8080_set_instr_handler {H : Type} (m : machine_t H)
    (instr_func : Option (i8080_instr_fn_t H)) : machine_t H :=
  { m with instr_func := instr_func }

/-- `i8080_load_memory (state, offset, buffer, len)`: `size` is the smaller of `len` and
`mem_sizeb - offset`; the loop stores `buffer[i]` at `mem[offset + i]` for `i = 0 .. size - 1`
(no iteration when `size ≤ 0`). -/
def i8080_load_memory (state : i8080_state_t) (offset : Int) (buffer : Int → Nat) (len : Int) :
    i8080_state_t :=
  let size := if len > state.mem_sizeb - offset then state.mem_sizeb - offset else len
  (List.range size.toNat).foldl
    (fun st (i : Nat) =>
      { st with mem := mem_write st.mem (offset + (i : Int)) (buffer (i : Int)) })
    state

/-- `putchar (c)`: one byte sent to the console (the serial port). -/
def putchar (c : Nat) (console : List Nat) : List Nat :=
  console ++ [c % 256]

/-- The loop of `case 0x9` in `bdos_entry`: `while (state->mem[de] != '$')` with the
`uint16_t` cursor `de`. `fuel` bounds the number of evaluations of the loop condition;
`none` means the bound was reached before a `$` was found. -/
def bdos_writestr : Nat → (Int → Nat) → Nat → List Nat → Option (List Nat)
  | 0, _, _, _ => none
  | fuel + 1, mem, de, console =>
    if mem (de : Int) ≠ 0x24 then
      bdos_writestr fuel mem ((de + 1) % 65536) (putchar (mem (de : Int)) console)
    else
      some console

/-- `bdos_entry (state)`: returned status, state and console. `diag c` is the text that
`printf ("[error]: unknown BDOS function %02x\n", c)` sends to the console; `fuel` bounds the
C_WRITESTR loop, and the result is `none` when that loop does not end within the bound. -/
def bdos_entry (diag : Nat → List Nat) (fuel : Nat) (state : i8080_state_t)
    (console : List Nat) : Option (Int × i8080_state_t × List Nat) :=
  if state.pc = 0x5 then
    let printed : Option (List Nat) :=
      if state.c = 0x2 then
        some (putchar state.e console)
      else if state.c = 0x9 then
        let de := reg_pair state.d state.e
        bdos_writestr fuel state.mem de console
      else
        some (console ++ diag state.c)
    match printed with
    | none => none
    | some console =>
      let state := { state with
        pc := ((state.mem ((state.sp : Int) + 1) <<< 8) ||| state.mem state.sp) % 65536 }
      let state := { state with sp := (state.sp + 2) % 65536 }
      some (0, state, console)
  else if state.pc = 0x0000 then
    some (-1, { state with halt_req := 1 }, console)
  else
    some (0, state, console)

/-- `bdos_entry` as the installed pre-decode handler of a machine whose host state is the
console. A call whose C_WRITESTR loop does not end within `fuel` has no result in C; here it
is reported as a stop with nothing changed. -/
def bdos_trap (diag : Nat → List Nat) (fuel : Nat) : i8080_instr_fn_t (List Nat) :=
  fun state console => (bdos_entry diag fuel state console).getD (-1, state, console)

/-- The loop `while (!i8080_exec (state));` of `exec_cpudiag`, at most `fuel` calls: the
status that ended the loop and the machine, or `none` if it is still running. -/
def exec_loop {H : Type} : Nat → machine_t H → Option (Int × machine_t H)
  | 0, _ => none
  | fuel + 1, m =>
    if (i8080_exec m).1 ≠ 0 then some (i8080_exec m) else exec_loop fuel (i8080_exec m).2

/-- The statements of `exec_cpudiag (state, image, image_len)` before its loop, on the
machine that `main` has set up with `i8080_init` over the 64 KiB `i8080_ram`: load at 0x100,
set PC, install the BDOS trap. -/
def cpudiag_setup (diag : Nat → List Nat) (fuel : Nat) (image : Int → Nat) (image_len : Int) :
    machine_t (List Nat) :=
  let m : machine_t (List Nat) := i8080_init [] (fun _ => 0) (64 * 1024)
  let cpudiag_load_address : Int := 0x100
  let m := { m with state := i8080_load_memory m.state cpudiag_load_address image image_len }
  let m := { m with state := i8080_set_pc m.state (to_uint16 cpudiag_load_address) }
  i8080_set_instr_handler m (some (bdos_trap diag fuel))

/-- `exec_cpudiag`: the set-up followed by the loop. -/
def exec_cpudiag (diag : Nat → List Nat) (fuel : Nat) (image : Int → Nat) (image_len : Int) :
    Option (Int × machine_t (List Nat)) :=
  exec_loop fuel (cpudiag_setup diag fuel image image_len)

/-- Indices stored by the loop of `i8080_load_memory`, in order. -/
def i8080_load_memory_writes (state : i8080_state_t) (offset : Int) (len : Int) : List Int :=
  let size := if len > state.mem_sizeb - offset then state.mem_sizeb - offset else len
  (List.range size.toNat).map (fun (i : Nat) => offset + (i : Int))

/-! ## Concrete inputs for the trap and the loader -/

/-- A buffer holding `bytes` from index 0 on. -/
def buffer_of (bytes : List Nat) : Int → Nat :=
  mem_of 0 bytes

/-- BDOS entry with C = 9 and a memory that holds no `$`. -/
def demo_bdos_loop : i8080_state_t :=
  mk_state 0 0 0x09 0x02 0x00 0 0 0x2400 0x0005 flags_zero (fun _ => 0)

/-- BDOS entry with C = 2, E = `A` and the return address 0x0108 on the stack. -/
def demo_bdos_write : i8080_state_t :=
  mk_state 0 0 0x02 0 0x41 0 0 0x23fe 0x0005 flags_zero (mem_of 0x23fe [0x08, 0x01])

/-- BDOS entry with C = 9, DE = 0x0200, `Hi$` at 0x0200 and the return address 0x0108 on the
stack. -/
def demo_bdos_str : i8080_state_t :=
  mk_state 0 0 0x09 0x02 0x00 0 0 0x23fe 0x0005 flags_zero
    (fun k => if k = 0x23fe then 0x08 else if k = 0x23ff then 0x01
      else mem_of 0x200 [0x48, 0x69, 0x24] k)

/-- The trap consulted at PC = 0. -/
def demo_bdos_zero : i8080_state_t :=
  mk_state 0 0 0x02 0 0x41 0 0 0x2400 0x0000 flags_zero (fun _ => 0)

/-- A 16-byte memory for the loader. -/
def demo_load : i8080_state_t :=
  { mk_state 1 2 3 4 5 6 7 0x2400 0x100 flags_zero (fun _ => 0xee) with mem_sizeb := 16 }

/-- `nop` at address 0 with `halt_req` set and a trap installed that would overwrite A and
append to its log. -/
def demo_halt_req : machine_t (List Nat) :=
  { state := { mk_state 0 0 0 0 0 0 0 0x2400 0 flags_zero (mem_of 0 [0x00]) with halt_req := 1 },
    host := [],
    io_handler := none,
    instr_func := some (fun st log => (0, { st with a := 0xff }, log ++ [1])) }

/-- `hlt` at address 0. -/
def demo_hlt : machine_t Unit :=
  mk_machine (mk_state 0 0 0 0 0 0 0 0x2400 0 flags_zero (mem_of 0 [0x76]))

/-! ## Concrete machines for the guard, decimal-adjust, operand-form and stack-top properties -/

/-- `nop` in the last byte of the 64 KiB memory with PC = 0xFFFF, and a trap installed that
would overwrite A, append to its log and return 7. -/
def demo_guard : machine_t (List Nat) :=
  { state := mk_state 0 0 0 0 0 0 0 0x2400 0xffff flags_zero (mem_of 0xffff [0x00]),
    host := [],
    io_handler := none,
    instr_func := some (fun st log => (7, { st with a := 0xff }, log ++ [1])) }

/-- `daa` with A = 0x00 and every flag clear. -/
def demo_daa_zero : machine_t Unit :=
  mk_machine (mk_state 0x00 0 0 0 0 0 0 0x2400 0 flags_zero (mem_of 0 [0x27]))

/-- `sbb m` with A = 0x00, HL = 0x2000, the byte 0x0F at 0x2000 and CY = 1. -/
def demo_sbb_m : machine_t Unit :=
  mk_machine (mk_state 0x00 0 0 0 0 0x20 0x00 0x2400 0 { flags_zero with cy := 1 }
    (fun k => if k = 0x2000 then 0x0f else mem_of 0 [0x9e] k))

/-- `add b` with A = 0x3C and B = 0x5A. -/
def demo_add_b : machine_t Unit :=
  mk_machine (mk_state 0x3c 0x5a 0 0 0 0 0 0x2400 0 flags_zero (mem_of 0 [0x80]))

/-- `add m` with A = 0x3C, HL = 0x2000 and the byte 0x5A at 0x2000. -/
def demo_add_m : machine_t Unit :=
  mk_machine (mk_state 0x3c 0 0 0 0 0x20 0x00 0x2400 0 flags_zero
    (fun k => if k = 0x2000 then 0x5a else mem_of 0 [0x86] k))

/-- `ret` at address 0x0100 with SP = 0xFFFF on the 64 KiB machine: 0x34 at 0xFFFF and 0x12
at 0x0000. -/
def demo_ret_top : machine_t Unit :=
  mk_machine (mk_state 0 0 0 0 0 0 0 0xffff 0x0100 flags_zero
    (fun k => if k = 0x0100 then 0xc9 else if k = 0xffff then 0x34
      else if k = 0x0000 then 0x12 else 0))

/-- `jmp 0x0000` at address 0x0100. -/
def demo_jmp_zero : machine_t Unit :=
  mk_machine (mk_state 0 0 0 0 0 0 0 0x2400 0x0100 flags_zero
    (mem_of 0x0100 [0xc3, 0x00, 0x00]))

/-- `ana b` with A = 0x10 and B = 0x01. -/
def demo_ana : machine_t Unit :=
  mk_machine (mk_state 0x10 0x01 0 0 0 0 0 0x2400 0 flags_zero (mem_of 0 [0xa0]))

/-- `ani 0x01` with A = 0x10. -/
def demo_ani : machine_t Unit :=
  mk_machine (mk_state 0x10 0 0 0 0 0 0 0x2400 0 flags_zero (mem_of 0 [0xe6, 0x01]))

/-- S, Z and P describe the accumulator: S is bit 7 of A, Z = 1 iff A = 0, P = 1 iff A has an
even number of set bits. -/
def szp_reflect_a (st : i8080_state_t) : Prop :=
  st.f.s = st.a / 128 % 2 ∧ st.f.z = (if st.a = 0 then 1 else 0) ∧
  st.f.p = (if popcount8 st.a % 2 = 0 then 1 else 0)

/-! ## Definitions used to state the frame, bounds and selector properties -/

/-- Case labels of the eight conditional jumps. -/
def jcc_opcodes : List Nat := [0xc2, 0xca, 0xd2, 0xda, 0xe2, 0xea, 0xf2, 0xfa]

/-- Case labels of the eight conditional calls. -/
def ccc_opcodes : List Nat := [0xc4, 0xcc, 0xd4, 0xdc, 0xe4, 0xec, 0xf4, 0xfc]

/-- Case labels of the eight conditional returns. -/
def rcc_opcodes : List Nat := [0xc0, 0xc8, 0xd0, 0xd8, 0xe0, 0xe8, 0xf0, 0xf8]

/-- Index expressions `e` of the assignments `state->mem[e] = ...` executed by the case body
of `opcode` (with the helper it calls), in source order: `hl` for `movr2m`, `mvi m`, `inr m`
and `dcr m`; `bc`, `de` for `stax`; `word` for `sta`; `addr+0`, `addr+1` for `shld`;
`sp+1`, `sp` for `xthl`; `sp-1`, `sp-2` for the four `push` cases, `call`, `rst` and a
conditional call whose condition holds. -/
def mem_writes (st : i8080_state_t) (opcode : Nat) : List Int :=
  let bc := reg_pair st.b st.c
  let de := reg_pair st.d st.e
  let hl := reg_pair st.h st.l
  if opcode ∈ movr2m_opcodes ∨ opcode = 0x36 ∨ opcode = 0x34 ∨ opcode = 0x35 then [(hl : Int)]
  else if opcode = 0x02 then [(bc : Int)]
  else if opcode = 0x12 then [(de : Int)]
  else if opcode = 0x32 then [(imm16 st : Int)]
  else if opcode = 0x22 then [(imm16 st : Int) + 0, (imm16 st : Int) + 1]
  else if opcode = 0xe3 then [(st.sp : Int) + 1, (st.sp : Int)]
  else if opcode ∈ [0xc5, 0xd5, 0xe5, 0xf5, 0xcd] ∨ opcode ∈ rst_opcodes then
    [(st.sp : Int) - 1, (st.sp : Int) - 2]
  else if opcode ∈ ccc_opcodes ∧ cc_holds st (opcode / 8 % 8) then
    [(st.sp : Int) - 1, (st.sp : Int) - 2]
  else []

/-- Index expressions `e` of the reads `state->mem[e]` made by the case body of `opcode`
(with the helper it calls), without repetition; the fetch `state->mem[state->pc]` of the
`switch` is not included. The register helpers and `rst` read the opcode again at `pc`;
`movm2r` and the `m` forms read `hl`; `ldax` reads `bc` or `de`; the immediate forms read
`pc+1` (and `pc+2` for a word); `lda` reads `word`, `lhld` reads `addr+0` and `addr+1`;
`pop`, `ret`, `xthl` and a conditional return whose condition holds read `sp` and `sp+1`. -/
def mem_reads (st : i8080_state_t) (opcode : Nat) : List Int :=
  let pc : Int := st.pc
  let sp : Int := st.sp
  let bc := reg_pair st.b st.c
  let de := reg_pair st.d st.e
  let hl := reg_pair st.h st.l
  if opcode ∈ movr2r_opcodes ++ movr2m_opcodes ++ add_opcodes ++ adc_opcodes ++ sub_opcodes ++
      sbb_opcodes ++ ana_opcodes ++ xra_opcodes ++ ora_opcodes ++ cmp_opcodes ++
      inr_opcodes ++ dcr_opcodes ++ rst_opcodes then [pc]
  else if opcode ∈ movm2r_opcodes then [pc, (hl : Int)]
  else if opcode ∈ mvi_opcodes then [pc, pc + 1]
  else if opcode ∈ [0x86, 0x8e, 0x96, 0x9e, 0xa6, 0xae, 0xb6, 0xbe, 0x34, 0x35] then [(hl : Int)]
  else if opcode = 0x0a then [(bc : Int)]
  else if opcode = 0x1a then [(de : Int)]
  else if opcode ∈ [0x36, 0xc6, 0xce, 0xd6, 0xde, 0xe6, 0xee, 0xf6, 0xfe, 0xdb, 0xd3] then
    [pc + 1]
  else if opcode ∈ [0x01, 0x11, 0x21, 0x31, 0x32, 0x22, 0xc3, 0xcd] ++ jcc_opcodes ++
      ccc_opcodes then [pc + 1, pc + 2]
  else if opcode = 0x3a then [pc + 1, pc + 2, (imm16 st : Int)]
  else if opcode = 0x2a then [pc + 1, pc + 2, (imm16 st : Int) + 0, (imm16 st : Int) + 1]
  else if opcode ∈ [0xc1, 0xd1, 0xe1, 0xf1] then [sp, sp + 1]
  else if opcode = 0xc9 ∨ opcode = 0xe3 ∨
      (opcode ∈ rcc_opcodes ∧ cc_holds st (opcode / 8 % 8)) then [sp + 1, sp]
  else []

/-- Every index expression `state->mem[e]` evaluated by one call of `i8080_exec` when no
trap is installed: none when the call returns at the `halt_req` or the PC test, otherwise
the fetch at `pc` followed by the reads and the writes of the case body. -/
def i8080_exec_accesses (st : i8080_state_t) : List Int :=
  if st.halt_req ≠ 0 then []
  else if (st.pc : Int) ≥ st.mem_sizeb - 1 then []
  else (st.pc : Int) :: (mem_reads st (st.mem st.pc) ++ mem_writes st (st.mem st.pc))

/-- Store instructions: MOV M,r, MVI M, STAX B, STAX D, STA, SHLD, INR M, DCR M, XTHL, the
four PUSH, CALL, RST, and a conditional call whose condition holds. -/
def is_store (st : i8080_state_t) (op : Nat) : Prop :=
  op ∈ [0x70, 0x71, 0x72, 0x73, 0x74, 0x75, 0x77, 0x36, 0x02, 0x12, 0x32, 0x22, 0x34, 0x35,
    0xe3, 0xc5, 0xd5, 0xe5, 0xf5, 0xcd, 0xc7, 0xcf, 0xd7, 0xdf, 0xe7, 0xef, 0xf7, 0xff] ∨
  (op ∈ ccc_opcodes ∧ cc_holds st (op / 8 % 8))

instance (st : i8080_state_t) (op : Nat) : Decidable (is_store st op) := by
  unfold is_store
  infer_instance

/-- What a case body leaves alone between the state `st` before and `st'` after it: both
interrupt counters, `mem_sizeb`, `halt_req`, and every memory byte whose index is not in
`W`. -/
def body_frame (W : List Int) (st st' : i8080_state_t) : Prop :=
  st'.irq_set_cnt = st.irq_set_cnt ∧ st'.irq_clr_cnt = st.irq_clr_cnt ∧
  st'.mem_sizeb = st.mem_sizeb ∧ st'.halt_req = st.halt_req ∧
  ∀ k, k ∉ W → st'.mem k = st.mem k

/-- Frame of one pass through the `switch` on `op` with result `r`: the case body keeps
`body_frame` for the indices of `mem_writes` and does not touch the host state. The two
port instructions, which hand over to the port handler, are set apart. -/
def step_frame {H : Type} (m : machine_t H) (op : Nat) (r : Int × machine_t H) : Prop :=
  (op = 0xdb ∨ op = 0xd3) ∨
  (body_frame (mem_writes m.state op) m.state r.2.state ∧ r.2.host = m.host)

/-- Selectors handed to `reg_ptr` by the helper that the case of `opcode` calls: source
(bits 2..0) and destination (bits 5..3) for `movr2r`, the source for `movr2m` and the eight
ALU helpers, the destination for `movm2r`, `mvi`, `inr` and `dcr`; none for any other
opcode. -/
def reg_ptr_selectors (opcode : Nat) : List Nat :=
  if opcode ∈ movr2r_opcodes then [opcode &&& 0x7, (opcode &&& 0x38) >>> 3]
  else if opcode ∈ movr2m_opcodes ++ add_opcodes ++ adc_opcodes ++ sub_opcodes ++
      sbb_opcodes ++ cmp_opcodes ++ ana_opcodes ++ xra_opcodes ++ ora_opcodes then
    [opcode &&& 0x7]
  else if opcode ∈ movm2r_opcodes ++ mvi_opcodes ++ inr_opcodes ++ dcr_opcodes then
    [(opcode &&& 0x38) >>> 3]
  else []

/-- Selectors for which `reg_ptr` returns a register without setting `halt_req`. -/
def valid_selectors : List Nat := [0, 1, 2, 3, 4, 5, 7]

/-! ## The Space Invaders drive loop (`main.c`, `graphics.c`) -/

/-- `timer_irq_handler` on the CPU state: `irq_set_cnt++` on the `unsigned` counter (the
frame-buffer update it triggers does not write the CPU state). -/
def timer_irq_handler (state : i8080_state_t) : i8080_state_t :=
  { state with irq_set_cnt := (state.irq_set_cnt + 1) % 4294967296 }

/-- Body of the `while` loop of `exec_invaders`, run each time `i8080_exec` returned 0. -/
def exec_invaders_body (state : i8080_state_t) : i8080_state_t :=
  if state.irq_set_cnt ≠ state.irq_clr_cnt then
    let state :=
      if state.irq_set_cnt &&& 1 = 0 then i8080_interrupt state 2
      else i8080_interrupt state 1
    { state with irq_clr_cnt := (state.irq_clr_cnt + 1) % 4294967296 }
  else state

/-- The loop `while (!i8080_exec (state)) { ... }` of `exec_invaders` under a timer that
fires `n` times during an iteration, for the successive `n` of `ticks`: the machine when the
loop ends, or when `ticks` is used up. The handler only increments `irq_set_cnt`, which
`i8080_exec` neither reads nor writes, so the ticks of an iteration are applied between the
call of `i8080_exec` and the loop body. -/
def exec_invaders_loop {H : Type} : List Nat → machine_t H → Int × machine_t H
  | [], m => (0, m)
  | n :: ticks, m =>
    let r := i8080_exec m
    let st := Nat.iterate timer_irq_handler n r.2.state
    if r.1 ≠ 0 then (r.1, { r.2 with state := st })
    else exec_invaders_loop ticks { r.2 with state := exec_invaders_body st }

/-- The Space Invaders machine with its port handler installed, interrupts enabled, PC = 0
and SP = 0x2400 over a memory of `nop`s. -/
def demo_invaders : machine_t invaders_io_t :=
  { state := { mk_state 0 0 0 0 0 0 0 0x2400 0 flags_zero (fun _ => 0) with i := 1 },
    host := io_init io_startup,
    io_handler := some io_handler,
    instr_func := none }

/-- `push b` at address 0 with BC = 0x1234 and SP = 0x2400, in a machine whose port handler
returns 0 and changes nothing. -/
def demo_push_b : machine_t Unit :=
  { mk_machine (mk_state 0 0x12 0x34 0 0 0 0 0x2400 0 flags_zero (mem_of 0 [0xc5])) with
    io_handler := some (fun _ _ _ st h => (0, st, h)) }

/-- `lhld 0x2000` at address 0 with SP = 0x2400. -/
def demo_lhld : i8080_state_t :=
  mk_state 0 0 0 0 0 0 0 0x2400 0 flags_zero (mem_of 0 [0x2a, 0x00, 0x20])

/-- The BDOS trap installed, PC = 0x0005 with C = 2 and E = `A`, and the return address
0x0108 on the stack (a `nop` at 0x0108). -/
def demo_trap : machine_t (List Nat) :=
  { state := demo_bdos_write,
    host := [],
    io_handler := none,
    instr_func := some (bdos_trap (fun _ => []) 16) }

/-- The BDOS trap installed, PC = 0x0005 with C = 2 and E = `A`, and the return address
0xFFFF on the stack at SP = 0x2400 (a `nop` in the last byte of the 64 KiB memory). -/
def demo_trap_top : machine_t (List Nat) :=
  { state := mk_state 0 0 0x02 0 0x41 0 0 0x2400 0x0005 flags_zero
      (fun k => if k = 0x2400 then 0xff else if k = 0x2401 then 0xff else 0),
    host := [],
    io_handler := none,
    instr_func := some (bdos_trap (fun _ => []) 16) }

/-- `add b` at address 0 with A = 0x3C and B = 0x5A, in a machine whose port handler returns
0 and changes nothing. -/
def demo_add_io : machine_t Unit :=
  { mk_machine (mk_state 0x3c 0x5a 0 0 0 0 0 0x2400 0 flags_zero (mem_of 0 [0x80])) with
    io_handler := some (fun _ _ _ st h => (0, st, h)) }

/-! ## Bit-level facts -/

theorem land_two_pow (x i : Nat) : x &&& 2 ^ i = (x / 2 ^ i % 2) * 2 ^ i := by
  apply Nat.eq_of_testBit_eq
  intro j
  rw [Nat.testBit_and, Nat.testBit_two_pow]
  rcases Nat.mod_two_eq_zero_or_one (x / 2 ^ i) with h | h
  · rw [h, Nat.zero_mul, Nat.zero_testBit]
    by_cases hij : i = j
    · subst hij
      simp [Nat.testBit_to_div_mod, h]
    · simp [hij]
  · rw [h, Nat.one_mul, Nat.testBit_two_pow]
    by_cases hij : i = j
    · subst hij
      simp [Nat.testBit_to_div_mod, h]
    · simp [hij]

theorem int_land_two_pow_ne_zero (x : Int) (i : Nat) :
    Int.land x (2 ^ i : Nat) ≠ 0 ↔ Int.testBit x i = true := by
  cases x with
  | ofNat n =>
    show ((n &&& 2 ^ i : Nat) : Int) ≠ 0 ↔ Nat.testBit n i = true
    rw [land_two_pow, Nat.testBit_to_div_mod]
    have hp : 0 < 2 ^ i := Nat.two_pow_pos i
    rcases Nat.mod_two_eq_zero_or_one (n / 2 ^ i) with h | h
    · simp [h]
    · simp [h]
  | negSucc n =>
    show ((Nat.ldiff (2 ^ i) n : Nat) : Int) ≠ 0 ↔ (!Nat.testBit n i) = true
    have key : Nat.ldiff (2 ^ i) n = if Nat.testBit n i then 0 else 2 ^ i := by
      apply Nat.eq_of_testBit_eq
      intro j
      rw [Nat.testBit_ldiff, Nat.testBit_two_pow]
      by_cases hij : i = j
      · subst hij
        cases hb : Nat.testBit n i <;> simp [Nat.testBit_two_pow]
      · cases hb : Nat.testBit n i <;> simp [hij, Nat.testBit_two_pow]
    rw [key]
    have hp : 0 < 2 ^ i := Nat.two_pow_pos i
    cases hb : Nat.testBit n i
    · simp
    · simp

set_option maxRecDepth 100000 in
theorem int_testBit_to_int8 (x : Int) :
    Int.testBit (to_int8 x) 4 = decide (x / 16 % 2 = 1) := by
  have h0 : 0 ≤ x % 256 := Int.emod_nonneg x (by decide)
  have h1 : x % 256 < 256 := Int.emod_lt_of_pos x (by decide)
  obtain ⟨r, hr⟩ := Int.eq_ofNat_of_zero_le h0
  have hr256 : r < 256 := by omega
  have hbit : (x / 16 % 2 = 1) ↔ (r / 16 % 2 = 1) := by omega
  unfold to_int8
  rw [hr]
  have hbig : ∀ r : Nat, r < 256 → 128 ≤ r →
      Int.testBit ((r : Int) - 256) 4 = decide (r / 16 % 2 = 1) := by decide!
  by_cases hge : (r : Int) ≥ 128
  · rw [if_pos hge, hbig r hr256 (by omega)]
    simp only [hbit]
  · rw [if_neg hge]
    show Nat.testBit r 4 = _
    rw [Nat.testBit_to_div_mod]
    simp only [hbit]

theorem int_land_16 (x : Int) : Int.land x 0x10 ≠ 0 ↔ Int.testBit x 4 = true :=
  int_land_two_pow_ne_zero x 4

theorem update_flags_ac (st : i8080_state_t) (r : Nat) (d s : Int) :
    (i8080_update_flags st r d s).f.ac = ((d / 16 + (r : Int) / 16 + s / 16) % 2).toNat := by
  have hr : Int.testBit (r : Int) 4 = decide ((r : Int) / 16 % 2 = 1) := by
    show Nat.testBit r 4 = _
    rw [Nat.testBit_to_div_mod]
    have : (r / 2 ^ 4 % 2 = 1) ↔ ((r : Int) / 16 % 2 = 1) := by omega
    simp only [this]
  have hiff := int_land_16 (Int.xor (Int.xor (to_int8 d) (r : Int)) (to_int8 s))
  rw [Int.testBit_lxor, Int.testBit_lxor, int_testBit_to_int8, int_testBit_to_int8, hr] at hiff
  show (if Int.land (Int.xor (Int.xor (to_int8 d) (r : Int)) (to_int8 s)) 0x10 ≠ 0
    then 1 else 0) = _
  by_cases hd : d / 16 % 2 = 1 <;> by_cases hs : s / 16 % 2 = 1 <;>
    by_cases hrr : (r : Int) / 16 % 2 = 1 <;>
    simp only [hd, hs, hrr, decide_True, decide_False, Bool.xor_true, Bool.xor_false,
      Bool.not_true, Bool.not_false, Bool.true_xor, Bool.false_xor] at hiff <;>
    simp only [hiff, Bool.false_eq_true, if_true, if_false] <;> omega

theorem update_flags_s (st : i8080_state_t) (r : Nat) (d s : Int) :
    (i8080_update_flags st r d s).f.s = r / 128 % 2 := by
  show (if r &&& 0x80 = 0 then 0 else 1) = _
  have h := land_two_pow r 7
  norm_num at h
  rw [h]
  split <;> omega

theorem update_flags_cy (st : i8080_state_t) (r : Nat) (d s : Int) :
    (i8080_update_flags st r d s).f.cy = r / 256 % 2 := by
  show (if r &&& 0x100 = 0 then 0 else 1) = _
  have h := land_two_pow r 8
  norm_num at h
  rw [h]
  split <;> omega

theorem update_flags_z (st : i8080_state_t) (r : Nat) (d s : Int) :
    (i8080_update_flags st r d s).f.z = if r % 256 = 0 then 1 else 0 := by
  show (if r &&& 0xff = 0 then 1 else 0) = _
  have h := Nat.and_pow_two_sub_one_eq_mod r 8
  norm_num at h
  rw [h]

set_option maxRecDepth 100000 in
theorem parity_popcount : ∀ v : Nat, v < 256 →
    i8080_parity (v : Int) = if popcount8 v % 2 = 0 then 1 else 0 := by
  decide!

theorem update_flags_p (st : i8080_state_t) (r : Nat) (d s : Int) :
    (i8080_update_flags st r d s).f.p = if popcount8 (r % 256) % 2 = 0 then 1 else 0 := by
  show i8080_parity ((r &&& 0xff : Nat) : Int) = _
  have h := Nat.and_pow_two_sub_one_eq_mod r 8
  norm_num at h
  rw [h]
  exact parity_popcount (r % 256) (Nat.mod_lt _ (by decide))

set_option maxRecDepth 100000 in
theorem switch_status {H : Type} (m : machine_t H) (bc de hl : Nat) :
    ∀ op, op < 256 →
      (i8080_exec_switch op m bc de hl).1 = if op ∈ stop_opcodes then -1 else 0 := by
  intro op hop
  interval_cases op <;> rfl

/-! ## Reduction of one step to a case body -/

theorem exec_no_trap {H : Type} (m : machine_t H) (hh : m.state.halt_req = 0)
    (ht : m.instr_func = none) (hpc : (m.state.pc : Int) < m.state.mem_sizeb - 1) :
    i8080_exec m = i8080_exec_switch (m.state.mem m.state.pc) m
      (reg_pair m.state.b m.state.c) (reg_pair m.state.d m.state.e)
      (reg_pair m.state.h m.state.l) := by
  unfold i8080_exec
  simp only [hh, ht, ne_eq, not_true_eq_false, if_false, ge_iff_le, not_le.mpr hpc]

theorem state_ext (s t : i8080_state_t) (ha : s.a = t.a) (hb : s.b = t.b) (hc : s.c = t.c)
    (hd : s.d = t.d) (he : s.e = t.e) (hh : s.h = t.h) (hl : s.l = t.l) (hi : s.i = t.i)
    (hsp : s.sp = t.sp) (hpc : s.pc = t.pc) (hf : s.f = t.f) (hmem : s.mem = t.mem)
    (hsz : s.mem_sizeb = t.mem_sizeb) (his : s.irq_set_cnt = t.irq_set_cnt)
    (hic : s.irq_clr_cnt = t.irq_clr_cnt) (hhr : s.halt_req = t.halt_req) : s = t := by
  cases s
  cases t
  simp only [i8080_state_t.mk.injEq]
  exact ⟨ha, hb, hc, hd, he, hh, hl, hi, hsp, hpc, hf, hmem, hsz, his, hic, hhr⟩

theorem land_ff (x : Nat) : x &&& 0xff = x % 256 := Nat.and_pow_two_sub_one_eq_mod x 8

theorem land_mask_hi (x m : Nat) : (x &&& m) >>> 8 = (x >>> 8) &&& (m >>> 8) := by
  apply Nat.eq_of_testBit_eq
  intro j
  simp only [Nat.testBit_shiftRight, Nat.testBit_and]

theorem pc_high_byte (pc : Nat) : ((pc &&& 0xeff00) >>> 8) % 256 = pc / 256 % 256 := by
  rw [land_mask_hi]
  have h1 : (0xeff00 : Nat) >>> 8 = 0xeff := by decide
  rw [h1]
  have h2 : ((pc >>> 8) &&& 0xeff) % 256 = ((pc >>> 8) &&& 0xeff) &&& 0xff := (land_ff _).symm
  rw [h2, Nat.and_assoc]
  have h3 : (0xeff : Nat) &&& 0xff = 0xff := by decide
  rw [h3, land_ff, Nat.shiftRight_eq_div_pow]

theorem pc_low_byte (pc : Nat) : ((pc &&& 0x00ff) >>> 0) % 256 = pc % 256 := by
  rw [land_ff]
  show pc % 256 % 256 = pc % 256
  omega

/-! ## PUSH PSW / POP PSW -/

theorem psw_byte : ∀ cy : Nat, cy < 2 → ∀ p : Nat, p < 2 → ∀ ac : Nat, ac < 2 →
    ∀ z : Nat, z < 2 → ∀ s : Nat, s < 2 →
    ((cy <<< 0) ||| (1 <<< 1) ||| (p <<< 2) ||| (0 <<< 3) |||
     (ac <<< 4) ||| (0 <<< 5) ||| (z <<< 6) ||| (s <<< 7)) =
    128 * s + 64 * z + 16 * ac + 4 * p + 2 + cy := by
  decide

theorem push_psw_mem (st : i8080_state_t) (hcy : st.f.cy < 2) (hp : st.f.p < 2)
    (hac : st.f.ac < 2) (hz : st.f.z < 2) (hs : st.f.s < 2) (k : Int) :
    (push_psw st).mem k =
      if k = (st.sp : Int) - 2 then
        128 * st.f.s + 64 * st.f.z + 16 * st.f.ac + 4 * st.f.p + 2 + st.f.cy
      else if k = (st.sp : Int) - 1 then st.a % 256 else st.mem k := by
  show mem_write (mem_write st.mem ((st.sp : Int) - 1) st.a) ((st.sp : Int) - 2)
    ((st.f.cy <<< 0) ||| (1 <<< 1) ||| (st.f.p <<< 2) ||| (0 <<< 3) |||
     (st.f.ac <<< 4) ||| (0 <<< 5) ||| (st.f.z <<< 6) ||| (st.f.s <<< 7)) k = _
  rw [psw_byte _ hcy _ hp _ hac _ hz _ hs]
  unfold mem_write
  have : (128 * st.f.s + 64 * st.f.z + 16 * st.f.ac + 4 * st.f.p + 2 + st.f.cy) % 256 =
      128 * st.f.s + 64 * st.f.z + 16 * st.f.ac + 4 * st.f.p + 2 + st.f.cy := by omega
  rw [this]

theorem push_psw_sp (st : i8080_state_t) : (push_psw st).sp = (st.sp + 65534) % 65536 := by
  show to_uint16 ((st.sp : Int) - 2) = _
  unfold to_uint16
  omega

theorem exec_push_psw {H : Type} (m : machine_t H) (hh : m.state.halt_req = 0)
    (ht : m.instr_func = none) (hpc : (m.state.pc : Int) < m.state.mem_sizeb - 1)
    (hop : m.state.mem m.state.pc = 0xf5) :
    i8080_exec m = (0, { m with state := push_psw m.state }) := by
  rw [exec_no_trap m hh ht hpc, hop]
  rfl

theorem exec_pop_psw {H : Type} (m : machine_t H) (hh : m.state.halt_req = 0)
    (ht : m.instr_func = none) (hpc : (m.state.pc : Int) < m.state.mem_sizeb - 1)
    (hop : m.state.mem m.state.pc = 0xf1) :
    i8080_exec m = (0, { m with state := pop_psw m.state }) := by
  rw [exec_no_trap m hh ht hpc, hop]
  rfl

/-! ## Register forms of the ALU helpers -/

theorem add_regform (st : i8080_state_t) (k : Nat) (hk : k < 8) (hk6 : k ≠ 6)
    (hop : st.mem st.pc = 0x80 + k) : add st = add_with st (reg_sel st k) 1 := by
  unfold add
  rw [hop]
  interval_cases k <;> first | rfl | exact absurd rfl hk6

theorem adc_regform (st : i8080_state_t) (k : Nat) (hk : k < 8) (hk6 : k ≠ 6)
    (hop : st.mem st.pc = 0x88 + k) : adc st = adc_with st (reg_sel st k) 1 := by
  unfold adc
  rw [hop]
  interval_cases k <;> first | rfl | exact absurd rfl hk6

theorem sub_regform (st : i8080_state_t) (k : Nat) (hk : k < 8) (hk6 : k ≠ 6)
    (hop : st.mem st.pc = 0x90 + k) : sub st = sub_with st (reg_sel st k) 1 := by
  unfold sub
  rw [hop]
  interval_cases k <;> first | rfl | exact absurd rfl hk6

theorem sbb_regform (st : i8080_state_t) (k : Nat) (hk : k < 8) (hk6 : k ≠ 6)
    (hop : st.mem st.pc = 0x98 + k) :
    sbb st = sbb_with st (reg_sel st k) ((reg_sel st k : Int) + st.f.cy) 1 := by
  unfold sbb
  rw [hop]
  interval_cases k <;> first | rfl | exact absurd rfl hk6

theorem cmp_regform (st : i8080_state_t) (k : Nat) (hk : k < 8) (hk6 : k ≠ 6)
    (hop : st.mem st.pc = 0xb8 + k) : cmp st = cmp_with st (reg_sel st k) 1 := by
  unfold cmp
  rw [hop]
  interval_cases k <;> first | rfl | exact absurd rfl hk6

theorem inr_regform (st : i8080_state_t) (k : Nat) (hk : k < 8) (hk6 : k ≠ 6)
    (hop : st.mem st.pc = 8 * k + 4) : inr st = inr_with st k := by
  unfold inr
  rw [hop]
  interval_cases k <;> first | rfl | exact absurd rfl hk6

theorem dcr_regform (st : i8080_state_t) (k : Nat) (hk : k < 8) (hk6 : k ≠ 6)
    (hop : st.mem st.pc = 8 * k + 5) : dcr st = dcr_with st k := by
  unfold dcr
  rw [hop]
  interval_cases k <;> first | rfl | exact absurd rfl hk6

/-- Opcodes `base .. base + 7` of a `10 fff sss` group, or the immediate opcode. -/
theorem alu_opcode_cases (op base imm : Nat) (hb : base % 8 = 0)
    (hop : op / 8 = base / 8 ∨ op = imm) :
    op = imm ∨ op = base + 6 ∨ ∃ k, k < 8 ∧ k ≠ 6 ∧ op = base + k := by
  rcases hop with h | h
  · by_cases h6 : op = base + 6
    · exact Or.inr (Or.inl h6)
    · exact Or.inr (Or.inr ⟨op - base, by omega, by omega, by omega⟩)
  · exact Or.inl h


/-- One step on an `add` opcode (`0x80..0x87`, `0xc6`). -/
theorem exec_add {H : Type} (m : machine_t H) (hh : m.state.halt_req = 0)
    (ht : m.instr_func = none) (hpc : (m.state.pc : Int) < m.state.mem_sizeb - 1)
    (hop : m.state.mem m.state.pc / 8 = 0x10 ∨ m.state.mem m.state.pc = 0xc6) :
    i8080_exec m =
      (0, { m with state := add_with m.state (alu_operand m.state) (alu_length m.state) }) := by
  rw [exec_no_trap m hh ht hpc]
  rcases alu_opcode_cases _ 0x80 0xc6 rfl hop with h | h | ⟨k, hk, hk6, h⟩
  · have h1 : alu_operand m.state = m.state.mem ((m.state.pc : Int) + 1) := by
      unfold alu_operand; rw [h]; rfl
    have h2 : alu_length m.state = 2 := by unfold alu_length; rw [h]; rfl
    rw [h, h1, h2]; rfl
  · have h1 : alu_operand m.state = m.state.mem (reg_pair m.state.h m.state.l) := by
      unfold alu_operand; rw [h]; rfl
    have h2 : alu_length m.state = 1 := by unfold alu_length; rw [h]; rfl
    rw [h, h1, h2]; rfl
  · have h1 : alu_operand m.state = reg_sel m.state k := by
      unfold alu_operand; rw [h]
      interval_cases k <;> rfl
    have h2 : alu_length m.state = 1 := by
      unfold alu_length; rw [h]
      interval_cases k <;> rfl
    rw [h1, h2, ← add_regform m.state k hk hk6 h, h]
    interval_cases k <;> first | rfl | exact absurd rfl hk6

/-- One step on an `adc` opcode (`0x88..0x8f`, `0xce`). -/
theorem exec_adc {H : Type} (m : machine_t H) (hh : m.state.halt_req = 0)
    (ht : m.instr_func = none) (hpc : (m.state.pc : Int) < m.state.mem_sizeb - 1)
    (hop : m.state.mem m.state.pc / 8 = 0x11 ∨ m.state.mem m.state.pc = 0xce) :
    i8080_exec m =
      (0, { m with state := adc_with m.state (alu_operand m.state) (alu_length m.state) }) := by
  rw [exec_no_trap m hh ht hpc]
  rcases alu_opcode_cases _ 0x88 0xce rfl hop with h | h | ⟨k, hk, hk6, h⟩
  · have h1 : alu_operand m.state = m.state.mem ((m.state.pc : Int) + 1) := by
      unfold alu_operand; rw [h]; rfl
    have h2 : alu_length m.state = 2 := by unfold alu_length; rw [h]; rfl
    rw [h, h1, h2]; rfl
  · have h1 : alu_operand m.state = m.state.mem (reg_pair m.state.h m.state.l) := by
      unfold alu_operand; rw [h]; rfl
    have h2 : alu_length m.state = 1 := by unfold alu_length; rw [h]; rfl
    rw [h, h1, h2]; rfl
  · have h1 : alu_operand m.state = reg_sel m.state k := by
      unfold alu_operand; rw [h]
      interval_cases k <;> rfl
    have h2 : alu_length m.state = 1 := by
      unfold alu_length; rw [h]
      interval_cases k <;> rfl
    rw [h1, h2, ← adc_regform m.state k hk hk6 h, h]
    interval_cases k <;> first | rfl | exact absurd rfl hk6

/-- One step on an `sub` opcode (`0x90..0x97`, `0xd6`). -/
theorem exec_sub {H : Type} (m : machine_t H) (hh : m.state.halt_req = 0)
    (ht : m.instr_func = none) (hpc : (m.state.pc : Int) < m.state.mem_sizeb - 1)
    (hop : m.state.mem m.state.pc / 8 = 0x12 ∨ m.state.mem m.state.pc = 0xd6) :
    i8080_exec m =
      (0, { m with state := sub_with m.state (alu_operand m.state) (alu_length m.state) }) := by
  rw [exec_no_trap m hh ht hpc]
  rcases alu_opcode_cases _ 0x90 0xd6 rfl hop with h | h | ⟨k, hk, hk6, h⟩
  · have h1 : alu_operand m.state = m.state.mem ((m.state.pc : Int) + 1) := by
      unfold alu_operand; rw [h]; rfl
    have h2 : alu_length m.state = 2 := by unfold alu_length; rw [h]; rfl
    rw [h, h1, h2]; rfl
  · have h1 : alu_operand m.state = m.state.mem (reg_pair m.state.h m.state.l) := by
      unfold alu_operand; rw [h]; rfl
    have h2 : alu_length m.state = 1 := by unfold alu_length; rw [h]; rfl
    rw [h, h1, h2]; rfl
  · have h1 : alu_operand m.state = reg_sel m.state k := by
      unfold alu_operand; rw [h]
      interval_cases k <;> rfl
    have h2 : alu_length m.state = 1 := by
      unfold alu_length; rw [h]
      interval_cases k <;> rfl
    rw [h1, h2, ← sub_regform m.state k hk hk6 h, h]
    interval_cases k <;> first | rfl | exact absurd rfl hk6

/-- One step on an `sbb` opcode (`0x98..0x9f`, `0xde`). -/
theorem exec_sbb {H : Type} (m : machine_t H) (hh : m.state.halt_req = 0)
    (ht : m.instr_func = none) (hpc : (m.state.pc : Int) < m.state.mem_sizeb - 1)
    (hop : m.state.mem m.state.pc / 8 = 0x13 ∨ m.state.mem m.state.pc = 0xde) :
    i8080_exec m =
      (0, { m with state := sbb_with m.state (alu_operand m.state) (sbb_flag_src m.state) (alu_length m.state) }) := by
  rw [exec_no_trap m hh ht hpc]
  rcases alu_opcode_cases _ 0x98 0xde rfl hop with h | h | ⟨k, hk, hk6, h⟩
  · have h1 : alu_operand m.state = m.state.mem ((m.state.pc : Int) + 1) := by
      unfold alu_operand; rw [h]; rfl
    have h2 : alu_length m.state = 2 := by unfold alu_length; rw [h]; rfl
    have h3 : sbb_flag_src m.state = (m.state.mem ((m.state.pc : Int) + 1) : Int) - m.state.f.cy := by
      unfold sbb_flag_src; rw [h1, h]; rfl
    rw [h3]
    rw [h, h1, h2]; rfl
  · have h1 : alu_operand m.state = m.state.mem (reg_pair m.state.h m.state.l) := by
      unfold alu_operand; rw [h]; rfl
    have h2 : alu_length m.state = 1 := by unfold alu_length; rw [h]; rfl
    have h3 : sbb_flag_src m.state = (m.state.mem (reg_pair m.state.h m.state.l) : Int) - m.state.f.cy := by
      unfold sbb_flag_src; rw [h1, h]; rfl
    rw [h3]
    rw [h, h1, h2]; rfl
  · have h1 : alu_operand m.state = reg_sel m.state k := by
      unfold alu_operand; rw [h]
      interval_cases k <;> rfl
    have h2 : alu_length m.state = 1 := by
      unfold alu_length; rw [h]
      interval_cases k <;> rfl
    have h3 : sbb_flag_src m.state = (reg_sel m.state k : Int) + m.state.f.cy := by
      unfold sbb_flag_src; rw [h1, h]
      interval_cases k <;> first | rfl | exact absurd rfl hk6
    rw [h3]
    rw [h1, h2, ← sbb_regform m.state k hk hk6 h, h]
    interval_cases k <;> first | rfl | exact absurd rfl hk6

/-- One step on an `cmp` opcode (`0xb8..0xbf`, `0xfe`). -/
theorem exec_cmp {H : Type} (m : machine_t H) (hh : m.state.halt_req = 0)
    (ht : m.instr_func = none) (hpc : (m.state.pc : Int) < m.state.mem_sizeb - 1)
    (hop : m.state.mem m.state.pc / 8 = 0x17 ∨ m.state.mem m.state.pc = 0xfe) :
    i8080_exec m =
      (0, { m with state := cmp_with m.state (alu_operand m.state) (alu_length m.state) }) := by
  rw [exec_no_trap m hh ht hpc]
  rcases alu_opcode_cases _ 0xb8 0xfe rfl hop with h | h | ⟨k, hk, hk6, h⟩
  · have h1 : alu_operand m.state = m.state.mem ((m.state.pc : Int) + 1) := by
      unfold alu_operand; rw [h]; rfl
    have h2 : alu_length m.state = 2 := by unfold alu_length; rw [h]; rfl
    rw [h, h1, h2]; rfl
  · have h1 : alu_operand m.state = m.state.mem (reg_pair m.state.h m.state.l) := by
      unfold alu_operand; rw [h]; rfl
    have h2 : alu_length m.state = 1 := by unfold alu_length; rw [h]; rfl
    rw [h, h1, h2]; rfl
  · have h1 : alu_operand m.state = reg_sel m.state k := by
      unfold alu_operand; rw [h]
      interval_cases k <;> rfl
    have h2 : alu_length m.state = 1 := by
      unfold alu_length; rw [h]
      interval_cases k <;> rfl
    rw [h1, h2, ← cmp_regform m.state k hk hk6 h, h]
    interval_cases k <;> first | rfl | exact absurd rfl hk6

theorem pc_ff00_byte (pc : Nat) (h : pc < 65536) : (pc &&& 0xff00) >>> 8 = pc / 256 := by
  rw [land_mask_hi]
  have h1 : (0xff00 : Nat) >>> 8 = 0xff := by decide
  rw [h1, land_ff, Nat.shiftRight_eq_div_pow]
  show pc / 256 % 256 = pc / 256
  omega

theorem land_0f (x : Nat) : x &&& 0xf = x % 16 := Nat.and_pow_two_sub_one_eq_mod x 4


/-! ## Values computed by the ALU forms -/

theorem add_with_fields (st : i8080_state_t) (v n : Nat) (ha : st.a < 256) (hv : v < 256) :
    (add_with st v n).a = (st.a + v) % 256 ∧
    (add_with st v n).f.cy = (st.a + v) / 256 ∧
    (add_with st v n).f.s = (st.a + v) % 256 / 128 ∧
    (add_with st v n).f.z = (if (st.a + v) % 256 = 0 then 1 else 0) ∧
    (add_with st v n).f.ac = (st.a % 16 + v % 16) / 16 ∧
    (add_with st v n).f.p = (if popcount8 ((st.a + v) % 256) % 2 = 0 then 1 else 0) := by
  have hr : to_uint16 ((st.a : Int) + v) = st.a + v := by unfold to_uint16; omega
  refine ⟨?_, ?_, ?_, ?_, ?_, ?_⟩
  · show (to_uint16 ((st.a : Int) + v) &&& 0xff) % 256 = _
    rw [hr, land_ff]; omega
  · show (i8080_update_flags st (to_uint16 ((st.a : Int) + v)) st.a v).f.cy = _
    rw [hr, update_flags_cy]; omega
  · show (i8080_update_flags st (to_uint16 ((st.a : Int) + v)) st.a v).f.s = _
    rw [hr, update_flags_s]; omega
  · show (i8080_update_flags st (to_uint16 ((st.a : Int) + v)) st.a v).f.z = _
    rw [hr, update_flags_z]
  · show (i8080_update_flags st (to_uint16 ((st.a : Int) + v)) st.a v).f.ac = _
    rw [hr, update_flags_ac]; omega
  · show (i8080_update_flags st (to_uint16 ((st.a : Int) + v)) st.a v).f.p = _
    rw [hr, update_flags_p]

theorem adc_with_fields (st : i8080_state_t) (v n : Nat) (ha : st.a < 256) (hv : v < 256)
    (hc : st.f.cy < 2) :
    (adc_with st v n).a = (st.a + v + st.f.cy) % 256 ∧
    (adc_with st v n).f.cy = (st.a + v + st.f.cy) / 256 ∧
    (adc_with st v n).f.s = (st.a + v + st.f.cy) % 256 / 128 ∧
    (adc_with st v n).f.z = (if (st.a + v + st.f.cy) % 256 = 0 then 1 else 0) ∧
    (adc_with st v n).f.ac = (st.a % 16 + (v + st.f.cy) % 16) / 16 ∧
    (adc_with st v n).f.p =
      (if popcount8 ((st.a + v + st.f.cy) % 256) % 2 = 0 then 1 else 0) := by
  have hr : to_uint16 ((st.a : Int) + v + st.f.cy) = st.a + v + st.f.cy := by
    unfold to_uint16; omega
  refine ⟨?_, ?_, ?_, ?_, ?_, ?_⟩
  · show (to_uint16 ((st.a : Int) + v + st.f.cy) &&& 0xff) % 256 = _
    rw [hr, land_ff]; omega
  · show (i8080_update_flags st (to_uint16 ((st.a : Int) + v + st.f.cy)) st.a _).f.cy = _
    rw [hr, update_flags_cy]; omega
  · show (i8080_update_flags st (to_uint16 ((st.a : Int) + v + st.f.cy)) st.a _).f.s = _
    rw [hr, update_flags_s]; omega
  · show (i8080_update_flags st (to_uint16 ((st.a : Int) + v + st.f.cy)) st.a _).f.z = _
    rw [hr, update_flags_z]
  · show (i8080_update_flags st (to_uint16 ((st.a : Int) + v + st.f.cy)) st.a _).f.ac = _
    rw [hr, update_flags_ac]; omega
  · show (i8080_update_flags st (to_uint16 ((st.a : Int) + v + st.f.cy)) st.a _).f.p = _
    rw [hr, update_flags_p]

theorem sub_with_fields (st : i8080_state_t) (v n : Nat) (ha : st.a < 256) (hv : v < 256) :
    (sub_with st v n).a = (st.a + 256 - v) % 256 ∧
    (sub_with st v n).f.cy = (if st.a < v then 1 else 0) ∧
    (sub_with st v n).f.s = (st.a + 256 - v) % 256 / 128 ∧
    (sub_with st v n).f.z = (if (st.a + 256 - v) % 256 = 0 then 1 else 0) ∧
    (sub_with st v n).f.ac = (if st.a % 16 < v % 16 then 1 else 0) ∧
    (sub_with st v n).f.p =
      (if popcount8 ((st.a + 256 - v) % 256) % 2 = 0 then 1 else 0) := by
  have hr : to_uint16 ((st.a : Int) - v) = (st.a + 65536 - v) % 65536 := by
    unfold to_uint16; omega
  have hm : (st.a + 65536 - v) % 65536 % 256 = (st.a + 256 - v) % 256 := by omega
  refine ⟨?_, ?_, ?_, ?_, ?_, ?_⟩
  · show (to_uint16 ((st.a : Int) - v) &&& 0xff) % 256 = _
    rw [hr, land_ff]; omega
  · show (i8080_update_flags st (to_uint16 ((st.a : Int) - v)) st.a v).f.cy = _
    rw [hr, update_flags_cy]; split <;> omega
  · show (i8080_update_flags st (to_uint16 ((st.a : Int) - v)) st.a v).f.s = _
    rw [hr, update_flags_s]; omega
  · show (i8080_update_flags st (to_uint16 ((st.a : Int) - v)) st.a v).f.z = _
    rw [hr, update_flags_z, hm]
  · show (i8080_update_flags st (to_uint16 ((st.a : Int) - v)) st.a v).f.ac = _
    rw [hr, update_flags_ac]; split <;> omega
  · show (i8080_update_flags st (to_uint16 ((st.a : Int) - v)) st.a v).f.p = _
    rw [hr, update_flags_p, hm]

theorem sbb_with_fields (st : i8080_state_t) (v : Nat) (fsrc : Int) (n : Nat)
    (ha : st.a < 256) (hv : v < 256) (hc : st.f.cy < 2) :
    (sbb_with st v fsrc n).a = (st.a + 512 - v - st.f.cy) % 256 ∧
    (sbb_with st v fsrc n).f.cy = (if st.a < v + st.f.cy then 1 else 0) ∧
    (sbb_with st v fsrc n).f.s = (st.a + 512 - v - st.f.cy) % 256 / 128 ∧
    (sbb_with st v fsrc n).f.z = (if (st.a + 512 - v - st.f.cy) % 256 = 0 then 1 else 0) ∧
    (sbb_with st v fsrc n).f.ac =
      (((st.a : Int) / 16 + (((st.a + 65536 - v - st.f.cy) % 65536 : Nat) : Int) / 16
        + fsrc / 16) % 2).toNat ∧
    (sbb_with st v fsrc n).f.p =
      (if popcount8 ((st.a + 512 - v - st.f.cy) % 256) % 2 = 0 then 1 else 0) := by
  have hr : to_uint16 ((st.a : Int) - v - st.f.cy) = (st.a + 65536 - v - st.f.cy) % 65536 := by
    unfold to_uint16; omega
  have hm : (st.a + 65536 - v - st.f.cy) % 65536 % 256 = (st.a + 512 - v - st.f.cy) % 256 := by
    omega
  refine ⟨?_, ?_, ?_, ?_, ?_, ?_⟩
  · show (to_uint16 ((st.a : Int) - v - st.f.cy) &&& 0xff) % 256 = _
    rw [hr, land_ff]; omega
  · show (i8080_update_flags st (to_uint16 ((st.a : Int) - v - st.f.cy)) st.a fsrc).f.cy = _
    rw [hr, update_flags_cy]; split <;> omega
  · show (i8080_update_flags st (to_uint16 ((st.a : Int) - v - st.f.cy)) st.a fsrc).f.s = _
    rw [hr, update_flags_s]; omega
  · show (i8080_update_flags st (to_uint16 ((st.a : Int) - v - st.f.cy)) st.a fsrc).f.z = _
    rw [hr, update_flags_z, hm]
  · show (i8080_update_flags st (to_uint16 ((st.a : Int) - v - st.f.cy)) st.a fsrc).f.ac = _
    rw [hr, update_flags_ac]
  · show (i8080_update_flags st (to_uint16 ((st.a : Int) - v - st.f.cy)) st.a fsrc).f.p = _
    rw [hr, update_flags_p, hm]


/-! ## INR / DCR -/

theorem reg_sel_store (st : i8080_state_t) (k x n : Nat) (hk : k < 8) :
    reg_sel (pc_add (reg_store st k x) n) k = x % 256 := by
  interval_cases k
  case «6» =>
    show mem_write st.mem (reg_pair st.h st.l) x (reg_pair st.h st.l) = _
    unfold mem_write
    rw [if_pos rfl]
  all_goals rfl

theorem reg_store_flags (st : i8080_state_t) (k x n : Nat) :
    (pc_add (reg_store st k x) n).f = st.f := by
  unfold reg_store
  split <;> rfl

theorem exec_inr {H : Type} (m : machine_t H) (hh : m.state.halt_req = 0)
    (ht : m.instr_func = none) (hpc : (m.state.pc : Int) < m.state.mem_sizeb - 1)
    (hop : m.state.mem m.state.pc < 64 ∧ m.state.mem m.state.pc % 8 = 4) :
    i8080_exec m = (0, { m with state := inr_with m.state (m.state.mem m.state.pc / 8) }) := by
  rw [exec_no_trap m hh ht hpc]
  obtain ⟨k, hk, h⟩ : ∃ k, k < 8 ∧ m.state.mem m.state.pc = 8 * k + 4 :=
    ⟨m.state.mem m.state.pc / 8, by omega, by omega⟩
  have hq : m.state.mem m.state.pc / 8 = k := by omega
  rw [hq]
  by_cases hk6 : k = 6
  · subst hk6
    rw [h]; rfl
  · rw [← inr_regform m.state k hk hk6 h, h]
    interval_cases k <;> first | rfl | exact absurd rfl hk6

theorem exec_dcr {H : Type} (m : machine_t H) (hh : m.state.halt_req = 0)
    (ht : m.instr_func = none) (hpc : (m.state.pc : Int) < m.state.mem_sizeb - 1)
    (hop : m.state.mem m.state.pc < 64 ∧ m.state.mem m.state.pc % 8 = 5) :
    i8080_exec m = (0, { m with state := dcr_with m.state (m.state.mem m.state.pc / 8) }) := by
  rw [exec_no_trap m hh ht hpc]
  obtain ⟨k, hk, h⟩ : ∃ k, k < 8 ∧ m.state.mem m.state.pc = 8 * k + 5 :=
    ⟨m.state.mem m.state.pc / 8, by omega, by omega⟩
  have hq : m.state.mem m.state.pc / 8 = k := by omega
  rw [hq]
  by_cases hk6 : k = 6
  · subst hk6
    rw [h]; rfl
  · rw [← dcr_regform m.state k hk hk6 h, h]
    interval_cases k <;> first | rfl | exact absurd rfl hk6

theorem inr_with_fields (st : i8080_state_t) (k : Nat) (hk : k < 8)
    (hv : reg_sel st k < 256) (hc : st.f.cy < 2) :
    reg_sel (inr_with st k) k = (reg_sel st k + 1) % 256 ∧
    (inr_with st k).f.s = (reg_sel st k + 1) % 256 / 128 ∧
    (inr_with st k).f.z = (if (reg_sel st k + 1) % 256 = 0 then 1 else 0) ∧
    (inr_with st k).f.p = (if popcount8 ((reg_sel st k + 1) % 256) % 2 = 0 then 1 else 0) ∧
    (inr_with st k).f.ac = (if reg_sel st k % 16 = 15 then 1 else 0) ∧
    (inr_with st k).f.cy = st.f.cy := by
  have hr : to_uint16 ((reg_sel st k : Int) + 1) = reg_sel st k + 1 := by
    unfold to_uint16; omega
  have hf : (inr_with st k).f =
      (set_cy (i8080_update_flags st (to_uint16 ((reg_sel st k : Int) + 1)) (reg_sel st k) 1)
        st.f.cy).f := reg_store_flags _ k _ 1
  refine ⟨?_, ?_, ?_, ?_, ?_, ?_⟩
  · show reg_sel (pc_add (reg_store _ k (to_uint16 ((reg_sel st k : Int) + 1) &&& 0xff)) 1) k = _
    rw [reg_sel_store _ _ _ _ hk, hr, land_ff]; omega
  · rw [hf]
    show (i8080_update_flags st (to_uint16 ((reg_sel st k : Int) + 1)) (reg_sel st k) 1).f.s = _
    rw [hr, update_flags_s]; omega
  · rw [hf]
    show (i8080_update_flags st (to_uint16 ((reg_sel st k : Int) + 1)) (reg_sel st k) 1).f.z = _
    rw [hr, update_flags_z]
  · rw [hf]
    show (i8080_update_flags st (to_uint16 ((reg_sel st k : Int) + 1)) (reg_sel st k) 1).f.p = _
    rw [hr, update_flags_p]
  · rw [hf]
    show (i8080_update_flags st (to_uint16 ((reg_sel st k : Int) + 1)) (reg_sel st k) 1).f.ac = _
    rw [hr, update_flags_ac]; split <;> omega
  · rw [hf]
    show st.f.cy % 2 = st.f.cy
    omega

theorem dcr_with_fields (st : i8080_state_t) (k : Nat) (hk : k < 8) (hc : st.f.cy < 2) :
    reg_sel (dcr_with st k) k = (reg_sel st k + 255) % 256 ∧
    (dcr_with st k).f.s = (reg_sel st k + 255) % 256 / 128 ∧
    (dcr_with st k).f.z = (if (reg_sel st k + 255) % 256 = 0 then 1 else 0) ∧
    (dcr_with st k).f.p = (if popcount8 ((reg_sel st k + 255) % 256) % 2 = 0 then 1 else 0) ∧
    (dcr_with st k).f.ac = (if reg_sel st k % 16 = 0 then 1 else 0) ∧
    (dcr_with st k).f.cy = st.f.cy := by
  have hr : to_uint16 ((reg_sel st k : Int) - 1) = (reg_sel st k + 65535) % 65536 := by
    unfold to_uint16; omega
  have hm : (reg_sel st k + 65535) % 65536 % 256 = (reg_sel st k + 255) % 256 := by omega
  have hf : (dcr_with st k).f =
      (set_cy (i8080_update_flags st (to_uint16 ((reg_sel st k : Int) - 1)) (reg_sel st k) 1)
        st.f.cy).f := reg_store_flags _ k _ 1
  refine ⟨?_, ?_, ?_, ?_, ?_, ?_⟩
  · show reg_sel (pc_add (reg_store _ k (to_uint16 ((reg_sel st k : Int) - 1) &&& 0xff)) 1) k = _
    rw [reg_sel_store _ _ _ _ hk, hr, land_ff]; omega
  · rw [hf]
    show (i8080_update_flags st (to_uint16 ((reg_sel st k : Int) - 1)) (reg_sel st k) 1).f.s = _
    rw [hr, update_flags_s]; omega
  · rw [hf]
    show (i8080_update_flags st (to_uint16 ((reg_sel st k : Int) - 1)) (reg_sel st k) 1).f.z = _
    rw [hr, update_flags_z, hm]
  · rw [hf]
    show (i8080_update_flags st (to_uint16 ((reg_sel st k : Int) - 1)) (reg_sel st k) 1).f.p = _
    rw [hr, update_flags_p, hm]
  · rw [hf]
    show (i8080_update_flags st (to_uint16 ((reg_sel st k : Int) - 1)) (reg_sel st k) 1).f.ac = _
    rw [hr, update_flags_ac]; split <;> omega
  · rw [hf]
    show st.f.cy % 2 = st.f.cy
    omega

/-! ## Decode coverage -/

/-- C1: with no halt request, no trap and `PC < mem_size - 1`, `i8080_exec` returns 0
(Continue) on each of the 243 opcode bytes other than `hlt` and the twelve undocumented
bytes, and returns non-zero (Stopped) exactly on those thirteen bytes. -/
theorem exec_status_by_opcode {H : Type} (m : machine_t H)
    (hh : m.state.halt_req = 0) (ht : m.instr_func = none)
    (hpc : (m.state.pc : Int) < m.state.mem_sizeb - 1)
    (hb : m.state.mem m.state.pc < 256) :
    (m.state.mem m.state.pc ∈ continue_opcodes → (i8080_exec m).1 = 0) ∧
    ((i8080_exec m).1 ≠ 0 ↔ m.state.mem m.state.pc ∈ stop_opcodes) ∧
    continue_opcodes.length = 243 ∧ stop_opcodes.length = 13 := by
  have hs := switch_status m (reg_pair m.state.b m.state.c) (reg_pair m.state.d m.state.e)
    (reg_pair m.state.h m.state.l) _ hb
  rw [← exec_no_trap m hh ht hpc] at hs
  have hmem : ∀ op, op ∈ continue_opcodes → op ∉ stop_opcodes := by
    intro op hop
    simp only [continue_opcodes, List.mem_filter] at hop
    simpa using hop.2
  refine ⟨?_, ?_, by decide!, rfl⟩
  · intro hc
    rw [hs, if_neg (hmem _ hc)]
  · by_cases hstop : m.state.mem m.state.pc ∈ stop_opcodes
    · rw [hs, if_pos hstop]
      simp [hstop]
    · rw [hs, if_neg hstop]
      simp [hstop]

theorem exec_status_by_opcode_witness :
    demo_nop.state.halt_req = 0 ∧ demo_nop.instr_func = none ∧
    (demo_nop.state.pc : Int) < demo_nop.state.mem_sizeb - 1 ∧
    demo_nop.state.mem demo_nop.state.pc < 256 ∧
    ((demo_nop.state.mem demo_nop.state.pc ∈ continue_opcodes → (i8080_exec demo_nop).1 = 0) ∧
     ((i8080_exec demo_nop).1 ≠ 0 ↔ demo_nop.state.mem demo_nop.state.pc ∈ stop_opcodes) ∧
     continue_opcodes.length = 243 ∧ stop_opcodes.length = 13) :=
  ⟨rfl, rfl, by decide, by decide,
    exec_status_by_opcode demo_nop rfl rfl (by decide) (by decide)⟩

/-! ## Interrupt injection -/

/-- C2: `i8080_interrupt (state, v)` with IE = 1 stores the high byte of PC at
`mem[SP-1]` and the low byte at `mem[SP-2]`, sets SP to SP-2 (modulo 2^16), clears IE,
sets PC to `8 * v` and changes nothing else; with IE = 0 it returns the state unchanged.
The mask `0xeff00` of the source agrees with `0xff00` on every 16-bit PC. -/
theorem interrupt_spec (state : i8080_state_t) (v : Nat) (hv : v < 256)
    (hpc : state.pc < 65536) :
    (state.i = 1 →
      i8080_interrupt state v =
        { state with
          mem := fun k =>
            if k = (state.sp : Int) - 2 then state.pc % 256
            else if k = (state.sp : Int) - 1 then (state.pc &&& 0xff00) >>> 8
            else state.mem k
          i := 0
          sp := (state.sp + 65534) % 65536
          pc := 8 * v }) ∧
    (state.i = 0 → i8080_interrupt state v = state) := by
  constructor
  · intro hi
    have hne : state.i ≠ 0 := by omega
    unfold i8080_interrupt
    rw [if_pos hne]
    refine state_ext _ _ rfl rfl rfl rfl rfl rfl rfl rfl ?_ ?_ rfl ?_ rfl rfl rfl rfl
    · show to_uint16 ((state.sp : Int) - 2) = (state.sp + 65534) % 65536
      unfold to_uint16
      omega
    · show (v % 256 * 8) % 65536 = 8 * v
      omega
    · funext k
      show mem_write (mem_write state.mem ((state.sp : Int) - 1) ((state.pc &&& 0xeff00) >>> 8))
        ((state.sp : Int) - 2) ((state.pc &&& 0x00ff) >>> 0) k = _
      unfold mem_write
      rw [pc_high_byte, pc_low_byte, pc_ff00_byte _ hpc]
      have : state.pc / 256 % 256 = state.pc / 256 := by omega
      rw [this]
  · intro hi
    unfold i8080_interrupt
    rw [if_neg (by omega)]

theorem interrupt_spec_witness :
    (2 : Nat) < 256 ∧ demo_irq.pc < 65536 ∧ demo_irq.i = 1 ∧
    i8080_interrupt demo_irq 2 =
      { demo_irq with
        mem := fun k =>
          if k = (demo_irq.sp : Int) - 2 then demo_irq.pc % 256
          else if k = (demo_irq.sp : Int) - 1 then (demo_irq.pc &&& 0xff00) >>> 8
          else demo_irq.mem k
        i := 0
        sp := (demo_irq.sp + 65534) % 65536
        pc := 8 * 2 } ∧
    (i8080_interrupt demo_irq 2).mem 0x23ff = 0x12 ∧
    (i8080_interrupt demo_irq 2).mem 0x23fe = 0x34 ∧
    (i8080_interrupt demo_irq 2).sp = 0x23fe ∧
    (i8080_interrupt demo_irq 2).i = 0 ∧
    (i8080_interrupt demo_irq 2).pc = 0x0010 :=
  ⟨by decide, by decide, rfl,
    (interrupt_spec demo_irq 2 (by decide) (by decide)).1 rfl,
    by decide, by decide, by decide, by decide, by decide⟩

/-! ## PUSH PSW / POP PSW -/

/-- C3: PUSH PSW (0xF5), for every A and every combination of the five flags, stores A
at `mem[SP-1]` and at `mem[SP-2]` the byte whose bits 7..0 are S, Z, 0, AC, 0, P, 1, CY
(bit 1 is 1, bits 3 and 5 are 0), then sets SP to SP-2 and PC to PC+1 (both modulo
2^16). -/
theorem push_psw_spec {H : Type} (m : machine_t H)
    (hh : m.state.halt_req = 0) (ht : m.instr_func = none)
    (hpc : (m.state.pc : Int) < m.state.mem_sizeb - 1)
    (hop : m.state.mem m.state.pc = 0xf5)
    (ha : m.state.a < 256) (hcy : m.state.f.cy < 2) (hp : m.state.f.p < 2)
    (hac : m.state.f.ac < 2) (hz : m.state.f.z < 2) (hs : m.state.f.s < 2) :
    (i8080_exec m).1 = 0 ∧
    (i8080_exec m).2.state.mem ((m.state.sp : Int) - 1) = m.state.a ∧
    (i8080_exec m).2.state.mem ((m.state.sp : Int) - 2) =
      128 * m.state.f.s + 64 * m.state.f.z + 32 * 0 + 16 * m.state.f.ac + 8 * 0 +
        4 * m.state.f.p + 2 * 1 + m.state.f.cy ∧
    (i8080_exec m).2.state.mem ((m.state.sp : Int) - 2) / 2 % 2 = 1 ∧
    (i8080_exec m).2.state.mem ((m.state.sp : Int) - 2) / 8 % 2 = 0 ∧
    (i8080_exec m).2.state.mem ((m.state.sp : Int) - 2) / 32 % 2 = 0 ∧
    (i8080_exec m).2.state.sp = (m.state.sp + 65534) % 65536 ∧
    (i8080_exec m).2.state.pc = (m.state.pc + 1) % 65536 := by
  rw [exec_push_psw m hh ht hpc hop]
  have hm := push_psw_mem m.state hcy hp hac hz hs
  refine ⟨rfl, ?_, ?_, ?_, ?_, ?_, push_psw_sp m.state, rfl⟩
  · show (push_psw m.state).mem _ = _
    rw [hm, if_neg (by omega), if_pos rfl]
    omega
  all_goals
    show _ = _
    simp only [hm, if_true]
    omega

theorem push_psw_spec_witness :
    demo_push_psw.state.halt_req = 0 ∧ demo_push_psw.instr_func = none ∧
    (demo_push_psw.state.pc : Int) < demo_push_psw.state.mem_sizeb - 1 ∧
    demo_push_psw.state.mem demo_push_psw.state.pc = 0xf5 ∧
    demo_push_psw.state.a < 256 ∧ demo_push_psw.state.f.cy < 2 ∧
    demo_push_psw.state.f.p < 2 ∧ demo_push_psw.state.f.ac < 2 ∧
    demo_push_psw.state.f.z < 2 ∧ demo_push_psw.state.f.s < 2 ∧
    ((i8080_exec demo_push_psw).1 = 0 ∧
     (i8080_exec demo_push_psw).2.state.mem ((demo_push_psw.state.sp : Int) - 1) =
       demo_push_psw.state.a ∧
     (i8080_exec demo_push_psw).2.state.mem ((demo_push_psw.state.sp : Int) - 2) =
       128 * demo_push_psw.state.f.s + 64 * demo_push_psw.state.f.z + 32 * 0 +
         16 * demo_push_psw.state.f.ac + 8 * 0 + 4 * demo_push_psw.state.f.p + 2 * 1 +
         demo_push_psw.state.f.cy ∧
     (i8080_exec demo_push_psw).2.state.mem ((demo_push_psw.state.sp : Int) - 2) / 2 % 2 = 1 ∧
     (i8080_exec demo_push_psw).2.state.mem ((demo_push_psw.state.sp : Int) - 2) / 8 % 2 = 0 ∧
     (i8080_exec demo_push_psw).2.state.mem ((demo_push_psw.state.sp : Int) - 2) / 32 % 2 = 0 ∧
     (i8080_exec demo_push_psw).2.state.sp = (demo_push_psw.state.sp + 65534) % 65536 ∧
     (i8080_exec demo_push_psw).2.state.pc = (demo_push_psw.state.pc + 1) % 65536) ∧
    (i8080_exec demo_push_psw).2.state.mem 0x23ff = 0xa5 ∧
    (i8080_exec demo_push_psw).2.state.mem 0x23fe = 0x87 :=
  ⟨rfl, rfl, by decide, by decide, by decide, by decide, by decide, by decide, by decide,
    by decide,
    push_psw_spec demo_push_psw rfl rfl (by decide) (by decide) (by decide) (by decide)
      (by decide) (by decide) (by decide) (by decide),
    by decide, by decide⟩

/-- C4: PUSH PSW / POP PSW round trip. Let `m` execute PUSH PSW with `2 ≤ SP`, and let
`m1` be any machine that has the memory and the stack pointer left by that step
(whatever its A and flags) and whose next opcode is POP PSW (so the two stack bytes did
not overwrite it). Then the POP yields the pushed A and the five pushed flags and
restores SP to its value before the PUSH. -/
theorem push_pop_psw_roundtrip {H : Type} (m m1 : machine_t H)
    (hh : m.state.halt_req = 0) (ht : m.instr_func = none)
    (hpc : (m.state.pc : Int) < m.state.mem_sizeb - 1)
    (hop : m.state.mem m.state.pc = 0xf5)
    (ha : m.state.a < 256) (hcy : m.state.f.cy < 2) (hp : m.state.f.p < 2)
    (hac : m.state.f.ac < 2) (hz : m.state.f.z < 2) (hs : m.state.f.s < 2)
    (hsp2 : 2 ≤ m.state.sp) (hsp : m.state.sp < 65536)
    (hmem : m1.state.mem = (i8080_exec m).2.state.mem)
    (hsp1 : m1.state.sp = (i8080_exec m).2.state.sp)
    (hh1 : m1.state.halt_req = 0) (ht1 : m1.instr_func = none)
    (hpc1 : (m1.state.pc : Int) < m1.state.mem_sizeb - 1)
    (hop1 : m1.state.mem m1.state.pc = 0xf1) :
    (i8080_exec m1).1 = 0 ∧
    (i8080_exec m1).2.state.a = m.state.a ∧
    (i8080_exec m1).2.state.f.s = m.state.f.s ∧
    (i8080_exec m1).2.state.f.z = m.state.f.z ∧
    (i8080_exec m1).2.state.f.p = m.state.f.p ∧
    (i8080_exec m1).2.state.f.cy = m.state.f.cy ∧
    (i8080_exec m1).2.state.f.ac = m.state.f.ac ∧
    (i8080_exec m1).2.state.sp = m.state.sp := by
  have hm := push_psw_mem m.state hcy hp hac hz hs
  have hS := push_psw_sp m.state
  rw [exec_push_psw m hh ht hpc hop] at hmem hsp1
  have hmem' : m1.state.mem = (push_psw m.state).mem := hmem
  have hsp1' : m1.state.sp = (push_psw m.state).sp := hsp1
  rw [hS] at hsp1'
  have hidx1 : ((m1.state.sp : Int) + 1) = (m.state.sp : Int) - 1 := by omega
  have hidx0 : ((m1.state.sp : Nat) : Int) = (m.state.sp : Int) - 2 := by omega
  have hA : m1.state.mem ((m.state.sp : Int) - 1) = m.state.a := by
    rw [hmem', hm, if_neg (by omega), if_pos rfl]
    omega
  have hF : m1.state.mem ((m.state.sp : Int) - 2) =
      128 * m.state.f.s + 64 * m.state.f.z + 16 * m.state.f.ac + 4 * m.state.f.p + 2 +
        m.state.f.cy := by
    rw [hmem', hm, if_pos rfl]
  rw [exec_pop_psw m1 hh1 ht1 hpc1 hop1]
  refine ⟨rfl, ?_, ?_, ?_, ?_, ?_, ?_, ?_⟩
  · show m1.state.mem ((m1.state.sp : Int) + 1) % 256 = _
    rw [hidx1, hA]
    omega
  · show ((m1.state.mem (m1.state.sp : Int) >>> 7) &&& 1) % 2 = _
    rw [hidx0, hF, Nat.and_one_is_mod, Nat.shiftRight_eq_div_pow]
    omega
  · show ((m1.state.mem (m1.state.sp : Int) >>> 6) &&& 1) % 2 = _
    rw [hidx0, hF, Nat.and_one_is_mod, Nat.shiftRight_eq_div_pow]
    omega
  · show ((m1.state.mem (m1.state.sp : Int) >>> 2) &&& 1) % 2 = _
    rw [hidx0, hF, Nat.and_one_is_mod, Nat.shiftRight_eq_div_pow]
    omega
  · show ((m1.state.mem (m1.state.sp : Int) >>> 0) &&& 1) % 2 = _
    rw [hidx0, hF, Nat.and_one_is_mod, Nat.shiftRight_eq_div_pow]
    omega
  · show ((m1.state.mem (m1.state.sp : Int) >>> 4) &&& 1) % 2 = _
    rw [hidx0, hF, Nat.and_one_is_mod, Nat.shiftRight_eq_div_pow]
    omega
  · show (m1.state.sp + 2) % 65536 = _
    omega

theorem push_pop_psw_roundtrip_witness :
    demo_push_psw.state.halt_req = 0 ∧ demo_push_psw.instr_func = none ∧
    (demo_push_psw.state.pc : Int) < demo_push_psw.state.mem_sizeb - 1 ∧
    demo_push_psw.state.mem demo_push_psw.state.pc = 0xf5 ∧
    demo_push_psw.state.a < 256 ∧ demo_push_psw.state.f.cy < 2 ∧
    demo_push_psw.state.f.p < 2 ∧ demo_push_psw.state.f.ac < 2 ∧
    demo_push_psw.state.f.z < 2 ∧ demo_push_psw.state.f.s < 2 ∧
    2 ≤ demo_push_psw.state.sp ∧ demo_push_psw.state.sp < 65536 ∧
    demo_pop_psw.state.mem = (i8080_exec demo_push_psw).2.state.mem ∧
    demo_pop_psw.state.sp = (i8080_exec demo_push_psw).2.state.sp ∧
    demo_pop_psw.state.halt_req = 0 ∧ demo_pop_psw.instr_func = none ∧
    (demo_pop_psw.state.pc : Int) < demo_pop_psw.state.mem_sizeb - 1 ∧
    demo_pop_psw.state.mem demo_pop_psw.state.pc = 0xf1 ∧
    demo_pop_psw.state.a = 0x3c ∧ demo_pop_psw.state.f.s = 0 ∧
    ((i8080_exec demo_pop_psw).1 = 0 ∧
     (i8080_exec demo_pop_psw).2.state.a = demo_push_psw.state.a ∧
     (i8080_exec demo_pop_psw).2.state.f.s = demo_push_psw.state.f.s ∧
     (i8080_exec demo_pop_psw).2.state.f.z = demo_push_psw.state.f.z ∧
     (i8080_exec demo_pop_psw).2.state.f.p = demo_push_psw.state.f.p ∧
     (i8080_exec demo_pop_psw).2.state.f.cy = demo_push_psw.state.f.cy ∧
     (i8080_exec demo_pop_psw).2.state.f.ac = demo_push_psw.state.f.ac ∧
     (i8080_exec demo_pop_psw).2.state.sp = demo_push_psw.state.sp) :=
  ⟨rfl, rfl, by decide, by decide, by decide, by decide, by decide, by decide, by decide,
    by decide, by decide, by decide, rfl, rfl, by decide, rfl, by decide, by decide,
    rfl, rfl,
    push_pop_psw_roundtrip demo_push_psw demo_pop_psw rfl rfl (by decide) (by decide)
      (by decide) (by decide) (by decide) (by decide) (by decide) (by decide) (by decide)
      (by decide) rfl rfl (by decide) rfl (by decide) (by decide)⟩

/-! ## DAA -/

/-- C5 (evaluation at the failing input): `add b` with A = 0x99, B = 0x66 leaves
A = 0xFF, CY = 0, AC = 0; the following `daa` leaves A = 0x05 and CY = 0, whereas the
packed-BCD sum of 99 and 66 is 0x65 with decimal carry 1. The low adjust is computed as
`(a + 6) & 0xff`, so its carry out of bit 7 is lost before the high adjust. -/
theorem daa_after_add_99_66 :
    (i8080_exec demo_daa).1 = 0 ∧
    (i8080_exec demo_daa).2.state.a = 0xff ∧
    (i8080_exec demo_daa).2.state.f.cy = 0 ∧
    (i8080_exec demo_daa).2.state.f.ac = 0 ∧
    (i8080_exec demo_daa).2.state.mem (i8080_exec demo_daa).2.state.pc = 0x27 ∧
    (i8080_exec (i8080_exec demo_daa).2).1 = 0 ∧
    (i8080_exec (i8080_exec demo_daa).2).2.state.a = 0x05 ∧
    (i8080_exec (i8080_exec demo_daa).2).2.state.f.cy = 0 ∧
    bcd_value 0x99 + bcd_value 0x66 + 0 = 165 ∧
    bcd_encode (165 % 100) = 0x65 := by
  decide!

/-! ## ADD / ADC / SUB / SBB / CMP -/

/-- C6: ADD, ADC, SUB and SBB in register, memory and immediate form, with `src` the
operand and `c` the incoming CY for ADC/SBB: the additions set `A' = (A + src + c) mod
256` and `CY' = 1` iff `A + src + c > 255`; the subtractions set `A' = (A - src - c) mod
256` and `CY' = 1` iff `A < src + c`; in all cases `S'` is bit 7 of `A'` and `Z' = 1` iff
`A' = 0`. -/
theorem add_sub_result_carry {H : Type} (m : machine_t H)
    (hh : m.state.halt_req = 0) (ht : m.instr_func = none)
    (hpc : (m.state.pc : Int) < m.state.mem_sizeb - 1)
    (ha : m.state.a < 256) (hv : alu_operand m.state < 256) (hc : m.state.f.cy < 2) :
    ((m.state.mem m.state.pc / 8 = 0x10 ∨ m.state.mem m.state.pc = 0xc6) →
      (i8080_exec m).1 = 0 ∧
      (i8080_exec m).2.state.a = (m.state.a + alu_operand m.state) % 256 ∧
      (i8080_exec m).2.state.f.cy =
        (if m.state.a + alu_operand m.state > 255 then 1 else 0) ∧
      (i8080_exec m).2.state.f.s = (i8080_exec m).2.state.a / 128 ∧
      (i8080_exec m).2.state.f.z = (if (i8080_exec m).2.state.a = 0 then 1 else 0)) ∧
    ((m.state.mem m.state.pc / 8 = 0x11 ∨ m.state.mem m.state.pc = 0xce) →
      (i8080_exec m).1 = 0 ∧
      (i8080_exec m).2.state.a = (m.state.a + alu_operand m.state + m.state.f.cy) % 256 ∧
      (i8080_exec m).2.state.f.cy =
        (if m.state.a + alu_operand m.state + m.state.f.cy > 255 then 1 else 0) ∧
      (i8080_exec m).2.state.f.s = (i8080_exec m).2.state.a / 128 ∧
      (i8080_exec m).2.state.f.z = (if (i8080_exec m).2.state.a = 0 then 1 else 0)) ∧
    ((m.state.mem m.state.pc / 8 = 0x12 ∨ m.state.mem m.state.pc = 0xd6) →
      (i8080_exec m).1 = 0 ∧
      ((i8080_exec m).2.state.a : Int) = ((m.state.a : Int) - alu_operand m.state) % 256 ∧
      (i8080_exec m).2.state.f.cy = (if m.state.a < alu_operand m.state then 1 else 0) ∧
      (i8080_exec m).2.state.f.s = (i8080_exec m).2.state.a / 128 ∧
      (i8080_exec m).2.state.f.z = (if (i8080_exec m).2.state.a = 0 then 1 else 0)) ∧
    ((m.state.mem m.state.pc / 8 = 0x13 ∨ m.state.mem m.state.pc = 0xde) →
      (i8080_exec m).1 = 0 ∧
      ((i8080_exec m).2.state.a : Int) =
        ((m.state.a : Int) - alu_operand m.state - m.state.f.cy) % 256 ∧
      (i8080_exec m).2.state.f.cy =
        (if m.state.a < alu_operand m.state + m.state.f.cy then 1 else 0) ∧
      (i8080_exec m).2.state.f.s = (i8080_exec m).2.state.a / 128 ∧
      (i8080_exec m).2.state.f.z = (if (i8080_exec m).2.state.a = 0 then 1 else 0)) := by
  refine ⟨?_, ?_, ?_, ?_⟩
  · intro hop
    obtain ⟨h1, h2, h3, h4, -, -⟩ :=
      add_with_fields m.state (alu_operand m.state) (alu_length m.state) ha hv
    rw [exec_add m hh ht hpc hop]
    refine ⟨rfl, h1, ?_, ?_, ?_⟩
    · show (add_with m.state _ _).f.cy = _
      rw [h2]; split <;> omega
    · show (add_with m.state _ _).f.s = (add_with m.state _ _).a / 128
      rw [h3, h1]
    · show (add_with m.state _ _).f.z = if (add_with m.state _ _).a = 0 then 1 else 0
      rw [h4, h1]
  · intro hop
    obtain ⟨h1, h2, h3, h4, -, -⟩ :=
      adc_with_fields m.state (alu_operand m.state) (alu_length m.state) ha hv hc
    rw [exec_adc m hh ht hpc hop]
    refine ⟨rfl, h1, ?_, ?_, ?_⟩
    · show (adc_with m.state _ _).f.cy = _
      rw [h2]; split <;> omega
    · show (adc_with m.state _ _).f.s = (adc_with m.state _ _).a / 128
      rw [h3, h1]
    · show (adc_with m.state _ _).f.z = if (adc_with m.state _ _).a = 0 then 1 else 0
      rw [h4, h1]
  · intro hop
    obtain ⟨h1, h2, h3, h4, -, -⟩ :=
      sub_with_fields m.state (alu_operand m.state) (alu_length m.state) ha hv
    rw [exec_sub m hh ht hpc hop]
    refine ⟨rfl, ?_, h2, ?_, ?_⟩
    · show ((sub_with m.state _ _).a : Int) = _
      rw [h1]; omega
    · show (sub_with m.state _ _).f.s = (sub_with m.state _ _).a / 128
      rw [h3, h1]
    · show (sub_with m.state _ _).f.z = if (sub_with m.state _ _).a = 0 then 1 else 0
      rw [h4, h1]
  · intro hop
    obtain ⟨h1, h2, h3, h4, -, -⟩ :=
      sbb_with_fields m.state (alu_operand m.state) (sbb_flag_src m.state)
        (alu_length m.state) ha hv hc
    rw [exec_sbb m hh ht hpc hop]
    refine ⟨rfl, ?_, h2, ?_, ?_⟩
    · show ((sbb_with m.state _ _ _).a : Int) = _
      rw [h1]; omega
    · show (sbb_with m.state _ _ _).f.s = (sbb_with m.state _ _ _).a / 128
      rw [h3, h1]
    · show (sbb_with m.state _ _ _).f.z = if (sbb_with m.state _ _ _).a = 0 then 1 else 0
      rw [h4, h1]

theorem add_sub_result_carry_witness :
    demo_add_carry.state.halt_req = 0 ∧ demo_add_carry.instr_func = none ∧
    (demo_add_carry.state.pc : Int) < demo_add_carry.state.mem_sizeb - 1 ∧
    demo_add_carry.state.a < 256 ∧ alu_operand demo_add_carry.state < 256 ∧
    demo_add_carry.state.f.cy < 2 ∧
    (demo_add_carry.state.mem demo_add_carry.state.pc / 8 = 0x10 ∨
      demo_add_carry.state.mem demo_add_carry.state.pc = 0xc6) ∧
    ((i8080_exec demo_add_carry).1 = 0 ∧
     (i8080_exec demo_add_carry).2.state.a =
       (demo_add_carry.state.a + alu_operand demo_add_carry.state) % 256 ∧
     (i8080_exec demo_add_carry).2.state.f.cy =
       (if demo_add_carry.state.a + alu_operand demo_add_carry.state > 255 then 1 else 0) ∧
     (i8080_exec demo_add_carry).2.state.f.s = (i8080_exec demo_add_carry).2.state.a / 128 ∧
     (i8080_exec demo_add_carry).2.state.f.z =
       (if (i8080_exec demo_add_carry).2.state.a = 0 then 1 else 0)) ∧
    (i8080_exec demo_add_carry).2.state.a = 0x10 ∧
    (i8080_exec demo_add_carry).2.state.f.cy = 1 :=
  ⟨rfl, rfl, by decide, by decide, by decide, by decide, Or.inl (by decide),
    (add_sub_result_carry demo_add_carry rfl rfl (by decide) (by decide) (by decide)
      (by decide)).1 (Or.inl (by decide)),
    by decide!, by decide!⟩

/-- C7: without incoming carry, AC is the true low-nibble carry or borrow: after
ADD/ADI, `AC = 1` iff `(A & 0xF) + (src & 0xF) > 0xF`; after SUB/SUI/CMP/CPI, `AC = 1`
iff `(A & 0xF) < (src & 0xF)`. -/
theorem add_sub_aux_carry {H : Type} (m : machine_t H)
    (hh : m.state.halt_req = 0) (ht : m.instr_func = none)
    (hpc : (m.state.pc : Int) < m.state.mem_sizeb - 1)
    (ha : m.state.a < 256) (hv : alu_operand m.state < 256) :
    ((m.state.mem m.state.pc / 8 = 0x10 ∨ m.state.mem m.state.pc = 0xc6) →
      (i8080_exec m).2.state.f.ac =
        (if (m.state.a &&& 0xf) + (alu_operand m.state &&& 0xf) > 0xf then 1 else 0)) ∧
    ((m.state.mem m.state.pc / 8 = 0x12 ∨ m.state.mem m.state.pc = 0xd6) →
      (i8080_exec m).2.state.f.ac =
        (if (m.state.a &&& 0xf) < (alu_operand m.state &&& 0xf) then 1 else 0)) ∧
    ((m.state.mem m.state.pc / 8 = 0x17 ∨ m.state.mem m.state.pc = 0xfe) →
      (i8080_exec m).2.state.f.ac =
        (if (m.state.a &&& 0xf) < (alu_operand m.state &&& 0xf) then 1 else 0)) := by
  rw [land_0f, land_0f]
  refine ⟨?_, ?_, ?_⟩
  · intro hop
    obtain ⟨-, -, -, -, h5, -⟩ :=
      add_with_fields m.state (alu_operand m.state) (alu_length m.state) ha hv
    rw [exec_add m hh ht hpc hop]
    show (add_with m.state _ _).f.ac = _
    rw [h5]; split <;> omega
  · intro hop
    obtain ⟨-, -, -, -, h5, -⟩ :=
      sub_with_fields m.state (alu_operand m.state) (alu_length m.state) ha hv
    rw [exec_sub m hh ht hpc hop]
    exact h5
  · intro hop
    obtain ⟨-, -, -, -, h5, -⟩ :=
      sub_with_fields m.state (alu_operand m.state) (alu_length m.state) ha hv
    rw [exec_cmp m hh ht hpc hop]
    exact h5

theorem add_sub_aux_carry_witness :
    demo_add.state.halt_req = 0 ∧ demo_add.instr_func = none ∧
    (demo_add.state.pc : Int) < demo_add.state.mem_sizeb - 1 ∧
    demo_add.state.a < 256 ∧ alu_operand demo_add.state < 256 ∧
    (demo_add.state.mem demo_add.state.pc / 8 = 0x10 ∨
      demo_add.state.mem demo_add.state.pc = 0xc6) ∧
    (i8080_exec demo_add).2.state.f.ac =
      (if (demo_add.state.a &&& 0xf) + (alu_operand demo_add.state &&& 0xf) > 0xf
        then 1 else 0) ∧
    demo_add.state.a = 0x0f ∧ alu_operand demo_add.state = 0x01 ∧
    (i8080_exec demo_add).2.state.a = 0x10 ∧
    (i8080_exec demo_add).2.state.f.ac = 1 ∧
    (i8080_exec demo_add).2.state.f.cy = 0 :=
  ⟨rfl, rfl, by decide, by decide, by decide, Or.inl (by decide),
    (add_sub_aux_carry demo_add rfl rfl (by decide) (by decide) (by decide)).1
      (Or.inl (by decide)),
    rfl, by decide, by decide!, by decide!, by decide!⟩

/-- C8 (evaluation at failing inputs): with incoming CY = 1, `adc b` on A = 0x00,
B = 0x0F gives A = 0x10 with AC = 0 although the low nibbles carry (0 + 15 + 1 > 15);
`sbb b` on the same operands gives AC = 0 although the low nibble borrows (0 < 15 + 1);
`sbi 0x00` on A = 0x00 gives A = 0xFF with AC = 0 although the low nibble borrows
(0 < 0 + 1). -/
theorem adc_sbb_aux_carry_at_nibble_edge :
    (i8080_exec demo_adc).1 = 0 ∧
    (i8080_exec demo_adc).2.state.a = 0x10 ∧
    (i8080_exec demo_adc).2.state.f.ac = 0 ∧
    (demo_adc.state.a &&& 0xf) + (alu_operand demo_adc.state &&& 0xf) +
      demo_adc.state.f.cy > 0xf ∧
    (i8080_exec demo_sbb).1 = 0 ∧
    (i8080_exec demo_sbb).2.state.a = 0xf0 ∧
    (i8080_exec demo_sbb).2.state.f.ac = 0 ∧
    (demo_sbb.state.a &&& 0xf) < (alu_operand demo_sbb.state &&& 0xf) +
      demo_sbb.state.f.cy ∧
    (i8080_exec demo_sbi).1 = 0 ∧
    (i8080_exec demo_sbi).2.state.a = 0xff ∧
    (i8080_exec demo_sbi).2.state.f.ac = 0 ∧
    (demo_sbi.state.a &&& 0xf) < (alu_operand demo_sbi.state &&& 0xf) +
      demo_sbi.state.f.cy := by
  decide!

/-! ## INR / DCR -/

/-- C9: INR and DCR on the location with selector `ddd` (register or memory at HL)
holding `v`: INR stores `(v + 1) mod 256` and DCR stores `(v - 1) mod 256`; S, Z and P
are those of the stored result; `AC = 1` iff `v & 0xF = 0xF` (INR) or `v & 0xF = 0`
(DCR); CY is unchanged. INR of 0xFF gives 0x00 with Z = 1, S = 0, AC = 1; DCR of 0x00
gives 0xFF with S = 1, Z = 0, AC = 1. -/
theorem inr_dcr_spec {H : Type} (m : machine_t H)
    (hh : m.state.halt_req = 0) (ht : m.instr_func = none)
    (hpc : (m.state.pc : Int) < m.state.mem_sizeb - 1)
    (hv : reg_sel m.state (m.state.mem m.state.pc / 8) < 256) (hc : m.state.f.cy < 2) :
    ((m.state.mem m.state.pc < 64 ∧ m.state.mem m.state.pc % 8 = 4) →
      (i8080_exec m).1 = 0 ∧
      reg_sel (i8080_exec m).2.state (m.state.mem m.state.pc / 8) =
        (reg_sel m.state (m.state.mem m.state.pc / 8) + 1) % 256 ∧
      (i8080_exec m).2.state.f.s =
        reg_sel (i8080_exec m).2.state (m.state.mem m.state.pc / 8) / 128 ∧
      (i8080_exec m).2.state.f.z =
        (if reg_sel (i8080_exec m).2.state (m.state.mem m.state.pc / 8) = 0 then 1 else 0) ∧
      (i8080_exec m).2.state.f.p =
        (if popcount8 (reg_sel (i8080_exec m).2.state (m.state.mem m.state.pc / 8)) % 2 = 0
          then 1 else 0) ∧
      (i8080_exec m).2.state.f.ac =
        (if reg_sel m.state (m.state.mem m.state.pc / 8) &&& 0xf = 0xf then 1 else 0) ∧
      (i8080_exec m).2.state.f.cy = m.state.f.cy ∧
      (reg_sel m.state (m.state.mem m.state.pc / 8) = 0xff →
        reg_sel (i8080_exec m).2.state (m.state.mem m.state.pc / 8) = 0x00 ∧
        (i8080_exec m).2.state.f.z = 1 ∧ (i8080_exec m).2.state.f.s = 0 ∧
        (i8080_exec m).2.state.f.ac = 1)) ∧
    ((m.state.mem m.state.pc < 64 ∧ m.state.mem m.state.pc % 8 = 5) →
      (i8080_exec m).1 = 0 ∧
      (reg_sel (i8080_exec m).2.state (m.state.mem m.state.pc / 8) : Int) =
        ((reg_sel m.state (m.state.mem m.state.pc / 8) : Int) - 1) % 256 ∧
      (i8080_exec m).2.state.f.s =
        reg_sel (i8080_exec m).2.state (m.state.mem m.state.pc / 8) / 128 ∧
      (i8080_exec m).2.state.f.z =
        (if reg_sel (i8080_exec m).2.state (m.state.mem m.state.pc / 8) = 0 then 1 else 0) ∧
      (i8080_exec m).2.state.f.p =
        (if popcount8 (reg_sel (i8080_exec m).2.state (m.state.mem m.state.pc / 8)) % 2 = 0
          then 1 else 0) ∧
      (i8080_exec m).2.state.f.ac =
        (if reg_sel m.state (m.state.mem m.state.pc / 8) &&& 0xf = 0 then 1 else 0) ∧
      (i8080_exec m).2.state.f.cy = m.state.f.cy ∧
      (reg_sel m.state (m.state.mem m.state.pc / 8) = 0x00 →
        reg_sel (i8080_exec m).2.state (m.state.mem m.state.pc / 8) = 0xff ∧
        (i8080_exec m).2.state.f.s = 1 ∧ (i8080_exec m).2.state.f.z = 0 ∧
        (i8080_exec m).2.state.f.ac = 1)) := by
  rw [land_0f]
  constructor
  · intro hop
    have hk : m.state.mem m.state.pc / 8 < 8 := by omega
    obtain ⟨h1, h2, h3, h4, h5, h6⟩ :=
      inr_with_fields m.state (m.state.mem m.state.pc / 8) hk hv hc
    rw [exec_inr m hh ht hpc hop]
    refine ⟨rfl, h1, ?_, ?_, ?_, h5, h6, ?_⟩
    · show (inr_with m.state _).f.s = reg_sel (inr_with m.state _) _ / 128
      rw [h2, h1]
    · show (inr_with m.state _).f.z = if reg_sel (inr_with m.state _) _ = 0 then 1 else 0
      rw [h3, h1]
    · show (inr_with m.state _).f.p =
        if popcount8 (reg_sel (inr_with m.state _) _) % 2 = 0 then 1 else 0
      rw [h4, h1]
    · intro hff
      show reg_sel (inr_with m.state _) _ = 0 ∧ (inr_with m.state _).f.z = 1 ∧
        (inr_with m.state _).f.s = 0 ∧ (inr_with m.state _).f.ac = 1
      rw [h1, h2, h3, h5, hff]
      decide
  · intro hop
    have hk : m.state.mem m.state.pc / 8 < 8 := by omega
    obtain ⟨h1, h2, h3, h4, h5, h6⟩ :=
      dcr_with_fields m.state (m.state.mem m.state.pc / 8) hk hc
    rw [exec_dcr m hh ht hpc hop]
    refine ⟨rfl, ?_, ?_, ?_, ?_, h5, h6, ?_⟩
    · show (reg_sel (dcr_with m.state _) _ : Int) = _
      rw [h1]; omega
    · show (dcr_with m.state _).f.s = reg_sel (dcr_with m.state _) _ / 128
      rw [h2, h1]
    · show (dcr_with m.state _).f.z = if reg_sel (dcr_with m.state _) _ = 0 then 1 else 0
      rw [h3, h1]
    · show (dcr_with m.state _).f.p =
        if popcount8 (reg_sel (dcr_with m.state _) _) % 2 = 0 then 1 else 0
      rw [h4, h1]
    · intro hff
      show reg_sel (dcr_with m.state _) _ = 0xff ∧ (dcr_with m.state _).f.s = 1 ∧
        (dcr_with m.state _).f.z = 0 ∧ (dcr_with m.state _).f.ac = 1
      rw [h1, h2, h3, h5, hff]
      decide

theorem inr_dcr_spec_witness :
    demo_inr.state.halt_req = 0 ∧ demo_inr.instr_func = none ∧
    (demo_inr.state.pc : Int) < demo_inr.state.mem_sizeb - 1 ∧
    reg_sel demo_inr.state (demo_inr.state.mem demo_inr.state.pc / 8) < 256 ∧
    demo_inr.state.f.cy < 2 ∧
    (demo_inr.state.mem demo_inr.state.pc < 64 ∧ demo_inr.state.mem demo_inr.state.pc % 8 = 4) ∧
    reg_sel demo_inr.state (demo_inr.state.mem demo_inr.state.pc / 8) = 0xff ∧
    (reg_sel (i8080_exec demo_inr).2.state (demo_inr.state.mem demo_inr.state.pc / 8) = 0x00 ∧
     (i8080_exec demo_inr).2.state.f.z = 1 ∧ (i8080_exec demo_inr).2.state.f.s = 0 ∧
     (i8080_exec demo_inr).2.state.f.ac = 1) ∧
    (i8080_exec demo_inr).2.state.b = 0x00 ∧
    (i8080_exec demo_inr).2.state.f.cy = 1 :=
  ⟨rfl, rfl, by decide, by decide, by decide, by decide, by decide,
    ((inr_dcr_spec demo_inr rfl rfl (by decide) (by decide) (by decide)).1
      (by decide)).2.2.2.2.2.2.2 (by decide),
    by decide!, by decide!⟩

/-! ## CMP -/

/-- C10: CMP r, CMP M and CPI change nothing but the flags and PC (A, the other
registers, SP and memory are unchanged); the five flags are those SUB/SUI produces on the
same A and operand (machine `m2`, any SUB-class opcode); and afterwards `Z = 1` iff
`A = src` and `CY = 1` iff `A < src`. -/
theorem cmp_spec {H : Type} (m m2 : machine_t H)
    (hh : m.state.halt_req = 0) (ht : m.instr_func = none)
    (hpc : (m.state.pc : Int) < m.state.mem_sizeb - 1)
    (hop : m.state.mem m.state.pc / 8 = 0x17 ∨ m.state.mem m.state.pc = 0xfe)
    (ha : m.state.a < 256) (hv : alu_operand m.state < 256)
    (hh2 : m2.state.halt_req = 0) (ht2 : m2.instr_func = none)
    (hpc2 : (m2.state.pc : Int) < m2.state.mem_sizeb - 1)
    (hop2 : m2.state.mem m2.state.pc / 8 = 0x12 ∨ m2.state.mem m2.state.pc = 0xd6)
    (ha2 : m2.state.a = m.state.a) (hv2 : alu_operand m2.state = alu_operand m.state) :
    (i8080_exec m).1 = 0 ∧
    (i8080_exec m).2 =
      { m with state := { m.state with
          f := (i8080_exec m).2.state.f
          pc := (m.state.pc + alu_length m.state) % 65536 } } ∧
    (i8080_exec m).2.state.f = (i8080_exec m2).2.state.f ∧
    ((i8080_exec m).2.state.f.z = 1 ↔ m.state.a = alu_operand m.state) ∧
    ((i8080_exec m).2.state.f.cy = 1 ↔ m.state.a < alu_operand m.state) := by
  obtain ⟨-, h2, -, h4, -, -⟩ :=
    sub_with_fields m.state (alu_operand m.state) (alu_length m.state) ha hv
  rw [exec_cmp m hh ht hpc hop, exec_sub m2 hh2 ht2 hpc2 hop2, hv2]
  refine ⟨rfl, rfl, ?_, ?_, ?_⟩
  · show (i8080_update_flags m.state
        (to_uint16 ((m.state.a : Int) - alu_operand m.state)) m.state.a
        (alu_operand m.state)).f =
      (i8080_update_flags m2.state
        (to_uint16 ((m2.state.a : Int) - alu_operand m.state)) m2.state.a
        (alu_operand m.state)).f
    rw [ha2]
    rfl
  · show (sub_with m.state (alu_operand m.state) (alu_length m.state)).f.z = 1 ↔ _
    rw [h4]
    split <;> omega
  · show (sub_with m.state (alu_operand m.state) (alu_length m.state)).f.cy = 1 ↔ _
    rw [h2]
    split <;> omega

theorem cmp_spec_witness :
    demo_cmp.state.halt_req = 0 ∧ demo_cmp.instr_func = none ∧
    (demo_cmp.state.pc : Int) < demo_cmp.state.mem_sizeb - 1 ∧
    (demo_cmp.state.mem demo_cmp.state.pc / 8 = 0x17 ∨
      demo_cmp.state.mem demo_cmp.state.pc = 0xfe) ∧
    demo_cmp.state.a < 256 ∧ alu_operand demo_cmp.state < 256 ∧
    demo_sub.state.halt_req = 0 ∧ demo_sub.instr_func = none ∧
    (demo_sub.state.pc : Int) < demo_sub.state.mem_sizeb - 1 ∧
    (demo_sub.state.mem demo_sub.state.pc / 8 = 0x12 ∨
      demo_sub.state.mem demo_sub.state.pc = 0xd6) ∧
    demo_sub.state.a = demo_cmp.state.a ∧
    alu_operand demo_sub.state = alu_operand demo_cmp.state ∧
    ((i8080_exec demo_cmp).1 = 0 ∧
     (i8080_exec demo_cmp).2 =
       { demo_cmp with state := { demo_cmp.state with
           f := (i8080_exec demo_cmp).2.state.f
           pc := (demo_cmp.state.pc + alu_length demo_cmp.state) % 65536 } } ∧
     (i8080_exec demo_cmp).2.state.f = (i8080_exec demo_sub).2.state.f ∧
     ((i8080_exec demo_cmp).2.state.f.z = 1 ↔ demo_cmp.state.a = alu_operand demo_cmp.state) ∧
     ((i8080_exec demo_cmp).2.state.f.cy = 1 ↔
       demo_cmp.state.a < alu_operand demo_cmp.state)) ∧
    (i8080_exec demo_cmp).2.state.a = 0x05 ∧
    (i8080_exec demo_cmp).2.state.f.cy = 1 ∧
    (i8080_exec demo_cmp).2.state.f.z = 0 :=
  ⟨rfl, rfl, by decide, Or.inl (by decide), by decide, by decide,
    rfl, rfl, by decide, Or.inl (by decide), rfl, by decide,
    cmp_spec demo_cmp demo_sub rfl rfl (by decide) (Or.inl (by decide)) (by decide)
      (by decide) rfl rfl (by decide) (Or.inl (by decide)) rfl (by decide),
    by decide!, by decide!, by decide!⟩

/-! ## ANA / XRA / ORA -/

theorem ana_regform (st : i8080_state_t) (k : Nat) (hk : k < 8) (hk6 : k ≠ 6)
    (hop : st.mem st.pc = 0xa0 + k) : ana st = ana_with st (reg_sel st k) 1 := by
  unfold ana
  rw [hop]
  interval_cases k <;> first | rfl | exact absurd rfl hk6

theorem xra_regform (st : i8080_state_t) (k : Nat) (hk : k < 8) (hk6 : k ≠ 6)
    (hop : st.mem st.pc = 0xa8 + k) : xra st = xra_with st (reg_sel st k) 1 := by
  unfold xra
  rw [hop]
  interval_cases k <;> first | rfl | exact absurd rfl hk6

theorem ora_regform (st : i8080_state_t) (k : Nat) (hk : k < 8) (hk6 : k ≠ 6)
    (hop : st.mem st.pc = 0xb0 + k) : ora st = ora_with st (reg_sel st k) 1 := by
  unfold ora
  rw [hop]
  interval_cases k <;> first | rfl | exact absurd rfl hk6

/-- One step on an `ana r` or `ana m` opcode (`0xa0..0xa7`). -/
theorem exec_ana {H : Type} (m : machine_t H) (hh : m.state.halt_req = 0)
    (ht : m.instr_func = none) (hpc : (m.state.pc : Int) < m.state.mem_sizeb - 1)
    (hop : m.state.mem m.state.pc / 8 = 0x14) :
    i8080_exec m =
      (0, { m with state := ana_with m.state (alu_operand m.state) (alu_length m.state) }) := by
  rw [exec_no_trap m hh ht hpc]
  rcases alu_opcode_cases _ 0xa0 0xe6 rfl (Or.inl hop) with h | h | ⟨k, hk, hk6, h⟩
  · omega
  · have h1 : alu_operand m.state = m.state.mem (reg_pair m.state.h m.state.l) := by
      unfold alu_operand; rw [h]; rfl
    have h2 : alu_length m.state = 1 := by unfold alu_length; rw [h]; rfl
    rw [h, h1, h2]; rfl
  · have h1 : alu_operand m.state = reg_sel m.state k := by
      unfold alu_operand; rw [h]
      interval_cases k <;> rfl
    have h2 : alu_length m.state = 1 := by
      unfold alu_length; rw [h]
      interval_cases k <;> rfl
    rw [h1, h2, ← ana_regform m.state k hk hk6 h, h]
    interval_cases k <;> first | rfl | exact absurd rfl hk6

/-- One step on `ani` (`0xe6`). -/
theorem exec_ani {H : Type} (m : machine_t H) (hh : m.state.halt_req = 0)
    (ht : m.instr_func = none) (hpc : (m.state.pc : Int) < m.state.mem_sizeb - 1)
    (hop : m.state.mem m.state.pc = 0xe6) :
    i8080_exec m = (0, { m with state := ani m.state }) := by
  rw [exec_no_trap m hh ht hpc, hop]
  rfl


/-- One step on an `xra` opcode (`0xa8..0xaf`, `0xee`). -/
theorem exec_xra {H : Type} (m : machine_t H) (hh : m.state.halt_req = 0)
    (ht : m.instr_func = none) (hpc : (m.state.pc : Int) < m.state.mem_sizeb - 1)
    (hop : m.state.mem m.state.pc / 8 = 0x15 ∨ m.state.mem m.state.pc = 0xee) :
    i8080_exec m =
      (0, { m with state := xra_with m.state (alu_operand m.state) (alu_length m.state) }) := by
  rw [exec_no_trap m hh ht hpc]
  rcases alu_opcode_cases _ 0xa8 0xee rfl hop with h | h | ⟨k, hk, hk6, h⟩
  · have h1 : alu_operand m.state = m.state.mem ((m.state.pc : Int) + 1) := by
      unfold alu_operand; rw [h]; rfl
    have h2 : alu_length m.state = 2 := by unfold alu_length; rw [h]; rfl
    rw [h, h1, h2]; rfl
  · have h1 : alu_operand m.state = m.state.mem (reg_pair m.state.h m.state.l) := by
      unfold alu_operand; rw [h]; rfl
    have h2 : alu_length m.state = 1 := by unfold alu_length; rw [h]; rfl
    rw [h, h1, h2]; rfl
  · have h1 : alu_operand m.state = reg_sel m.state k := by
      unfold alu_operand; rw [h]
      interval_cases k <;> rfl
    have h2 : alu_length m.state = 1 := by
      unfold alu_length; rw [h]
      interval_cases k <;> rfl
    rw [h1, h2, ← xra_regform m.state k hk hk6 h, h]
    interval_cases k <;> first | rfl | exact absurd rfl hk6

/-- One step on an `ora` opcode (`0xb0..0xb7`, `0xf6`). -/
theorem exec_ora {H : Type} (m : machine_t H) (hh : m.state.halt_req = 0)
    (ht : m.instr_func = none) (hpc : (m.state.pc : Int) < m.state.mem_sizeb - 1)
    (hop : m.state.mem m.state.pc / 8 = 0x16 ∨ m.state.mem m.state.pc = 0xf6) :
    i8080_exec m =
      (0, { m with state := ora_with m.state (alu_operand m.state) (alu_length m.state) }) := by
  rw [exec_no_trap m hh ht hpc]
  rcases alu_opcode_cases _ 0xb0 0xf6 rfl hop with h | h | ⟨k, hk, hk6, h⟩
  · have h1 : alu_operand m.state = m.state.mem ((m.state.pc : Int) + 1) := by
      unfold alu_operand; rw [h]; rfl
    have h2 : alu_length m.state = 2 := by unfold alu_length; rw [h]; rfl
    rw [h, h1, h2]; rfl
  · have h1 : alu_operand m.state = m.state.mem (reg_pair m.state.h m.state.l) := by
      unfold alu_operand; rw [h]; rfl
    have h2 : alu_length m.state = 1 := by unfold alu_length; rw [h]; rfl
    rw [h, h1, h2]; rfl
  · have h1 : alu_operand m.state = reg_sel m.state k := by
      unfold alu_operand; rw [h]
      interval_cases k <;> rfl
    have h2 : alu_length m.state = 1 := by
      unfold alu_length; rw [h]
      interval_cases k <;> rfl
    rw [h1, h2, ← ora_regform m.state k hk hk6 h, h]
    interval_cases k <;> first | rfl | exact absurd rfl hk6

theorem logic_result_fields (st : i8080_state_t) (r : Nat) (d s : Int) (hr : r < 256) :
    ((r % 65536) &&& 0xff) % 256 = r ∧
    (i8080_update_flags st (r % 65536) d s).f.s = r / 128 ∧
    (i8080_update_flags st (r % 65536) d s).f.z = (if r = 0 then 1 else 0) ∧
    (i8080_update_flags st (r % 65536) d s).f.p = (if popcount8 r % 2 = 0 then 1 else 0) := by
  have h1 : r % 65536 = r := by omega
  have h2 : r % 256 = r := by omega
  refine ⟨?_, ?_, ?_, ?_⟩
  · rw [h1, land_ff]; omega
  · rw [h1, update_flags_s]; omega
  · rw [h1, update_flags_z, h2]
  · rw [h1, update_flags_p, h2]


theorem ana_with_fields (st : i8080_state_t) (v n : Nat) (hv : v < 256) :
    (ana_with st v n).a = st.a &&& v ∧
    (ana_with st v n).f.s = (st.a &&& v) / 128 ∧
    (ana_with st v n).f.z = (if st.a &&& v = 0 then 1 else 0) ∧
    (ana_with st v n).f.p = (if popcount8 (st.a &&& v) % 2 = 0 then 1 else 0) ∧
    (ana_with st v n).f.cy = 0 := by
  obtain ⟨h1, h2, h3, h4⟩ := logic_result_fields st (st.a &&& v) st.a v
    (Nat.and_lt_two_pow _ (show _ < 2 ^ 8 from hv))
  exact ⟨h1, h2, h3, h4, rfl⟩

theorem ani_fields (st : i8080_state_t) (hv : st.mem ((st.pc : Int) + 1) < 256) :
    (ani st).a = st.a &&& st.mem ((st.pc : Int) + 1) ∧
    (ani st).f.s = (st.a &&& st.mem ((st.pc : Int) + 1)) / 128 ∧
    (ani st).f.z = (if st.a &&& st.mem ((st.pc : Int) + 1) = 0 then 1 else 0) ∧
    (ani st).f.p = (if popcount8 (st.a &&& st.mem ((st.pc : Int) + 1)) % 2 = 0 then 1 else 0) ∧
    (ani st).f.cy = 0 ∧ (ani st).f.ac = 0 := by
  obtain ⟨h1, h2, h3, h4⟩ := logic_result_fields st (st.a &&& st.mem ((st.pc : Int) + 1))
    st.a (st.mem ((st.pc : Int) + 1)) (Nat.and_lt_two_pow _ (show _ < 2 ^ 8 from hv))
  exact ⟨h1, h2, h3, h4, rfl, rfl⟩

theorem xra_with_fields (st : i8080_state_t) (v n : Nat) (ha : st.a < 256) (hv : v < 256) :
    (xra_with st v n).a = st.a ^^^ v ∧
    (xra_with st v n).f.s = (st.a ^^^ v) / 128 ∧
    (xra_with st v n).f.z = (if st.a ^^^ v = 0 then 1 else 0) ∧
    (xra_with st v n).f.p = (if popcount8 (st.a ^^^ v) % 2 = 0 then 1 else 0) ∧
    (xra_with st v n).f.cy = 0 ∧ (xra_with st v n).f.ac = 0 := by
  obtain ⟨h1, h2, h3, h4⟩ := logic_result_fields st (st.a ^^^ v) st.a v
    (Nat.xor_lt_two_pow (show _ < 2 ^ 8 from ha) (show _ < 2 ^ 8 from hv))
  exact ⟨h1, h2, h3, h4, rfl, rfl⟩

theorem ora_with_fields (st : i8080_state_t) (v n : Nat) (ha : st.a < 256) (hv : v < 256) :
    (ora_with st v n).a = st.a ||| v ∧
    (ora_with st v n).f.s = (st.a ||| v) / 128 ∧
    (ora_with st v n).f.z = (if st.a ||| v = 0 then 1 else 0) ∧
    (ora_with st v n).f.p = (if popcount8 (st.a ||| v) % 2 = 0 then 1 else 0) ∧
    (ora_with st v n).f.cy = 0 ∧ (ora_with st v n).f.ac = 0 := by
  obtain ⟨h1, h2, h3, h4⟩ := logic_result_fields st (st.a ||| v) st.a v
    (Nat.or_lt_two_pow (show _ < 2 ^ 8 from ha) (show _ < 2 ^ 8 from hv))
  exact ⟨h1, h2, h3, h4, rfl, rfl⟩

/-- C11: ANA/ANI, XRA/XRI and ORA/ORI set A to the bitwise AND, XOR, OR of A and the
operand, set S, Z and P from the new A and clear CY; XRA, XRI, ORA, ORI and ANI also
clear AC. `xra a` gives A = 0, Z = 1, S = 0, P = 1, CY = 0, AC = 0. -/
theorem logical_ops_spec {H : Type} (m : machine_t H)
    (hh : m.state.halt_req = 0) (ht : m.instr_func = none)
    (hpc : (m.state.pc : Int) < m.state.mem_sizeb - 1)
    (ha : m.state.a < 256) (hv : alu_operand m.state < 256) :
    ((m.state.mem m.state.pc / 8 = 0x14 ∨ m.state.mem m.state.pc = 0xe6) →
      (i8080_exec m).1 = 0 ∧
      (i8080_exec m).2.state.a = m.state.a &&& alu_operand m.state ∧
      (i8080_exec m).2.state.f.s = (i8080_exec m).2.state.a / 128 ∧
      (i8080_exec m).2.state.f.z = (if (i8080_exec m).2.state.a = 0 then 1 else 0) ∧
      (i8080_exec m).2.state.f.p =
        (if popcount8 (i8080_exec m).2.state.a % 2 = 0 then 1 else 0) ∧
      (i8080_exec m).2.state.f.cy = 0 ∧
      (m.state.mem m.state.pc = 0xe6 → (i8080_exec m).2.state.f.ac = 0)) ∧
    ((m.state.mem m.state.pc / 8 = 0x15 ∨ m.state.mem m.state.pc = 0xee) →
      (i8080_exec m).1 = 0 ∧
      (i8080_exec m).2.state.a = m.state.a ^^^ alu_operand m.state ∧
      (i8080_exec m).2.state.f.s = (i8080_exec m).2.state.a / 128 ∧
      (i8080_exec m).2.state.f.z = (if (i8080_exec m).2.state.a = 0 then 1 else 0) ∧
      (i8080_exec m).2.state.f.p =
        (if popcount8 (i8080_exec m).2.state.a % 2 = 0 then 1 else 0) ∧
      (i8080_exec m).2.state.f.cy = 0 ∧
      (i8080_exec m).2.state.f.ac = 0) ∧
    ((m.state.mem m.state.pc / 8 = 0x16 ∨ m.state.mem m.state.pc = 0xf6) →
      (i8080_exec m).1 = 0 ∧
      (i8080_exec m).2.state.a = m.state.a ||| alu_operand m.state ∧
      (i8080_exec m).2.state.f.s = (i8080_exec m).2.state.a / 128 ∧
      (i8080_exec m).2.state.f.z = (if (i8080_exec m).2.state.a = 0 then 1 else 0) ∧
      (i8080_exec m).2.state.f.p =
        (if popcount8 (i8080_exec m).2.state.a % 2 = 0 then 1 else 0) ∧
      (i8080_exec m).2.state.f.cy = 0 ∧
      (i8080_exec m).2.state.f.ac = 0) ∧
    (m.state.mem m.state.pc = 0xaf →
      (i8080_exec m).2.state.a = 0 ∧ (i8080_exec m).2.state.f.z = 1 ∧
      (i8080_exec m).2.state.f.s = 0 ∧ (i8080_exec m).2.state.f.p = 1 ∧
      (i8080_exec m).2.state.f.cy = 0 ∧ (i8080_exec m).2.state.f.ac = 0) := by
  have hX : (m.state.mem m.state.pc / 8 = 0x15 ∨ m.state.mem m.state.pc = 0xee) →
      (i8080_exec m).1 = 0 ∧
      (i8080_exec m).2.state.a = m.state.a ^^^ alu_operand m.state ∧
      (i8080_exec m).2.state.f.s = (i8080_exec m).2.state.a / 128 ∧
      (i8080_exec m).2.state.f.z = (if (i8080_exec m).2.state.a = 0 then 1 else 0) ∧
      (i8080_exec m).2.state.f.p =
        (if popcount8 (i8080_exec m).2.state.a % 2 = 0 then 1 else 0) ∧
      (i8080_exec m).2.state.f.cy = 0 ∧
      (i8080_exec m).2.state.f.ac = 0 := by
    intro hop
    obtain ⟨f1, f2, f3, f4, f5, f6⟩ :=
      xra_with_fields m.state (alu_operand m.state) (alu_length m.state) ha hv
    rw [exec_xra m hh ht hpc hop]
    refine ⟨rfl, f1, ?_, ?_, ?_, f5, f6⟩
    · show (xra_with m.state _ _).f.s = (xra_with m.state _ _).a / 128
      rw [f2, f1]
    · show (xra_with m.state _ _).f.z = if (xra_with m.state _ _).a = 0 then 1 else 0
      rw [f3, f1]
    · show (xra_with m.state _ _).f.p =
        if popcount8 (xra_with m.state _ _).a % 2 = 0 then 1 else 0
      rw [f4, f1]
  refine ⟨?_, hX, ?_, ?_⟩
  · intro hop
    rcases hop with hop | hop
    · obtain ⟨f1, f2, f3, f4, f5⟩ :=
        ana_with_fields m.state (alu_operand m.state) (alu_length m.state) hv
      rw [exec_ana m hh ht hpc hop]
      refine ⟨rfl, f1, ?_, ?_, ?_, f5, ?_⟩
      · show (ana_with m.state _ _).f.s = (ana_with m.state _ _).a / 128
        rw [f2, f1]
      · show (ana_with m.state _ _).f.z = if (ana_with m.state _ _).a = 0 then 1 else 0
        rw [f3, f1]
      · show (ana_with m.state _ _).f.p =
          if popcount8 (ana_with m.state _ _).a % 2 = 0 then 1 else 0
        rw [f4, f1]
      · intro h6
        omega
    · have hv1 : alu_operand m.state = m.state.mem ((m.state.pc : Int) + 1) := by
        unfold alu_operand; rw [hop]; rfl
      rw [hv1] at hv
      obtain ⟨f1, f2, f3, f4, f5, f6⟩ := ani_fields m.state hv
      rw [exec_ani m hh ht hpc hop, hv1]
      refine ⟨rfl, f1, ?_, ?_, ?_, f5, fun _ => f6⟩
      · show (ani m.state).f.s = (ani m.state).a / 128
        rw [f2, f1]
      · show (ani m.state).f.z = if (ani m.state).a = 0 then 1 else 0
        rw [f3, f1]
      · show (ani m.state).f.p = if popcount8 (ani m.state).a % 2 = 0 then 1 else 0
        rw [f4, f1]
  · intro hop
    obtain ⟨f1, f2, f3, f4, f5, f6⟩ :=
      ora_with_fields m.state (alu_operand m.state) (alu_length m.state) ha hv
    rw [exec_ora m hh ht hpc hop]
    refine ⟨rfl, f1, ?_, ?_, ?_, f5, f6⟩
    · show (ora_with m.state _ _).f.s = (ora_with m.state _ _).a / 128
      rw [f2, f1]
    · show (ora_with m.state _ _).f.z = if (ora_with m.state _ _).a = 0 then 1 else 0
      rw [f3, f1]
    · show (ora_with m.state _ _).f.p =
        if popcount8 (ora_with m.state _ _).a % 2 = 0 then 1 else 0
      rw [f4, f1]
  · intro hop
    have hv1 : alu_operand m.state = m.state.a := by
      unfold alu_operand; rw [hop]; rfl
    obtain ⟨-, e1, e2, e3, e4, e5, e6⟩ := hX (Or.inl (by omega))
    rw [hv1, Nat.xor_self] at e1
    rw [e1] at e2 e3 e4
    exact ⟨e1, e3, e2, e4, e5, e6⟩

theorem logical_ops_spec_witness :
    demo_xra.state.halt_req = 0 ∧ demo_xra.instr_func = none ∧
    (demo_xra.state.pc : Int) < demo_xra.state.mem_sizeb - 1 ∧
    demo_xra.state.a < 256 ∧ alu_operand demo_xra.state < 256 ∧
    demo_xra.state.mem demo_xra.state.pc = 0xaf ∧
    ((i8080_exec demo_xra).2.state.a = 0 ∧ (i8080_exec demo_xra).2.state.f.z = 1 ∧
     (i8080_exec demo_xra).2.state.f.s = 0 ∧ (i8080_exec demo_xra).2.state.f.p = 1 ∧
     (i8080_exec demo_xra).2.state.f.cy = 0 ∧ (i8080_exec demo_xra).2.state.f.ac = 0) :=
  ⟨rfl, rfl, by decide, by decide, by decide, by decide,
    (logical_ops_spec demo_xra rfl rfl (by decide) (by decide) (by decide)).2.2.2
      (by decide)⟩


/-! ## Parity -/

theorem to_int8_mod (v : Nat) : to_int8 ((v % 256 : Nat) : Int) = to_int8 (v : Int) := by
  unfold to_int8
  have : (((v % 256 : Nat) : Int)) % 256 = (v : Int) % 256 := by omega
  rw [this]

theorem parity_mod (v : Nat) : i8080_parity ((v % 256 : Nat) : Int) = i8080_parity (v : Int) := by
  unfold i8080_parity
  rw [to_int8_mod]

/-- C12: for every result `r` passed to `i8080_update_flags`, `P = 1` iff the number of
set bits of `r & 0xFF` is even (and `P = 0` otherwise); `i8080_parity (v) = 1` iff
`popcount (v & 0xFF)` is even, for every `v`, the bytes with bit 7 set (negative as
`int8_t`) included. -/
theorem parity_flag_spec (st : i8080_state_t) (r v : Nat) (d s : Int) :
    ((i8080_update_flags st r d s).f.p = 1 ↔ popcount8 (r &&& 0xff) % 2 = 0) ∧
    ((i8080_update_flags st r d s).f.p = 0 ↔ popcount8 (r &&& 0xff) % 2 = 1) ∧
    (i8080_parity (v : Int) = 1 ↔ popcount8 (v &&& 0xff) % 2 = 0) ∧
    (i8080_parity (v : Int) = 0 ↔ popcount8 (v &&& 0xff) % 2 = 1) ∧
    (i8080_update_flags st r d s).f.p = i8080_parity ((r &&& 0xff : Nat) : Int) := by
  have hp : ∀ w : Nat, i8080_parity (w : Int) =
      if popcount8 (w &&& 0xff) % 2 = 0 then 1 else 0 := by
    intro w
    rw [land_ff, ← parity_mod]
    exact parity_popcount (w % 256) (Nat.mod_lt _ (by decide))
  have hu : (i8080_update_flags st r d s).f.p =
      if popcount8 (r &&& 0xff) % 2 = 0 then 1 else 0 := by
    rw [update_flags_p, land_ff]
  refine ⟨?_, ?_, ?_, ?_, rfl⟩
  · rw [hu]; split <;> omega
  · rw [hu]; split <;> omega
  · rw [hp]; split <;> omega
  · rw [hp]; split <;> omega


/-! ## DAD -/

theorem reg_pair_eq (hi lo : Nat) : reg_pair hi lo = (hi % 256) * 256 + lo % 256 := by
  unfold reg_pair
  rw [Nat.shiftLeft_eq]
  have hlo : lo % 256 < 2 ^ 8 := Nat.mod_lt _ (by decide)
  have h := Nat.mul_add_lt_is_or hlo (hi % 256)
  have e : hi % 256 * 2 ^ 8 = 2 ^ 8 * (hi % 256) := Nat.mul_comm _ _
  rw [e, ← h]
  have : (2 : Nat) ^ 8 = 256 := by decide
  rw [this]
  omega

theorem word_high_byte (r : Nat) : ((r &&& 0xff00) >>> 8) % 256 = r / 256 % 256 := by
  rw [land_mask_hi]
  have h1 : (0xff00 : Nat) >>> 8 = 0xff := by decide
  rw [h1, land_ff, Nat.shiftRight_eq_div_pow]
  show r / 256 % 256 % 256 = r / 256 % 256
  omega

theorem exec_dad {H : Type} (m : machine_t H) (hh : m.state.halt_req = 0)
    (ht : m.instr_func = none) (hpc : (m.state.pc : Int) < m.state.mem_sizeb - 1)
    (hop : m.state.mem m.state.pc < 64 ∧ m.state.mem m.state.pc % 16 = 9) :
    i8080_exec m =
      (0, { m with
            state := dad m.state (reg_pair m.state.h m.state.l) (dad_operand m.state) }) := by
  rw [exec_no_trap m hh ht hpc]
  have hc : m.state.mem m.state.pc = 0x09 ∨ m.state.mem m.state.pc = 0x19 ∨
      m.state.mem m.state.pc = 0x29 ∨ m.state.mem m.state.pc = 0x39 := by omega
  rcases hc with h | h | h | h
  · have hd : dad_operand m.state = reg_pair m.state.b m.state.c := by
      unfold dad_operand; rw [h]
    rw [h, hd]; rfl
  · have hd : dad_operand m.state = reg_pair m.state.d m.state.e := by
      unfold dad_operand; rw [h]
    rw [h, hd]; rfl
  · have hd : dad_operand m.state = reg_pair m.state.h m.state.l := by
      unfold dad_operand; rw [h]
    rw [h, hd]; rfl
  · have hd : dad_operand m.state = m.state.sp := by
      unfold dad_operand; rw [h]
    rw [h, hd]; rfl

theorem dad_fields (st : i8080_state_t) (hl rp : Nat) (hr : hl + rp < 131072) :
    (dad st hl rp).h = (hl + rp) / 256 % 256 ∧
    (dad st hl rp).l = (hl + rp) % 256 ∧
    (dad st hl rp).f.cy = (if hl + rp ≥ 65536 then 1 else 0) := by
  refine ⟨?_, ?_, ?_⟩
  · show (((hl + rp) &&& 0xff00) >>> 8) % 256 = _
    exact word_high_byte _
  · show (((hl + rp) &&& 0x00ff) >>> 0) % 256 = _
    exact pc_low_byte _
  · show (if (hl + rp) &&& 0x10000 = 0 then 0 else 1) % 2 = _
    have h := land_two_pow (hl + rp) 16
    have e : (2 : Nat) ^ 16 = 65536 := by decide
    rw [e] at h
    have e2 : (0x10000 : Nat) = 65536 := rfl
    rw [e2, h]
    split <;> split <;> omega

theorem dad_frame (st : i8080_state_t) (hl rp : Nat) :
    dad st hl rp =
      { st with
        h := (dad st hl rp).h,
        l := (dad st hl rp).l,
        f := { st.f with cy := (dad st hl rp).f.cy },
        pc := (st.pc + 1) % 65536 } := rfl

theorem reg_pair_lt (hi lo : Nat) : reg_pair hi lo < 65536 := by
  unfold reg_pair
  exact Nat.mod_lt _ (by decide)

/-- C13: DAD rp for rp in {BC, DE, HL, SP} sets `HL' = (HL + rp) mod 2^16` and `CY' = 1`
iff `HL + rp ≥ 2^16`; S, Z, P, AC, SP, the other registers and memory are unchanged (the
resulting state is the input with only H, L, CY and PC replaced). DAD HL with
HL = 0x8000 gives HL = 0x0000 and CY = 1. -/
theorem dad_spec {H : Type} (m : machine_t H)
    (hh : m.state.halt_req = 0) (ht : m.instr_func = none)
    (hpc : (m.state.pc : Int) < m.state.mem_sizeb - 1)
    (hop : m.state.mem m.state.pc < 64 ∧ m.state.mem m.state.pc % 16 = 9)
    (hsp : m.state.sp < 65536) :
    (i8080_exec m).1 = 0 ∧
    reg_pair (i8080_exec m).2.state.h (i8080_exec m).2.state.l =
      (reg_pair m.state.h m.state.l + dad_operand m.state) % 65536 ∧
    (i8080_exec m).2.state.f.cy =
      (if reg_pair m.state.h m.state.l + dad_operand m.state ≥ 65536 then 1 else 0) ∧
    (i8080_exec m).2 =
      { m with state := { m.state with
          h := (i8080_exec m).2.state.h,
          l := (i8080_exec m).2.state.l,
          f := { m.state.f with cy := (i8080_exec m).2.state.f.cy },
          pc := (m.state.pc + 1) % 65536 } } ∧
    (m.state.mem m.state.pc = 0x29 → reg_pair m.state.h m.state.l = 0x8000 →
      reg_pair (i8080_exec m).2.state.h (i8080_exec m).2.state.l = 0x0000 ∧
      (i8080_exec m).2.state.f.cy = 1) := by
  have hhl := reg_pair_lt m.state.h m.state.l
  have hrp : dad_operand m.state < 65536 := by
    unfold dad_operand
    split
    · exact reg_pair_lt _ _
    · exact reg_pair_lt _ _
    · exact reg_pair_lt _ _
    · exact hsp
  obtain ⟨f1, f2, f3⟩ := dad_fields m.state (reg_pair m.state.h m.state.l)
    (dad_operand m.state) (by omega)
  have hpair : reg_pair (dad m.state (reg_pair m.state.h m.state.l) (dad_operand m.state)).h
      (dad m.state (reg_pair m.state.h m.state.l) (dad_operand m.state)).l =
      (reg_pair m.state.h m.state.l + dad_operand m.state) % 65536 := by
    rw [reg_pair_eq, f1, f2]
    omega
  rw [exec_dad m hh ht hpc hop]
  refine ⟨rfl, hpair, f3, ?_, ?_⟩
  · show ({ m with
        state := dad m.state (reg_pair m.state.h m.state.l) (dad_operand m.state) } :
        machine_t H) = _
    rw [dad_frame]
  · intro h29 h8000
    have hd : dad_operand m.state = reg_pair m.state.h m.state.l := by
      unfold dad_operand; rw [h29]
    refine ⟨?_, ?_⟩
    · show reg_pair (dad m.state (reg_pair m.state.h m.state.l) (dad_operand m.state)).h
        (dad m.state (reg_pair m.state.h m.state.l) (dad_operand m.state)).l = 0
      rw [hpair, hd, h8000]
    · show (dad m.state (reg_pair m.state.h m.state.l) (dad_operand m.state)).f.cy = 1
      rw [f3, hd, h8000]
      rfl

theorem dad_spec_witness :
    demo_dad.state.halt_req = 0 ∧ demo_dad.instr_func = none ∧
    (demo_dad.state.pc : Int) < demo_dad.state.mem_sizeb - 1 ∧
    (demo_dad.state.mem demo_dad.state.pc < 64 ∧ demo_dad.state.mem demo_dad.state.pc % 16 = 9) ∧
    demo_dad.state.sp < 65536 ∧
    demo_dad.state.mem demo_dad.state.pc = 0x29 ∧
    reg_pair demo_dad.state.h demo_dad.state.l = 0x8000 ∧
    (reg_pair (i8080_exec demo_dad).2.state.h (i8080_exec demo_dad).2.state.l = 0x0000 ∧
     (i8080_exec demo_dad).2.state.f.cy = 1) :=
  ⟨rfl, rfl, by decide, by decide, by decide, by decide, by decide,
    (dad_spec demo_dad rfl rfl (by decide) (by decide) (by decide)).2.2.2.2
      (by decide) (by decide)⟩


/-! ## Rotates -/

set_option maxRecDepth 100000 in
theorem rlc_bits : ∀ a : Nat, a < 256 →
    ((((a <<< 1) % 256) ||| ((a >>> 7) % 256)) % 256 = ((a <<< 1) ||| (a >>> 7)) &&& 0xff) ∧
    ((a >>> 7) % 256) % 2 = a / 128 % 2 := by
  decide!

set_option maxRecDepth 100000 in
theorem rrc_bits : ∀ a : Nat, a < 256 →
    ((((a >>> 1) % 256) ||| (((a &&& 1) % 256) <<< 7)) % 256 = (a >>> 1) ||| ((a &&& 1) <<< 7)) ∧
    ((a &&& 1) % 256) % 2 = a % 2 := by
  decide!

set_option maxRecDepth 100000 in
theorem ral_bits : ∀ a : Nat, a < 256 → ∀ cy : Nat, cy < 2 →
    (((a <<< 1) % 256) ||| cy) % 256 = ((a <<< 1) ||| cy) &&& 0xff := by
  decide!

set_option maxRecDepth 100000 in
theorem rar_bits : ∀ a : Nat, a < 256 → ∀ cy : Nat, cy < 2 →
    (((a >>> 1) % 256) ||| (cy <<< 7)) % 256 = (a >>> 1) ||| (cy <<< 7) := by
  decide!

theorem rotate_frame (st : i8080_state_t) :
    rlc st =
      { st with
        a := (rlc st).a,
        f := { st.f with cy := (rlc st).f.cy },
        pc := (st.pc + 1) % 65536 } ∧
    rrc st =
      { st with
        a := (rrc st).a,
        f := { st.f with cy := (rrc st).f.cy },
        pc := (st.pc + 1) % 65536 } ∧
    ral st =
      { st with
        a := (ral st).a,
        f := { st.f with cy := (ral st).f.cy },
        pc := (st.pc + 1) % 65536 } ∧
    rar st =
      { st with
        a := (rar st).a,
        f := { st.f with cy := (rar st).f.cy },
        pc := (st.pc + 1) % 65536 } :=
  ⟨rfl, rfl, rfl, rfl⟩

theorem exec_rotate {H : Type} (m : machine_t H) (hh : m.state.halt_req = 0)
    (ht : m.instr_func = none) (hpc : (m.state.pc : Int) < m.state.mem_sizeb - 1) :
    (m.state.mem m.state.pc = 0x07 → i8080_exec m = (0, { m with state := rlc m.state })) ∧
    (m.state.mem m.state.pc = 0x0f → i8080_exec m = (0, { m with state := rrc m.state })) ∧
    (m.state.mem m.state.pc = 0x17 → i8080_exec m = (0, { m with state := ral m.state })) ∧
    (m.state.mem m.state.pc = 0x1f → i8080_exec m = (0, { m with state := rar m.state })) := by
  rw [exec_no_trap m hh ht hpc]
  refine ⟨?_, ?_, ?_, ?_⟩ <;> intro h <;> rw [h] <;> rfl

/-- C14: for every A and CY, RLC sets `A' = ((A << 1) | (A >> 7)) & 0xFF` and CY' to
the old bit 7; RRC sets `A' = (A >> 1) | ((A & 1) << 7)` and CY' to the old bit 0; RAL
sets `A' = ((A << 1) | CY) & 0xFF` and CY' to the old bit 7; RAR sets
`A' = (A >> 1) | (CY << 7)` and CY' to the old bit 0. In each case the resulting state is
the input with only A, CY and PC replaced, so S, Z, P and AC are unchanged. -/
theorem rotate_spec {H : Type} (m : machine_t H)
    (hh : m.state.halt_req = 0) (ht : m.instr_func = none)
    (hpc : (m.state.pc : Int) < m.state.mem_sizeb - 1)
    (ha : m.state.a < 256) (hc : m.state.f.cy < 2) :
    (m.state.mem m.state.pc = 0x07 →
      (i8080_exec m).2.state.a = ((m.state.a <<< 1) ||| (m.state.a >>> 7)) &&& 0xff ∧
      (i8080_exec m).2.state.f.cy = m.state.a / 128 % 2) ∧
    (m.state.mem m.state.pc = 0x0f →
      (i8080_exec m).2.state.a = (m.state.a >>> 1) ||| ((m.state.a &&& 1) <<< 7) ∧
      (i8080_exec m).2.state.f.cy = m.state.a % 2) ∧
    (m.state.mem m.state.pc = 0x17 →
      (i8080_exec m).2.state.a = ((m.state.a <<< 1) ||| m.state.f.cy) &&& 0xff ∧
      (i8080_exec m).2.state.f.cy = m.state.a / 128 % 2) ∧
    (m.state.mem m.state.pc = 0x1f →
      (i8080_exec m).2.state.a = (m.state.a >>> 1) ||| (m.state.f.cy <<< 7) ∧
      (i8080_exec m).2.state.f.cy = m.state.a % 2) ∧
    ((m.state.mem m.state.pc = 0x07 ∨ m.state.mem m.state.pc = 0x0f ∨
      m.state.mem m.state.pc = 0x17 ∨ m.state.mem m.state.pc = 0x1f) →
      (i8080_exec m).1 = 0 ∧
      (i8080_exec m).2 =
        { m with state := { m.state with
            a := (i8080_exec m).2.state.a,
            f := { m.state.f with cy := (i8080_exec m).2.state.f.cy },
            pc := (m.state.pc + 1) % 65536 } } ∧
      (i8080_exec m).2.state.f.s = m.state.f.s ∧
      (i8080_exec m).2.state.f.z = m.state.f.z ∧
      (i8080_exec m).2.state.f.p = m.state.f.p ∧
      (i8080_exec m).2.state.f.ac = m.state.f.ac) := by
  obtain ⟨e1, e2, e3, e4⟩ := exec_rotate m hh ht hpc
  obtain ⟨r1, r2, r3, r4⟩ := rotate_frame m.state
  refine ⟨?_, ?_, ?_, ?_, ?_⟩
  · intro h
    rw [e1 h]
    exact ⟨(rlc_bits _ ha).1, (rlc_bits _ ha).2⟩
  · intro h
    rw [e2 h]
    exact ⟨(rrc_bits _ ha).1, (rrc_bits _ ha).2⟩
  · intro h
    rw [e3 h]
    exact ⟨ral_bits _ ha _ hc, (rlc_bits _ ha).2⟩
  · intro h
    rw [e4 h]
    exact ⟨rar_bits _ ha _ hc, (rrc_bits _ ha).2⟩
  · intro h
    rcases h with h | h | h | h
    · rw [e1 h]
      refine ⟨rfl, ?_, rfl, rfl, rfl, rfl⟩
      show ({ m with state := rlc m.state } : machine_t H) = _
      rw [r1]
    · rw [e2 h]
      refine ⟨rfl, ?_, rfl, rfl, rfl, rfl⟩
      show ({ m with state := rrc m.state } : machine_t H) = _
      rw [r2]
    · rw [e3 h]
      refine ⟨rfl, ?_, rfl, rfl, rfl, rfl⟩
      show ({ m with state := ral m.state } : machine_t H) = _
      rw [r3]
    · rw [e4 h]
      refine ⟨rfl, ?_, rfl, rfl, rfl, rfl⟩
      show ({ m with state := rar m.state } : machine_t H) = _
      rw [r4]

theorem rotate_spec_witness :
    demo_ral.state.halt_req = 0 ∧ demo_ral.instr_func = none ∧
    (demo_ral.state.pc : Int) < demo_ral.state.mem_sizeb - 1 ∧
    demo_ral.state.a < 256 ∧ demo_ral.state.f.cy < 2 ∧
    demo_ral.state.mem demo_ral.state.pc = 0x17 ∧
    ((i8080_exec demo_ral).2.state.a =
       ((demo_ral.state.a <<< 1) ||| demo_ral.state.f.cy) &&& 0xff ∧
     (i8080_exec demo_ral).2.state.f.cy = demo_ral.state.a / 128 % 2) ∧
    (i8080_exec demo_ral).2.state.a = 0x6a ∧
    (i8080_exec demo_ral).2.state.f.cy = 1 :=
  ⟨rfl, rfl, by decide, by decide, by decide, by decide,
    (rotate_spec demo_ral rfl rfl (by decide) (by decide) (by decide)).2.2.1 (by decide),
    by decide!, by decide!⟩

/-! ## Conditional jumps, calls and returns -/

theorem exec_jcc {H : Type} (m : machine_t H) (hh : m.state.halt_req = 0)
    (ht : m.instr_func = none) (hpc : (m.state.pc : Int) < m.state.mem_sizeb - 1)
    (k : Nat) (hk : k < 8) (hop : m.state.mem m.state.pc = 0xc2 + 8 * k) :
    (cc_holds m.state k → i8080_exec m = (0, { m with state := jmp m.state })) ∧
    (¬ cc_holds m.state k → i8080_exec m = (0, { m with state := pc_add m.state 3 })) := by
  rw [exec_no_trap m hh ht hpc, hop]
  interval_cases k <;> refine ⟨fun h => ?_, fun h => ?_⟩ <;> simp only [cc_holds] at h
  all_goals first
    | (show ((0 : Int), ({ m with state := jnz m.state } : machine_t H)) = _
       simp only [jnz, jmp]
       first | rw [if_pos h] | rw [if_neg h])
    | (show ((0 : Int), ({ m with state := jz m.state } : machine_t H)) = _
       simp only [jz, jmp]
       first | rw [if_pos h] | rw [if_neg h])
    | (show ((0 : Int), ({ m with state := jnc m.state } : machine_t H)) = _
       simp only [jnc, jmp]
       first | rw [if_pos h] | rw [if_neg h])
    | (show ((0 : Int), ({ m with state := jc m.state } : machine_t H)) = _
       simp only [jc, jmp]
       first | rw [if_pos h] | rw [if_neg h])
    | (show ((0 : Int), ({ m with state := jpo m.state } : machine_t H)) = _
       simp only [jpo, jmp]
       first | rw [if_pos h] | rw [if_neg h])
    | (show ((0 : Int), ({ m with state := jpe m.state } : machine_t H)) = _
       simp only [jpe, jmp]
       first | rw [if_pos h] | rw [if_neg h])
    | (show ((0 : Int), ({ m with state := jp m.state } : machine_t H)) = _
       simp only [jp, jmp]
       first | rw [if_pos h] | rw [if_neg h])
    | (show ((0 : Int), ({ m with state := jm m.state } : machine_t H)) = _
       simp only [jm, jmp]
       first | rw [if_pos h] | rw [if_neg h])

theorem exec_ccc {H : Type} (m : machine_t H) (hh : m.state.halt_req = 0)
    (ht : m.instr_func = none) (hpc : (m.state.pc : Int) < m.state.mem_sizeb - 1)
    (k : Nat) (hk : k < 8) (hop : m.state.mem m.state.pc = 0xc4 + 8 * k) :
    (cc_holds m.state k → i8080_exec m = (0, { m with state := call_imm m.state })) ∧
    (¬ cc_holds m.state k → i8080_exec m = (0, { m with state := pc_add m.state 3 })) := by
  rw [exec_no_trap m hh ht hpc, hop]
  interval_cases k <;> refine ⟨fun h => ?_, fun h => ?_⟩ <;> simp only [cc_holds] at h
  all_goals first
    | (show ((0 : Int), ({ m with state := cnz m.state } : machine_t H)) = _
       simp only [cnz, call_imm]
       first | rw [if_pos h] | rw [if_neg h])
    | (show ((0 : Int), ({ m with state := cz m.state } : machine_t H)) = _
       simp only [cz, call_imm]
       first | rw [if_pos h] | rw [if_neg h])
    | (show ((0 : Int), ({ m with state := cnc m.state } : machine_t H)) = _
       simp only [cnc, call_imm]
       first | rw [if_pos h] | rw [if_neg h])
    | (show ((0 : Int), ({ m with state := cc m.state } : machine_t H)) = _
       simp only [cc, call_imm]
       first | rw [if_pos h] | rw [if_neg h])
    | (show ((0 : Int), ({ m with state := cpo m.state } : machine_t H)) = _
       simp only [cpo, call_imm]
       first | rw [if_pos h] | rw [if_neg h])
    | (show ((0 : Int), ({ m with state := cpe m.state } : machine_t H)) = _
       simp only [cpe, call_imm]
       first | rw [if_pos h] | rw [if_neg h])
    | (show ((0 : Int), ({ m with state := cp m.state } : machine_t H)) = _
       simp only [cp, call_imm]
       first | rw [if_pos h] | rw [if_neg h])
    | (show ((0 : Int), ({ m with state := cm m.state } : machine_t H)) = _
       simp only [cm, call_imm]
       first | rw [if_pos h] | rw [if_neg h])

theorem exec_rcc {H : Type} (m : machine_t H) (hh : m.state.halt_req = 0)
    (ht : m.instr_func = none) (hpc : (m.state.pc : Int) < m.state.mem_sizeb - 1)
    (k : Nat) (hk : k < 8) (hop : m.state.mem m.state.pc = 0xc0 + 8 * k) :
    (cc_holds m.state k → i8080_exec m = (0, { m with state := ret m.state })) ∧
    (¬ cc_holds m.state k → i8080_exec m = (0, { m with state := pc_add m.state 1 })) := by
  rw [exec_no_trap m hh ht hpc, hop]
  interval_cases k <;> refine ⟨fun h => ?_, fun h => ?_⟩ <;> simp only [cc_holds] at h
  all_goals first
    | (show ((0 : Int), ({ m with state :=
          if m.state.f.z = 0 then ret m.state else pc_add m.state 1 } : machine_t H)) = _
       first | rw [if_pos h] | rw [if_neg h])
    | (show ((0 : Int), ({ m with state :=
          if m.state.f.z = 1 then ret m.state else pc_add m.state 1 } : machine_t H)) = _
       first | rw [if_pos h] | rw [if_neg h])
    | (show ((0 : Int), ({ m with state :=
          if m.state.f.cy = 0 then ret m.state else pc_add m.state 1 } : machine_t H)) = _
       first | rw [if_pos h] | rw [if_neg h])
    | (show ((0 : Int), ({ m with state :=
          if m.state.f.cy = 1 then ret m.state else pc_add m.state 1 } : machine_t H)) = _
       first | rw [if_pos h] | rw [if_neg h])
    | (show ((0 : Int), ({ m with state :=
          if m.state.f.p = 0 then ret m.state else pc_add m.state 1 } : machine_t H)) = _
       first | rw [if_pos h] | rw [if_neg h])
    | (show ((0 : Int), ({ m with state :=
          if m.state.f.p = 1 then ret m.state else pc_add m.state 1 } : machine_t H)) = _
       first | rw [if_pos h] | rw [if_neg h])
    | (show ((0 : Int), ({ m with state :=
          if m.state.f.s = 0 then ret m.state else pc_add m.state 1 } : machine_t H)) = _
       first | rw [if_pos h] | rw [if_neg h])
    | (show ((0 : Int), ({ m with state :=
          if m.state.f.s = 1 then ret m.state else pc_add m.state 1 } : machine_t H)) = _
       first | rw [if_pos h] | rw [if_neg h])

theorem exec_jmp_call_ret {H : Type} (m : machine_t H) (hh : m.state.halt_req = 0)
    (ht : m.instr_func = none) (hpc : (m.state.pc : Int) < m.state.mem_sizeb - 1) :
    (m.state.mem m.state.pc = 0xc3 → i8080_exec m = (0, { m with state := jmp m.state })) ∧
    (m.state.mem m.state.pc = 0xcd →
      i8080_exec m = (0, { m with state := call_imm m.state })) ∧
    (m.state.mem m.state.pc = 0xc9 → i8080_exec m = (0, { m with state := ret m.state })) := by
  rw [exec_no_trap m hh ht hpc]
  refine ⟨fun h => ?_, fun h => ?_, fun h => ?_⟩ <;> rw [h] <;> rfl

/-- C15: with `k` the condition number in bits 5..3 (0→NZ, 1→Z, 2→NC, 3→C, 4→PO, 5→PE,
6→P, 7→M; `cc_holds` is Z=0, Z=1, CY=0, CY=1, P=0, P=1, S=0, S=1), the conditional jump
`0xC2 + 8k`, call `0xC4 + 8k` and return `0xC0 + 8k` produce, when the condition holds,
exactly the machine that the bodies of JMP (`0xC3`), CALL (`0xCD`) and RET (`0xC9`)
produce from the same state, and when it does not hold the input machine with only PC
advanced (by 3, 3 and 1); the status is 0 in every case. -/
theorem condition_codes_spec {H : Type} (m : machine_t H)
    (hh : m.state.halt_req = 0) (ht : m.instr_func = none)
    (hpc : (m.state.pc : Int) < m.state.mem_sizeb - 1) (k : Nat) (hk : k < 8) :
    (m.state.mem m.state.pc = 0xc2 + 8 * k →
      (cc_holds m.state k → i8080_exec m = (0, { m with state := jmp m.state })) ∧
      (¬ cc_holds m.state k →
        i8080_exec m =
          (0, { m with state := { m.state with pc := (m.state.pc + 3) % 65536 } }))) ∧
    (m.state.mem m.state.pc = 0xc4 + 8 * k →
      (cc_holds m.state k → i8080_exec m = (0, { m with state := call_imm m.state })) ∧
      (¬ cc_holds m.state k →
        i8080_exec m =
          (0, { m with state := { m.state with pc := (m.state.pc + 3) % 65536 } }))) ∧
    (m.state.mem m.state.pc = 0xc0 + 8 * k →
      (cc_holds m.state k → i8080_exec m = (0, { m with state := ret m.state })) ∧
      (¬ cc_holds m.state k →
        i8080_exec m =
          (0, { m with state := { m.state with pc := (m.state.pc + 1) % 65536 } }))) ∧
    (m.state.mem m.state.pc = 0xc3 → i8080_exec m = (0, { m with state := jmp m.state })) ∧
    (m.state.mem m.state.pc = 0xcd →
      i8080_exec m = (0, { m with state := call_imm m.state })) ∧
    (m.state.mem m.state.pc = 0xc9 → i8080_exec m = (0, { m with state := ret m.state })) :=
  ⟨fun hop => exec_jcc m hh ht hpc k hk hop,
   fun hop => exec_ccc m hh ht hpc k hk hop,
   fun hop => exec_rcc m hh ht hpc k hk hop,
   exec_jmp_call_ret m hh ht hpc⟩

theorem condition_codes_spec_witness :
    demo_jpe.state.halt_req = 0 ∧ demo_jpe.instr_func = none ∧
    (demo_jpe.state.pc : Int) < demo_jpe.state.mem_sizeb - 1 ∧ 5 < 8 ∧
    demo_jpe.state.mem demo_jpe.state.pc = 0xc2 + 8 * 5 ∧
    cc_holds demo_jpe.state 5 ∧
    i8080_exec demo_jpe = (0, { demo_jpe with state := jmp demo_jpe.state }) ∧
    (i8080_exec demo_jpe).2.state.pc = 0x1234 ∧
    demo_rnc.state.halt_req = 0 ∧ demo_rnc.instr_func = none ∧
    (demo_rnc.state.pc : Int) < demo_rnc.state.mem_sizeb - 1 ∧ 2 < 8 ∧
    demo_rnc.state.mem demo_rnc.state.pc = 0xc0 + 8 * 2 ∧
    ¬ cc_holds demo_rnc.state 2 ∧
    i8080_exec demo_rnc =
      (0, { demo_rnc with
            state := { demo_rnc.state with pc := (demo_rnc.state.pc + 1) % 65536 } }) :=
  ⟨rfl, rfl, by decide, by decide, by decide, (rfl : (1 : Nat) = 1),
    ((condition_codes_spec demo_jpe rfl rfl (by decide) 5 (by decide)).1 (by decide)).1
      (rfl : (1 : Nat) = 1),
    by decide!,
    rfl, rfl, by decide, by decide, by decide,
    (by decide : ¬ ((1 : Nat) = 0)),
    ((condition_codes_spec demo_rnc rfl rfl (by decide) 2 (by decide)).2.2.1
      (by decide)).2 (by decide : ¬ ((1 : Nat) = 0))⟩


/-! ## CALL and RET -/

theorem call_frame (st : i8080_state_t) (addr : Nat) :
    call st addr =
      { st with
        mem := (call st addr).mem,
        sp := (call st addr).sp,
        pc := (call st addr).pc } := rfl

theorem imm16_lt (st : i8080_state_t) : imm16 st < 65536 := by
  unfold imm16
  exact Nat.mod_lt _ (by decide)

theorem movr2r_regform (st : i8080_state_t) (d s : Nat) (hd : d < 8) (hs : s < 8)
    (hd6 : d ≠ 6) (hs6 : s ≠ 6) (hop : st.mem st.pc = 0x40 + 8 * d + s) :
    movr2r st = pc_add (reg_store st d (reg_sel st s)) 1 := by
  unfold movr2r
  rw [hop]
  interval_cases d <;> interval_cases s <;>
    first | rfl | exact absurd rfl hd6 | exact absurd rfl hs6

theorem movm2r_regform (st : i8080_state_t) (d : Nat) (hd : d < 8) (hd6 : d ≠ 6)
    (hop : st.mem st.pc = 0x40 + 8 * d + 6) :
    movm2r st (reg_pair st.h st.l) = pc_add (reg_store st d (reg_sel st 6)) 1 := by
  unfold movm2r
  rw [hop]
  interval_cases d <;> first | rfl | exact absurd rfl hd6

theorem movr2m_regform (st : i8080_state_t) (s : Nat) (hs : s < 8) (hs6 : s ≠ 6)
    (hop : st.mem st.pc = 0x40 + 8 * 6 + s) :
    movr2m st (reg_pair st.h st.l) = pc_add (reg_store st 6 (reg_sel st s)) 1 := by
  unfold movr2m
  rw [hop]
  interval_cases s <;> first | rfl | exact absurd rfl hs6

theorem exec_mov {H : Type} (m : machine_t H) (hh : m.state.halt_req = 0)
    (ht : m.instr_func = none) (hpc : (m.state.pc : Int) < m.state.mem_sizeb - 1)
    (hop : 0x40 ≤ m.state.mem m.state.pc ∧ m.state.mem m.state.pc ≤ 0x7f ∧
      m.state.mem m.state.pc ≠ 0x76) :
    i8080_exec m =
      (0, { m with state :=
              pc_add (reg_store m.state (m.state.mem m.state.pc / 8 % 8)
                (reg_sel m.state (m.state.mem m.state.pc % 8))) 1 }) := by
  rw [exec_no_trap m hh ht hpc]
  obtain ⟨d, s, hd, hs, h⟩ : ∃ d s, d < 8 ∧ s < 8 ∧ m.state.mem m.state.pc = 0x40 + 8 * d + s :=
    ⟨m.state.mem m.state.pc / 8 % 8, m.state.mem m.state.pc % 8, by omega, by omega, by omega⟩
  have hq : m.state.mem m.state.pc / 8 % 8 = d := by omega
  have hr : m.state.mem m.state.pc % 8 = s := by omega
  rw [hq, hr]
  by_cases hd6 : d = 6
  · subst hd6
    have hs6 : s ≠ 6 := by omega
    rw [← movr2m_regform m.state s hs hs6 h, h]
    interval_cases s <;> first | rfl | exact absurd rfl hs6
  · by_cases hs6 : s = 6
    · subst hs6
      rw [← movm2r_regform m.state d hd hd6 h, h]
      interval_cases d <;> first | rfl | exact absurd rfl hd6
    · rw [← movr2r_regform m.state d s hd hs hd6 hs6 h, h]
      interval_cases d <;> interval_cases s <;>
        first | rfl | exact absurd rfl hd6 | exact absurd rfl hs6

theorem reg_store_other (st : i8080_state_t) (d j x n : Nat) (hd : d < 8) (hj : j < 8)
    (hjd : j ≠ d) (hj6 : j ≠ 6) :
    reg_sel (pc_add (reg_store st d x) n) j = reg_sel st j := by
  interval_cases d <;> interval_cases j <;>
    first | rfl | exact absurd rfl hjd | exact absurd rfl hj6

theorem reg_store_frame (st : i8080_state_t) (d x n : Nat) :
    (pc_add (reg_store st d x) n).sp = st.sp ∧
    (pc_add (reg_store st d x) n).pc = (st.pc + n) % 65536 ∧
    (pc_add (reg_store st d x) n).i = st.i ∧
    (pc_add (reg_store st d x) n).mem_sizeb = st.mem_sizeb ∧
    (pc_add (reg_store st d x) n).halt_req = st.halt_req := by
  unfold reg_store
  split <;> exact ⟨rfl, rfl, rfl, rfl, rfl⟩

theorem reg_store_mem (st : i8080_state_t) (d x n : Nat) :
    (d ≠ 6 → (pc_add (reg_store st d x) n).mem = st.mem) ∧
    (∀ k : Int, k ≠ reg_pair st.h st.l → (pc_add (reg_store st d x) n).mem k = st.mem k) := by
  refine ⟨fun hd => ?_, fun k hk => ?_⟩
  · unfold reg_store
    split <;> first | rfl | exact absurd rfl hd
  · unfold reg_store
    split <;> first
      | rfl
      | (show mem_write st.mem (reg_pair st.h st.l) x k = st.mem k
         unfold mem_write
         rw [if_neg hk])

/-- C17: for every opcode `01 ddd sss` in 0x40..0x7F other than 0x76, with the selector map
0→B, 1→C, 2→D, 3→E, 4→H, 5→L, 6→memory[HL], 7→A, one step returns status 0 and stores the
value named by `sss` in the location named by `ddd` (`reg_sel` reads `mem[HL]` for 6,
`reg_store` writes `mem[HL]` for 6), advances PC by 1, and leaves every other register, the
flags, SP, and every other memory byte unchanged. -/
theorem mov_spec {H : Type} (m : machine_t H)
    (hh : m.state.halt_req = 0) (ht : m.instr_func = none)
    (hpc : (m.state.pc : Int) < m.state.mem_sizeb - 1)
    (hop : 0x40 ≤ m.state.mem m.state.pc ∧ m.state.mem m.state.pc ≤ 0x7f ∧
      m.state.mem m.state.pc ≠ 0x76)
    (hv : reg_sel m.state (m.state.mem m.state.pc % 8) < 256) :
    (i8080_exec m).1 = 0 ∧
    (i8080_exec m).2 =
      { m with state :=
          pc_add (reg_store m.state (m.state.mem m.state.pc / 8 % 8)
            (reg_sel m.state (m.state.mem m.state.pc % 8))) 1 } ∧
    reg_sel (i8080_exec m).2.state (m.state.mem m.state.pc / 8 % 8) =
      reg_sel m.state (m.state.mem m.state.pc % 8) ∧
    (∀ j, j < 8 → j ≠ m.state.mem m.state.pc / 8 % 8 → j ≠ 6 →
      reg_sel (i8080_exec m).2.state j = reg_sel m.state j) ∧
    (i8080_exec m).2.state.f = m.state.f ∧
    (i8080_exec m).2.state.sp = m.state.sp ∧
    (i8080_exec m).2.state.pc = (m.state.pc + 1) % 65536 ∧
    (m.state.mem m.state.pc / 8 % 8 ≠ 6 → (i8080_exec m).2.state.mem = m.state.mem) ∧
    (∀ k : Int, k ≠ reg_pair m.state.h m.state.l →
      (i8080_exec m).2.state.mem k = m.state.mem k) := by
  have hd : m.state.mem m.state.pc / 8 % 8 < 8 := by omega
  rw [exec_mov m hh ht hpc hop]
  refine ⟨rfl, rfl, ?_, ?_, ?_, ?_, ?_, ?_, ?_⟩
  · show reg_sel (pc_add (reg_store m.state _ _) 1) _ = _
    rw [reg_sel_store _ _ _ _ hd, Nat.mod_eq_of_lt hv]
  · intro j hj hjd hj6
    exact reg_store_other _ _ _ _ _ hd hj hjd hj6
  · exact reg_store_flags _ _ _ _
  · exact (reg_store_frame _ _ _ _).1
  · exact (reg_store_frame _ _ _ _).2.1
  · exact (reg_store_mem _ _ _ _).1
  · exact (reg_store_mem _ _ _ _).2

theorem mov_spec_witness :
    demo_mov.state.halt_req = 0 ∧ demo_mov.instr_func = none ∧
    (demo_mov.state.pc : Int) < demo_mov.state.mem_sizeb - 1 ∧
    (0x40 ≤ demo_mov.state.mem demo_mov.state.pc ∧ demo_mov.state.mem demo_mov.state.pc ≤ 0x7f ∧
      demo_mov.state.mem demo_mov.state.pc ≠ 0x76) ∧
    reg_sel demo_mov.state (demo_mov.state.mem demo_mov.state.pc % 8) < 256 ∧
    demo_mov.state.mem demo_mov.state.pc = 0x73 ∧
    reg_sel (i8080_exec demo_mov).2.state (demo_mov.state.mem demo_mov.state.pc / 8 % 8) =
      reg_sel demo_mov.state (demo_mov.state.mem demo_mov.state.pc % 8) ∧
    (i8080_exec demo_mov).2.state.mem 0x2000 = 0x5a ∧
    (i8080_exec demo_mov).2.state.e = 0x5a ∧
    (i8080_exec demo_mov).2.state.pc = 1 :=
  ⟨rfl, rfl, by decide, by decide, by decide!, by decide,
    (mov_spec demo_mov rfl rfl (by decide) (by decide) (by decide!)).2.2.1,
    by decide!, by decide!, by decide!⟩

/-! ## PUSH rp / POP rp -/

theorem push_b_fields (st : i8080_state_t) (hsp2 : 2 ≤ st.sp) (hsp : st.sp < 65536) :
    (∀ k : Int, (push_b st).mem k =
      if k = (st.sp : Int) - 2 then st.c % 256
      else if k = (st.sp : Int) - 1 then st.b % 256 else st.mem k) ∧
    (push_b st).sp = st.sp - 2 ∧ (push_b st).pc = (st.pc + 1) % 65536 := by
  refine ⟨fun k => ?_, ?_, rfl⟩
  · show mem_write (mem_write st.mem ((st.sp : Int) - 1) st.b) ((st.sp : Int) - 2) st.c k = _
    rfl
  · show to_uint16 ((st.sp : Int) - 2) = _
    unfold to_uint16
    omega

theorem pop_push_b (st : i8080_state_t) (hhi : st.b < 256) (hlo : st.c < 256)
    (hsp2 : 2 ≤ st.sp) (hsp : st.sp < 65536) (hpcw : st.pc + 2 < 65536) :
    pop_b (push_b st) = { st with mem := (push_b st).mem, pc := st.pc + 2 } := by
  obtain ⟨hmem, hsp1, hpc1⟩ := push_b_fields st hsp2 hsp
  have hs1 : (((push_b st).sp : Nat) : Int) = (st.sp : Int) - 2 := by
    rw [hsp1]
    omega
  refine state_ext _ _ rfl ?_ ?_ rfl rfl rfl rfl rfl ?_ ?_ rfl rfl rfl rfl rfl rfl
  · show (push_b st).mem (((push_b st).sp : Int) + 1) % 256 = st.b
    rw [hs1, hmem, if_neg (by omega), if_pos (by omega)]
    omega
  · show (push_b st).mem ((push_b st).sp : Int) % 256 = st.c
    rw [hs1, hmem, if_pos rfl]
    omega
  · show ((push_b st).sp + 2) % 65536 = st.sp
    rw [hsp1]
    omega
  · show ((push_b st).pc + 1) % 65536 = st.pc + 2
    rw [hpc1]
    omega

theorem exec_push_pop_b {H : Type} (m : machine_t H)
    (hh : m.state.halt_req = 0) (ht : m.instr_func = none)
    (hpc2 : (m.state.pc : Int) + 1 < m.state.mem_sizeb - 1)
    (hsz : m.state.mem_sizeb ≤ 65536)
    (hop : m.state.mem m.state.pc = 0xc5) (hop2 : m.state.mem ((m.state.pc : Int) + 1) = 0xc1)
    (hhi : m.state.b < 256) (hlo : m.state.c < 256)
    (hsp2 : 2 ≤ m.state.sp) (hsp : m.state.sp < 65536)
    (hno : (m.state.sp : Int) - 2 ≠ (m.state.pc : Int) + 1 ∧
      (m.state.sp : Int) - 1 ≠ (m.state.pc : Int) + 1) :
    i8080_exec m = (0, { m with state := push_b m.state }) ∧
    i8080_exec ({ m with state := push_b m.state } : machine_t H) =
      (0, { m with state :=
              { m.state with mem := (push_b m.state).mem, pc := m.state.pc + 2 } }) ∧
    (∀ k : Int, k ≠ (m.state.sp : Int) - 2 → k ≠ (m.state.sp : Int) - 1 →
      (push_b m.state).mem k = m.state.mem k) := by
  obtain ⟨hmem, hsp1, hpc1⟩ := push_b_fields m.state hsp2 hsp
  have hpcw : m.state.pc + 2 < 65536 := by omega
  have e1 : i8080_exec m = (0, { m with state := push_b m.state }) := by
    rw [exec_no_trap m hh ht (by omega), hop]
    rfl
  have hp1 : (((push_b m.state).pc : Nat) : Int) = (m.state.pc : Int) + 1 := by
    rw [hpc1]
    omega
  have hrun : ((push_b m.state).pc : Int) < (push_b m.state).mem_sizeb - 1 := by
    rw [hp1]
    exact hpc2
  have hop1 : (push_b m.state).mem (push_b m.state).pc = 0xc1 := by
    rw [hp1, hmem, if_neg (Ne.symm hno.1), if_neg (Ne.symm hno.2)]
    exact hop2
  refine ⟨e1, ?_, ?_⟩
  · rw [exec_no_trap ({ m with state := push_b m.state } : machine_t H) hh ht hrun]
    show i8080_exec_switch ((push_b m.state).mem (push_b m.state).pc) _ _ _ _ = _
    rw [hop1, ← pop_push_b m.state hhi hlo hsp2 hsp hpcw]
    rfl
  · intro k h1 h2
    rw [hmem, if_neg h1, if_neg h2]

theorem push_d_fields (st : i8080_state_t) (hsp2 : 2 ≤ st.sp) (hsp : st.sp < 65536) :
    (∀ k : Int, (push_d st).mem k =
      if k = (st.sp : Int) - 2 then st.e % 256
      else if k = (st.sp : Int) - 1 then st.d % 256 else st.mem k) ∧
    (push_d st).sp = st.sp - 2 ∧ (push_d st).pc = (st.pc + 1) % 65536 := by
  refine ⟨fun k => ?_, ?_, rfl⟩
  · show mem_write (mem_write st.mem ((st.sp : Int) - 1) st.d) ((st.sp : Int) - 2) st.e k = _
    rfl
  · show to_uint16 ((st.sp : Int) - 2) = _
    unfold to_uint16
    omega

theorem pop_push_d (st : i8080_state_t) (hhi : st.d < 256) (hlo : st.e < 256)
    (hsp2 : 2 ≤ st.sp) (hsp : st.sp < 65536) (hpcw : st.pc + 2 < 65536) :
    pop_d (push_d st) = { st with mem := (push_d st).mem, pc := st.pc + 2 } := by
  obtain ⟨hmem, hsp1, hpc1⟩ := push_d_fields st hsp2 hsp
  have hs1 : (((push_d st).sp : Nat) : Int) = (st.sp : Int) - 2 := by
    rw [hsp1]
    omega
  refine state_ext _ _ rfl rfl rfl ?_ ?_ rfl rfl rfl ?_ ?_ rfl rfl rfl rfl rfl rfl
  · show (push_d st).mem (((push_d st).sp : Int) + 1) % 256 = st.d
    rw [hs1, hmem, if_neg (by omega), if_pos (by omega)]
    omega
  · show (push_d st).mem ((push_d st).sp : Int) % 256 = st.e
    rw [hs1, hmem, if_pos rfl]
    omega
  · show ((push_d st).sp + 2) % 65536 = st.sp
    rw [hsp1]
    omega
  · show ((push_d st).pc + 1) % 65536 = st.pc + 2
    rw [hpc1]
    omega

theorem exec_push_pop_d {H : Type} (m : machine_t H)
    (hh : m.state.halt_req = 0) (ht : m.instr_func = none)
    (hpc2 : (m.state.pc : Int) + 1 < m.state.mem_sizeb - 1)
    (hsz : m.state.mem_sizeb ≤ 65536)
    (hop : m.state.mem m.state.pc = 0xd5) (hop2 : m.state.mem ((m.state.pc : Int) + 1) = 0xd1)
    (hhi : m.state.d < 256) (hlo : m.state.e < 256)
    (hsp2 : 2 ≤ m.state.sp) (hsp : m.state.sp < 65536)
    (hno : (m.state.sp : Int) - 2 ≠ (m.state.pc : Int) + 1 ∧
      (m.state.sp : Int) - 1 ≠ (m.state.pc : Int) + 1) :
    i8080_exec m = (0, { m with state := push_d m.state }) ∧
    i8080_exec ({ m with state := push_d m.state } : machine_t H) =
      (0, { m with state :=
              { m.state with mem := (push_d m.state).mem, pc := m.state.pc + 2 } }) ∧
    (∀ k : Int, k ≠ (m.state.sp : Int) - 2 → k ≠ (m.state.sp : Int) - 1 →
      (push_d m.state).mem k = m.state.mem k) := by
  obtain ⟨hmem, hsp1, hpc1⟩ := push_d_fields m.state hsp2 hsp
  have hpcw : m.state.pc + 2 < 65536 := by omega
  have e1 : i8080_exec m = (0, { m with state := push_d m.state }) := by
    rw [exec_no_trap m hh ht (by omega), hop]
    rfl
  have hp1 : (((push_d m.state).pc : Nat) : Int) = (m.state.pc : Int) + 1 := by
    rw [hpc1]
    omega
  have hrun : ((push_d m.state).pc : Int) < (push_d m.state).mem_sizeb - 1 := by
    rw [hp1]
    exact hpc2
  have hop1 : (push_d m.state).mem (push_d m.state).pc = 0xd1 := by
    rw [hp1, hmem, if_neg (Ne.symm hno.1), if_neg (Ne.symm hno.2)]
    exact hop2
  refine ⟨e1, ?_, ?_⟩
  · rw [exec_no_trap ({ m with state := push_d m.state } : machine_t H) hh ht hrun]
    show i8080_exec_switch ((push_d m.state).mem (push_d m.state).pc) _ _ _ _ = _
    rw [hop1, ← pop_push_d m.state hhi hlo hsp2 hsp hpcw]
    rfl
  · intro k h1 h2
    rw [hmem, if_neg h1, if_neg h2]

theorem push_h_fields (st : i8080_state_t) (hsp2 : 2 ≤ st.sp) (hsp : st.sp < 65536) :
    (∀ k : Int, (push_h st).mem k =
      if k = (st.sp : Int) - 2 then st.l % 256
      else if k = (st.sp : Int) - 1 then st.h % 256 else st.mem k) ∧
    (push_h st).sp = st.sp - 2 ∧ (push_h st).pc = (st.pc + 1) % 65536 := by
  refine ⟨fun k => ?_, ?_, rfl⟩
  · show mem_write (mem_write st.mem ((st.sp : Int) - 1) st.h) ((st.sp : Int) - 2) st.l k = _
    rfl
  · show to_uint16 ((st.sp : Int) - 2) = _
    unfold to_uint16
    omega

theorem pop_push_h (st : i8080_state_t) (hhi : st.h < 256) (hlo : st.l < 256)
    (hsp2 : 2 ≤ st.sp) (hsp : st.sp < 65536) (hpcw : st.pc + 2 < 65536) :
    pop_h (push_h st) = { st with mem := (push_h st).mem, pc := st.pc + 2 } := by
  obtain ⟨hmem, hsp1, hpc1⟩ := push_h_fields st hsp2 hsp
  have hs1 : (((push_h st).sp : Nat) : Int) = (st.sp : Int) - 2 := by
    rw [hsp1]
    omega
  refine state_ext _ _ rfl rfl rfl rfl rfl ?_ ?_ rfl ?_ ?_ rfl rfl rfl rfl rfl rfl
  · show (push_h st).mem (((push_h st).sp : Int) + 1) % 256 = st.h
    rw [hs1, hmem, if_neg (by omega), if_pos (by omega)]
    omega
  · show (push_h st).mem ((push_h st).sp : Int) % 256 = st.l
    rw [hs1, hmem, if_pos rfl]
    omega
  · show ((push_h st).sp + 2) % 65536 = st.sp
    rw [hsp1]
    omega
  · show ((push_h st).pc + 1) % 65536 = st.pc + 2
    rw [hpc1]
    omega

theorem exec_push_pop_h {H : Type} (m : machine_t H)
    (hh : m.state.halt_req = 0) (ht : m.instr_func = none)
    (hpc2 : (m.state.pc : Int) + 1 < m.state.mem_sizeb - 1)
    (hsz : m.state.mem_sizeb ≤ 65536)
    (hop : m.state.mem m.state.pc = 0xe5) (hop2 : m.state.mem ((m.state.pc : Int) + 1) = 0xe1)
    (hhi : m.state.h < 256) (hlo : m.state.l < 256)
    (hsp2 : 2 ≤ m.state.sp) (hsp : m.state.sp < 65536)
    (hno : (m.state.sp : Int) - 2 ≠ (m.state.pc : Int) + 1 ∧
      (m.state.sp : Int) - 1 ≠ (m.state.pc : Int) + 1) :
    i8080_exec m = (0, { m with state := push_h m.state }) ∧
    i8080_exec ({ m with state := push_h m.state } : machine_t H) =
      (0, { m with state :=
              { m.state with mem := (push_h m.state).mem, pc := m.state.pc + 2 } }) ∧
    (∀ k : Int, k ≠ (m.state.sp : Int) - 2 → k ≠ (m.state.sp : Int) - 1 →
      (push_h m.state).mem k = m.state.mem k) := by
  obtain ⟨hmem, hsp1, hpc1⟩ := push_h_fields m.state hsp2 hsp
  have hpcw : m.state.pc + 2 < 65536 := by omega
  have e1 : i8080_exec m = (0, { m with state := push_h m.state }) := by
    rw [exec_no_trap m hh ht (by omega), hop]
    rfl
  have hp1 : (((push_h m.state).pc : Nat) : Int) = (m.state.pc : Int) + 1 := by
    rw [hpc1]
    omega
  have hrun : ((push_h m.state).pc : Int) < (push_h m.state).mem_sizeb - 1 := by
    rw [hp1]
    exact hpc2
  have hop1 : (push_h m.state).mem (push_h m.state).pc = 0xe1 := by
    rw [hp1, hmem, if_neg (Ne.symm hno.1), if_neg (Ne.symm hno.2)]
    exact hop2
  refine ⟨e1, ?_, ?_⟩
  · rw [exec_no_trap ({ m with state := push_h m.state } : machine_t H) hh ht hrun]
    show i8080_exec_switch ((push_h m.state).mem (push_h m.state).pc) _ _ _ _ = _
    rw [hop1, ← pop_push_h m.state hhi hlo hsp2 hsp hpcw]
    rfl
  · intro k h1 h2
    rw [hmem, if_neg h1, if_neg h2]

/-- C18: for rp in {BC, DE, HL} (`r` = 0, 1, 2; PUSH rp is `0xC5 + 16r`, POP rp is
`0xC1 + 16r`, the pair is the registers with selectors `2r` and `2r + 1`), if `mem[PC]` is
PUSH rp and `mem[PC+1]` is the matching POP rp, `2 ≤ SP`, and the bytes at `SP-2` and `SP-1`
are not the byte of the POP, then both steps return status 0 and after them the machine is
the initial one with only PC (advanced by 2) and memory replaced: the pair, all other
registers, the flags and SP have their initial values, and every memory byte other than
`SP-2` and `SP-1`, in particular every byte at an address `≥ SP`, is unchanged. -/
theorem push_pop_roundtrip {H : Type} (m : machine_t H)
    (hh : m.state.halt_req = 0) (ht : m.instr_func = none)
    (hpc2 : (m.state.pc : Int) + 1 < m.state.mem_sizeb - 1)
    (hsz : m.state.mem_sizeb ≤ 65536)
    (r : Nat) (hr : r < 3)
    (hop : m.state.mem m.state.pc = 0xc5 + 16 * r)
    (hop2 : m.state.mem ((m.state.pc : Int) + 1) = 0xc1 + 16 * r)
    (hreg : reg_sel m.state (2 * r) < 256 ∧ reg_sel m.state (2 * r + 1) < 256)
    (hsp2 : 2 ≤ m.state.sp) (hsp : m.state.sp < 65536)
    (hno : (m.state.sp : Int) - 2 ≠ (m.state.pc : Int) + 1 ∧
      (m.state.sp : Int) - 1 ≠ (m.state.pc : Int) + 1) :
    (i8080_exec m).1 = 0 ∧
    (i8080_exec (i8080_exec m).2).1 = 0 ∧
    (i8080_exec (i8080_exec m).2).2 =
      { m with state := { m.state with
          mem := (i8080_exec (i8080_exec m).2).2.state.mem
          pc := m.state.pc + 2 } } ∧
    (∀ k : Int, k ≠ (m.state.sp : Int) - 2 → k ≠ (m.state.sp : Int) - 1 →
      (i8080_exec (i8080_exec m).2).2.state.mem k = m.state.mem k) ∧
    (∀ k : Int, (m.state.sp : Int) ≤ k →
      (i8080_exec (i8080_exec m).2).2.state.mem k = m.state.mem k) := by
  have key : ∃ st1 : i8080_state_t,
      i8080_exec m = (0, { m with state := st1 }) ∧
      i8080_exec ({ m with state := st1 } : machine_t H) =
        (0, { m with state := { m.state with mem := st1.mem, pc := m.state.pc + 2 } }) ∧
      (∀ k : Int, k ≠ (m.state.sp : Int) - 2 → k ≠ (m.state.sp : Int) - 1 →
        st1.mem k = m.state.mem k) := by
    obtain rfl | rfl | rfl : r = 0 ∨ r = 1 ∨ r = 2 := by omega
    · exact ⟨_, exec_push_pop_b m hh ht hpc2 hsz hop hop2 hreg.1 hreg.2 hsp2 hsp hno⟩
    · exact ⟨_, exec_push_pop_d m hh ht hpc2 hsz hop hop2 hreg.1 hreg.2 hsp2 hsp hno⟩
    · exact ⟨_, exec_push_pop_h m hh ht hpc2 hsz hop hop2 hreg.1 hreg.2 hsp2 hsp hno⟩
  obtain ⟨st1, e1, e2, hk⟩ := key
  rw [e1]
  dsimp only
  rw [e2]
  exact ⟨rfl, rfl, rfl, hk, fun k h => hk k (by omega) (by omega)⟩

theorem push_pop_roundtrip_witness :
    demo_push_pop.state.halt_req = 0 ∧ demo_push_pop.instr_func = none ∧
    (demo_push_pop.state.pc : Int) + 1 < demo_push_pop.state.mem_sizeb - 1 ∧
    demo_push_pop.state.mem_sizeb ≤ 65536 ∧ 1 < 3 ∧
    demo_push_pop.state.mem demo_push_pop.state.pc = 0xc5 + 16 * 1 ∧
    demo_push_pop.state.mem ((demo_push_pop.state.pc : Int) + 1) = 0xc1 + 16 * 1 ∧
    (reg_sel demo_push_pop.state (2 * 1) < 256 ∧
      reg_sel demo_push_pop.state (2 * 1 + 1) < 256) ∧
    2 ≤ demo_push_pop.state.sp ∧ demo_push_pop.state.sp < 65536 ∧
    ((demo_push_pop.state.sp : Int) - 2 ≠ (demo_push_pop.state.pc : Int) + 1 ∧
      (demo_push_pop.state.sp : Int) - 1 ≠ (demo_push_pop.state.pc : Int) + 1) ∧
    (i8080_exec (i8080_exec demo_push_pop).2).2 =
      { demo_push_pop with state := { demo_push_pop.state with
          mem := (i8080_exec (i8080_exec demo_push_pop).2).2.state.mem
          pc := demo_push_pop.state.pc + 2 } } ∧
    (i8080_exec (i8080_exec demo_push_pop).2).2.state.d = 0x12 ∧
    (i8080_exec (i8080_exec demo_push_pop).2).2.state.e = 0x34 ∧
    (i8080_exec (i8080_exec demo_push_pop).2).2.state.sp = 0x2400 ∧
    (i8080_exec (i8080_exec demo_push_pop).2).2.state.pc = 2 ∧
    (i8080_exec (i8080_exec demo_push_pop).2).2.state.mem 0x23fe = 0x34 :=
  ⟨rfl, rfl, by decide, by decide, by decide, by decide, by decide,
    ⟨by decide, by decide⟩, by decide, by decide, ⟨by decide, by decide⟩,
    (push_pop_roundtrip demo_push_pop rfl rfl (by decide) (by decide) 1 (by decide)
      (by decide) (by decide) ⟨by decide, by decide⟩ (by decide) (by decide)
      ⟨by decide, by decide⟩).2.2.1,
    by decide!, by decide!, by decide!, by decide!, by decide!⟩


/-! ## XCHG -/

theorem pair_bytes (hi lo : Nat) :
    ((reg_pair hi lo >>> 8) &&& 0xff) % 256 = hi % 256 ∧
    (reg_pair hi lo &&& 0xff) % 256 = lo % 256 := by
  rw [reg_pair_eq, land_ff, land_ff, Nat.shiftRight_eq_div_pow]
  constructor
  · show (hi % 256 * 256 + lo % 256) / 256 % 256 % 256 = hi % 256
    omega
  · omega

theorem xchg_eq (st : i8080_state_t) (hd : st.d < 256) (he : st.e < 256) (hh : st.h < 256)
    (hl : st.l < 256) :
    xchg st (reg_pair st.d st.e) (reg_pair st.h st.l) =
      { st with h := st.d, l := st.e, d := st.h, e := st.l, pc := (st.pc + 1) % 65536 } := by
  obtain ⟨h1, h2⟩ := pair_bytes st.d st.e
  obtain ⟨h3, h4⟩ := pair_bytes st.h st.l
  refine state_ext _ _ rfl rfl rfl ?_ ?_ ?_ ?_ rfl rfl rfl rfl rfl rfl rfl rfl rfl
  · show ((reg_pair st.h st.l >>> 8) &&& 0xff) % 256 = st.h
    rw [h3]
    omega
  · show (reg_pair st.h st.l &&& 0xff) % 256 = st.l
    rw [h4]
    omega
  · show ((reg_pair st.d st.e >>> 8) &&& 0xff) % 256 = st.d
    rw [h1]
    omega
  · show (reg_pair st.d st.e &&& 0xff) % 256 = st.e
    rw [h2]
    omega

theorem exec_xchg {H : Type} (m : machine_t H) (hh : m.state.halt_req = 0)
    (ht : m.instr_func = none) (hpc : (m.state.pc : Int) < m.state.mem_sizeb - 1)
    (hop : m.state.mem m.state.pc = 0xeb) :
    i8080_exec m =
      (0, { m with
            state := xchg m.state (reg_pair m.state.d m.state.e)
              (reg_pair m.state.h m.state.l) }) := by
  rw [exec_no_trap m hh ht hpc, hop]
  rfl

/-- C19: a single XCHG (`0xEB`) returns status 0 and sets (H, L, D, E) to the old
(D, E, H, L), changing nothing else but PC; when the next opcode is XCHG again, the second
step returns status 0 and yields the initial machine with only PC changed (by 2), for all
byte values of D, E, H, L. -/
theorem xchg_twice_identity {H : Type} (m : machine_t H)
    (hh : m.state.halt_req = 0) (ht : m.instr_func = none)
    (hpc : (m.state.pc : Int) < m.state.mem_sizeb - 1)
    (hop : m.state.mem m.state.pc = 0xeb)
    (hd : m.state.d < 256) (he : m.state.e < 256) (hrh : m.state.h < 256)
    (hrl : m.state.l < 256) :
    (i8080_exec m).1 = 0 ∧
    (i8080_exec m).2 =
      { m with state := { m.state with
          h := m.state.d
          l := m.state.e
          d := m.state.h
          e := m.state.l
          pc := (m.state.pc + 1) % 65536 } } ∧
    ((((m.state.pc + 1) % 65536 : Nat) : Int) < m.state.mem_sizeb - 1 →
      m.state.mem (((m.state.pc + 1) % 65536 : Nat) : Int) = 0xeb →
      (i8080_exec (i8080_exec m).2).1 = 0 ∧
      (i8080_exec (i8080_exec m).2).2 =
        { m with state := { m.state with pc := (m.state.pc + 2) % 65536 } }) := by
  have e1 := exec_xchg m hh ht hpc hop
  rw [xchg_eq m.state hd he hrh hrl] at e1
  rw [e1]
  refine ⟨rfl, rfl, fun hpc2 hop2 => ?_⟩
  dsimp only
  have e2 := exec_xchg ({ m with state := { m.state with
          h := m.state.d
          l := m.state.e
          d := m.state.h
          e := m.state.l
          pc := (m.state.pc + 1) % 65536 } } : machine_t H) hh ht hpc2 hop2
  rw [xchg_eq _ hrh hrl hd he] at e2
  rw [e2]
  refine ⟨rfl, ?_⟩
  have hp : ((m.state.pc + 1) % 65536 + 1) % 65536 = (m.state.pc + 2) % 65536 := by omega
  show ({ m with state := { m.state with pc := ((m.state.pc + 1) % 65536 + 1) % 65536 } } :
    machine_t H) = _
  rw [hp]

theorem xchg_twice_identity_witness :
    demo_xchg.state.halt_req = 0 ∧ demo_xchg.instr_func = none ∧
    (demo_xchg.state.pc : Int) < demo_xchg.state.mem_sizeb - 1 ∧
    demo_xchg.state.mem demo_xchg.state.pc = 0xeb ∧
    demo_xchg.state.d < 256 ∧ demo_xchg.state.e < 256 ∧ demo_xchg.state.h < 256 ∧
    demo_xchg.state.l < 256 ∧
    (((demo_xchg.state.pc + 1) % 65536 : Nat) : Int) < demo_xchg.state.mem_sizeb - 1 ∧
    demo_xchg.state.mem (((demo_xchg.state.pc + 1) % 65536 : Nat) : Int) = 0xeb ∧
    (i8080_exec demo_xchg).2.state.h = 0x12 ∧ (i8080_exec demo_xchg).2.state.l = 0x34 ∧
    (i8080_exec demo_xchg).2.state.d = 0x56 ∧ (i8080_exec demo_xchg).2.state.e = 0x78 ∧
    ((i8080_exec (i8080_exec demo_xchg).2).1 = 0 ∧
      (i8080_exec (i8080_exec demo_xchg).2).2 =
        { demo_xchg with
          state := { demo_xchg.state with pc := (demo_xchg.state.pc + 2) % 65536 } }) :=
  ⟨rfl, rfl, by decide, by decide, by decide, by decide, by decide, by decide, by decide,
    by decide, by decide!, by decide!, by decide!, by decide!,
    (xchg_twice_identity demo_xchg rfl rfl (by decide) (by decide) (by decide) (by decide)
      (by decide) (by decide)).2.2 (by decide) (by decide)⟩


/-! ## XTHL -/

theorem pair_high (hi lo : Nat) : (reg_pair hi lo >>> 8) % 256 = hi % 256 := by
  rw [reg_pair_eq, Nat.shiftRight_eq_div_pow]
  show (hi % 256 * 256 + lo % 256) / 256 % 256 = hi % 256
  omega

theorem xthl_eq (st : i8080_state_t) (hh : st.h < 256) (hl : st.l < 256)
    (h0 : st.mem st.sp < 256) (h1 : st.mem ((st.sp : Int) + 1) < 256) :
    xthl st (reg_pair st.h st.l) =
      { st with
        h := st.mem ((st.sp : Int) + 1),
        l := st.mem st.sp,
        mem := fun k => if k = (st.sp : Int) then st.l
          else if k = (st.sp : Int) + 1 then st.h else st.mem k,
        pc := (st.pc + 1) % 65536 } := by
  refine state_ext _ _ rfl rfl rfl rfl rfl ?_ ?_ rfl rfl rfl rfl ?_ rfl rfl rfl rfl
  · show st.mem ((st.sp : Int) + 1) % 256 = _
    exact Nat.mod_eq_of_lt h1
  · show st.mem st.sp % 256 = _
    exact Nat.mod_eq_of_lt h0
  · show mem_write (mem_write st.mem ((st.sp : Int) + 1) (reg_pair st.h st.l >>> 8))
      (st.sp : Int) (reg_pair st.h st.l &&& 0xff) = _
    funext k
    unfold mem_write
    rw [pair_high, (pair_bytes st.h st.l).2, Nat.mod_eq_of_lt hh, Nat.mod_eq_of_lt hl]

theorem exec_xthl {H : Type} (m : machine_t H) (hh : m.state.halt_req = 0)
    (ht : m.instr_func = none) (hpc : (m.state.pc : Int) < m.state.mem_sizeb - 1)
    (hop : m.state.mem m.state.pc = 0xe3) :
    i8080_exec m =
      (0, { m with state := xthl m.state (reg_pair m.state.h m.state.l) }) := by
  rw [exec_no_trap m hh ht hpc, hop]
  rfl

/-- C20: a single XTHL (`0xE3`) returns status 0 and swaps L with `mem[SP]` and H with
`mem[SP+1]`, changing nothing else but PC (SP in particular is unchanged); when the next
opcode is XTHL again and neither stack byte is that opcode byte, the second step returns
status 0 and yields the initial machine with only PC changed (by 2): H, L, `mem[SP]`,
`mem[SP+1]` and the rest of memory are restored, for all byte values. -/
theorem xthl_twice_identity {H : Type} (m : machine_t H)
    (hh : m.state.halt_req = 0) (ht : m.instr_func = none)
    (hpc : (m.state.pc : Int) < m.state.mem_sizeb - 1)
    (hop : m.state.mem m.state.pc = 0xe3)
    (hrh : m.state.h < 256) (hrl : m.state.l < 256)
    (h0 : m.state.mem m.state.sp < 256) (h1 : m.state.mem ((m.state.sp : Int) + 1) < 256) :
    (i8080_exec m).1 = 0 ∧
    (i8080_exec m).2 =
      { m with state := { m.state with
          h := m.state.mem ((m.state.sp : Int) + 1)
          l := m.state.mem m.state.sp
          mem := fun k => if k = (m.state.sp : Int) then m.state.l
            else if k = (m.state.sp : Int) + 1 then m.state.h else m.state.mem k
          pc := (m.state.pc + 1) % 65536 } } ∧
    ((((m.state.pc + 1) % 65536 : Nat) : Int) < m.state.mem_sizeb - 1 →
      m.state.mem (((m.state.pc + 1) % 65536 : Nat) : Int) = 0xe3 →
      (m.state.sp : Int) ≠ (((m.state.pc + 1) % 65536 : Nat) : Int) →
      (m.state.sp : Int) + 1 ≠ (((m.state.pc + 1) % 65536 : Nat) : Int) →
      (i8080_exec (i8080_exec m).2).1 = 0 ∧
      (i8080_exec (i8080_exec m).2).2 =
        { m with state := { m.state with pc := (m.state.pc + 2) % 65536 } }) := by
  have e1 := exec_xthl m hh ht hpc hop
  rw [xthl_eq m.state hrh hrl h0 h1] at e1
  rw [e1]
  refine ⟨rfl, rfl, fun hpc2 hop2 hn0 hn1 => ?_⟩
  dsimp only
  have hop1 : (if ((((m.state.pc + 1) % 65536 : Nat) : Int)) = (m.state.sp : Int) then m.state.l
      else if ((((m.state.pc + 1) % 65536 : Nat) : Int)) = (m.state.sp : Int) + 1 then m.state.h
      else m.state.mem (((m.state.pc + 1) % 65536 : Nat) : Int)) = 0xe3 := by
    rw [if_neg (Ne.symm hn0), if_neg (Ne.symm hn1)]
    exact hop2
  have e2 := exec_xthl ({ m with state := { m.state with
          h := m.state.mem ((m.state.sp : Int) + 1)
          l := m.state.mem m.state.sp
          mem := fun k => if k = (m.state.sp : Int) then m.state.l
            else if k = (m.state.sp : Int) + 1 then m.state.h else m.state.mem k
          pc := (m.state.pc + 1) % 65536 } } : machine_t H) hh ht hpc2 hop1
  rw [e2]
  refine ⟨rfl, ?_⟩
  show ({ m with state := xthl _ _ } : machine_t H) = _
  congr 1
  refine state_ext _ _ rfl rfl rfl rfl rfl ?_ ?_ rfl rfl ?_ rfl ?_ rfl rfl rfl rfl
  · show (if ((m.state.sp : Int) + 1) = (m.state.sp : Int) then m.state.l
      else if (m.state.sp : Int) + 1 = (m.state.sp : Int) + 1 then m.state.h
      else m.state.mem ((m.state.sp : Int) + 1)) % 256 = m.state.h
    rw [if_neg (by omega), if_pos rfl]
    exact Nat.mod_eq_of_lt hrh
  · show (if (m.state.sp : Int) = (m.state.sp : Int) then m.state.l
      else if (m.state.sp : Int) = (m.state.sp : Int) + 1 then m.state.h
      else m.state.mem (m.state.sp : Int)) % 256 = m.state.l
    rw [if_pos rfl]
    exact Nat.mod_eq_of_lt hrl
  · show ((m.state.pc + 1) % 65536 + 1) % 65536 = (m.state.pc + 2) % 65536
    omega
  · show mem_write (mem_write (fun k => if k = (m.state.sp : Int) then m.state.l
            else if k = (m.state.sp : Int) + 1 then m.state.h else m.state.mem k)
          ((m.state.sp : Int) + 1)
          (reg_pair (m.state.mem ((m.state.sp : Int) + 1)) (m.state.mem m.state.sp) >>> 8))
        (m.state.sp : Int)
        (reg_pair (m.state.mem ((m.state.sp : Int) + 1)) (m.state.mem m.state.sp) &&& 0xff) =
      m.state.mem
    funext k
    unfold mem_write
    rw [pair_high, (pair_bytes _ _).2, Nat.mod_eq_of_lt h0, Nat.mod_eq_of_lt h1]
    by_cases hk0 : k = (m.state.sp : Int)
    · rw [if_pos hk0, hk0]
    · rw [if_neg hk0]
      by_cases hk1 : k = (m.state.sp : Int) + 1
      · rw [if_pos hk1, hk1]
      · simp only [if_neg hk0, if_neg hk1]

theorem xthl_twice_identity_witness :
    demo_xthl.state.halt_req = 0 ∧ demo_xthl.instr_func = none ∧
    (demo_xthl.state.pc : Int) < demo_xthl.state.mem_sizeb - 1 ∧
    demo_xthl.state.mem demo_xthl.state.pc = 0xe3 ∧
    demo_xthl.state.h < 256 ∧ demo_xthl.state.l < 256 ∧
    demo_xthl.state.mem demo_xthl.state.sp < 256 ∧
    demo_xthl.state.mem ((demo_xthl.state.sp : Int) + 1) < 256 ∧
    (((demo_xthl.state.pc + 1) % 65536 : Nat) : Int) < demo_xthl.state.mem_sizeb - 1 ∧
    demo_xthl.state.mem (((demo_xthl.state.pc + 1) % 65536 : Nat) : Int) = 0xe3 ∧
    (demo_xthl.state.sp : Int) ≠ (((demo_xthl.state.pc + 1) % 65536 : Nat) : Int) ∧
    (demo_xthl.state.sp : Int) + 1 ≠ (((demo_xthl.state.pc + 1) % 65536 : Nat) : Int) ∧
    demo_xthl.state.sp ≤ 0xfffe ∧
    (i8080_exec demo_xthl).2.state.h = 0xab ∧ (i8080_exec demo_xthl).2.state.l = 0xcd ∧
    (i8080_exec demo_xthl).2.state.mem 0x2400 = 0x78 ∧
    (i8080_exec demo_xthl).2.state.mem 0x2401 = 0x56 ∧
    (i8080_exec demo_xthl).2.state.sp = 0x2400 ∧
    ((i8080_exec (i8080_exec demo_xthl).2).1 = 0 ∧
      (i8080_exec (i8080_exec demo_xthl).2).2 =
        { demo_xthl with
          state := { demo_xthl.state with pc := (demo_xthl.state.pc + 2) % 65536 } }) :=
  ⟨rfl, rfl, by decide, by decide, by decide, by decide, by decide, by decide, by decide,
    by decide, by decide, by decide, by decide,
    by decide!, by decide!, by decide!, by decide!, by decide!,
    (xthl_twice_identity demo_xthl rfl rfl (by decide) (by decide) (by decide) (by decide)
      (by decide) (by decide)).2.2 (by decide) (by decide) (by decide) (by decide)⟩

/-! ## Program counter and stack pointer after one step -/

theorem reg_ptr_frame (st : i8080_state_t) (k : Nat) :
    (reg_ptr st k).1.pc = st.pc ∧ (reg_ptr st k).1.sp = st.sp := by
  unfold reg_ptr
  split <;> exact ⟨rfl, rfl⟩

theorem reg_write_frame (st : i8080_state_t) (r : reg_t) (v : Nat) :
    (reg_write st r v).pc = st.pc ∧ (reg_write st r v).sp = st.sp := by
  cases r <;> exact ⟨rfl, rfl⟩

theorem add_frame (st : i8080_state_t) :
    (add st).pc = (st.pc + 1) % 65536 ∧ (add st).sp = st.sp := by
  constructor
  · show ((reg_ptr st _).1.pc + 1) % 65536 = _
    rw [(reg_ptr_frame st _).1]
  · show (reg_ptr st _).1.sp = _
    rw [(reg_ptr_frame st _).2]

theorem adc_frame (st : i8080_state_t) :
    (adc st).pc = (st.pc + 1) % 65536 ∧ (adc st).sp = st.sp := by
  constructor
  · show ((reg_ptr st _).1.pc + 1) % 65536 = _
    rw [(reg_ptr_frame st _).1]
  · show (reg_ptr st _).1.sp = _
    rw [(reg_ptr_frame st _).2]

theorem sub_frame (st : i8080_state_t) :
    (sub st).pc = (st.pc + 1) % 65536 ∧ (sub st).sp = st.sp := by
  constructor
  · show ((reg_ptr st _).1.pc + 1) % 65536 = _
    rw [(reg_ptr_frame st _).1]
  · show (reg_ptr st _).1.sp = _
    rw [(reg_ptr_frame st _).2]

theorem cmp_frame (st : i8080_state_t) :
    (cmp st).pc = (st.pc + 1) % 65536 ∧ (cmp st).sp = st.sp := by
  constructor
  · show ((reg_ptr st _).1.pc + 1) % 65536 = _
    rw [(reg_ptr_frame st _).1]
  · show (reg_ptr st _).1.sp = _
    rw [(reg_ptr_frame st _).2]

theorem sbb_frame (st : i8080_state_t) :
    (sbb st).pc = (st.pc + 1) % 65536 ∧ (sbb st).sp = st.sp := by
  constructor
  · show ((reg_ptr st _).1.pc + 1) % 65536 = _
    rw [(reg_ptr_frame st _).1]
  · show (reg_ptr st _).1.sp = _
    rw [(reg_ptr_frame st _).2]

theorem ana_frame (st : i8080_state_t) :
    (ana st).pc = (st.pc + 1) % 65536 ∧ (ana st).sp = st.sp := by
  constructor
  · show ((reg_ptr st _).1.pc + 1) % 65536 = _
    rw [(reg_ptr_frame st _).1]
  · show (reg_ptr st _).1.sp = _
    rw [(reg_ptr_frame st _).2]

theorem xra_frame (st : i8080_state_t) :
    (xra st).pc = (st.pc + 1) % 65536 ∧ (xra st).sp = st.sp := by
  constructor
  · show ((reg_ptr st _).1.pc + 1) % 65536 = _
    rw [(reg_ptr_frame st _).1]
  · show (reg_ptr st _).1.sp = _
    rw [(reg_ptr_frame st _).2]

theorem ora_frame (st : i8080_state_t) :
    (ora st).pc = (st.pc + 1) % 65536 ∧ (ora st).sp = st.sp := by
  constructor
  · show ((reg_ptr st _).1.pc + 1) % 65536 = _
    rw [(reg_ptr_frame st _).1]
  · show (reg_ptr st _).1.sp = _
    rw [(reg_ptr_frame st _).2]

theorem inr_frame (st : i8080_state_t) :
    (inr st).pc = (st.pc + 1) % 65536 ∧ (inr st).sp = st.sp := by
  constructor
  · show ((reg_write _ _ _).pc + 1) % 65536 = _
    rw [(reg_write_frame _ _ _).1]
    show ((reg_ptr st _).1.pc + 1) % 65536 = _
    rw [(reg_ptr_frame st _).1]
  · show (reg_write _ _ _).sp = _
    rw [(reg_write_frame _ _ _).2]
    show (reg_ptr st _).1.sp = _
    rw [(reg_ptr_frame st _).2]

theorem dcr_frame (st : i8080_state_t) :
    (dcr st).pc = (st.pc + 1) % 65536 ∧ (dcr st).sp = st.sp := by
  constructor
  · show ((reg_write _ _ _).pc + 1) % 65536 = _
    rw [(reg_write_frame _ _ _).1]
    show ((reg_ptr st _).1.pc + 1) % 65536 = _
    rw [(reg_ptr_frame st _).1]
  · show (reg_write _ _ _).sp = _
    rw [(reg_write_frame _ _ _).2]
    show (reg_ptr st _).1.sp = _
    rw [(reg_ptr_frame st _).2]

theorem mvi_frame (st : i8080_state_t) :
    (mvi st).pc = (st.pc + 2) % 65536 ∧ (mvi st).sp = st.sp := by
  constructor
  · show ((reg_write _ _ _).pc + 2) % 65536 = _
    rw [(reg_write_frame _ _ _).1]
    show ((reg_ptr st _).1.pc + 2) % 65536 = _
    rw [(reg_ptr_frame st _).1]
  · show (reg_write _ _ _).sp = _
    rw [(reg_write_frame _ _ _).2]
    show (reg_ptr st _).1.sp = _
    rw [(reg_ptr_frame st _).2]

theorem movm2r_frame (st : i8080_state_t) (hl : Nat) :
    (movm2r st hl).pc = (st.pc + 1) % 65536 ∧ (movm2r st hl).sp = st.sp := by
  constructor
  · show ((reg_write _ _ _).pc + 1) % 65536 = _
    rw [(reg_write_frame _ _ _).1]
    show ((reg_ptr st _).1.pc + 1) % 65536 = _
    rw [(reg_ptr_frame st _).1]
  · show (reg_write _ _ _).sp = _
    rw [(reg_write_frame _ _ _).2]
    show (reg_ptr st _).1.sp = _
    rw [(reg_ptr_frame st _).2]

theorem movr2r_frame (st : i8080_state_t) :
    (movr2r st).pc = (st.pc + 1) % 65536 ∧ (movr2r st).sp = st.sp := by
  constructor
  · show ((reg_write _ _ _).pc + 1) % 65536 = _
    rw [(reg_write_frame _ _ _).1]
    show ((reg_ptr (reg_ptr st _).1 _).1.pc + 1) % 65536 = _
    rw [(reg_ptr_frame _ _).1, (reg_ptr_frame _ _).1]
  · show (reg_write _ _ _).sp = _
    rw [(reg_write_frame _ _ _).2]
    show (reg_ptr (reg_ptr st _).1 _).1.sp = _
    rw [(reg_ptr_frame _ _).2, (reg_ptr_frame _ _).2]

theorem movr2m_frame (st : i8080_state_t) (hl : Nat) :
    (movr2m st hl).pc = (st.pc + 1) % 65536 ∧ (movr2m st hl).sp = st.sp := by
  constructor
  · show ((reg_ptr st _).1.pc + 1) % 65536 = _
    rw [(reg_ptr_frame st _).1]
  · show (reg_ptr st _).1.sp = _
    rw [(reg_ptr_frame st _).2]

theorem rst_pc (st : i8080_state_t) : (rst st).pc = 8 * (st.mem st.pc / 8 % 8) := by
  show ((st.mem st.pc >>> 3) &&& 0x7) % 256 * 8 % 65536 = _
  have h : (st.mem st.pc >>> 3) &&& 0x7 = st.mem st.pc / 8 % 8 := by
    rw [Nat.shiftRight_eq_div_pow]
    exact Nat.and_pow_two_sub_one_eq_mod _ 3
  rw [h]
  omega

theorem daa_frame (st : i8080_state_t) :
    (daa st).pc = (st.pc + 1) % 65536 ∧ (daa st).sp = st.sp := by
  unfold daa
  dsimp only
  split_ifs <;> exact ⟨rfl, rfl⟩

theorem step_pc_sp_daa {H : Type} (m : machine_t H) :
    step_pc_sp m 0x27
      (i8080_exec_switch 0x27 m (reg_pair m.state.b m.state.c) (reg_pair m.state.d m.state.e)
        (reg_pair m.state.h m.state.l)) :=
  fun _ => ⟨fun ht => absurd ht (by decide), fun _ => (daa_frame _).1, Or.inr (daa_frame _).2⟩

set_option maxRecDepth 100000 in
theorem step_pc_sp_movr2r {H : Type} (m : machine_t H) (op : Nat) (h : op ∈ movr2r_opcodes) :
    step_pc_sp m op
      (i8080_exec_switch op m (reg_pair m.state.b m.state.c) (reg_pair m.state.d m.state.e)
        (reg_pair m.state.h m.state.l)) := by
  fin_cases h <;>
    exact fun _ => ⟨fun ht => absurd ht (by decide), fun _ => (movr2r_frame _).1,
      Or.inr (movr2r_frame _).2⟩

set_option maxRecDepth 100000 in
theorem step_pc_sp_movm2r {H : Type} (m : machine_t H) (op : Nat) (h : op ∈ movm2r_opcodes) :
    step_pc_sp m op
      (i8080_exec_switch op m (reg_pair m.state.b m.state.c) (reg_pair m.state.d m.state.e)
        (reg_pair m.state.h m.state.l)) := by
  fin_cases h <;>
    exact fun _ => ⟨fun ht => absurd ht (by decide), fun _ => (movm2r_frame _ _).1,
      Or.inr (movm2r_frame _ _).2⟩

set_option maxRecDepth 100000 in
theorem step_pc_sp_movr2m {H : Type} (m : machine_t H) (op : Nat) (h : op ∈ movr2m_opcodes) :
    step_pc_sp m op
      (i8080_exec_switch op m (reg_pair m.state.b m.state.c) (reg_pair m.state.d m.state.e)
        (reg_pair m.state.h m.state.l)) := by
  fin_cases h <;>
    exact fun _ => ⟨fun ht => absurd ht (by decide), fun _ => (movr2m_frame _ _).1,
      Or.inr (movr2m_frame _ _).2⟩

set_option maxRecDepth 100000 in
theorem step_pc_sp_mvi {H : Type} (m : machine_t H) (op : Nat) (h : op ∈ mvi_opcodes) :
    step_pc_sp m op
      (i8080_exec_switch op m (reg_pair m.state.b m.state.c) (reg_pair m.state.d m.state.e)
        (reg_pair m.state.h m.state.l)) := by
  fin_cases h <;>
    exact fun _ => ⟨fun ht => absurd ht (by decide), fun _ => (mvi_frame _).1,
      Or.inr (mvi_frame _).2⟩

set_option maxRecDepth 100000 in
theorem step_pc_sp_add {H : Type} (m : machine_t H) (op : Nat) (h : op ∈ add_opcodes) :
    step_pc_sp m op
      (i8080_exec_switch op m (reg_pair m.state.b m.state.c) (reg_pair m.state.d m.state.e)
        (reg_pair m.state.h m.state.l)) := by
  fin_cases h <;>
    exact fun _ => ⟨fun ht => absurd ht (by decide), fun _ => (add_frame _).1,
      Or.inr (add_frame _).2⟩

set_option maxRecDepth 100000 in
theorem step_pc_sp_adc {H : Type} (m : machine_t H) (op : Nat) (h : op ∈ adc_opcodes) :
    step_pc_sp m op
      (i8080_exec_switch op m (reg_pair m.state.b m.state.c) (reg_pair m.state.d m.state.e)
        (reg_pair m.state.h m.state.l)) := by
  fin_cases h <;>
    exact fun _ => ⟨fun ht => absurd ht (by decide), fun _ => (adc_frame _).1,
      Or.inr (adc_frame _).2⟩

set_option maxRecDepth 100000 in
theorem step_pc_sp_sub {H : Type} (m : machine_t H) (op : Nat) (h : op ∈ sub_opcodes) :
    step_pc_sp m op
      (i8080_exec_switch op m (reg_pair m.state.b m.state.c) (reg_pair m.state.d m.state.e)
        (reg_pair m.state.h m.state.l)) := by
  fin_cases h <;>
    exact fun _ => ⟨fun ht => absurd ht (by decide), fun _ => (sub_frame _).1,
      Or.inr (sub_frame _).2⟩

set_option maxRecDepth 100000 in
theorem step_pc_sp_sbb {H : Type} (m : machine_t H) (op : Nat) (h : op ∈ sbb_opcodes) :
    step_pc_sp m op
      (i8080_exec_switch op m (reg_pair m.state.b m.state.c) (reg_pair m.state.d m.state.e)
        (reg_pair m.state.h m.state.l)) := by
  fin_cases h <;>
    exact fun _ => ⟨fun ht => absurd ht (by decide), fun _ => (sbb_frame _).1,
      Or.inr (sbb_frame _).2⟩

set_option maxRecDepth 100000 in
theorem step_pc_sp_ana {H : Type} (m : machine_t H) (op : Nat) (h : op ∈ ana_opcodes) :
    step_pc_sp m op
      (i8080_exec_switch op m (reg_pair m.state.b m.state.c) (reg_pair m.state.d m.state.e)
        (reg_pair m.state.h m.state.l)) := by
  fin_cases h <;>
    exact fun _ => ⟨fun ht => absurd ht (by decide), fun _ => (ana_frame _).1,
      Or.inr (ana_frame _).2⟩

set_option maxRecDepth 100000 in
theorem step_pc_sp_xra {H : Type} (m : machine_t H) (op : Nat) (h : op ∈ xra_opcodes) :
    step_pc_sp m op
      (i8080_exec_switch op m (reg_pair m.state.b m.state.c) (reg_pair m.state.d m.state.e)
        (reg_pair m.state.h m.state.l)) := by
  fin_cases h <;>
    exact fun _ => ⟨fun ht => absurd ht (by decide), fun _ => (xra_frame _).1,
      Or.inr (xra_frame _).2⟩

set_option maxRecDepth 100000 in
theorem step_pc_sp_ora {H : Type} (m : machine_t H) (op : Nat) (h : op ∈ ora_opcodes) :
    step_pc_sp m op
      (i8080_exec_switch op m (reg_pair m.state.b m.state.c) (reg_pair m.state.d m.state.e)
        (reg_pair m.state.h m.state.l)) := by
  fin_cases h <;>
    exact fun _ => ⟨fun ht => absurd ht (by decide), fun _ => (ora_frame _).1,
      Or.inr (ora_frame _).2⟩

set_option maxRecDepth 100000 in
theorem step_pc_sp_cmp {H : Type} (m : machine_t H) (op : Nat) (h : op ∈ cmp_opcodes) :
    step_pc_sp m op
      (i8080_exec_switch op m (reg_pair m.state.b m.state.c) (reg_pair m.state.d m.state.e)
        (reg_pair m.state.h m.state.l)) := by
  fin_cases h <;>
    exact fun _ => ⟨fun ht => absurd ht (by decide), fun _ => (cmp_frame _).1,
      Or.inr (cmp_frame _).2⟩

set_option maxRecDepth 100000 in
theorem step_pc_sp_inr {H : Type} (m : machine_t H) (op : Nat) (h : op ∈ inr_opcodes) :
    step_pc_sp m op
      (i8080_exec_switch op m (reg_pair m.state.b m.state.c) (reg_pair m.state.d m.state.e)
        (reg_pair m.state.h m.state.l)) := by
  fin_cases h <;>
    exact fun _ => ⟨fun ht => absurd ht (by decide), fun _ => (inr_frame _).1,
      Or.inr (inr_frame _).2⟩

set_option maxRecDepth 100000 in
theorem step_pc_sp_dcr {H : Type} (m : machine_t H) (op : Nat) (h : op ∈ dcr_opcodes) :
    step_pc_sp m op
      (i8080_exec_switch op m (reg_pair m.state.b m.state.c) (reg_pair m.state.d m.state.e)
        (reg_pair m.state.h m.state.l)) := by
  fin_cases h <;>
    exact fun _ => ⟨fun ht => absurd ht (by decide), fun _ => (dcr_frame _).1,
      Or.inr (dcr_frame _).2⟩

set_option maxRecDepth 100000 in
theorem step_pc_sp_stop {H : Type} (m : machine_t H) (op : Nat) (h : op ∈ stop_opcodes) :
    step_pc_sp m op
      (i8080_exec_switch op m (reg_pair m.state.b m.state.c) (reg_pair m.state.d m.state.e)
        (reg_pair m.state.h m.state.l)) := by
  fin_cases h <;>
    exact fun hs => absurd (show ((-1 : Int) = 0) from hs) (by decide)

set_option maxRecDepth 100000 in
theorem step_pc_sp_inline {H : Type} (m : machine_t H) (op : Nat) (h : op ∈ inline_opcodes) :
    step_pc_sp m op
      (i8080_exec_switch op m (reg_pair m.state.b m.state.c) (reg_pair m.state.d m.state.e)
        (reg_pair m.state.h m.state.l)) := by
  fin_cases h <;>
    exact fun _ => ⟨fun ht => absurd ht (by decide), fun _ => rfl, Or.inr rfl⟩

set_option maxRecDepth 100000 in
theorem step_pc_sp_stack {H : Type} (m : machine_t H) (op : Nat) (h : op ∈ stack_opcodes) :
    step_pc_sp m op
      (i8080_exec_switch op m (reg_pair m.state.b m.state.c) (reg_pair m.state.d m.state.e)
        (reg_pair m.state.h m.state.l)) := by
  fin_cases h <;>
    exact fun _ => ⟨fun ht => absurd ht (by decide), fun _ => rfl, Or.inl (by decide)⟩

set_option maxRecDepth 100000 in
theorem step_pc_sp_rst {H : Type} (m : machine_t H) (op : Nat) (h : op ∈ rst_opcodes)
    (hop : m.state.mem m.state.pc = op) :
    step_pc_sp m op
      (i8080_exec_switch op m (reg_pair m.state.b m.state.c) (reg_pair m.state.d m.state.e)
        (reg_pair m.state.h m.state.l)) := by
  fin_cases h <;>
    exact fun _ => ⟨fun _ => (rst_pc _).trans (by rw [hop]; rfl),
      fun hn => absurd (by decide) hn, Or.inl (by decide)⟩

theorem step_pc_sp_transfer {H : Type} (m : machine_t H) (op : Nat)
    (h : op = 0xc3 ∨ op = 0xcd ∨ op = 0xe9 ∨ op = 0xc9) :
    step_pc_sp m op
      (i8080_exec_switch op m (reg_pair m.state.b m.state.c) (reg_pair m.state.d m.state.e)
        (reg_pair m.state.h m.state.l)) := by
  rcases h with rfl | rfl | rfl | rfl
  · exact fun _ => ⟨fun _ => Nat.mod_eq_of_lt (imm16_lt _), fun hn => absurd (by decide) hn,
      Or.inr rfl⟩
  · exact fun _ => ⟨fun _ => Nat.mod_eq_of_lt (imm16_lt _), fun hn => absurd (by decide) hn,
      Or.inl (by decide)⟩
  · exact fun _ => ⟨fun _ => Nat.mod_eq_of_lt (reg_pair_lt _ _),
      fun hn => absurd (by decide) hn, Or.inr rfl⟩
  · exact fun _ => ⟨fun _ => rfl, fun hn => absurd (by decide) hn, Or.inl (by decide)⟩

set_option maxRecDepth 100000 in
theorem opcode_classes : ∀ op, op < 256 →
    op ∈ stop_opcodes ++ inline_opcodes ++ stack_opcodes ++ rst_opcodes ++
      conditional_opcodes ++ movr2r_opcodes ++ movm2r_opcodes ++ movr2m_opcodes ++
      mvi_opcodes ++ add_opcodes ++ adc_opcodes ++ sub_opcodes ++ sbb_opcodes ++
      ana_opcodes ++ xra_opcodes ++ ora_opcodes ++ cmp_opcodes ++ inr_opcodes ++
      dcr_opcodes ++ [0xc3, 0xcd, 0xe9, 0xc9, 0xdb, 0xd3, 0x27] := by
  decide!

theorem step_pc_sp_io {H : Type} (m : machine_t H) (op : Nat) (h : op = 0xdb ∨ op = 0xd3)
    (hio : ∀ io, m.io_handler = some io → ∀ p b d,
      (io p b d m.state m.host).2.1.pc = m.state.pc ∧
      (io p b d m.state m.host).2.1.sp = m.state.sp) :
    step_pc_sp m op
      (i8080_exec_switch op m (reg_pair m.state.b m.state.c) (reg_pair m.state.d m.state.e)
        (reg_pair m.state.h m.state.l)) := by
  obtain ⟨st, host, ioh, tr⟩ := m
  cases ioh with
  | none =>
    rcases h with rfl | rfl <;>
      exact fun _ => ⟨fun ht => absurd ht (by decide), fun _ => rfl, Or.inr rfl⟩
  | some io =>
    rcases h with rfl | rfl
    · have h1 := hio io rfl (st.mem ((st.pc : Int) + 1) % 256) 0xee DEVICE_IN
      refine fun _ => ⟨fun ht => absurd ht (by decide), fun _ => ?_, Or.inr ?_⟩
      · show ((io (st.mem ((st.pc : Int) + 1) % 256) 0xee DEVICE_IN st host).2.1.pc + 2) % 65536
          = _
        rw [h1.1]
        rfl
      · exact h1.2
    · have h1 := hio io rfl (st.mem ((st.pc : Int) + 1) % 256) st.a DEVICE_OUT
      refine fun _ => ⟨fun ht => absurd ht (by decide), fun _ => ?_, Or.inr ?_⟩
      · show ((io (st.mem ((st.pc : Int) + 1) % 256) st.a DEVICE_OUT st host).2.1.pc + 2) % 65536
          = _
        rw [h1.1]
        rfl
      · exact h1.2

theorem conditional_mem (op : Nat) (h : op ∈ conditional_opcodes) : is_conditional op := by
  fin_cases h <;> decide

theorem step_pc_sp_all {H : Type} (m : machine_t H) (op : Nat) (hb : op < 256)
    (hop : m.state.mem m.state.pc = op) (hnc : ¬ is_conditional op)
    (hio : ∀ io, m.io_handler = some io → ∀ p b d,
      (io p b d m.state m.host).2.1.pc = m.state.pc ∧
      (io p b d m.state m.host).2.1.sp = m.state.sp) :
    step_pc_sp m op
      (i8080_exec_switch op m (reg_pair m.state.b m.state.c) (reg_pair m.state.d m.state.e)
        (reg_pair m.state.h m.state.l)) := by
  have hcl := opcode_classes op hb
  simp only [List.mem_append] at hcl
  rcases hcl with (((((((((((((((((((h | h) | h) | h) | h) | h) | h) | h) | h) | h) | h) | h) |
    h) | h) | h) | h) | h) | h) | h) | h)
  · exact step_pc_sp_stop m op h
  · exact step_pc_sp_inline m op h
  · exact step_pc_sp_stack m op h
  · exact step_pc_sp_rst m op h hop
  · exact absurd (conditional_mem op h) hnc
  · exact step_pc_sp_movr2r m op h
  · exact step_pc_sp_movm2r m op h
  · exact step_pc_sp_movr2m m op h
  · exact step_pc_sp_mvi m op h
  · exact step_pc_sp_add m op h
  · exact step_pc_sp_adc m op h
  · exact step_pc_sp_sub m op h
  · exact step_pc_sp_sbb m op h
  · exact step_pc_sp_ana m op h
  · exact step_pc_sp_xra m op h
  · exact step_pc_sp_ora m op h
  · exact step_pc_sp_cmp m op h
  · exact step_pc_sp_inr m op h
  · exact step_pc_sp_dcr m op h
  · simp only [List.mem_cons, List.mem_singleton, List.not_mem_nil, or_false] at h
    rcases h with h | h | h | h | h | h | h
    · exact step_pc_sp_transfer m op (Or.inl h)
    · exact step_pc_sp_transfer m op (Or.inr (Or.inl h))
    · exact step_pc_sp_transfer m op (Or.inr (Or.inr (Or.inl h)))
    · exact step_pc_sp_transfer m op (Or.inr (Or.inr (Or.inr h)))
    · exact step_pc_sp_io m op (Or.inl h) hio
    · exact step_pc_sp_io m op (Or.inr h) hio
    · subst h
      exact step_pc_sp_daa m

theorem exec_continue_inv {H : Type} (m : machine_t H) (hs : (i8080_exec m).1 = 0) :
    m.state.halt_req = 0 ∧ (m.state.pc : Int) < m.state.mem_sizeb - 1 := by
  unfold i8080_exec at hs
  by_cases hh : m.state.halt_req = 0
  · by_cases hpc : (m.state.pc : Int) < m.state.mem_sizeb - 1
    · exact ⟨hh, hpc⟩
    · simp only [hh, ne_eq, not_true_eq_false, if_false, ge_iff_le, not_lt.mp hpc, if_true] at hs
      exact absurd hs (by decide)
  · simp only [ne_eq, hh, not_false_eq_true, if_true] at hs
    exact absurd hs (by decide)

theorem step_conditional {H : Type} (m : machine_t H) (hh : m.state.halt_req = 0)
    (ht : m.instr_func = none) (hpc : (m.state.pc : Int) < m.state.mem_sizeb - 1)
    (hc : is_conditional (m.state.mem m.state.pc)) :
    (cc_holds m.state (m.state.mem m.state.pc / 8 % 8) →
      (i8080_exec m).2.state.pc = branch_target m.state (m.state.mem m.state.pc) ∧
      (m.state.mem m.state.pc % 8 = 2 → (i8080_exec m).2.state.sp = m.state.sp)) ∧
    (¬ cc_holds m.state (m.state.mem m.state.pc / 8 % 8) →
      (i8080_exec m).2.state.pc =
        (m.state.pc + opcode_length (m.state.mem m.state.pc)) % 65536 ∧
      (i8080_exec m).2.state.sp = m.state.sp) := by
  obtain ⟨h1, h2, h3⟩ := hc
  have hk : m.state.mem m.state.pc / 8 % 8 < 8 := by omega
  have hbt : ∀ op, 0xc0 ≤ op → op < 0x100 → (op % 8 = 2 ∨ op % 8 = 4) →
      branch_target m.state op = imm16 m.state := by
    intro op _ _ _
    unfold branch_target
    rw [if_neg (by omega), if_neg (by omega), if_neg (by omega)]
  have hlen3 : ∀ op, 0xc0 ≤ op → (op % 8 = 2 ∨ op % 8 = 4) → opcode_length op = 3 := by
    intro op _ _
    unfold opcode_length
    rw [if_pos (by omega)]
  rcases h3 with h3 | h3 | h3
  · obtain ⟨ha, hn⟩ := exec_rcc m hh ht hpc _ hk (by omega)
    refine ⟨fun hcc => ?_, fun hcc => ?_⟩
    · rw [ha hcc]
      refine ⟨?_, fun h => by omega⟩
      unfold branch_target
      rw [if_neg (by omega), if_neg (by omega), if_pos (Or.inr h3)]
      rfl
    · rw [hn hcc]
      have hl : opcode_length (m.state.mem m.state.pc) = 1 := by
        unfold opcode_length
        rw [if_neg (by omega), if_neg (by omega)]
      rw [hl]
      exact ⟨rfl, rfl⟩
  · obtain ⟨ha, hn⟩ := exec_jcc m hh ht hpc _ hk (by omega)
    refine ⟨fun hcc => ?_, fun hcc => ?_⟩
    · rw [ha hcc, hbt _ h1 h2 (Or.inl h3)]
      exact ⟨Nat.mod_eq_of_lt (imm16_lt _), fun _ => rfl⟩
    · rw [hn hcc, hlen3 _ h1 (Or.inl h3)]
      exact ⟨rfl, rfl⟩
  · obtain ⟨ha, hn⟩ := exec_ccc m hh ht hpc _ hk (by omega)
    refine ⟨fun hcc => ?_, fun hcc => ?_⟩
    · rw [ha hcc, hbt _ h1 h2 (Or.inr h3)]
      exact ⟨Nat.mod_eq_of_lt (imm16_lt _), fun h => by omega⟩
    · rw [hn hcc, hlen3 _ h1 (Or.inr h3)]
      exact ⟨rfl, rfl⟩

/-- C21: with no trap installed (and a port handler that leaves PC and SP alone), whenever
`i8080_exec` returns 0 (Continue): if the instruction is JMP, PCHL, CALL, RET, RST or a
taken Jcc, Ccc or Rcc then PC is the branch target, otherwise PC is
`(PC + opcode length) mod 2^16` with the length (1, 2 or 3) of the 8080 opcode table; and
SP is unchanged unless the instruction is PUSH, POP, CALL, RET, RST, a taken Rcc, a taken
Ccc, SPHL, LXI SP, INX SP or DCX SP. -/
theorem pc_sp_after_step {H : Type} (m : machine_t H) (ht : m.instr_func = none)
    (hb : m.state.mem m.state.pc < 256)
    (hio : ∀ io, m.io_handler = some io → ∀ p b d,
      (io p b d m.state m.host).2.1.pc = m.state.pc ∧
      (io p b d m.state m.host).2.1.sp = m.state.sp)
    (hs : (i8080_exec m).1 = 0) :
    (branch_taken m.state (m.state.mem m.state.pc) →
      (i8080_exec m).2.state.pc = branch_target m.state (m.state.mem m.state.pc)) ∧
    (¬ branch_taken m.state (m.state.mem m.state.pc) →
      (i8080_exec m).2.state.pc =
        (m.state.pc + opcode_length (m.state.mem m.state.pc)) % 65536) ∧
    (¬ changes_sp m.state (m.state.mem m.state.pc) →
      (i8080_exec m).2.state.sp = m.state.sp) := by
  obtain ⟨hh, hpc⟩ := exec_continue_inv m hs
  by_cases hc : is_conditional (m.state.mem m.state.pc)
  · obtain ⟨hyes, hno⟩ := step_conditional m hh ht hpc hc
    have hnt : ¬ is_transfer (m.state.mem m.state.pc) := by
      unfold is_conditional at hc
      unfold is_transfer
      omega
    have hnsp : ¬ sp_opcode (m.state.mem m.state.pc) := by
      unfold is_conditional at hc
      unfold sp_opcode
      omega
    by_cases hcc : cc_holds m.state (m.state.mem m.state.pc / 8 % 8)
    · refine ⟨fun _ => (hyes hcc).1, fun hn => absurd (Or.inr ⟨hc, hcc⟩) hn, fun hn => ?_⟩
      apply (hyes hcc).2
      unfold is_conditional at hc
      by_contra h2
      exact hn (Or.inr ⟨hc.1, hc.2.1, by omega, hcc⟩)
    · refine ⟨fun hbt => ?_, fun _ => (hno hcc).1, fun _ => (hno hcc).2⟩
      rcases hbt with hbt | hbt
      · exact absurd hbt hnt
      · exact absurd hbt.2 hcc
  · have key := step_pc_sp_all m _ hb rfl hc hio
    rw [exec_no_trap m hh ht hpc] at hs ⊢
    obtain ⟨k1, k2, k3⟩ := key hs
    refine ⟨fun hbt => ?_, fun hn => k2 (fun h => hn (Or.inl h)), fun hn => ?_⟩
    · rcases hbt with hbt | hbt
      · exact k1 hbt
      · exact absurd hbt.1 hc
    · rcases k3 with k3 | k3
      · exact absurd (Or.inl k3) hn
      · exact k3

theorem pc_sp_after_step_witness :
    demo_in.instr_func = none ∧ demo_in.state.mem demo_in.state.pc < 256 ∧
    (∀ io, demo_in.io_handler = some io → ∀ p b d,
      (io p b d demo_in.state demo_in.host).2.1.pc = demo_in.state.pc ∧
      (io p b d demo_in.state demo_in.host).2.1.sp = demo_in.state.sp) ∧
    (i8080_exec demo_in).1 = 0 ∧
    ¬ branch_taken demo_in.state (demo_in.state.mem demo_in.state.pc) ∧
    ¬ changes_sp demo_in.state (demo_in.state.mem demo_in.state.pc) ∧
    (i8080_exec demo_in).2.state.pc =
      (demo_in.state.pc + opcode_length (demo_in.state.mem demo_in.state.pc)) % 65536 ∧
    (i8080_exec demo_in).2.state.sp = demo_in.state.sp ∧
    (i8080_exec demo_in).2.state.pc = 2 ∧ (i8080_exec demo_in).2.state.a = 0x5a :=
  have hio : ∀ io, demo_in.io_handler = some io → ∀ p b d,
      (io p b d demo_in.state demo_in.host).2.1.pc = demo_in.state.pc ∧
      (io p b d demo_in.state demo_in.host).2.1.sp = demo_in.state.sp := by
    intro io h p b d
    cases h
    exact ⟨rfl, rfl⟩
  ⟨rfl, by decide, hio, by decide!, by decide!, by decide!,
    (pc_sp_after_step demo_in rfl (by decide) hio (by decide!)).2.1 (by decide!),
    (pc_sp_after_step demo_in rfl (by decide) hio (by decide!)).2.2 (by decide!),
    by decide!, by decide!⟩

/-! ## Stopping -/

/-- C22: whenever `halt_req` is non-zero, `i8080_exec` returns -1 (Stopped) and the machine
it returns is the one it was given, whatever trap and port handler are installed and
whatever byte is at PC: no register, flag, SP, PC, IE or memory byte changes, and the host
state on which the trap would have acted is untouched. -/
theorem halt_req_cancels {H : Type} (m : machine_t H) (hh : m.state.halt_req ≠ 0) :
    i8080_exec m = (-1, m) ∧ (i8080_exec m).1 ≠ 0 ∧ (i8080_exec m).2.state = m.state ∧
    (i8080_exec m).2.host = m.host := by
  have h : i8080_exec m = (-1, m) := by
    unfold i8080_exec
    simp only [ne_eq, hh, not_false_eq_true, if_true]
  rw [h]
  exact ⟨rfl, (by decide : (-1 : Int) ≠ 0), rfl, rfl⟩

theorem halt_req_cancels_witness :
    demo_halt_req.state.halt_req ≠ 0 ∧ demo_halt_req.instr_func.isSome = true ∧
    i8080_exec demo_halt_req = (-1, demo_halt_req) ∧
    (i8080_exec demo_halt_req).2.state.a = 0 ∧ (i8080_exec demo_halt_req).2.host = [] :=
  ⟨by decide, rfl, (halt_req_cancels demo_halt_req (by decide)).1, by decide!, by decide!⟩

theorem switch_stop_state {H : Type} (m : machine_t H) (bc de hl : Nat) (op : Nat)
    (hb : op < 256) (hs : (i8080_exec_switch op m bc de hl).1 ≠ 0) :
    i8080_exec_switch op m bc de hl = (-1, m) := by
  have h := switch_status m bc de hl op hb
  by_cases hstop : op ∈ stop_opcodes
  · fin_cases hstop <;> rfl
  · rw [h, if_neg hstop] at hs
    exact absurd rfl hs

theorem exec_stop_state {H : Type} (m : machine_t H) (ht : m.instr_func = none)
    (hb : m.state.mem m.state.pc < 256) (hs : (i8080_exec m).1 ≠ 0) :
    i8080_exec m = (-1, m) := by
  by_cases hh : m.state.halt_req = 0
  · by_cases hpc : (m.state.pc : Int) < m.state.mem_sizeb - 1
    · rw [exec_no_trap m hh ht hpc] at hs ⊢
      exact switch_stop_state m _ _ _ _ hb hs
    · unfold i8080_exec
      simp only [hh, ne_eq, not_true_eq_false, if_false, ge_iff_le, not_lt.mp hpc, if_true]
  · unfold i8080_exec
    simp only [ne_eq, hh, not_false_eq_true, if_true]

/-- C23: with no trap installed, whenever `i8080_exec` returns non-zero (Stopped: HLT, a halt
request, an undocumented opcode or PC out of range) the machine it returns is the one it was
given, and therefore every later `i8080_exec` call on that machine returns the same non-zero
status and again leaves it unchanged. -/
theorem stopped_is_terminal {H : Type} (m : machine_t H) (ht : m.instr_func = none)
    (hb : m.state.mem m.state.pc < 256) (hs : (i8080_exec m).1 ≠ 0) :
    (i8080_exec m).2 = m ∧
    ∀ n : Nat,
      (fun x : machine_t H => (i8080_exec x).2)^[n] m = m ∧
      (i8080_exec ((fun x : machine_t H => (i8080_exec x).2)^[n] m)).1 ≠ 0 := by
  have h := exec_stop_state m ht hb hs
  have hfix : (fun x : machine_t H => (i8080_exec x).2) m = m := by
    show (i8080_exec m).2 = m
    rw [h]
  refine ⟨hfix, fun n => ?_⟩
  have hn := @Function.iterate_fixed (machine_t H) (fun x => (i8080_exec x).2) m hfix n
  rw [hn]
  exact ⟨rfl, hs⟩

theorem stopped_is_terminal_witness :
    demo_hlt.instr_func = none ∧ demo_hlt.state.mem demo_hlt.state.pc < 256 ∧
    (i8080_exec demo_hlt).1 ≠ 0 ∧ (i8080_exec demo_hlt).2 = demo_hlt ∧
    (i8080_exec ((fun x : machine_t Unit => (i8080_exec x).2)^[3] demo_hlt)).1 ≠ 0 :=
  ⟨rfl, by decide, by decide!,
    (stopped_is_terminal demo_hlt rfl (by decide) (by decide!)).1,
    ((stopped_is_terminal demo_hlt rfl (by decide) (by decide!)).2 3).2⟩

/-! ## Unknown ports -/

/-- C26: `io_handler` called for a read of a port outside {0, 1, 2, 3} or a write to a port
outside {2, 3, 4, 5, 6} returns 0, sets `halt_req` to 1 and leaves the shift register, the
shift offset and the input bits unchanged; writes to ports 3, 5 and 6 change nothing. -/
theorem unknown_port_halts (port byte : Nat) (st : i8080_state_t) (io : invaders_io_t) :
    (port ≠ 0 → port ≠ 1 → port ≠ 2 → port ≠ 3 →
      io_handler port byte DEVICE_IN st io = (0, { st with halt_req := 1 }, io)) ∧
    (port ≠ 2 → port ≠ 3 → port ≠ 4 → port ≠ 5 → port ≠ 6 →
      io_handler port byte DEVICE_OUT st io = (0, { st with halt_req := 1 }, io)) ∧
    (port = 3 ∨ port = 5 ∨ port = 6 → io_handler port byte DEVICE_OUT st io = (0, st, io)) := by
  refine ⟨fun h0 h1 h2 h3 => ?_, fun h2 h3 h4 h5 h6 => ?_, fun h => ?_⟩
  · unfold io_handler
    rw [if_pos rfl, if_neg h0, if_neg h1, if_neg h2, if_neg h3]
  · unfold io_handler
    rw [if_neg (by decide), if_neg h2, if_neg h3, if_neg h4, if_neg h5, if_neg h6]
  · rcases h with rfl | rfl | rfl <;> rfl

theorem unknown_port_halts_witness :
    (4 : Nat) ≠ 0 ∧ (4 : Nat) ≠ 1 ∧ (4 : Nat) ≠ 2 ∧ (4 : Nat) ≠ 3 ∧
    io_handler 4 0 DEVICE_IN demo_nop.state (io_init io_startup) =
      (0, { demo_nop.state with halt_req := 1 }, io_init io_startup) ∧
    (7 : Nat) ≠ 2 ∧ (7 : Nat) ≠ 3 ∧ (7 : Nat) ≠ 4 ∧ (7 : Nat) ≠ 5 ∧ (7 : Nat) ≠ 6 ∧
    io_handler 7 0x55 DEVICE_OUT demo_nop.state (io_init io_startup) =
      (0, { demo_nop.state with halt_req := 1 }, io_init io_startup) ∧
    ((5 : Nat) = 3 ∨ (5 : Nat) = 5 ∨ (5 : Nat) = 6) ∧
    io_handler 5 0x55 DEVICE_OUT demo_nop.state (io_init io_startup) =
      (0, demo_nop.state, io_init io_startup) :=
  ⟨by decide, by decide, by decide, by decide,
    (unknown_port_halts 4 0 demo_nop.state (io_init io_startup)).1 (by decide) (by decide)
      (by decide) (by decide),
    by decide, by decide, by decide, by decide, by decide,
    (unknown_port_halts 7 0x55 demo_nop.state (io_init io_startup)).2.1 (by decide) (by decide)
      (by decide) (by decide) (by decide),
    by decide,
    (unknown_port_halts 5 0x55 demo_nop.state (io_init io_startup)).2.2 (by decide)⟩


/-! ## Shift register of the Space Invaders board -/

theorem shl8_or (hi lo : Nat) (hlo : lo < 256) : (hi <<< 8) ||| lo = hi * 256 + lo := by
  have h : lo < 2 ^ 8 := hlo
  have e : hi * 2 ^ 8 = 2 ^ 8 * hi := Nat.mul_comm _ _
  rw [Nat.shiftLeft_eq, e, ← Nat.mul_add_lt_is_or h hi]
  omega

theorem shift_in (b1 b2 b : Nat) (h1 : b1 < 256) (h2 : b2 < 256) (hb : b < 256) :
    ((((b1 <<< 8) ||| b2) >>> 8) % 65536 ||| (b <<< 8)) % 65536 = (b <<< 8) ||| b1 := by
  rw [shl8_or b1 b2 h2, Nat.shiftRight_eq_div_pow]
  have e : (b1 * 256 + b2) / 2 ^ 8 % 65536 = b1 := by omega
  rw [e, Nat.lor_comm, shl8_or b b1 h1]
  omega

theorem written_snoc (p : Nat) (l : List (Nat × Nat)) (a : Nat × Nat) :
    written p (l ++ [a]) = if a.1 = p then a.2 :: written p l else written p l := by
  unfold written
  by_cases h : a.1 = p
  · simp [List.filter_append, h]
  · simp [List.filter_append, h]

theorem io_writes_snoc (l : List (Nat × Nat)) (a : Nat × Nat) (st : i8080_state_t)
    (io : invaders_io_t) :
    io_writes (l ++ [a]) st io =
      (io_handler a.1 a.2 DEVICE_OUT (io_writes l st io).1 (io_writes l st io).2).2 := by
  unfold io_writes
  rw [List.foldl_append]
  rfl

theorem io_writes_inv (ws : List (Nat × Nat)) (st : i8080_state_t) (io : invaders_io_t)
    (hsr : io.shift_reg = 0) (hso : io.shift_off = 0)
    (hws : ∀ w ∈ ws, (w.1 = 2 ∨ w.1 = 4) ∧ w.2 < 256) :
    (io_writes ws st io).2.shift_reg =
      ((written 4 ws).getD 0 0 <<< 8) ||| (written 4 ws).getD 1 0 ∧
    (io_writes ws st io).2.shift_off = (((written 2 ws).getD 0 0 &&& 0x7 : Nat) : Int) ∧
    (io_writes ws st io).1 = st ∧ (io_writes ws st io).2.inputs = io.inputs ∧
    (written 4 ws).getD 0 0 < 256 ∧ (written 4 ws).getD 1 0 < 256 := by
  induction ws using List.reverseRecOn with
  | nil =>
    refine ⟨?_, ?_, rfl, rfl, by decide, by decide⟩
    · show io.shift_reg = _
      rw [hsr]
      rfl
    · show io.shift_off = _
      rw [hso]
      rfl
  | append_singleton l a ih =>
    have hl : ∀ w ∈ l, (w.1 = 2 ∨ w.1 = 4) ∧ w.2 < 256 :=
      fun w hw => hws w (List.mem_append_left _ hw)
    obtain ⟨hp, hb⟩ := hws a (List.mem_append_right _ (List.mem_singleton.mpr rfl))
    obtain ⟨i1, i2, i3, i4, i5, i6⟩ := ih hl
    rw [io_writes_snoc, written_snoc, written_snoc]
    rcases hp with hp | hp
    · rw [hp, if_neg (by decide), if_pos rfl]
      exact ⟨i1, rfl, i3, i4, i5, i6⟩
    · rw [hp, if_pos rfl, if_neg (by decide)]
      refine ⟨?_, i2, i3, i4, hb, i5⟩
      show (((io_writes l st io).2.shift_reg >>> 8) % 65536 ||| (a.2 <<< 8)) % 65536 = _
      rw [i1]
      exact shift_in _ _ _ i5 i6 hb

/-- C24: starting from `shift_reg = 0` and `shift_off = 0`, after any finite sequence of OUT
writes to ports 2 and 4, `shift_reg = (b1 << 8) | b2` with `b1` the last and `b2` the
second-to-last byte written to port 4 (0 if absent), `shift_off` is the last byte written to
port 2 masked with 7 (0 if absent), and a read of port 3 returns
`(shift_reg >> (8 - shift_off)) & 0xFF`; the writes touch neither the CPU state nor the
input bits. -/
theorem shift_register_spec (ws : List (Nat × Nat)) (st : i8080_state_t) (io : invaders_io_t)
    (byte : Nat) (hsr : io.shift_reg = 0) (hso : io.shift_off = 0)
    (hws : ∀ w ∈ ws, (w.1 = 2 ∨ w.1 = 4) ∧ w.2 < 256) :
    (io_writes ws st io).2.shift_reg =
      ((written 4 ws).getD 0 0 <<< 8) ||| (written 4 ws).getD 1 0 ∧
    (io_writes ws st io).2.shift_off = (((written 2 ws).getD 0 0 &&& 0x7 : Nat) : Int) ∧
    (io_handler 3 byte DEVICE_IN (io_writes ws st io).1 (io_writes ws st io).2).1 =
      ((io_writes ws st io).2.shift_reg >>> (8 - ((written 2 ws).getD 0 0 &&& 0x7))) &&& 0xff ∧
    (io_writes ws st io).1 = st ∧ (io_writes ws st io).2.inputs = io.inputs := by
  obtain ⟨i1, i2, i3, i4, -, -⟩ := io_writes_inv ws st io hsr hso hws
  refine ⟨i1, i2, ?_, i3, i4⟩
  show (((io_writes ws st io).2.shift_reg >>> (8 - (io_writes ws st io).2.shift_off).toNat)
    &&& 0xff) % 256 = _
  rw [i2]
  have hle : (written 2 ws).getD 0 0 &&& 0x7 ≤ 7 := Nat.and_le_right
  have e : (8 - (((written 2 ws).getD 0 0 &&& 0x7 : Nat) : Int)).toNat =
      8 - ((written 2 ws).getD 0 0 &&& 0x7) := by omega
  rw [e, land_ff]
  omega

theorem shift_register_spec_witness :
    io_startup.shift_reg = 0 ∧ io_startup.shift_off = 0 ∧
    (∀ w ∈ [(4, 0xab), (4, 0xcd), (2, 0x04)], (w.1 = 2 ∨ w.1 = 4) ∧ w.2 < 256) ∧
    (io_writes [(4, 0xab), (4, 0xcd), (2, 0x04)] demo_nop.state io_startup).2.shift_reg =
      ((written 4 [(4, 0xab), (4, 0xcd), (2, 0x04)]).getD 0 0 <<< 8) |||
        (written 4 [(4, 0xab), (4, 0xcd), (2, 0x04)]).getD 1 0 ∧
    (io_writes [(4, 0xab), (4, 0xcd), (2, 0x04)] demo_nop.state io_startup).2.shift_reg =
      0xcdab ∧
    (io_writes [(4, 0xab), (4, 0xcd), (2, 0x04)] demo_nop.state io_startup).2.shift_off = 4 ∧
    (io_handler 3 0 DEVICE_IN
      (io_writes [(4, 0xab), (4, 0xcd), (2, 0x04)] demo_nop.state io_startup).1
      (io_writes [(4, 0xab), (4, 0xcd), (2, 0x04)] demo_nop.state io_startup).2).1 = 0xda :=
  ⟨rfl, rfl, by decide,
    (shift_register_spec [(4, 0xab), (4, 0xcd), (2, 0x04)] demo_nop.state io_startup 0 rfl rfl
      (by decide)).1,
    by decide!, by decide!, by decide!⟩


/-! ## Input ports of the Space Invaders board -/

theorem last_event_snoc (keys : List Nat) (l : List (Nat × Nat)) (e : Nat × Nat) :
    last_event keys (l ++ [e]) = if e.1 ∈ keys then e.2 else last_event keys l := by
  unfold last_event
  by_cases h : e.1 ∈ keys
  · simp [List.filter_append, h]
  · simp [List.filter_append, h]

theorem io_keyevents_snoc (l : List (Nat × Nat)) (e : Nat × Nat) (st : i8080_state_t)
    (io : invaders_io_t) :
    io_keyevents (l ++ [e]) st io =
      io_keyevent_fn e.1 e.2 (io_keyevents l st io).1 (io_keyevents l st io).2 := by
  unfold io_keyevents
  rw [List.foldl_append]
  rfl

theorem port1_bits (b0 b1 b2 b4 b5 b6 : Nat) (h0 : b0 < 2) (h1 : b1 < 2) (h2 : b2 < 2)
    (h4 : b4 < 2) (h5 : b5 < 2) (h6 : b6 < 2) :
    ((b0 <<< 0) ||| (b1 <<< 1) ||| (b2 <<< 2) ||| (1 <<< 3) ||| (b4 <<< 4) ||| (b5 <<< 5) |||
      (b6 <<< 6) ||| (0 <<< 7)) % 256 =
    b0 + 2 * b1 + 4 * b2 + 8 + 16 * b4 + 32 * b5 + 64 * b6 := by
  interval_cases b0 <;> interval_cases b1 <;> interval_cases b2 <;> interval_cases b4 <;>
    interval_cases b5 <;> interval_cases b6 <;> rfl

theorem last_event_lt (keys : List Nat) (evs : List (Nat × Nat))
    (hev : ∀ e ∈ evs, e.2 = KEY_PRESS_EVENT ∨ e.2 = KEY_RELEASE_EVENT) :
    last_event keys evs < 2 := by
  induction evs using List.reverseRecOn with
  | nil => exact Nat.zero_lt_two
  | append_singleton l e ih =>
    rw [last_event_snoc]
    split
    · rcases hev e (List.mem_append_right _ (List.mem_singleton.mpr rfl)) with h | h <;>
        rw [h] <;> decide
    · exact ih (fun w hw => hev w (List.mem_append_left _ hw))

theorem io_keyevent_fields (k v : Nat) (st : i8080_state_t) (io : invaders_io_t) :
    (io_keyevent_fn k v st io).2.inputs.credit =
      (if k ∈ [KEY_5] then v % 2 else io.inputs.credit) ∧
    (io_keyevent_fn k v st io).2.inputs.p2 =
      (if k ∈ [KEY_2] then v % 2 else io.inputs.p2) ∧
    (io_keyevent_fn k v st io).2.inputs.p1 =
      (if k ∈ [KEY_1] then v % 2 else io.inputs.p1) ∧
    (io_keyevent_fn k v st io).2.inputs.p1shot =
      (if k ∈ [KEY_SPACE, KEY_CONTROL] then v % 2 else io.inputs.p1shot) ∧
    (io_keyevent_fn k v st io).2.inputs.p1left =
      (if k ∈ [KEY_LEFT] then v % 2 else io.inputs.p1left) ∧
    (io_keyevent_fn k v st io).2.inputs.p1right =
      (if k ∈ [KEY_RIGHT] then v % 2 else io.inputs.p1right) ∧
    (io_keyevent_fn k v st io).2.inputs.bit13 = io.inputs.bit13 ∧
    (io_keyevent_fn k v st io).2.inputs.bit17 = io.inputs.bit17 ∧
    (io_keyevent_fn k v st io).2.inputs.dip3 = io.inputs.dip3 ∧
    (io_keyevent_fn k v st io).2.inputs.dip5 = io.inputs.dip5 ∧
    (io_keyevent_fn k v st io).2.inputs.tilt = io.inputs.tilt ∧
    (io_keyevent_fn k v st io).2.inputs.dip6 = io.inputs.dip6 ∧
    (io_keyevent_fn k v st io).2.inputs.p2shot = io.inputs.p2shot ∧
    (io_keyevent_fn k v st io).2.inputs.p2left = io.inputs.p2left ∧
    (io_keyevent_fn k v st io).2.inputs.p2right = io.inputs.p2right ∧
    (io_keyevent_fn k v st io).2.inputs.dip7 = io.inputs.dip7 ∧
    (io_keyevent_fn k v st io).2.shift_reg = io.shift_reg ∧
    (io_keyevent_fn k v st io).2.shift_off = io.shift_off := by
  generalize hr : io_keyevent_fn k v st io = r
  unfold io_keyevent_fn at hr
  split_ifs at hr with h1 h2 h3 h4 h5 h6 h7 h8
  · subst hr h1
    exact ⟨rfl, rfl, rfl, rfl, rfl, rfl, rfl, rfl, rfl, rfl, rfl, rfl, rfl, rfl, rfl, rfl, rfl, rfl⟩
  · subst hr h2
    exact ⟨rfl, rfl, rfl, rfl, rfl, rfl, rfl, rfl, rfl, rfl, rfl, rfl, rfl, rfl, rfl, rfl, rfl, rfl⟩
  · subst hr h3
    exact ⟨rfl, rfl, rfl, rfl, rfl, rfl, rfl, rfl, rfl, rfl, rfl, rfl, rfl, rfl, rfl, rfl, rfl, rfl⟩
  · subst hr h4
    exact ⟨rfl, rfl, rfl, rfl, rfl, rfl, rfl, rfl, rfl, rfl, rfl, rfl, rfl, rfl, rfl, rfl, rfl, rfl⟩
  · subst hr h5
    exact ⟨rfl, rfl, rfl, rfl, rfl, rfl, rfl, rfl, rfl, rfl, rfl, rfl, rfl, rfl, rfl, rfl, rfl, rfl⟩
  · subst hr h6
    exact ⟨rfl, rfl, rfl, rfl, rfl, rfl, rfl, rfl, rfl, rfl, rfl, rfl, rfl, rfl, rfl, rfl, rfl, rfl⟩
  · subst hr h7
    exact ⟨rfl, rfl, rfl, rfl, rfl, rfl, rfl, rfl, rfl, rfl, rfl, rfl, rfl, rfl, rfl, rfl, rfl, rfl⟩
  · subst hr h8
    exact ⟨rfl, rfl, rfl, rfl, rfl, rfl, rfl, rfl, rfl, rfl, rfl, rfl, rfl, rfl, rfl, rfl, rfl, rfl⟩
  · subst hr
    simp only [List.mem_cons, List.mem_singleton, List.not_mem_nil, or_false, h1, h2, h3, h4,
      h5, h6, h7, if_false, and_self]

theorem io_keyevents_inputs (evs : List (Nat × Nat)) (st : i8080_state_t)
    (io : invaders_io_t)
    (hev : ∀ e ∈ evs, e.2 = KEY_PRESS_EVENT ∨ e.2 = KEY_RELEASE_EVENT) :
    (io_keyevents evs st (io_init io)).2.inputs.credit = last_event [KEY_5] evs ∧
    (io_keyevents evs st (io_init io)).2.inputs.p2 = last_event [KEY_2] evs ∧
    (io_keyevents evs st (io_init io)).2.inputs.p1 = last_event [KEY_1] evs ∧
    (io_keyevents evs st (io_init io)).2.inputs.p1shot = last_event [KEY_SPACE, KEY_CONTROL] evs ∧
    (io_keyevents evs st (io_init io)).2.inputs.p1left = last_event [KEY_LEFT] evs ∧
    (io_keyevents evs st (io_init io)).2.inputs.p1right = last_event [KEY_RIGHT] evs ∧
    (io_keyevents evs st (io_init io)).2.inputs.bit13 = 1 ∧
    (io_keyevents evs st (io_init io)).2.inputs.bit17 = 0 ∧
    (io_keyevents evs st (io_init io)).2.inputs.dip3 = 1 ∧
    (io_keyevents evs st (io_init io)).2.inputs.dip5 = 1 ∧
    (io_keyevents evs st (io_init io)).2.inputs.tilt = 0 ∧
    (io_keyevents evs st (io_init io)).2.inputs.dip6 = 1 ∧
    (io_keyevents evs st (io_init io)).2.inputs.p2shot = 0 ∧
    (io_keyevents evs st (io_init io)).2.inputs.p2left = 0 ∧
    (io_keyevents evs st (io_init io)).2.inputs.p2right = 0 ∧
    (io_keyevents evs st (io_init io)).2.inputs.dip7 = 0 ∧
    (io_keyevents evs st (io_init io)).2.shift_reg = io.shift_reg ∧
    (io_keyevents evs st (io_init io)).2.shift_off = io.shift_off := by
  induction evs using List.reverseRecOn with
  | nil => exact ⟨rfl, rfl, rfl, rfl, rfl, rfl, rfl, rfl, rfl, rfl, rfl, rfl, rfl, rfl, rfl, rfl, rfl, rfl⟩
  | append_singleton l e ih =>
    obtain ⟨i0, i1, i2, i3, i4, i5, i6, i7, i8, i9, i10, i11, i12, i13, i14, i15, i16, i17⟩ := ih (fun w hw => hev w (List.mem_append_left _ hw))
    have hv : e.2 % 2 = e.2 := by
      rcases hev e (List.mem_append_right _ (List.mem_singleton.mpr rfl)) with h | h <;>
        rw [h] <;> rfl
    obtain ⟨s0, s1, s2, s3, s4, s5, s6, s7, s8, s9, s10, s11, s12, s13, s14, s15, s16, s17⟩ := io_keyevent_fields e.1 e.2
      (io_keyevents l st (io_init io)).1 (io_keyevents l st (io_init io)).2
    rw [io_keyevents_snoc]
    refine ⟨?_, ?_, ?_, ?_, ?_, ?_, ?_, ?_, ?_, ?_, ?_, ?_, ?_, ?_, ?_, ?_, ?_, ?_⟩
    · rw [s0, last_event_snoc, i0, hv]
    · rw [s1, last_event_snoc, i1, hv]
    · rw [s2, last_event_snoc, i2, hv]
    · rw [s3, last_event_snoc, i3, hv]
    · rw [s4, last_event_snoc, i4, hv]
    · rw [s5, last_event_snoc, i5, hv]
    · rw [s6, i6]
    · rw [s7, i7]
    · rw [s8, i8]
    · rw [s9, i9]
    · rw [s10, i10]
    · rw [s11, i11]
    · rw [s12, i12]
    · rw [s13, i13]
    · rw [s14, i14]
    · rw [s15, i15]
    · rw [s16, i16]
    · rw [s17, i17]

theorem io_read_ports (byte : Nat) (st : i8080_state_t) (io : invaders_io_t) :
    (io_handler 0 byte DEVICE_IN st io).1 = 0 ∧
    (io_handler 1 byte DEVICE_IN st io).1 =
      ((io.inputs.credit <<< 0) ||| (io.inputs.p2 <<< 1) ||| (io.inputs.p1 <<< 2) |||
        (io.inputs.bit13 <<< 3) ||| (io.inputs.p1shot <<< 4) ||| (io.inputs.p1left <<< 5) |||
        (io.inputs.p1right <<< 6) ||| (io.inputs.bit17 <<< 7)) % 256 ∧
    (io_handler 2 byte DEVICE_IN st io).1 =
      ((io.inputs.dip3 <<< 0) ||| (io.inputs.dip5 <<< 1) ||| (io.inputs.tilt <<< 2) |||
        (io.inputs.dip6 <<< 3) ||| (io.inputs.p2shot <<< 4) ||| (io.inputs.p2left <<< 5) |||
        (io.inputs.p2right <<< 6) ||| (io.inputs.dip7 <<< 7)) % 256 :=
  ⟨rfl, rfl, rfl⟩

/-- C25: after `io_init` and any finite sequence of key events (Press = 1, Release = 0), a
read of port 1 returns the byte whose bit 3 is 1, bit 7 is 0 and whose bits 0, 1, 2, 4, 5, 6
are the value of the most recent event for key 5, key 2, key 1, SPACE or CONTROL, LEFT and
RIGHT (0 if there was none); a read of port 2 returns 0x0B and a read of port 0 returns 0;
ESCAPE only sets `halt_req`; every other key changes nothing. -/
theorem input_ports_spec (evs : List (Nat × Nat)) (st : i8080_state_t) (io : invaders_io_t)
    (byte : Nat) (hev : ∀ e ∈ evs, e.2 = KEY_PRESS_EVENT ∨ e.2 = KEY_RELEASE_EVENT) :
    (∀ s, s = io_keyevents evs st (io_init io) →
      (io_handler 1 byte DEVICE_IN s.1 s.2).1 / 8 % 2 = 1 ∧
      (io_handler 1 byte DEVICE_IN s.1 s.2).1 / 128 = 0 ∧
      (io_handler 1 byte DEVICE_IN s.1 s.2).1 % 2 = last_event [KEY_5] evs ∧
      (io_handler 1 byte DEVICE_IN s.1 s.2).1 / 2 % 2 = last_event [KEY_2] evs ∧
      (io_handler 1 byte DEVICE_IN s.1 s.2).1 / 4 % 2 = last_event [KEY_1] evs ∧
      (io_handler 1 byte DEVICE_IN s.1 s.2).1 / 16 % 2 =
        last_event [KEY_SPACE, KEY_CONTROL] evs ∧
      (io_handler 1 byte DEVICE_IN s.1 s.2).1 / 32 % 2 = last_event [KEY_LEFT] evs ∧
      (io_handler 1 byte DEVICE_IN s.1 s.2).1 / 64 % 2 = last_event [KEY_RIGHT] evs ∧
      (io_handler 2 byte DEVICE_IN s.1 s.2).1 = 0x0b ∧
      (io_handler 0 byte DEVICE_IN s.1 s.2).1 = 0) ∧
    (∀ ev st1 io1, io_keyevent_fn KEY_ESCAPE ev st1 io1 = ({ st1 with halt_req := 1 }, io1)) ∧
    (∀ key ev st1 io1,
      key ∉ [KEY_SPACE, KEY_CONTROL, KEY_LEFT, KEY_RIGHT, KEY_5, KEY_1, KEY_2, KEY_ESCAPE] →
      io_keyevent_fn key ev st1 io1 = (st1, io1)) := by
  refine ⟨?_, fun _ _ _ => rfl, ?_⟩
  · intro s hs
    subst hs
    obtain ⟨i0, i1, i2, i3, i4, i5, i6, i7, i8, i9, i10, i11, i12, i13, i14, i15, -, -⟩ :=
      io_keyevents_inputs evs st io hev
    obtain ⟨r0, r1, r2⟩ := io_read_ports byte (io_keyevents evs st (io_init io)).1
      (io_keyevents evs st (io_init io)).2
    have b0 := last_event_lt [KEY_5] evs hev
    have b1 := last_event_lt [KEY_2] evs hev
    have b2 := last_event_lt [KEY_1] evs hev
    have b4 := last_event_lt [KEY_SPACE, KEY_CONTROL] evs hev
    have b5 := last_event_lt [KEY_LEFT] evs hev
    have b6 := last_event_lt [KEY_RIGHT] evs hev
    rw [r0, r1, r2, i0, i1, i2, i3, i4, i5, i6, i7, i8, i9, i10, i11, i12, i13, i14, i15,
      port1_bits _ _ _ _ _ _ b0 b1 b2 b4 b5 b6]
    refine ⟨by omega, by omega, by omega, by omega, by omega, by omega, by omega, by omega,
      rfl, rfl⟩
  · intro key ev st1 io1 hk
    simp only [List.mem_cons, List.mem_singleton, List.not_mem_nil, or_false, not_or] at hk
    obtain ⟨h1, h2, h3, h4, h5, h6, h7, h8⟩ := hk
    unfold io_keyevent_fn
    rw [if_neg h1, if_neg h2, if_neg h3, if_neg h4, if_neg h5, if_neg h6, if_neg h7, if_neg h8]

theorem input_ports_spec_witness :
    (∀ e ∈ [(KEY_5, KEY_PRESS_EVENT), (KEY_SPACE, KEY_PRESS_EVENT), (KEY_5, KEY_RELEASE_EVENT),
        (KEY_LEFT, KEY_PRESS_EVENT)],
      e.2 = KEY_PRESS_EVENT ∨ e.2 = KEY_RELEASE_EVENT) ∧
    (io_handler 1 0 DEVICE_IN
      (io_keyevents [(KEY_5, KEY_PRESS_EVENT), (KEY_SPACE, KEY_PRESS_EVENT),
        (KEY_5, KEY_RELEASE_EVENT), (KEY_LEFT, KEY_PRESS_EVENT)] demo_nop.state
        (io_init io_startup)).1
      (io_keyevents [(KEY_5, KEY_PRESS_EVENT), (KEY_SPACE, KEY_PRESS_EVENT),
        (KEY_5, KEY_RELEASE_EVENT), (KEY_LEFT, KEY_PRESS_EVENT)] demo_nop.state
        (io_init io_startup)).2).1 / 8 % 2 = 1 ∧
    (io_handler 1 0 DEVICE_IN
      (io_keyevents [(KEY_5, KEY_PRESS_EVENT), (KEY_SPACE, KEY_PRESS_EVENT),
        (KEY_5, KEY_RELEASE_EVENT), (KEY_LEFT, KEY_PRESS_EVENT)] demo_nop.state
        (io_init io_startup)).1
      (io_keyevents [(KEY_5, KEY_PRESS_EVENT), (KEY_SPACE, KEY_PRESS_EVENT),
        (KEY_5, KEY_RELEASE_EVENT), (KEY_LEFT, KEY_PRESS_EVENT)] demo_nop.state
        (io_init io_startup)).2).1 = 0x38 :=
  ⟨by decide,
    ((input_ports_spec [(KEY_5, KEY_PRESS_EVENT), (KEY_SPACE, KEY_PRESS_EVENT),
        (KEY_5, KEY_RELEASE_EVENT), (KEY_LEFT, KEY_PRESS_EVENT)] demo_nop.state io_startup 0
      (by decide)).1 _ rfl).1,
    by decide!⟩

/-! ## BDOS trap -/

theorem writestr_none (mem : Int → Nat) (hmem : ∀ k, mem k ≠ 0x24) :
    ∀ (fuel de : Nat) (console : List Nat), bdos_writestr fuel mem de console = none := by
  intro fuel
  induction fuel with
  | zero => intro de console; rfl
  | succ f ih =>
    intro de console
    unfold bdos_writestr
    rw [if_pos (hmem _)]
    exact ih _ _

theorem writestr_some (mem : Int → Nat) :
    ∀ (n de : Nat) (console : List Nat), de < 65536 →
      mem (((de + n) % 65536 : Nat) : Int) = 0x24 →
      ∀ fuel, n < fuel → ∃ printed, bdos_writestr fuel mem de console = some printed := by
  intro n
  induction n with
  | zero =>
    intro de console hde h fuel hf
    obtain ⟨f, rfl⟩ : ∃ f, fuel = f + 1 := ⟨fuel - 1, by omega⟩
    have e : (de + 0) % 65536 = de := by omega
    rw [e] at h
    unfold bdos_writestr
    rw [if_neg (not_not.mpr h)]
    exact ⟨_, rfl⟩
  | succ n ih =>
    intro de console hde h fuel hf
    obtain ⟨f, rfl⟩ : ∃ f, fuel = f + 1 := ⟨fuel - 1, by omega⟩
    unfold bdos_writestr
    by_cases hd : mem (de : Int) = 0x24
    · rw [if_neg (not_not.mpr hd)]
      exact ⟨_, rfl⟩
    · rw [if_pos hd]
      have e : ((de + 1) % 65536 + n) % 65536 = (de + (n + 1)) % 65536 := by omega
      exact ih _ _ (Nat.mod_lt _ (by decide)) (by rw [e]; exact h) f (by omega)

theorem writestr_first (mem : Int → Nat) :
    ∀ (n de : Nat) (console : List Nat), de < 65536 →
      mem (((de + n) % 65536 : Nat) : Int) = 0x24 →
      (∀ i, i < n → mem (((de + i) % 65536 : Nat) : Int) ≠ 0x24) →
      ∀ fuel, n < fuel →
        bdos_writestr fuel mem de console =
          some (console ++
            (List.range n).map (fun i => mem (((de + i) % 65536 : Nat) : Int) % 256)) := by
  intro n
  induction n with
  | zero =>
    intro de console hde h _ fuel hf
    obtain ⟨f, rfl⟩ : ∃ f, fuel = f + 1 := ⟨fuel - 1, by omega⟩
    have e : (de + 0) % 65536 = de := by omega
    rw [e] at h
    unfold bdos_writestr
    rw [if_neg (not_not.mpr h)]
    simp
  | succ n ih =>
    intro de console hde h hfirst fuel hf
    obtain ⟨f, rfl⟩ : ∃ f, fuel = f + 1 := ⟨fuel - 1, by omega⟩
    have h0 := hfirst 0 (by omega)
    have e0 : (de + 0) % 65536 = de := by omega
    rw [e0] at h0
    have e : ∀ i, ((de + 1) % 65536 + i) % 65536 = (de + (i + 1)) % 65536 := by
      intro i
      omega
    unfold bdos_writestr
    rw [if_pos h0, ih ((de + 1) % 65536) _ (Nat.mod_lt _ (by decide))
      (by rw [e]; exact h) (fun i hi => by rw [e]; exact hfirst (i + 1) (by omega)) f
      (by omega)]
    simp only [e]
    rw [List.range_succ_eq_map, List.map_cons, List.map_map]
    unfold putchar
    rw [e0, List.append_assoc]
    rfl

/-- C27 (as stated, at C = 9 with no `$` in memory): `bdos_entry` entered with PC = 0x0005
and C = 0x09 has no result, whatever bound is put on the C_WRITESTR loop, so it does not
return Continue for every value of C. -/
theorem bdos_entry_writestr_unterminated :
    demo_bdos_loop.pc = 0x0005 ∧ demo_bdos_loop.c = 0x09 ∧
    (∀ k, demo_bdos_loop.mem k ≠ 0x24) ∧
    ∀ (diag : Nat → List Nat) (fuel : Nat) (console : List Nat),
      bdos_entry diag fuel demo_bdos_loop console = none := by
  refine ⟨rfl, rfl, fun _ => (by decide : (0 : Nat) ≠ 0x24), fun diag fuel console => ?_⟩
  show (match bdos_writestr fuel (fun _ => 0) (reg_pair 0x02 0x00) console with
    | none => none
    | some console =>
      some ((0 : Int), ({ demo_bdos_loop with
        pc := ((demo_bdos_loop.mem ((demo_bdos_loop.sp : Int) + 1) <<< 8) |||
          demo_bdos_loop.mem demo_bdos_loop.sp) % 65536,
        sp := (demo_bdos_loop.sp + 2) % 65536 } : i8080_state_t), console)) = none
  rw [writestr_none (fun _ => 0) (fun _ => (by decide : (0 : Nat) ≠ 0x24))]

theorem bdos_entry_ret (diag : Nat → List Nat) (fuel : Nat) (st : i8080_state_t)
    (console : List Nat) (hpc : st.pc = 0x0005) :
    (st.c = 0x2 →
      bdos_entry diag fuel st console =
        some (0, { st with
            pc := ((st.mem ((st.sp : Int) + 1) <<< 8) ||| st.mem st.sp) % 65536,
            sp := (st.sp + 2) % 65536 }, console ++ [st.e % 256])) ∧
    (st.c ≠ 0x2 → st.c ≠ 0x9 →
      bdos_entry diag fuel st console =
        some (0, { st with
            pc := ((st.mem ((st.sp : Int) + 1) <<< 8) ||| st.mem st.sp) % 65536,
            sp := (st.sp + 2) % 65536 }, console ++ diag st.c)) ∧
    (st.c = 0x9 → ∀ printed,
      bdos_writestr fuel st.mem (reg_pair st.d st.e) console = some printed →
      bdos_entry diag fuel st console =
        some (0, { st with
            pc := ((st.mem ((st.sp : Int) + 1) <<< 8) ||| st.mem st.sp) % 65536,
            sp := (st.sp + 2) % 65536 }, printed)) := by
  refine ⟨fun h2 => ?_, fun h2 h9 => ?_, fun h9 printed hp => ?_⟩
  · unfold bdos_entry
    simp only [hpc, h2, if_true]
    rfl
  · unfold bdos_entry
    simp only [hpc, h2, h9, if_true, if_false]
  · have h2 : st.c ≠ 0x2 := by omega
    unfold bdos_entry
    simp only [hpc, h9, if_true, hp]
    rfl

/-- C27 (amended for C = 0x09): `bdos_entry` called with PC = 0x0005 returns Continue (0) for
every value of C other than 0x09, and for C = 0x09 whenever a `$` is found within the bound
on the C_WRITESTR loop, after setting PC to `mem[SP] | (mem[SP+1] << 8)` and SP to `SP + 2`
and leaving all other registers, the flags, `halt_req` and memory unchanged; when C = 0x02 the
console output of the call is exactly the one byte held in register E. -/
theorem bdos_entry_spec (diag : Nat → List Nat) (fuel : Nat) (st : i8080_state_t)
    (console : List Nat) (hpc : st.pc = 0x0005) :
    (st.c ≠ 0x9 →
      bdos_entry diag fuel st console =
        some (0, { st with
            pc := ((st.mem ((st.sp : Int) + 1) <<< 8) ||| st.mem st.sp) % 65536,
            sp := (st.sp + 2) % 65536 },
          if st.c = 0x2 then console ++ [st.e % 256] else console ++ diag st.c)) ∧
    (st.c = 0x2 → st.e < 256 →
      ∃ r, bdos_entry diag fuel st console = some r ∧ r.1 = 0 ∧ r.2.2 = console ++ [st.e]) ∧
    (st.c = 0x9 → ∀ n, st.mem (((reg_pair st.d st.e + n) % 65536 : Nat) : Int) = 0x24 →
      n < fuel →
      ∃ printed, bdos_entry diag fuel st console =
        some (0, { st with
            pc := ((st.mem ((st.sp : Int) + 1) <<< 8) ||| st.mem st.sp) % 65536,
            sp := (st.sp + 2) % 65536 }, printed)) := by
  obtain ⟨k2, kd, k9⟩ := bdos_entry_ret diag fuel st console hpc
  refine ⟨fun h9 => ?_, fun h2 he => ?_, fun h9 n hn hf => ?_⟩
  · by_cases h2 : st.c = 0x2
    · rw [k2 h2, if_pos h2]
    · rw [kd h2 h9, if_neg h2]
  · exact ⟨_, k2 h2, rfl, by
      show console ++ [st.e % 256] = _
      rw [Nat.mod_eq_of_lt he]⟩
  · obtain ⟨printed, hp⟩ := writestr_some st.mem n (reg_pair st.d st.e) console
      (reg_pair_lt _ _) hn fuel hf
    exact ⟨printed, k9 h9 printed hp⟩

theorem bdos_entry_spec_witness :
    demo_bdos_write.pc = 0x0005 ∧ demo_bdos_write.c ≠ 0x9 ∧
    demo_bdos_write.c = 0x2 ∧ demo_bdos_write.e < 256 ∧
    bdos_entry (fun _ => []) 0 demo_bdos_write [] =
      some (0, { demo_bdos_write with
          pc := ((demo_bdos_write.mem ((demo_bdos_write.sp : Int) + 1) <<< 8) |||
            demo_bdos_write.mem demo_bdos_write.sp) % 65536,
          sp := (demo_bdos_write.sp + 2) % 65536 },
        if demo_bdos_write.c = 0x2 then [] ++ [demo_bdos_write.e % 256]
        else [] ++ (fun _ => []) demo_bdos_write.c) ∧
    (bdos_entry (fun _ => []) 0 demo_bdos_write []).map (fun r => (r.1, r.2.1.pc, r.2.1.sp, r.2.2))
      = some (0, 0x0108, 0x2400, [0x41]) :=
  ⟨rfl, by decide, rfl, by decide,
    (bdos_entry_spec (fun _ => []) 0 demo_bdos_write [] rfl).1 (by decide),
    by decide!⟩

/-- C28: `bdos_entry` called with PC = 0x0005 and C = 0x09, when the first `$` met from DE
(incrementing modulo 2^16) is `n` bytes away, ends for every loop bound above `n`, returns 0,
emits exactly the `n` bytes `mem[DE], mem[DE+1], ...` that precede it, in order (nothing when
`n = 0`), leaves D and E (and everything but PC and SP) unchanged, and performs the simulated
RET. -/
theorem bdos_writestr_spec (diag : Nat → List Nat) (fuel : Nat) (st : i8080_state_t)
    (console : List Nat) (n : Nat) (hpc : st.pc = 0x0005) (hc : st.c = 0x9)
    (hn : st.mem (((reg_pair st.d st.e + n) % 65536 : Nat) : Int) = 0x24)
    (hfirst : ∀ i, i < n → st.mem (((reg_pair st.d st.e + i) % 65536 : Nat) : Int) ≠ 0x24)
    (hbytes : ∀ i, i < n → st.mem (((reg_pair st.d st.e + i) % 65536 : Nat) : Int) < 256)
    (hf : n < fuel) :
    bdos_entry diag fuel st console =
      some (0, { st with
          pc := ((st.mem ((st.sp : Int) + 1) <<< 8) ||| st.mem st.sp) % 65536,
          sp := (st.sp + 2) % 65536 },
        console ++
          (List.range n).map
            (fun i => st.mem (((reg_pair st.d st.e + i) % 65536 : Nat) : Int))) := by
  have hw := writestr_first st.mem n (reg_pair st.d st.e) console (reg_pair_lt _ _) hn hfirst
    fuel hf
  have hmap : (List.range n).map
        (fun i => st.mem (((reg_pair st.d st.e + i) % 65536 : Nat) : Int) % 256) =
      (List.range n).map
        (fun i => st.mem (((reg_pair st.d st.e + i) % 65536 : Nat) : Int)) := by
    apply List.map_congr_left
    intro i hi
    exact Nat.mod_eq_of_lt (hbytes i (List.mem_range.mp hi))
  rw [hmap] at hw
  exact (bdos_entry_ret diag fuel st console hpc).2.2 hc _ hw

theorem bdos_writestr_spec_witness :
    demo_bdos_str.pc = 0x0005 ∧ demo_bdos_str.c = 0x9 ∧
    demo_bdos_str.mem (((reg_pair demo_bdos_str.d demo_bdos_str.e + 2) % 65536 : Nat) : Int)
      = 0x24 ∧
    (∀ i, i < 2 →
      demo_bdos_str.mem (((reg_pair demo_bdos_str.d demo_bdos_str.e + i) % 65536 : Nat) : Int)
        ≠ 0x24) ∧
    (∀ i, i < 2 →
      demo_bdos_str.mem (((reg_pair demo_bdos_str.d demo_bdos_str.e + i) % 65536 : Nat) : Int)
        < 256) ∧
    2 < 3 ∧
    bdos_entry (fun _ => []) 3 demo_bdos_str [] =
      some (0, { demo_bdos_str with
          pc := ((demo_bdos_str.mem ((demo_bdos_str.sp : Int) + 1) <<< 8) |||
            demo_bdos_str.mem demo_bdos_str.sp) % 65536,
          sp := (demo_bdos_str.sp + 2) % 65536 },
        [] ++ (List.range 2).map
          (fun i => demo_bdos_str.mem
            (((reg_pair demo_bdos_str.d demo_bdos_str.e + i) % 65536 : Nat) : Int))) ∧
    (bdos_entry (fun _ => []) 3 demo_bdos_str []).map (fun r => (r.1, r.2.1.pc, r.2.1.sp, r.2.2))
      = some (0, 0x0108, 0x2400, [0x48, 0x69]) ∧
    (bdos_entry (fun _ => []) 3 demo_bdos_str []).map (fun r => (r.2.1.d, r.2.1.e))
      = some (0x02, 0x00) :=
  ⟨rfl, rfl, by decide!, by decide!, by decide!, by decide,
    bdos_writestr_spec (fun _ => []) 3 demo_bdos_str [] 2 rfl rfl (by decide!) (by decide!)
      (by decide!) (by decide),
    by decide!, by decide!⟩

/-- C29: `bdos_entry` called with PC = 0x0000 sets `halt_req`, returns -1 (Stopped), emits
nothing and changes nothing else; called with any PC other than 0x0000 and 0x0005 it returns
0 (Continue), emits nothing and leaves the state unchanged. For the image `[0xC9, 0, 0]`
loaded at 0x0100 by `exec_cpudiag` (PC = 0x0100, SP = 0): the first step executes RET and
leaves PC = 0, the second step returns -1 with `halt_req` set, the loop ends there, and the
console is empty. -/
theorem bdos_entry_other_pc (diag : Nat → List Nat) (fuel : Nat) (st : i8080_state_t)
    (console : List Nat) :
    (st.pc = 0x0000 →
      bdos_entry diag fuel st console = some (-1, { st with halt_req := 1 }, console)) ∧
    (st.pc ≠ 0x0000 → st.pc ≠ 0x0005 →
      bdos_entry diag fuel st console = some (0, st, console)) ∧
    (cpudiag_setup (fun _ => []) 2 (buffer_of [0xc9, 0x00, 0x00]) 3).state.pc = 0x0100 ∧
    (cpudiag_setup (fun _ => []) 2 (buffer_of [0xc9, 0x00, 0x00]) 3).state.sp = 0 ∧
    (cpudiag_setup (fun _ => []) 2 (buffer_of [0xc9, 0x00, 0x00]) 3).state.mem 0x0100 = 0xc9 ∧
    (i8080_exec (cpudiag_setup (fun _ => []) 2 (buffer_of [0xc9, 0x00, 0x00]) 3)).1 = 0 ∧
    (i8080_exec (cpudiag_setup (fun _ => []) 2 (buffer_of [0xc9, 0x00, 0x00]) 3)).2.state.pc
      = 0 ∧
    (i8080_exec
      (i8080_exec (cpudiag_setup (fun _ => []) 2 (buffer_of [0xc9, 0x00, 0x00]) 3)).2).1
      = -1 ∧
    (exec_cpudiag (fun _ => []) 2 (buffer_of [0xc9, 0x00, 0x00]) 3).map
      (fun r => (r.1, r.2.state.halt_req, r.2.state.pc, r.2.host)) = some (-1, 1, 0, []) := by
  refine ⟨fun h0 => ?_, fun h0 h5 => ?_, by decide!, by decide!, by decide!, by decide!,
    by decide!, by decide!, by decide!⟩
  · unfold bdos_entry
    rw [if_neg (by omega), if_pos h0]
  · unfold bdos_entry
    rw [if_neg h5, if_neg h0]

theorem bdos_entry_other_pc_witness :
    demo_bdos_zero.pc = 0x0000 ∧
    bdos_entry (fun _ => []) 0 demo_bdos_zero [] =
      some (-1, { demo_bdos_zero with halt_req := 1 }, []) ∧
    demo_call.state.pc ≠ 0x0000 ∧ demo_call.state.pc ≠ 0x0005 ∧
    bdos_entry (fun _ => []) 0 demo_call.state [] = some (0, demo_call.state, []) :=
  ⟨rfl, (bdos_entry_other_pc (fun _ => []) 0 demo_bdos_zero []).1 rfl,
    by decide, by decide,
    (bdos_entry_other_pc (fun _ => []) 0 demo_call.state []).2.1 (by decide) (by decide)⟩

/-! ## Image loading -/

theorem load_fold (offset : Int) (buffer : Int → Nat) (n : Nat) (st : i8080_state_t) :
    (List.range n).foldl
      (fun st (i : Nat) =>
        { st with mem := mem_write st.mem (offset + (i : Int)) (buffer (i : Int)) })
      st =
    { st with mem := fun k =>
        if offset ≤ k ∧ k < offset + n then buffer (k - offset) % 256 else st.mem k } := by
  induction n with
  | zero =>
    refine state_ext _ _ rfl rfl rfl rfl rfl rfl rfl rfl rfl rfl rfl ?_ rfl rfl rfl rfl
    funext k
    show st.mem k = if offset ≤ k ∧ k < offset + ((0 : Nat) : Int)
      then buffer (k - offset) % 256 else st.mem k
    rw [if_neg (by omega)]
  | succ n ih =>
    rw [List.range_succ, List.foldl_append, ih]
    refine state_ext _ _ rfl rfl rfl rfl rfl rfl rfl rfl rfl rfl rfl ?_ rfl rfl rfl rfl
    funext k
    show mem_write (fun k => if offset ≤ k ∧ k < offset + n then buffer (k - offset) % 256
        else st.mem k) (offset + (n : Int)) (buffer (n : Int)) k =
      if offset ≤ k ∧ k < offset + ((n + 1 : Nat) : Int) then buffer (k - offset) % 256
      else st.mem k
    unfold mem_write
    by_cases hk : k = offset + (n : Int)
    · rw [if_pos hk, if_pos (by omega)]
      have e2 : k - offset = (n : Int) := by omega
      rw [e2]
    · rw [if_neg hk]
      dsimp only
      by_cases h2 : offset ≤ k ∧ k < offset + (n : Int)
      · rw [if_pos h2, if_pos (by omega)]
      · rw [if_neg h2, if_neg (by omega)]

/-- C30: `i8080_load_memory (state, offset, buffer, len)` with `0 ≤ offset` (in particular
with `0 ≤ offset ≤ mem_size`) copies `buffer[i]` to `mem[offset + i]` for every
`i < min (len, mem_size - offset)`, drops the remaining bytes, stores only at indices in
`[0, mem_size)`, and leaves every other memory byte and every register unchanged. -/
theorem load_memory_spec (st : i8080_state_t) (offset : Int) (buffer : Int → Nat) (len : Int)
    (h0 : 0 ≤ offset)
    (hbuf : ∀ i : Int, 0 ≤ i → i < len → buffer i < 256) :
    i8080_load_memory st offset buffer len =
      { st with mem := (i8080_load_memory st offset buffer len).mem } ∧
    (∀ i : Int, 0 ≤ i → i < min len (st.mem_sizeb - offset) →
      (i8080_load_memory st offset buffer len).mem (offset + i) = buffer i) ∧
    (∀ k : Int, k < offset ∨ offset + min len (st.mem_sizeb - offset) ≤ k →
      (i8080_load_memory st offset buffer len).mem k = st.mem k) ∧
    (∀ k : Int, st.mem_sizeb ≤ k →
      (i8080_load_memory st offset buffer len).mem k = st.mem k) ∧
    (∀ k ∈ i8080_load_memory_writes st offset len, 0 ≤ k ∧ k < st.mem_sizeb) := by
  have hsize : (if len > st.mem_sizeb - offset then st.mem_sizeb - offset else len) =
      min len (st.mem_sizeb - offset) := by
    split <;> omega
  have hL : i8080_load_memory st offset buffer len =
      { st with mem := fun k =>
          if offset ≤ k ∧ k < offset + ((min len (st.mem_sizeb - offset)).toNat : Int)
          then buffer (k - offset) % 256 else st.mem k } := by
    unfold i8080_load_memory
    simp only [hsize]
    exact load_fold offset buffer _ st
  have hmem : ∀ k : Int, (i8080_load_memory st offset buffer len).mem k =
      if offset ≤ k ∧ k < offset + ((min len (st.mem_sizeb - offset)).toNat : Int)
      then buffer (k - offset) % 256 else st.mem k := by
    intro k
    rw [hL]
  refine ⟨?_, ?_, ?_, ?_, ?_⟩
  · rw [hL]
  · intro i hi0 hi
    rw [hmem, if_pos (by omega)]
    have e : offset + i - offset = i := by omega
    rw [e]
    exact Nat.mod_eq_of_lt (hbuf i hi0 (by omega))
  · intro k hk
    rw [hmem, if_neg (by omega)]
  · intro k hk
    rw [hmem, if_neg (by omega)]
  · intro k hk
    unfold i8080_load_memory_writes at hk
    simp only [hsize, List.mem_map, List.mem_range] at hk
    obtain ⟨i, hi, rfl⟩ := hk
    omega

theorem load_memory_spec_witness :
    (0 : Int) ≤ 12 ∧ (12 : Int) ≤ demo_load.mem_sizeb ∧
    (∀ i : Int, 0 ≤ i → i < 6 → buffer_of [1, 2, 3, 4, 5, 6] i < 256) ∧
    (∀ i : Int, 0 ≤ i → i < min 6 (demo_load.mem_sizeb - 12) →
      (i8080_load_memory demo_load 12 (buffer_of [1, 2, 3, 4, 5, 6]) 6).mem (12 + i) =
        buffer_of [1, 2, 3, 4, 5, 6] i) ∧
    (i8080_load_memory demo_load 12 (buffer_of [1, 2, 3, 4, 5, 6]) 6).mem 15 = 4 ∧
    (i8080_load_memory demo_load 12 (buffer_of [1, 2, 3, 4, 5, 6]) 6).mem 16 = 0xee ∧
    (i8080_load_memory demo_load 12 (buffer_of [1, 2, 3, 4, 5, 6]) 6).mem 11 = 0xee ∧
    i8080_load_memory_writes demo_load 12 6 = [12, 13, 14, 15] :=
  have hbuf : ∀ i : Int, 0 ≤ i → i < 6 → buffer_of [1, 2, 3, 4, 5, 6] i < 256 := by
    intro i h0 h6
    have h : i = 0 ∨ i = 1 ∨ i = 2 ∨ i = 3 ∨ i = 4 ∨ i = 5 := by omega
    rcases h with rfl | rfl | rfl | rfl | rfl | rfl <;> decide
  ⟨by decide, by decide, hbuf,
    (load_memory_spec demo_load 12 (buffer_of [1, 2, 3, 4, 5, 6]) 6 (by decide) hbuf).2.1,
    by decide!, by decide!, by decide!, by decide!⟩

/-! ## The program-counter test -/

/-- C35: whenever PC >= mem_size - 1, `i8080_exec` returns -1 (Stopped) and the machine it
returns is the one it was given: neither the trap nor the decoder runs, no register, flag or
memory byte changes and the host state is untouched, whatever byte is at PC. In a 64 KiB
memory the test holds exactly at PC = 0xFFFF, so the last byte is never executed. -/
theorem pc_guard_stops {H : Type} (m : machine_t H)
    (hpc : (m.state.pc : Int) ≥ m.state.mem_sizeb - 1) :
    i8080_exec m = (-1, m) ∧
    (m.state.mem_sizeb = 65536 → m.state.pc < 65536 → m.state.pc = 0xffff) := by
  refine ⟨?_, fun h1 h2 => by omega⟩
  unfold i8080_exec
  by_cases hh : m.state.halt_req ≠ 0
  · rw [if_pos hh]
  · rw [if_neg hh, if_pos hpc]

theorem pc_guard_stops_witness :
    (demo_guard.state.pc : Int) ≥ demo_guard.state.mem_sizeb - 1 ∧
    demo_guard.state.pc = 0xffff ∧ demo_guard.state.mem 0xffff = 0x00 ∧
    i8080_exec demo_guard = (-1, demo_guard) :=
  ⟨by decide, rfl, by decide, (pc_guard_stops demo_guard (by decide)).1⟩

/-! ## AC after ANA -/

theorem bit_and_or (a v i : Nat) :
    (a &&& v) / 2 ^ i % 2 = (a / 2 ^ i % 2) * (v / 2 ^ i % 2) ∧
    (a ||| v) / 2 ^ i % 2 = a / 2 ^ i % 2 + v / 2 ^ i % 2 - (a / 2 ^ i % 2) * (v / 2 ^ i % 2) := by
  have h1 := Nat.testBit_and a v i
  have h2 := Nat.testBit_or a v i
  simp only [Nat.testBit_to_div_mod] at h1 h2
  rcases Nat.mod_two_eq_zero_or_one (a / 2 ^ i) with ha | ha <;>
    rcases Nat.mod_two_eq_zero_or_one (v / 2 ^ i) with hv | hv <;>
    rcases Nat.mod_two_eq_zero_or_one ((a &&& v) / 2 ^ i) with hx | hx <;>
    rcases Nat.mod_two_eq_zero_or_one ((a ||| v) / 2 ^ i) with hy | hy <;>
    simp [ha, hv, hx, hy] at h1 h2 ⊢

theorem ana_with_ac (st : i8080_state_t) (v n : Nat) :
    (ana_with st v n).f.ac = (st.a ||| v) / 16 % 2 := by
  show (i8080_update_flags st ((st.a &&& v) % 65536) st.a v).f.ac = _
  rw [update_flags_ac]
  obtain ⟨h1, h2⟩ := bit_and_or st.a v 4
  norm_num at h1 h2
  rcases Nat.mod_two_eq_zero_or_one (st.a / 16) with ha | ha <;>
    rcases Nat.mod_two_eq_zero_or_one (v / 16) with hv | hv <;>
    rw [ha, hv] at h1 h2 <;> omega

/-- C39: after ANA r or ANA M (opcodes 0xA0..0xA7) the AC flag equals bit 4 of
(A_before OR src), for every A and every src: the XOR rule applied to a bitwise AND reduces
to the OR of the two operands at bit 4. ANI (0xE6) is different: it leaves AC = 0. -/
theorem ana_aux_carry {H : Type} (m : machine_t H) (hh : m.state.halt_req = 0)
    (ht : m.instr_func = none) (hpc : (m.state.pc : Int) < m.state.mem_sizeb - 1) :
    (m.state.mem m.state.pc / 8 = 0x14 →
      (i8080_exec m).2.state.f.ac = (m.state.a ||| alu_operand m.state) / 16 % 2) ∧
    (m.state.mem m.state.pc = 0xe6 → (i8080_exec m).2.state.f.ac = 0) := by
  constructor
  · intro hop
    rw [exec_ana m hh ht hpc hop]
    exact ana_with_ac _ _ _
  · intro hop
    rw [exec_ani m hh ht hpc hop]
    rfl

theorem ana_aux_carry_witness :
    (demo_ana.state.mem demo_ana.state.pc / 8 = 0x14 ∧
      (demo_ana.state.a ||| alu_operand demo_ana.state) / 16 % 2 = 1 ∧
      (i8080_exec demo_ana).2.state.f.ac = 1) ∧
    (demo_ani.state.mem demo_ani.state.pc = 0xe6 ∧
      (demo_ani.state.a ||| alu_operand demo_ani.state) / 16 % 2 = 1 ∧
      (i8080_exec demo_ani).2.state.f.ac = 0) :=
  ⟨⟨by decide, by decide!,
    ((ana_aux_carry demo_ana rfl rfl (by decide)).1 (by decide)).trans (by decide!)⟩,
   ⟨by decide, by decide!, (ana_aux_carry demo_ani rfl rfl (by decide)).2 (by decide)⟩⟩

/-! ## S, Z and P after DAA -/

theorem exec_daa {H : Type} (m : machine_t H) (hh : m.state.halt_req = 0)
    (ht : m.instr_func = none) (hpc : (m.state.pc : Int) < m.state.mem_sizeb - 1)
    (hop : m.state.mem m.state.pc = 0x27) :
    i8080_exec m = (0, { m with state := daa m.state }) := by
  rw [exec_no_trap m hh ht hpc, hop]
  rfl

theorem daa_no_adjust (st : i8080_state_t) (hlo : st.a % 16 ≤ 9) (hac : st.f.ac = 0)
    (hhi : st.a / 16 % 16 ≤ 9) (hcy : st.f.cy = 0) :
    (daa st).a = st.a ∧ (daa st).f.s = st.f.s ∧ (daa st).f.z = st.f.z ∧
    (daa st).f.p = st.f.p := by
  have h1 : ¬ ((st.a &&& 0xf) % 256 > 9 ∨ st.f.ac ≠ 0) := by
    rw [land_0f]
    omega
  have h2 : ¬ (((set_ac st 0).a >>> 4 &&& 0xf) % 256 > 9 ∨ st.f.cy ≠ 0) := by
    show ¬ ((st.a >>> 4 &&& 0xf) % 256 > 9 ∨ st.f.cy ≠ 0)
    rw [land_0f, Nat.shiftRight_eq_div_pow]
    omega
  unfold daa
  simp only [if_neg h1, if_neg h2]
  exact ⟨rfl, rfl, rfl, rfl⟩

theorem flags_reflect (st : i8080_state_t) (r : Nat) (d s : Int) :
    (i8080_update_flags st r d s).f.s = (r &&& 0xff) % 256 / 128 % 2 ∧
    (i8080_update_flags st r d s).f.z = (if (r &&& 0xff) % 256 = 0 then 1 else 0) ∧
    (i8080_update_flags st r d s).f.p =
      (if popcount8 ((r &&& 0xff) % 256) % 2 = 0 then 1 else 0) := by
  rw [update_flags_s, update_flags_z, update_flags_p, land_ff, Nat.mod_mod]
  exact ⟨by omega, rfl, rfl⟩

theorem daa_adjust (st : i8080_state_t)
    (h : st.a % 16 > 9 ∨ st.f.ac ≠ 0 ∨ st.a / 16 % 16 > 9 ∨ st.f.cy ≠ 0) :
    szp_reflect_a (daa st) := by
  unfold daa
  dsimp only
  split_ifs with h1 h2 h2
  · exact flags_reflect st _ 0 0
  · exact flags_reflect st _ 0 0
  · exact flags_reflect st _ 0 0
  · exfalso
    rw [land_0f] at h1
    have h3 : ¬ ((st.a >>> 4 &&& 0xf) % 256 > 9 ∨ st.f.cy ≠ 0) := h2
    rw [land_0f, Nat.shiftRight_eq_div_pow] at h3
    omega

/-- C32: after DAA, S, Z and P describe the final A whenever the low or the high adjustment
is applied; when neither is applied (low nibble of A at most 9, AC = 0, high nibble at most
9, CY = 0) A, S, Z and P all keep their incoming values, so the three flags describe A only
if they did before the instruction. -/
theorem daa_szp_flags {H : Type} (m : machine_t H) (hh : m.state.halt_req = 0)
    (ht : m.instr_func = none) (hpc : (m.state.pc : Int) < m.state.mem_sizeb - 1)
    (hop : m.state.mem m.state.pc = 0x27) :
    ((m.state.a % 16 > 9 ∨ m.state.f.ac ≠ 0 ∨ m.state.a / 16 % 16 > 9 ∨ m.state.f.cy ≠ 0) →
      szp_reflect_a (i8080_exec m).2.state) ∧
    (m.state.a % 16 ≤ 9 → m.state.f.ac = 0 → m.state.a / 16 % 16 ≤ 9 → m.state.f.cy = 0 →
      (i8080_exec m).2.state.a = m.state.a ∧
      (i8080_exec m).2.state.f.s = m.state.f.s ∧
      (i8080_exec m).2.state.f.z = m.state.f.z ∧
      (i8080_exec m).2.state.f.p = m.state.f.p) := by
  rw [exec_daa m hh ht hpc hop]
  exact ⟨daa_adjust m.state, daa_no_adjust m.state⟩

theorem daa_szp_flags_witness :
    demo_daa_zero.state.mem demo_daa_zero.state.pc = 0x27 ∧
    demo_daa_zero.state.a = 0 ∧ demo_daa_zero.state.f.z = 0 ∧ demo_daa_zero.state.f.p = 0 ∧
    (i8080_exec demo_daa_zero).2.state.a = 0 ∧
    (i8080_exec demo_daa_zero).2.state.f.z = 0 ∧
    (i8080_exec demo_daa_zero).2.state.f.p = 0 ∧
    ¬ szp_reflect_a (i8080_exec demo_daa_zero).2.state :=
  have h := (daa_szp_flags demo_daa_zero rfl rfl (by decide) (by decide)).2
    (by decide) rfl (by decide) rfl
  ⟨by decide, rfl, rfl, rfl, h.1, h.2.2.1, h.2.2.2,
    fun hr => absurd (h.2.2.1.symm.trans (hr.2.1.trans (if_pos h.1))) (by decide)⟩

/-! ## Register and memory operand forms -/

theorem alu_operand_sel (st : i8080_state_t) (f k : Nat) (hf : f < 8) (hk : k < 8)
    (hop : st.mem st.pc = 0x80 + 8 * f + k) : alu_operand st = reg_sel st k := by
  unfold alu_operand
  rw [if_neg (by omega)]
  congr 1
  omega

theorem add_with_af (s t : i8080_state_t) (v n n' : Nat) (ha : s.a = t.a) :
    (add_with s v n).a = (add_with t v n').a ∧ (add_with s v n).f = (add_with t v n').f := by
  simp only [add_with, pc_add, set_a, i8080_update_flags, ha, and_self]

theorem adc_with_af (s t : i8080_state_t) (v n n' : Nat) (ha : s.a = t.a) (hf : s.f = t.f) :
    (adc_with s v n).a = (adc_with t v n').a ∧ (adc_with s v n).f = (adc_with t v n').f := by
  simp only [adc_with, pc_add, set_a, i8080_update_flags, ha, hf, and_self]

theorem sub_with_af (s t : i8080_state_t) (v n n' : Nat) (ha : s.a = t.a) :
    (sub_with s v n).a = (sub_with t v n').a ∧ (sub_with s v n).f = (sub_with t v n').f := by
  simp only [sub_with, pc_add, set_a, i8080_update_flags, ha, and_self]

theorem cmp_with_af (s t : i8080_state_t) (v n n' : Nat) (ha : s.a = t.a) :
    (cmp_with s v n).a = (cmp_with t v n').a ∧ (cmp_with s v n).f = (cmp_with t v n').f := by
  simp only [cmp_with, pc_add, i8080_update_flags, ha, and_self]

theorem ana_with_af (s t : i8080_state_t) (v n n' : Nat) (ha : s.a = t.a) :
    (ana_with s v n).a = (ana_with t v n').a ∧ (ana_with s v n).f = (ana_with t v n').f := by
  simp only [ana_with, pc_add, set_a, set_cy, i8080_update_flags, ha, and_self]

theorem xra_with_af (s t : i8080_state_t) (v n n' : Nat) (ha : s.a = t.a) :
    (xra_with s v n).a = (xra_with t v n').a ∧ (xra_with s v n).f = (xra_with t v n').f := by
  simp only [xra_with, pc_add, set_a, set_cy, set_ac, i8080_update_flags, ha, and_self]

theorem ora_with_af (s t : i8080_state_t) (v n n' : Nat) (ha : s.a = t.a) :
    (ora_with s v n).a = (ora_with t v n').a ∧ (ora_with s v n).f = (ora_with t v n').f := by
  simp only [ora_with, pc_add, set_a, set_cy, set_ac, i8080_update_flags, ha, and_self]

theorem sbb_with_af (s t : i8080_state_t) (v : Nat) (x y : Int) (n n' : Nat) (ha : s.a = t.a)
    (hf : s.f = t.f) :
    (sbb_with s v x n).a = (sbb_with t v y n').a ∧
    (sbb_with s v x n).f.s = (sbb_with t v y n').f.s ∧
    (sbb_with s v x n).f.z = (sbb_with t v y n').f.z ∧
    (sbb_with s v x n).f.p = (sbb_with t v y n').f.p ∧
    (sbb_with s v x n).f.cy = (sbb_with t v y n').f.cy := by
  simp only [sbb_with, pc_add, set_a, i8080_update_flags, ha, hf, and_self]

theorem sbb_with_ac (st : i8080_state_t) (v : Nat) (x : Int) (n : Nat) :
    (sbb_with st v x n).f.ac =
      (((st.a : Int) / 16 + ((to_uint16 ((st.a : Int) - v - st.f.cy) : Nat) : Int) / 16
        + x / 16) % 2).toNat :=
  update_flags_ac st _ _ _

theorem sbb_flag_src_reg (st : i8080_state_t) (k : Nat) (hk : k < 8) (hk6 : k ≠ 6)
    (hop : st.mem st.pc = 0x98 + k) :
    sbb_flag_src st = (reg_sel st k : Int) + st.f.cy := by
  unfold sbb_flag_src
  rw [if_pos ⟨by omega, by omega⟩, alu_operand_sel st 3 k (by decide) hk hop]

theorem sbb_flag_src_mem (st : i8080_state_t) (hop : st.mem st.pc = 0x9e) :
    sbb_flag_src st = (reg_sel st 6 : Int) - st.f.cy := by
  unfold sbb_flag_src
  rw [if_neg (fun h => h.2 hop), alu_operand_sel st 3 6 (by decide) (by decide) hop]

/-- C33: for an ALU opcode `10 fff sss` in register form (sss other than 6) and the same
operation in memory form (sss = 6), started with the same A, the same flags and the same
operand value, the resulting A and the flags S, Z, P and CY agree for all eight operations,
and AC agrees for ADD, ADC, SUB, ANA, XRA, ORA and CMP. For SBB (fff = 3) the two forms
compute AC from different third operands of the XOR rule: the register form from
`src + CY`, the memory form from `src - CY`. -/
theorem alu_register_memory_forms {H : Type} (m1 m2 : machine_t H)
    (hh1 : m1.state.halt_req = 0) (ht1 : m1.instr_func = none)
    (hpc1 : (m1.state.pc : Int) < m1.state.mem_sizeb - 1)
    (hh2 : m2.state.halt_req = 0) (ht2 : m2.instr_func = none)
    (hpc2 : (m2.state.pc : Int) < m2.state.mem_sizeb - 1)
    (f k : Nat) (hf : f < 8) (hk : k < 8) (hk6 : k ≠ 6)
    (hop1 : m1.state.mem m1.state.pc = 0x80 + 8 * f + k)
    (hop2 : m2.state.mem m2.state.pc = 0x80 + 8 * f + 6)
    (ha : m1.state.a = m2.state.a) (hfl : m1.state.f = m2.state.f)
    (hv : reg_sel m1.state k = m2.state.mem (reg_pair m2.state.h m2.state.l)) :
    (i8080_exec m1).2.state.a = (i8080_exec m2).2.state.a ∧
    (i8080_exec m1).2.state.f.s = (i8080_exec m2).2.state.f.s ∧
    (i8080_exec m1).2.state.f.z = (i8080_exec m2).2.state.f.z ∧
    (i8080_exec m1).2.state.f.p = (i8080_exec m2).2.state.f.p ∧
    (i8080_exec m1).2.state.f.cy = (i8080_exec m2).2.state.f.cy ∧
    (f ≠ 3 → (i8080_exec m1).2.state.f.ac = (i8080_exec m2).2.state.f.ac) ∧
    (f = 3 →
      (i8080_exec m1).2.state.f.ac =
        (((m1.state.a : Int) / 16 +
          ((to_uint16 ((m1.state.a : Int) - reg_sel m1.state k - m1.state.f.cy) : Nat) : Int) / 16
          + ((reg_sel m1.state k : Int) + m1.state.f.cy) / 16) % 2).toNat ∧
      (i8080_exec m2).2.state.f.ac =
        (((m1.state.a : Int) / 16 +
          ((to_uint16 ((m1.state.a : Int) - reg_sel m1.state k - m1.state.f.cy) : Nat) : Int) / 16
          + ((reg_sel m1.state k : Int) - m1.state.f.cy) / 16) % 2).toNat) := by
  have e1 := alu_operand_sel m1.state f k hf hk hop1
  have e2 : alu_operand m2.state = reg_sel m1.state k :=
    (alu_operand_sel m2.state f 6 hf (by decide) hop2).trans hv.symm
  have full : ∀ (s t : i8080_state_t), s.a = t.a ∧ s.f = t.f →
      s.a = t.a ∧ s.f.s = t.f.s ∧ s.f.z = t.f.z ∧ s.f.p = t.f.p ∧ s.f.cy = t.f.cy ∧
      s.f.ac = t.f.ac := by
    intro s t h
    rw [h.1, h.2]
    exact ⟨rfl, rfl, rfl, rfl, rfl, rfl⟩
  interval_cases f
  · rw [exec_add m1 hh1 ht1 hpc1 (Or.inl (by omega)),
      exec_add m2 hh2 ht2 hpc2 (Or.inl (by omega)), e1, e2]
    obtain ⟨h1, h2, h3, h4, h5, h6⟩ := full _ _ (add_with_af m1.state m2.state
      (reg_sel m1.state k) (alu_length m1.state) (alu_length m2.state) ha)
    exact ⟨h1, h2, h3, h4, h5, fun _ => h6, fun h => absurd h (by decide)⟩
  · rw [exec_adc m1 hh1 ht1 hpc1 (Or.inl (by omega)),
      exec_adc m2 hh2 ht2 hpc2 (Or.inl (by omega)), e1, e2]
    obtain ⟨h1, h2, h3, h4, h5, h6⟩ := full _ _ (adc_with_af m1.state m2.state
      (reg_sel m1.state k) (alu_length m1.state) (alu_length m2.state) ha hfl)
    exact ⟨h1, h2, h3, h4, h5, fun _ => h6, fun h => absurd h (by decide)⟩
  · rw [exec_sub m1 hh1 ht1 hpc1 (Or.inl (by omega)),
      exec_sub m2 hh2 ht2 hpc2 (Or.inl (by omega)), e1, e2]
    obtain ⟨h1, h2, h3, h4, h5, h6⟩ := full _ _ (sub_with_af m1.state m2.state
      (reg_sel m1.state k) (alu_length m1.state) (alu_length m2.state) ha)
    exact ⟨h1, h2, h3, h4, h5, fun _ => h6, fun h => absurd h (by decide)⟩
  · rw [exec_sbb m1 hh1 ht1 hpc1 (Or.inl (by omega)),
      exec_sbb m2 hh2 ht2 hpc2 (Or.inl (by omega)), e1, e2]
    obtain ⟨h1, h2, h3, h4, h5⟩ := sbb_with_af m1.state m2.state (reg_sel m1.state k)
      (sbb_flag_src m1.state) (sbb_flag_src m2.state) (alu_length m1.state)
      (alu_length m2.state) ha hfl
    refine ⟨h1, h2, h3, h4, h5, fun h => absurd rfl h, fun _ => ⟨?_, ?_⟩⟩
    · rw [← sbb_flag_src_reg m1.state k hk hk6 hop1]
      exact sbb_with_ac _ _ _ _
    · have e3 : sbb_flag_src m2.state = (reg_sel m1.state k : Int) - m1.state.f.cy := by
        rw [sbb_flag_src_mem m2.state hop2, hfl]
        show ((m2.state.mem (reg_pair m2.state.h m2.state.l) : Nat) : Int) - _ = _
        rw [← hv]
      rw [← e3, ha, hfl]
      exact sbb_with_ac _ _ _ _
  · rw [exec_ana m1 hh1 ht1 hpc1 (by omega), exec_ana m2 hh2 ht2 hpc2 (by omega), e1, e2]
    obtain ⟨h1, h2, h3, h4, h5, h6⟩ := full _ _ (ana_with_af m1.state m2.state
      (reg_sel m1.state k) (alu_length m1.state) (alu_length m2.state) ha)
    exact ⟨h1, h2, h3, h4, h5, fun _ => h6, fun h => absurd h (by decide)⟩
  · rw [exec_xra m1 hh1 ht1 hpc1 (Or.inl (by omega)),
      exec_xra m2 hh2 ht2 hpc2 (Or.inl (by omega)), e1, e2]
    obtain ⟨h1, h2, h3, h4, h5, h6⟩ := full _ _ (xra_with_af m1.state m2.state
      (reg_sel m1.state k) (alu_length m1.state) (alu_length m2.state) ha)
    exact ⟨h1, h2, h3, h4, h5, fun _ => h6, fun h => absurd h (by decide)⟩
  · rw [exec_ora m1 hh1 ht1 hpc1 (Or.inl (by omega)),
      exec_ora m2 hh2 ht2 hpc2 (Or.inl (by omega)), e1, e2]
    obtain ⟨h1, h2, h3, h4, h5, h6⟩ := full _ _ (ora_with_af m1.state m2.state
      (reg_sel m1.state k) (alu_length m1.state) (alu_length m2.state) ha)
    exact ⟨h1, h2, h3, h4, h5, fun _ => h6, fun h => absurd h (by decide)⟩
  · rw [exec_cmp m1 hh1 ht1 hpc1 (Or.inl (by omega)),
      exec_cmp m2 hh2 ht2 hpc2 (Or.inl (by omega)), e1, e2]
    obtain ⟨h1, h2, h3, h4, h5, h6⟩ := full _ _ (cmp_with_af m1.state m2.state
      (reg_sel m1.state k) (alu_length m1.state) (alu_length m2.state) ha)
    exact ⟨h1, h2, h3, h4, h5, fun _ => h6, fun h => absurd h (by decide)⟩

theorem alu_register_memory_forms_witness :
    (i8080_exec demo_add_b).2.state.a = (i8080_exec demo_add_m).2.state.a ∧
    (i8080_exec demo_add_b).2.state.f.ac = (i8080_exec demo_add_m).2.state.f.ac ∧
    demo_sbb.state.mem demo_sbb.state.pc = 0x98 ∧
    demo_sbb_m.state.mem demo_sbb_m.state.pc = 0x9e ∧
    demo_sbb.state.a = demo_sbb_m.state.a ∧ demo_sbb.state.f = demo_sbb_m.state.f ∧
    reg_sel demo_sbb.state 0 = 0x0f ∧
    demo_sbb_m.state.mem (reg_pair demo_sbb_m.state.h demo_sbb_m.state.l) = 0x0f ∧
    (i8080_exec demo_sbb).2.state.a = (i8080_exec demo_sbb_m).2.state.a ∧
    (i8080_exec demo_sbb).2.state.f.cy = (i8080_exec demo_sbb_m).2.state.f.cy ∧
    (i8080_exec demo_sbb).2.state.f.ac = 0 ∧
    (i8080_exec demo_sbb_m).2.state.f.ac = 1 :=
  have h := alu_register_memory_forms demo_sbb demo_sbb_m rfl rfl (by decide) rfl rfl
    (by decide) 3 0 (by decide) (by decide) (by decide) (by decide!) (by decide!) rfl rfl
    (by decide!)
  have g := alu_register_memory_forms demo_add_b demo_add_m rfl rfl (by decide) rfl rfl
    (by decide) 0 0 (by decide) (by decide) (by decide) (by decide!) (by decide!) rfl rfl
    (by decide!)
  ⟨g.1, g.2.2.2.2.2.1 (by decide), by decide!, by decide!, rfl, rfl, rfl, by decide!, h.1,
    h.2.2.2.2.1,
    (h.2.2.2.2.2.2 rfl).1.trans (by decide!), (h.2.2.2.2.2.2 rfl).2.trans (by decide!)⟩

/-! ## RET with SP at the top of the address space -/

theorem ret_low_byte (hi lo : Nat) (hlo : lo < 256) :
    ((hi <<< 8) ||| lo) % 65536 % 256 = lo := by
  rw [Nat.mod_mod_of_dvd _ (by decide : 256 ∣ 65536)]
  apply Nat.eq_of_testBit_eq
  intro i
  have e : (256 : Nat) = 2 ^ 8 := rfl
  rw [e, Nat.testBit_mod_two_pow, Nat.testBit_or, Nat.testBit_shiftLeft]
  by_cases h : i < 8
  · simp [h]
  · have h2 : lo < 2 ^ i :=
      lt_of_lt_of_le hlo (Nat.pow_le_pow_right (by decide : 0 < 2) (not_lt.mp h))
    simp [h, Nat.testBit_lt_two_pow h2]

theorem ret_accesses (st : i8080_state_t) (hh : st.halt_req = 0)
    (hpc : (st.pc : Int) < st.mem_sizeb - 1) (hop : st.mem st.pc = 0xc9) :
    i8080_exec_accesses st = [(st.pc : Int), (st.sp : Int) + 1, (st.sp : Int)] := by
  unfold i8080_exec_accesses
  rw [if_neg (not_not.mpr hh), if_neg (not_le.mpr hpc), hop]
  rfl

/-- C34: on the 64 KiB machine (`mem_sizeb = 65536`) RET executed with SP = 0xFFFF returns 0,
leaves SP = 0x0001 and takes the low byte of the new PC from mem[0xFFFF], but its other read
uses the index `sp + 1 = 0x10000 = mem_sizeb`, one element past the end of the buffer: the
indices of the step are `pc`, `0x10000` and `0xFFFF`, address 0x0000 is not among them (RET
not at address 0), and the new PC is the same whatever byte address 0x0000 holds, so its high
byte is not taken from mem[0x0000]. JMP 0x0000 (all three bytes inside the buffer) executes,
setting PC to 0x0000 and returning 0 (Continue) with nothing else changed. -/
theorem ret_sp_ffff_out_of_bounds {H : Type} (m : machine_t H) (hh : m.state.halt_req = 0)
    (ht : m.instr_func = none) (hsz : m.state.mem_sizeb = 65536)
    (hpc : m.state.pc < 0xffff) :
    (m.state.mem m.state.pc = 0xc9 → m.state.sp = 0xffff → m.state.mem 0xffff < 256 →
      (i8080_exec m).1 = 0 ∧
      (i8080_exec m).2.state.sp = 0x0001 ∧
      (i8080_exec m).2.state.pc % 256 = m.state.mem 0xffff ∧
      i8080_exec_accesses m.state = [(m.state.pc : Int), 0x10000, 0xffff] ∧
      ¬ ((0x10000 : Int) < m.state.mem_sizeb) ∧
      (m.state.pc ≠ 0 → (0 : Int) ∉ i8080_exec_accesses m.state ∧ ∀ v,
        (i8080_exec { m with state := { m.state with mem := mem_write m.state.mem 0 v } }
          ).2.state.pc = (i8080_exec m).2.state.pc)) ∧
    (m.state.mem m.state.pc = 0xc3 → m.state.pc ≤ 0xfffd →
      m.state.mem ((m.state.pc : Int) + 1) = 0 → m.state.mem ((m.state.pc : Int) + 2) = 0 →
      i8080_exec m = (0, { m with state := { m.state with pc := 0x0000 } })) := by
  have hpc2 : (m.state.pc : Int) < m.state.mem_sizeb - 1 := by rw [hsz]; omega
  obtain ⟨hj, _, hr⟩ := exec_jmp_call_ret m hh ht hpc2
  constructor
  · intro hop hsp hlo
    have e1 : ((m.state.sp : Nat) : Int) + 1 = 0x10000 := by rw [hsp]; rfl
    have e2 : ((m.state.sp : Nat) : Int) = 0xffff := by rw [hsp]; rfl
    have hacc := ret_accesses m.state hh hpc2 hop
    rw [e1, e2] at hacc
    refine ⟨by rw [hr hop], ?_, ?_, hacc, by rw [hsz]; decide, fun hne => ⟨?_, fun v => ?_⟩⟩
    · rw [hr hop]
      show (m.state.sp + 2) % 65536 = _
      rw [hsp]
    · rw [hr hop]
      show ((m.state.mem ((m.state.sp : Int) + 1) <<< 8) ||| m.state.mem m.state.sp) % 65536
        % 256 = _
      rw [e2]
      exact ret_low_byte _ _ hlo
    · rw [hacc]
      have h0 : (0 : Int) ≠ (m.state.pc : Int) := by omega
      simp only [List.mem_cons, List.mem_singleton, List.not_mem_nil, not_or]
      exact ⟨h0, by decide, by decide, not_false⟩
    · have hpz : ((m.state.pc : Nat) : Int) ≠ 0 := by omega
      have hop2 : mem_write m.state.mem 0 v m.state.pc = 0xc9 := by
        show (if ((m.state.pc : Nat) : Int) = 0 then v % 256 else m.state.mem m.state.pc) = _
        rw [if_neg hpz, hop]
      obtain ⟨_, _, hr2⟩ := exec_jmp_call_ret
        ({ m with state := { m.state with mem := mem_write m.state.mem 0 v } }) hh ht hpc2
      rw [hr2 hop2, hr hop]
      show ((mem_write m.state.mem 0 v ((m.state.sp : Int) + 1) <<< 8) |||
          mem_write m.state.mem 0 v m.state.sp) % 65536 =
        ((m.state.mem ((m.state.sp : Int) + 1) <<< 8) ||| m.state.mem m.state.sp) % 65536
      rw [e1, e2]
      have g1 : mem_write m.state.mem 0 v 0x10000 = m.state.mem 0x10000 :=
        if_neg (by decide)
      have g2 : mem_write m.state.mem 0 v 0xffff = m.state.mem 0xffff := if_neg (by decide)
      rw [g1, g2]
  · intro hop _ h1 h2
    rw [hj hop]
    have e : imm16 m.state = 0 := by
      unfold imm16
      rw [h1, h2]
      rfl
    show ((0 : Int), ({ m with state := { m.state with pc := imm16 m.state % 65536 } } :
      machine_t H)) = _
    rw [e]

theorem ret_sp_ffff_out_of_bounds_witness :
    (demo_ret_top.state.mem_sizeb = 65536 ∧
      demo_ret_top.state.mem demo_ret_top.state.pc = 0xc9 ∧
      demo_ret_top.state.sp = 0xffff ∧ demo_ret_top.state.mem 0x0000 = 0x12 ∧
      (i8080_exec demo_ret_top).2.state.sp = 0x0001 ∧
      (i8080_exec demo_ret_top).2.state.pc % 256 = 0x34 ∧
      i8080_exec_accesses demo_ret_top.state = [0x0100, 0x10000, 0xffff] ∧
      (i8080_exec { demo_ret_top with
          state := { demo_ret_top.state with
            mem := mem_write demo_ret_top.state.mem 0 0x13 } }).2.state.pc =
        (i8080_exec demo_ret_top).2.state.pc) ∧
    (demo_jmp_zero.state.mem demo_jmp_zero.state.pc = 0xc3 ∧
      i8080_exec demo_jmp_zero =
        (0, { demo_jmp_zero with state := { demo_jmp_zero.state with pc := 0x0000 } })) :=
  have h1 := (ret_sp_ffff_out_of_bounds demo_ret_top rfl rfl rfl (by decide)).1 (by decide!)
    rfl (by decide!)
  ⟨⟨rfl, by decide!, rfl, by decide!, h1.2.1, h1.2.2.1.trans (by decide!), h1.2.2.2.1,
      (h1.2.2.2.2.2 (by decide)).2 0x13⟩,
    ⟨by decide!, (ret_sp_ffff_out_of_bounds demo_jmp_zero rfl rfl rfl (by decide)).2
      (by decide!) (by decide) (by decide!) (by decide!)⟩⟩

/-! ## Trap fall-through -/

theorem ite_step {α β : Type} (G : β → α) (c : Prop) [Decidable c] (a b : α) (x y : β)
    (ha : a = G x) (hb : b = G y) : (if c then a else b) = G (if c then x else y) := by
  split_ifs
  · exact ha
  · exact hb

set_option maxRecDepth 100000 in
set_option maxHeartbeats 4000000 in
theorem switch_instr_func {H : Type} (m : machine_t H) (f : Option (i8080_instr_fn_t H))
    (bc de hl : Nat) (op : Nat) :
    i8080_exec_switch op { m with instr_func := f } bc de hl =
      ((i8080_exec_switch op m bc de hl).1,
        { (i8080_exec_switch op m bc de hl).2 with instr_func := f }) := by
  unfold i8080_exec_switch
  dsimp only
  iterate 123
    (apply ite_step (fun r : Int × machine_t H =>
        (r.1, (⟨r.2.state, r.2.host, r.2.io_handler, f⟩ : machine_t H)))
     rfl)
  rfl

theorem bdos_entry_at_5 (diag : Nat → List Nat) (fuel : Nat) (st : i8080_state_t)
    (console : List Nat) (hpc : st.pc = 0x0005) (r : Int × i8080_state_t × List Nat)
    (hr : bdos_entry diag fuel st console = some r) :
    r.1 = 0 ∧
    r.2.1 = { st with
      pc := ((st.mem ((st.sp : Int) + 1) <<< 8) ||| st.mem st.sp) % 65536,
      sp := (st.sp + 2) % 65536 } := by
  obtain ⟨h2, hn, h9⟩ := bdos_entry_ret diag fuel st console hpc
  by_cases c2 : st.c = 0x2
  · rw [h2 c2] at hr
    cases hr
    exact ⟨rfl, rfl⟩
  · by_cases c9 : st.c = 0x9
    · cases hw : bdos_writestr fuel st.mem (reg_pair st.d st.e) console with
      | none =>
        exfalso
        unfold bdos_entry at hr
        rw [if_pos hpc] at hr
        simp only [if_neg c2, if_pos c9, hw] at hr
        exact absurd hr (by simp)
      | some printed =>
        rw [h9 c9 printed hw] at hr
        cases hr
        exact ⟨rfl, rfl⟩
    · rw [hn c2 c9] at hr
      cases hr
      exact ⟨rfl, rfl⟩

/-- C37 (amended): with the BDOS trap installed, `halt_req` clear, PC = 0x0005 below the PC
test, a BDOS call that returns, and a popped return address below mem_size - 1, one
`i8080_exec` call performs the simulated RET (PC = mem[SP] | mem[SP+1] << 8, SP + 2, every
other CPU field kept) and then executes the instruction at the popped address: its status,
CPU state and host state are those of one untrapped `i8080_exec` applied to the popped
state and the console after the BDOS output. The trap is not consulted again, so with the
return address 0x0000 the status is that of the instruction at 0x0000 (0 unless that byte
stops the CPU). -/
theorem trap_fall_through (diag : Nat → List Nat) (fuel : Nat) (m : machine_t (List Nat))
    (hh : m.state.halt_req = 0) (hpc : m.state.pc = 0x0005)
    (hsz : (5 : Int) < m.state.mem_sizeb - 1)
    (ht : m.instr_func = some (bdos_trap diag fuel))
    (r : Int × i8080_state_t × List Nat)
    (hr : bdos_entry diag fuel m.state m.host = some r)
    (hret : (r.2.1.pc : Int) < m.state.mem_sizeb - 1) :
    r.2.1 = { m.state with
      pc := ((m.state.mem ((m.state.sp : Int) + 1) <<< 8) ||| m.state.mem m.state.sp) % 65536,
      sp := (m.state.sp + 2) % 65536 } ∧
    i8080_exec m =
      ((i8080_exec { m with state := r.2.1, host := r.2.2, instr_func := none }).1,
        { (i8080_exec { m with state := r.2.1, host := r.2.2, instr_func := none }).2 with
          instr_func := m.instr_func }) ∧
    (r.2.1.pc = 0x0000 → r.2.1.mem 0 < 256 → r.2.1.mem 0 ∉ stop_opcodes →
      (i8080_exec m).1 = 0) := by
  obtain ⟨r1, r2⟩ := bdos_entry_at_5 diag fuel m.state m.host hpc r hr
  have hh2 : r.2.1.halt_req = 0 := by rw [r2]; exact hh
  have hsz2 : r.2.1.mem_sizeb = m.state.mem_sizeb := by rw [r2]
  have hb : r.2.1.b = m.state.b ∧ r.2.1.c = m.state.c ∧ r.2.1.d = m.state.d ∧
      r.2.1.e = m.state.e ∧ r.2.1.h = m.state.h ∧ r.2.1.l = m.state.l := by
    rw [r2]
    exact ⟨rfl, rfl, rfl, rfl, rfl, rfl⟩
  have e1 : i8080_exec m =
      i8080_exec_switch (r.2.1.mem r.2.1.pc) { m with state := r.2.1, host := r.2.2 }
        (reg_pair m.state.b m.state.c) (reg_pair m.state.d m.state.e)
        (reg_pair m.state.h m.state.l) := by
    unfold i8080_exec
    dsimp only
    rw [if_neg (not_not.mpr hh), if_neg (by rw [hpc]; exact not_le.mpr hsz), ht]
    dsimp only
    have e : bdos_trap diag fuel m.state m.host = r := by
      unfold bdos_trap
      rw [hr]
      rfl
    rw [e, if_neg (not_not.mpr r1)]
  have e2 := exec_no_trap ({ m with state := r.2.1, host := r.2.2, instr_func := none })
    hh2 rfl (by rw [hsz2]; exact hret)
  have e3 : i8080_exec m =
      ((i8080_exec { m with state := r.2.1, host := r.2.2, instr_func := none }).1,
        { (i8080_exec { m with state := r.2.1, host := r.2.2, instr_func := none }).2 with
          instr_func := m.instr_func }) := by
    rw [e1, e2]
    have := switch_instr_func
      ({ m with state := r.2.1, host := r.2.2, instr_func := none }) m.instr_func
      (reg_pair m.state.b m.state.c) (reg_pair m.state.d m.state.e)
      (reg_pair m.state.h m.state.l) (r.2.1.mem r.2.1.pc)
    rw [← hb.1, ← hb.2.1, ← hb.2.2.1, ← hb.2.2.2.1, ← hb.2.2.2.2.1, ← hb.2.2.2.2.2] at this ⊢
    exact this
  refine ⟨r2, e3, fun h0 hb0 hns => ?_⟩
  rw [e1, h0]
  have := switch_status ({ m with state := r.2.1, host := r.2.2 })
    (reg_pair m.state.b m.state.c) (reg_pair m.state.d m.state.e)
    (reg_pair m.state.h m.state.l) (r.2.1.mem ((0 : Nat) : Int)) hb0
  rw [this]
  exact if_neg hns

/-- C37 (as stated, return address 0xFFFF): the trapped call at PC = 0x0005 pops 0xFFFF and
executes the `nop` in the last byte (status 0, PC = 0x0000), while one untrapped call on the
popped state stops at the PC test (status -1, PC = 0xFFFF). -/
theorem trap_return_past_guard :
    demo_trap_top.state.pc = 0x0005 ∧ demo_trap_top.state.halt_req = 0 ∧
    demo_trap_top.state.mem demo_trap_top.state.sp = 0xff ∧
    demo_trap_top.state.mem ((demo_trap_top.state.sp : Int) + 1) = 0xff ∧
    (i8080_exec demo_trap_top).1 = 0 ∧
    (i8080_exec demo_trap_top).2.state.pc = 0x0000 ∧
    (i8080_exec demo_trap_top).2.state.sp = 0x2402 ∧
    (i8080_exec { demo_trap_top with
      state := { demo_trap_top.state with pc := 0xffff, sp := 0x2402 },
      instr_func := none }).1 = -1 ∧
    (i8080_exec { demo_trap_top with
      state := { demo_trap_top.state with pc := 0xffff, sp := 0x2402 },
      instr_func := none }).2.state.pc = 0xffff := by
  decide!

theorem trap_fall_through_witness :
    demo_trap.state.halt_req = 0 ∧ demo_trap.state.pc = 0x0005 ∧
    demo_trap.instr_func = some (bdos_trap (fun _ => []) 16) ∧
    (i8080_exec demo_trap).1 = 0 ∧
    (i8080_exec demo_trap).2.state.pc = 0x0109 ∧
    (i8080_exec demo_trap).2.state.sp = 0x2400 ∧
    (i8080_exec demo_trap).2.host = [0x41] ∧
    i8080_exec demo_trap =
      ((i8080_exec { demo_trap with
          state := { demo_trap.state with pc := 0x0108, sp := 0x2400 },
          host := [0x41], instr_func := none }).1,
        { (i8080_exec { demo_trap with
            state := { demo_trap.state with pc := 0x0108, sp := 0x2400 },
            host := [0x41], instr_func := none }).2 with
          instr_func := demo_trap.instr_func }) :=
  ⟨rfl, rfl, rfl, by decide!, by decide!, by decide!, by decide!,
    (trap_fall_through (fun _ => []) 16 demo_trap rfl rfl (by decide) rfl _
      ((bdos_entry_ret (fun _ => []) 16 demo_trap.state demo_trap.host rfl).1 rfl)
      (by decide!)).2.1⟩

/-! ## Frame of the case bodies -/

theorem ite_pred {β : Type} (P : β → Prop) (c : Prop) [Decidable c] (x y : β)
    (hx : c → P x) (hy : P y) : P (if c then x else y) := by
  split_ifs with h
  · exact hx h
  · exact hy

theorem body_frame_of_eq {W : List Int} {st st' : i8080_state_t}
    (h1 : st'.irq_set_cnt = st.irq_set_cnt) (h2 : st'.irq_clr_cnt = st.irq_clr_cnt)
    (h3 : st'.mem_sizeb = st.mem_sizeb) (h4 : st'.halt_req = st.halt_req)
    (h5 : st'.mem = st.mem) : body_frame W st st' :=
  ⟨h1, h2, h3, h4, fun k _ => congrFun h5 k⟩

theorem mem_write_other (mem : Int → Nat) (i : Int) (v : Nat) (k : Int) (h : k ≠ i) :
    mem_write mem i v k = mem k := if_neg h

theorem body_frame_one {st st' : i8080_state_t} {i : Int} {v : Nat}
    (h1 : st'.irq_set_cnt = st.irq_set_cnt) (h2 : st'.irq_clr_cnt = st.irq_clr_cnt)
    (h3 : st'.mem_sizeb = st.mem_sizeb) (h4 : st'.halt_req = st.halt_req)
    (h5 : st'.mem = mem_write st.mem i v) : body_frame [i] st st' :=
  ⟨h1, h2, h3, h4, fun k hk => by
    rw [h5]
    exact mem_write_other _ _ _ _ (fun e => hk (by rw [e]; exact List.mem_singleton.mpr rfl))⟩

theorem body_frame_two {st st' : i8080_state_t} {i j : Int} {v w : Nat}
    (h1 : st'.irq_set_cnt = st.irq_set_cnt) (h2 : st'.irq_clr_cnt = st.irq_clr_cnt)
    (h3 : st'.mem_sizeb = st.mem_sizeb) (h4 : st'.halt_req = st.halt_req)
    (h5 : st'.mem = mem_write (mem_write st.mem i v) j w) : body_frame [i, j] st st' :=
  ⟨h1, h2, h3, h4, fun k hk => by
    have hi : k ≠ i := fun e => hk (by rw [e]; exact List.mem_cons_self _ _)
    have hj : k ≠ j := fun e =>
      hk (by rw [e]; exact List.mem_cons_of_mem _ (List.mem_singleton.mpr rfl))
    rw [h5, mem_write_other _ _ _ _ hj, mem_write_other _ _ _ _ hi]⟩

theorem body_frame_ite {W : List Int} {st a b : i8080_state_t} {c : Prop} [Decidable c]
    (ha : c → body_frame W st a) (hb : body_frame W st b) :
    body_frame W st (if c then a else b) :=
  ite_pred (body_frame W st) c a b ha hb

theorem reg_ptr_valid (st : i8080_state_t) (k : Nat) (h : k ∈ valid_selectors) :
    ∃ r, reg_ptr st k = (st, r) := by
  fin_cases h <;> exact ⟨_, rfl⟩

theorem add_body (st : i8080_state_t) (h : st.mem st.pc &&& 0x7 ∈ valid_selectors)
    (W : List Int) : body_frame W st (add st) := by
  obtain ⟨r, hr⟩ := reg_ptr_valid st _ h
  unfold add
  simp only [hr]
  exact body_frame_of_eq rfl rfl rfl rfl rfl

theorem adc_body (st : i8080_state_t) (h : st.mem st.pc &&& 0x7 ∈ valid_selectors)
    (W : List Int) : body_frame W st (adc st) := by
  obtain ⟨r, hr⟩ := reg_ptr_valid st _ h
  unfold adc
  simp only [hr]
  exact body_frame_of_eq rfl rfl rfl rfl rfl

theorem sub_body (st : i8080_state_t) (h : st.mem st.pc &&& 0x7 ∈ valid_selectors)
    (W : List Int) : body_frame W st (sub st) := by
  obtain ⟨r, hr⟩ := reg_ptr_valid st _ h
  unfold sub
  simp only [hr]
  exact body_frame_of_eq rfl rfl rfl rfl rfl

theorem sbb_body (st : i8080_state_t) (h : st.mem st.pc &&& 0x7 ∈ valid_selectors)
    (W : List Int) : body_frame W st (sbb st) := by
  obtain ⟨r, hr⟩ := reg_ptr_valid st _ h
  unfold sbb
  simp only [hr]
  exact body_frame_of_eq rfl rfl rfl rfl rfl

theorem cmp_body (st : i8080_state_t) (h : st.mem st.pc &&& 0x7 ∈ valid_selectors)
    (W : List Int) : body_frame W st (cmp st) := by
  obtain ⟨r, hr⟩ := reg_ptr_valid st _ h
  unfold cmp
  simp only [hr]
  exact body_frame_of_eq rfl rfl rfl rfl rfl

theorem ana_body (st : i8080_state_t) (h : st.mem st.pc &&& 0x7 ∈ valid_selectors)
    (W : List Int) : body_frame W st (ana st) := by
  obtain ⟨r, hr⟩ := reg_ptr_valid st _ h
  unfold ana
  simp only [hr]
  exact body_frame_of_eq rfl rfl rfl rfl rfl

theorem xra_body (st : i8080_state_t) (h : st.mem st.pc &&& 0x7 ∈ valid_selectors)
    (W : List Int) : body_frame W st (xra st) := by
  obtain ⟨r, hr⟩ := reg_ptr_valid st _ h
  unfold xra
  simp only [hr]
  exact body_frame_of_eq rfl rfl rfl rfl rfl

theorem ora_body (st : i8080_state_t) (h : st.mem st.pc &&& 0x7 ∈ valid_selectors)
    (W : List Int) : body_frame W st (ora st) := by
  obtain ⟨r, hr⟩ := reg_ptr_valid st _ h
  unfold ora
  simp only [hr]
  exact body_frame_of_eq rfl rfl rfl rfl rfl

theorem inr_body (st : i8080_state_t)
    (h : (st.mem st.pc &&& 0x38) >>> 3 ∈ valid_selectors) (W : List Int) :
    body_frame W st (inr st) := by
  obtain ⟨r, hr⟩ := reg_ptr_valid st _ h
  unfold inr
  simp only [hr]
  cases r <;> exact body_frame_of_eq rfl rfl rfl rfl rfl

theorem dcr_body (st : i8080_state_t)
    (h : (st.mem st.pc &&& 0x38) >>> 3 ∈ valid_selectors) (W : List Int) :
    body_frame W st (dcr st) := by
  obtain ⟨r, hr⟩ := reg_ptr_valid st _ h
  unfold dcr
  simp only [hr]
  cases r <;> exact body_frame_of_eq rfl rfl rfl rfl rfl

theorem mvi_body (st : i8080_state_t)
    (h : (st.mem st.pc &&& 0x38) >>> 3 ∈ valid_selectors) (W : List Int) :
    body_frame W st (mvi st) := by
  obtain ⟨r, hr⟩ := reg_ptr_valid st _ h
  unfold mvi
  simp only [hr]
  cases r <;> exact body_frame_of_eq rfl rfl rfl rfl rfl

theorem movm2r_body (st : i8080_state_t) (hl : Nat)
    (h : (st.mem st.pc &&& 0x38) >>> 3 ∈ valid_selectors) (W : List Int) :
    body_frame W st (movm2r st hl) := by
  obtain ⟨r, hr⟩ := reg_ptr_valid st _ h
  unfold movm2r
  simp only [hr]
  cases r <;> exact body_frame_of_eq rfl rfl rfl rfl rfl

theorem movr2r_body (st : i8080_state_t) (h1 : st.mem st.pc &&& 0x7 ∈ valid_selectors)
    (h2 : (st.mem st.pc &&& 0x38) >>> 3 ∈ valid_selectors) (W : List Int) :
    body_frame W st (movr2r st) := by
  obtain ⟨r1, hr1⟩ := reg_ptr_valid st _ h1
  obtain ⟨r2, hr2⟩ := reg_ptr_valid st _ h2
  unfold movr2r
  simp only [hr1, hr2]
  cases r2 <;> exact body_frame_of_eq rfl rfl rfl rfl rfl

theorem movr2m_body (st : i8080_state_t) (hl : Nat)
    (h : st.mem st.pc &&& 0x7 ∈ valid_selectors) :
    body_frame [(hl : Int)] st (movr2m st hl) := by
  obtain ⟨r, hr⟩ := reg_ptr_valid st _ h
  unfold movr2m
  simp only [hr]
  exact body_frame_one rfl rfl rfl rfl rfl

theorem keep_pc_add {W : List Int} {st s : i8080_state_t} {n : Nat}
    (h : body_frame W st s) : body_frame W st (pc_add s n) := h

theorem keep_set_a {W : List Int} {st s : i8080_state_t} {v : Nat}
    (h : body_frame W st s) : body_frame W st (set_a s v) := h

theorem keep_set_cy {W : List Int} {st s : i8080_state_t} {v : Nat}
    (h : body_frame W st s) : body_frame W st (set_cy s v) := h

theorem keep_set_ac {W : List Int} {st s : i8080_state_t} {v : Nat}
    (h : body_frame W st s) : body_frame W st (set_ac s v) := h

theorem keep_flags {W : List Int} {st s : i8080_state_t} {r : Nat} {d x : Int}
    (h : body_frame W st s) : body_frame W st (i8080_update_flags s r d x) := h

theorem body_frame_refl (W : List Int) (st : i8080_state_t) : body_frame W st st :=
  body_frame_of_eq rfl rfl rfl rfl rfl

theorem daa_body (st : i8080_state_t) (W : List Int) : body_frame W st (daa st) := by
  unfold daa
  dsimp only
  refine keep_pc_add (keep_set_ac (body_frame_ite
    (fun _ => keep_set_a (keep_set_cy (keep_flags ?_))) (keep_set_cy ?_))) <;>
  exact body_frame_ite
    (fun _ => keep_set_a (keep_set_ac (keep_flags (body_frame_refl W st))))
    (keep_set_ac (body_frame_refl W st))

theorem keep_sp {W : List Int} {st s : i8080_state_t} {v : Nat}
    (h : body_frame W st s) : body_frame W st { s with sp := v } := h

theorem frame_set_mem_one {st s : i8080_state_t} {i : Int} {v : Nat}
    (h : body_frame [] st s) : body_frame [i] st (set_mem s i v) :=
  body_frame_one h.1 h.2.1 h.2.2.1 h.2.2.2.1
    (show mem_write s.mem i v = mem_write st.mem i v by
      rw [funext (fun k => h.2.2.2.2 k (List.not_mem_nil k))])

theorem frame_set_mem_two {st s : i8080_state_t} {i j : Int} {v w : Nat}
    (h : body_frame [] st s) : body_frame [i, j] st (set_mem (set_mem s i v) j w) :=
  body_frame_two h.1 h.2.1 h.2.2.1 h.2.2.2.1
    (show mem_write (mem_write s.mem i v) j w = mem_write (mem_write st.mem i v) j w by
      rw [funext (fun k => h.2.2.2.2 k (List.not_mem_nil k))])

theorem mvi_m_body (st : i8080_state_t) (hl : Nat) :
    body_frame [(hl : Int)] st (mvi_m st hl) :=
  keep_pc_add (frame_set_mem_one (body_frame_refl _ _))

theorem stax_body (st : i8080_state_t) (rp : Nat) :
    body_frame [(rp : Int)] st (pc_add (set_mem st rp st.a) 1) :=
  keep_pc_add (frame_set_mem_one (body_frame_refl _ _))

theorem sta_body (st : i8080_state_t) : body_frame [(imm16 st : Int)] st (sta st) :=
  keep_pc_add (frame_set_mem_one (body_frame_refl _ _))

theorem shld_body (st : i8080_state_t) :
    body_frame [(imm16 st : Int) + 0, (imm16 st : Int) + 1] st (shld st) :=
  keep_pc_add (frame_set_mem_two (body_frame_refl _ _))

theorem xthl_body (st : i8080_state_t) (hl : Nat) :
    body_frame [(st.sp : Int) + 1, (st.sp : Int)] st (xthl st hl) :=
  keep_pc_add (@frame_set_mem_two st
    { { st with h := st.mem ((st.sp : Int) + 1) % 256 } with l := st.mem st.sp % 256 }
    _ _ _ _ (body_frame_of_eq rfl rfl rfl rfl rfl))

theorem inr_m_body (st : i8080_state_t) (hl : Nat) :
    body_frame [(hl : Int)] st (inr_m st hl) :=
  keep_pc_add (frame_set_mem_one (keep_set_cy (keep_flags (body_frame_refl _ _))))

theorem dcr_m_body (st : i8080_state_t) (hl : Nat) :
    body_frame [(hl : Int)] st (dcr_m st hl) :=
  keep_pc_add (frame_set_mem_one (keep_set_cy (keep_flags (body_frame_refl _ _))))

theorem push_b_body (st : i8080_state_t) :
    body_frame [(st.sp : Int) - 1, (st.sp : Int) - 2] st (push_b st) :=
  keep_pc_add (keep_sp (frame_set_mem_two (body_frame_refl _ _)))

theorem push_d_body (st : i8080_state_t) :
    body_frame [(st.sp : Int) - 1, (st.sp : Int) - 2] st (push_d st) :=
  keep_pc_add (keep_sp (frame_set_mem_two (body_frame_refl _ _)))

theorem push_h_body (st : i8080_state_t) :
    body_frame [(st.sp : Int) - 1, (st.sp : Int) - 2] st (push_h st) :=
  keep_pc_add (keep_sp (frame_set_mem_two (body_frame_refl _ _)))

theorem push_psw_body (st : i8080_state_t) :
    body_frame [(st.sp : Int) - 1, (st.sp : Int) - 2] st (push_psw st) :=
  keep_pc_add (keep_sp (frame_set_mem_two (body_frame_refl _ _)))

theorem rst_body (st : i8080_state_t) :
    body_frame [(st.sp : Int) - 1, (st.sp : Int) - 2] st (rst st) :=
  body_frame_two rfl rfl rfl rfl rfl

theorem call_body (st : i8080_state_t) (address : Nat) :
    body_frame [(st.sp : Int) - 1, (st.sp : Int) - 2] st (call st address) :=
  body_frame_two rfl rfl rfl rfl rfl

set_option maxRecDepth 100000 in
theorem mem_writes_ccc (st : i8080_state_t) (op : Nat) (hop : op ∈ ccc_opcodes)
    (hcc : cc_holds st (op / 8 % 8)) :
    mem_writes st op = [(st.sp : Int) - 1, (st.sp : Int) - 2] := by
  fin_cases hop <;>
    simp [mem_writes, movr2m_opcodes, rst_opcodes, ccc_opcodes] at hcc ⊢ <;> exact hcc

set_option maxRecDepth 100000 in
theorem mem_writes_hl (st : i8080_state_t) (op : Nat)
    (hop : op ∈ movr2m_opcodes ++ [0x36, 0x34, 0x35]) :
    mem_writes st op = [(reg_pair st.h st.l : Int)] := by
  fin_cases hop <;> simp [mem_writes, movr2m_opcodes]

set_option maxRecDepth 100000 in
theorem mem_writes_sp (st : i8080_state_t) (op : Nat)
    (hop : op ∈ [0xc5, 0xd5, 0xe5, 0xf5, 0xcd] ++ rst_opcodes) :
    mem_writes st op = [(st.sp : Int) - 1, (st.sp : Int) - 2] := by
  fin_cases hop <;> simp [mem_writes, movr2m_opcodes, rst_opcodes]

theorem mem_writes_other (st : i8080_state_t) :
    mem_writes st 0x02 = [(reg_pair st.b st.c : Int)] ∧
    mem_writes st 0x12 = [(reg_pair st.d st.e : Int)] ∧
    mem_writes st 0x32 = [(imm16 st : Int)] ∧
    mem_writes st 0x22 = [(imm16 st : Int) + 0, (imm16 st : Int) + 1] ∧
    mem_writes st 0xe3 = [(st.sp : Int) + 1, (st.sp : Int)] := by
  refine ⟨?_, ?_, ?_, ?_, ?_⟩ <;> simp [mem_writes, movr2m_opcodes]

theorem ccc_body (st : i8080_state_t) (op : Nat) (hop : op ∈ ccc_opcodes) (c : Prop)
    [Decidable c] (hc : c → cc_holds st (op / 8 % 8)) (address n : Nat) :
    body_frame (mem_writes st op) st (if c then call st address else pc_add st n) :=
  body_frame_ite (fun h => by rw [mem_writes_ccc st op hop (hc h)]; exact call_body st address)
    (body_frame_of_eq rfl rfl rfl rfl rfl)


set_option maxRecDepth 100000 in
set_option maxHeartbeats 4000000 in
theorem switch_frame {H : Type} (m : machine_t H) :
    step_frame m (m.state.mem m.state.pc)
      (i8080_exec_switch (m.state.mem m.state.pc) m (reg_pair m.state.b m.state.c)
        (reg_pair m.state.d m.state.e) (reg_pair m.state.h m.state.l)) := by
  unfold i8080_exec_switch
  dsimp only
  apply ite_pred (step_frame m (m.state.mem m.state.pc))
  · intro hc
    rcases hc with h | h | h | h | h | h | h <;>
      exact Or.inr ⟨movr2r_body _ (by rw [h]; decide) (by rw [h]; decide) _, rfl⟩
  apply ite_pred (step_frame m (m.state.mem m.state.pc))
  · exact fun h => Or.inr ⟨movm2r_body _ _ (by rw [h]; decide) _, rfl⟩
  iterate 7
    (apply ite_pred (step_frame m (m.state.mem m.state.pc))
     · exact fun _ => Or.inr ⟨body_frame_of_eq rfl rfl rfl rfl rfl, rfl⟩)
  apply ite_pred (step_frame m (m.state.mem m.state.pc))
  · intro hc
    rcases hc with h | h | h | h | h | h | h <;>
      exact Or.inr ⟨movr2r_body _ (by rw [h]; decide) (by rw [h]; decide) _, rfl⟩
  apply ite_pred (step_frame m (m.state.mem m.state.pc))
  · exact fun h => Or.inr ⟨movm2r_body _ _ (by rw [h]; decide) _, rfl⟩
  apply ite_pred (step_frame m (m.state.mem m.state.pc))
  · intro hc
    rcases hc with h | h | h | h | h | h | h <;>
      exact Or.inr ⟨movr2r_body _ (by rw [h]; decide) (by rw [h]; decide) _, rfl⟩
  apply ite_pred (step_frame m (m.state.mem m.state.pc))
  · exact fun h => Or.inr ⟨movm2r_body _ _ (by rw [h]; decide) _, rfl⟩
  apply ite_pred (step_frame m (m.state.mem m.state.pc))
  · intro hc
    rcases hc with h | h | h | h | h | h | h <;>
      exact Or.inr ⟨movr2r_body _ (by rw [h]; decide) (by rw [h]; decide) _, rfl⟩
  apply ite_pred (step_frame m (m.state.mem m.state.pc))
  · exact fun h => Or.inr ⟨movm2r_body _ _ (by rw [h]; decide) _, rfl⟩
  apply ite_pred (step_frame m (m.state.mem m.state.pc))
  · intro hc
    rcases hc with h | h | h | h | h | h | h <;>
      exact Or.inr ⟨movr2r_body _ (by rw [h]; decide) (by rw [h]; decide) _, rfl⟩
  apply ite_pred (step_frame m (m.state.mem m.state.pc))
  · exact fun h => Or.inr ⟨movm2r_body _ _ (by rw [h]; decide) _, rfl⟩
  apply ite_pred (step_frame m (m.state.mem m.state.pc))
  · intro hc
    rcases hc with h | h | h | h | h | h | h <;>
      exact Or.inr ⟨movr2r_body _ (by rw [h]; decide) (by rw [h]; decide) _, rfl⟩
  apply ite_pred (step_frame m (m.state.mem m.state.pc))
  · exact fun h => Or.inr ⟨movm2r_body _ _ (by rw [h]; decide) _, rfl⟩
  apply ite_pred (step_frame m (m.state.mem m.state.pc))
  · intro hc
    rcases hc with h | h | h | h | h | h | h <;>
      exact Or.inr ⟨movr2r_body _ (by rw [h]; decide) (by rw [h]; decide) _, rfl⟩
  apply ite_pred (step_frame m (m.state.mem m.state.pc))
  · exact fun h => Or.inr ⟨movm2r_body _ _ (by rw [h]; decide) _, rfl⟩
  apply ite_pred (step_frame m (m.state.mem m.state.pc))
  · intro hc
    rcases hc with h | h | h | h | h | h | h <;>
      exact Or.inr ⟨by
        rw [h, mem_writes_hl _ _ (by decide)]
        exact movr2m_body _ _ (by rw [h]; decide), rfl⟩
  apply ite_pred (step_frame m (m.state.mem m.state.pc))
  · intro hc
    rcases hc with h | h | h | h | h | h | h <;>
      exact Or.inr ⟨mvi_body _ (by rw [h]; decide) _, rfl⟩
  apply ite_pred (step_frame m (m.state.mem m.state.pc))
  · exact fun h => Or.inr ⟨by rw [h, mem_writes_hl _ _ (by decide)]; exact mvi_m_body _ _, rfl⟩
  apply ite_pred (step_frame m (m.state.mem m.state.pc))
  · exact fun h => Or.inr ⟨by rw [h, (mem_writes_other _).1]; exact stax_body _ _, rfl⟩
  apply ite_pred (step_frame m (m.state.mem m.state.pc))
  · exact fun h => Or.inr ⟨by rw [h, (mem_writes_other _).2.1]; exact stax_body _ _, rfl⟩
  apply ite_pred (step_frame m (m.state.mem m.state.pc))
  · exact fun h => Or.inr ⟨by rw [h, (mem_writes_other _).2.2.1]; exact sta_body _, rfl⟩
  iterate 5
    (apply ite_pred (step_frame m (m.state.mem m.state.pc))
     · exact fun _ => Or.inr ⟨body_frame_of_eq rfl rfl rfl rfl rfl, rfl⟩)
  apply ite_pred (step_frame m (m.state.mem m.state.pc))
  · exact fun h => Or.inr ⟨by rw [h, (mem_writes_other _).2.2.2.1]; exact shld_body _, rfl⟩
  iterate 2
    (apply ite_pred (step_frame m (m.state.mem m.state.pc))
     · exact fun _ => Or.inr ⟨body_frame_of_eq rfl rfl rfl rfl rfl, rfl⟩)
  apply ite_pred (step_frame m (m.state.mem m.state.pc))
  · exact fun h => Or.inr ⟨by rw [h, (mem_writes_other _).2.2.2.2]; exact xthl_body _ _, rfl⟩
  apply ite_pred (step_frame m (m.state.mem m.state.pc))
  · intro hc
    rcases hc with h | h | h | h | h | h | h <;>
      exact Or.inr ⟨add_body _ (by rw [h]; decide) _, rfl⟩
  iterate 2
    (apply ite_pred (step_frame m (m.state.mem m.state.pc))
     · exact fun _ => Or.inr ⟨body_frame_of_eq rfl rfl rfl rfl rfl, rfl⟩)
  apply ite_pred (step_frame m (m.state.mem m.state.pc))
  · intro hc
    rcases hc with h | h | h | h | h | h | h <;>
      exact Or.inr ⟨adc_body _ (by rw [h]; decide) _, rfl⟩
  iterate 2
    (apply ite_pred (step_frame m (m.state.mem m.state.pc))
     · exact fun _ => Or.inr ⟨body_frame_of_eq rfl rfl rfl rfl rfl, rfl⟩)
  apply ite_pred (step_frame m (m.state.mem m.state.pc))
  · intro hc
    rcases hc with h | h | h | h | h | h | h <;>
      exact Or.inr ⟨sub_body _ (by rw [h]; decide) _, rfl⟩
  iterate 2
    (apply ite_pred (step_frame m (m.state.mem m.state.pc))
     · exact fun _ => Or.inr ⟨body_frame_of_eq rfl rfl rfl rfl rfl, rfl⟩)
  apply ite_pred (step_frame m (m.state.mem m.state.pc))
  · intro hc
    rcases hc with h | h | h | h | h | h | h <;>
      exact Or.inr ⟨sbb_body _ (by rw [h]; decide) _, rfl⟩
  iterate 10
    (apply ite_pred (step_frame m (m.state.mem m.state.pc))
     · exact fun _ => Or.inr ⟨body_frame_of_eq rfl rfl rfl rfl rfl, rfl⟩)
  apply ite_pred (step_frame m (m.state.mem m.state.pc))
  · intro hc
    rcases hc with h | h | h | h | h | h | h <;>
      exact Or.inr ⟨inr_body _ (by rw [h]; decide) _, rfl⟩
  apply ite_pred (step_frame m (m.state.mem m.state.pc))
  · exact fun h => Or.inr ⟨by rw [h, mem_writes_hl _ _ (by decide)]; exact inr_m_body _ _, rfl⟩
  apply ite_pred (step_frame m (m.state.mem m.state.pc))
  · intro hc
    rcases hc with h | h | h | h | h | h | h <;>
      exact Or.inr ⟨dcr_body _ (by rw [h]; decide) _, rfl⟩
  apply ite_pred (step_frame m (m.state.mem m.state.pc))
  · exact fun h => Or.inr ⟨by rw [h, mem_writes_hl _ _ (by decide)]; exact dcr_m_body _ _, rfl⟩
  iterate 6
    (apply ite_pred (step_frame m (m.state.mem m.state.pc))
     · exact fun _ => Or.inr ⟨body_frame_of_eq rfl rfl rfl rfl rfl, rfl⟩)
  apply ite_pred (step_frame m (m.state.mem m.state.pc))
  · exact fun _ => Or.inr ⟨daa_body _ _, rfl⟩
  iterate 5
    (apply ite_pred (step_frame m (m.state.mem m.state.pc))
     · exact fun _ => Or.inr ⟨body_frame_of_eq rfl rfl rfl rfl rfl, rfl⟩)
  apply ite_pred (step_frame m (m.state.mem m.state.pc))
  · intro hc
    rcases hc with h | h | h | h | h | h | h <;>
      exact Or.inr ⟨ana_body _ (by rw [h]; decide) _, rfl⟩
  iterate 2
    (apply ite_pred (step_frame m (m.state.mem m.state.pc))
     · exact fun _ => Or.inr ⟨body_frame_of_eq rfl rfl rfl rfl rfl, rfl⟩)
  apply ite_pred (step_frame m (m.state.mem m.state.pc))
  · intro hc
    rcases hc with h | h | h | h | h | h | h <;>
      exact Or.inr ⟨xra_body _ (by rw [h]; decide) _, rfl⟩
  iterate 2
    (apply ite_pred (step_frame m (m.state.mem m.state.pc))
     · exact fun _ => Or.inr ⟨body_frame_of_eq rfl rfl rfl rfl rfl, rfl⟩)
  apply ite_pred (step_frame m (m.state.mem m.state.pc))
  · intro hc
    rcases hc with h | h | h | h | h | h | h <;>
      exact Or.inr ⟨ora_body _ (by rw [h]; decide) _, rfl⟩
  iterate 2
    (apply ite_pred (step_frame m (m.state.mem m.state.pc))
     · exact fun _ => Or.inr ⟨body_frame_of_eq rfl rfl rfl rfl rfl, rfl⟩)
  apply ite_pred (step_frame m (m.state.mem m.state.pc))
  · intro hc
    rcases hc with h | h | h | h | h | h | h <;>
      exact Or.inr ⟨cmp_body _ (by rw [h]; decide) _, rfl⟩
  iterate 3
    (apply ite_pred (step_frame m (m.state.mem m.state.pc))
     · exact fun _ => Or.inr ⟨body_frame_of_eq rfl rfl rfl rfl rfl, rfl⟩)
  iterate 8
    (apply ite_pred (step_frame m (m.state.mem m.state.pc))
     · exact fun _ => Or.inr ⟨body_frame_ite (fun _ => body_frame_of_eq rfl rfl rfl rfl rfl)
         (body_frame_of_eq rfl rfl rfl rfl rfl), rfl⟩)
  apply ite_pred (step_frame m (m.state.mem m.state.pc))
  · exact fun _ => Or.inr ⟨body_frame_of_eq rfl rfl rfl rfl rfl, rfl⟩
  apply ite_pred (step_frame m (m.state.mem m.state.pc))
  · exact fun h => Or.inr ⟨by rw [h, mem_writes_sp _ _ (by decide)]; exact call_body _ _, rfl⟩
  iterate 8
    (apply ite_pred (step_frame m (m.state.mem m.state.pc))
     · exact fun h => Or.inr
         ⟨ccc_body _ _ (by rw [h]; decide) _ (fun hz => by rw [h]; exact hz) _ _, rfl⟩)
  apply ite_pred (step_frame m (m.state.mem m.state.pc))
  · exact fun _ => Or.inr ⟨body_frame_of_eq rfl rfl rfl rfl rfl, rfl⟩
  iterate 8
    (apply ite_pred (step_frame m (m.state.mem m.state.pc))
     · exact fun _ => Or.inr ⟨body_frame_ite (fun _ => body_frame_of_eq rfl rfl rfl rfl rfl)
         (body_frame_of_eq rfl rfl rfl rfl rfl), rfl⟩)
  apply ite_pred (step_frame m (m.state.mem m.state.pc))
  · intro hc
    rcases hc with h | h | h | h | h | h | h | h <;>
      exact Or.inr ⟨by rw [h, mem_writes_sp _ _ (by decide)]; exact rst_body _, rfl⟩
  apply ite_pred (step_frame m (m.state.mem m.state.pc))
  · exact fun h => Or.inr ⟨by rw [h, mem_writes_sp _ _ (by decide)]; exact push_b_body _, rfl⟩
  apply ite_pred (step_frame m (m.state.mem m.state.pc))
  · exact fun h => Or.inr ⟨by rw [h, mem_writes_sp _ _ (by decide)]; exact push_d_body _, rfl⟩
  apply ite_pred (step_frame m (m.state.mem m.state.pc))
  · exact fun h => Or.inr ⟨by rw [h, mem_writes_sp _ _ (by decide)]; exact push_h_body _, rfl⟩
  apply ite_pred (step_frame m (m.state.mem m.state.pc))
  · exact fun h => Or.inr ⟨by rw [h, mem_writes_sp _ _ (by decide)]; exact push_psw_body _, rfl⟩
  iterate 4
    (apply ite_pred (step_frame m (m.state.mem m.state.pc))
     · exact fun _ => Or.inr ⟨body_frame_of_eq rfl rfl rfl rfl rfl, rfl⟩)
  apply ite_pred (step_frame m (m.state.mem m.state.pc))
  · exact fun h => Or.inl (Or.inl h)
  apply ite_pred (step_frame m (m.state.mem m.state.pc))
  · exact fun h => Or.inl (Or.inr h)
  exact Or.inr ⟨body_frame_of_eq rfl rfl rfl rfl rfl, rfl⟩


set_option maxRecDepth 100000 in
set_option maxHeartbeats 4000000 in
theorem switch_handlers {H : Type} (m : machine_t H) (bc de hl op : Nat) :
    (i8080_exec_switch op m bc de hl).2.io_handler = m.io_handler ∧
    (i8080_exec_switch op m bc de hl).2.instr_func = m.instr_func := by
  unfold i8080_exec_switch
  dsimp only
  iterate 123
    (apply ite_pred (fun r : Int × machine_t H =>
        r.2.io_handler = m.io_handler ∧ r.2.instr_func = m.instr_func)
     exact fun _ => ⟨rfl, rfl⟩)
  exact ⟨rfl, rfl⟩

theorem exec_handlers {H : Type} (m : machine_t H) :
    (i8080_exec m).2.io_handler = m.io_handler ∧
    (i8080_exec m).2.instr_func = m.instr_func := by
  obtain ⟨st, host, ioh, tr⟩ := m
  unfold i8080_exec
  dsimp only
  by_cases h1 : st.halt_req ≠ 0
  · rw [if_pos h1]
    exact ⟨rfl, rfl⟩
  · rw [if_neg h1]
    by_cases h2 : (st.pc : Int) ≥ st.mem_sizeb - 1
    · rw [if_pos h2]
      exact ⟨rfl, rfl⟩
    · rw [if_neg h2]
      cases tr with
      | none => exact switch_handlers _ _ _ _ _
      | some f =>
        dsimp only
        by_cases h3 : (f st host).1 ≠ 0
        · rw [if_pos h3]
          exact ⟨rfl, rfl⟩
        · rw [if_neg h3]
          exact switch_handlers _ _ _ _ _

theorem exec_frame {H : Type} (m : machine_t H) (ht : m.instr_func = none) :
    step_frame m (m.state.mem m.state.pc) (i8080_exec m) := by
  by_cases hh : m.state.halt_req = 0
  · by_cases hpc : (m.state.pc : Int) < m.state.mem_sizeb - 1
    · rw [exec_no_trap m hh ht hpc]
      exact switch_frame m
    · rw [show i8080_exec m = (-1, m) from by
        unfold i8080_exec
        rw [if_neg (not_not.mpr hh), if_pos (not_lt.mp hpc)]]
      exact Or.inr ⟨body_frame_refl _ _, rfl⟩
  · rw [show i8080_exec m = (-1, m) from by
      unfold i8080_exec
      rw [if_pos hh]]
    exact Or.inr ⟨body_frame_refl _ _, rfl⟩

theorem switch_io_keep {H : Type} (m : machine_t H) (bc de hl op : Nat)
    (hop : op = 0xdb ∨ op = 0xd3) (K : i8080_state_t → Prop) (h0 : K m.state)
    (hio : ∀ io, m.io_handler = some io → ∀ p b d, K (io p b d m.state m.host).2.1)
    (ha : ∀ s v, K s → K (set_a s v)) (hp : ∀ s n, K s → K (pc_add s n)) :
    K (i8080_exec_switch op m bc de hl).2.state := by
  obtain ⟨st, host, ioh, tr⟩ := m
  cases ioh with
  | none =>
    rcases hop with rfl | rfl <;> exact hp _ _ h0
  | some io =>
    rcases hop with rfl | rfl
    · exact hp _ _ (ha _ _ (hio io rfl _ _ _))
    · exact hp _ _ (hio io rfl _ _ _)

theorem exec_keep {H : Type} (m : machine_t H) (ht : m.instr_func = none)
    (K : i8080_state_t → Prop) (h0 : K m.state)
    (hio : ∀ io, m.io_handler = some io → ∀ p b d, K (io p b d m.state m.host).2.1)
    (ha : ∀ s v, K s → K (set_a s v)) (hp : ∀ s n, K s → K (pc_add s n))
    (hf : body_frame (mem_writes m.state (m.state.mem m.state.pc)) m.state
      (i8080_exec m).2.state → K (i8080_exec m).2.state) :
    K (i8080_exec m).2.state := by
  rcases exec_frame m ht with hop | hfr
  · by_cases hh : m.state.halt_req = 0
    · by_cases hpc : (m.state.pc : Int) < m.state.mem_sizeb - 1
      · rw [exec_no_trap m hh ht hpc]
        exact switch_io_keep m _ _ _ _ hop K h0 hio ha hp
      · rw [show i8080_exec m = (-1, m) from by
          unfold i8080_exec
          rw [if_neg (not_not.mpr hh), if_pos (not_lt.mp hpc)]]
        exact h0
    · rw [show i8080_exec m = (-1, m) from by
        unfold i8080_exec
        rw [if_pos hh]]
      exact h0
  · exact hf hfr.1

/-! ## Memory frame -/

theorem mem_writes_nil (st : i8080_state_t) (op : Nat) (h : ¬ is_store st op) :
    mem_writes st op = [] := by
  have h1 : ¬ (op ∈ movr2m_opcodes ∨ op = 0x36 ∨ op = 0x34 ∨ op = 0x35) := fun hc =>
    h (Or.inl (by
      rcases hc with hc | rfl | rfl | rfl
      · exact (by decide : ∀ x ∈ movr2m_opcodes, x ∈ _) op hc
      all_goals decide))
  have h2 : ¬ op = 0x02 := fun hc => h (Or.inl (by rw [hc]; decide))
  have h3 : ¬ op = 0x12 := fun hc => h (Or.inl (by rw [hc]; decide))
  have h4 : ¬ op = 0x32 := fun hc => h (Or.inl (by rw [hc]; decide))
  have h5 : ¬ op = 0x22 := fun hc => h (Or.inl (by rw [hc]; decide))
  have h6 : ¬ op = 0xe3 := fun hc => h (Or.inl (by rw [hc]; decide))
  have h7 : ¬ (op ∈ [0xc5, 0xd5, 0xe5, 0xf5, 0xcd] ∨ op ∈ rst_opcodes) := fun hc =>
    h (Or.inl (by
      rcases hc with hc | hc
      · exact (by decide : ∀ x ∈ [0xc5, 0xd5, 0xe5, 0xf5, 0xcd], x ∈ _) op hc
      · exact (by decide : ∀ x ∈ rst_opcodes, x ∈ _) op hc))
  have h8 : ¬ (op ∈ ccc_opcodes ∧ cc_holds st (op / 8 % 8)) := fun hc => h (Or.inr hc)
  unfold mem_writes
  dsimp only
  rw [if_neg h1, if_neg h2, if_neg h3, if_neg h4, if_neg h5, if_neg h6, if_neg h7, if_neg h8]

theorem indices_one (i : Int) : ∃ a b : Int, ∀ k, k ∈ [i] → k = a ∨ k = b :=
  ⟨i, i, fun _ hk => Or.inl (List.mem_singleton.mp hk)⟩

theorem indices_two (i j : Int) : ∃ a b : Int, ∀ k, k ∈ [i, j] → k = a ∨ k = b :=
  ⟨i, j, fun _ hk => (List.mem_cons.mp hk).imp id List.mem_singleton.mp⟩

theorem mem_writes_indices (st : i8080_state_t) (op : Nat) :
    ∃ i j : Int, ∀ k, k ∈ mem_writes st op → k = i ∨ k = j := by
  unfold mem_writes
  dsimp only
  iterate 4
    (apply ite_pred (fun l : List Int => ∃ i j : Int, ∀ k, k ∈ l → k = i ∨ k = j)
     exact fun _ => indices_one _)
  iterate 4
    (apply ite_pred (fun l : List Int => ∃ i j : Int, ∀ k, k ∈ l → k = i ∨ k = j)
     exact fun _ => indices_two _ _)
  exact ⟨0, 0, fun k hk => absurd hk (List.not_mem_nil k)⟩

theorem exec_mem_frame {H : Type} (m : machine_t H) (ht : m.instr_func = none)
    (hio : ∀ io, m.io_handler = some io → ∀ p b d,
      (io p b d m.state m.host).2.1.mem = m.state.mem) :
    ∀ k, k ∉ mem_writes m.state (m.state.mem m.state.pc) →
      (i8080_exec m).2.state.mem k = m.state.mem k :=
  exec_keep m ht
    (fun s => ∀ k, k ∉ mem_writes m.state (m.state.mem m.state.pc) → s.mem k = m.state.mem k)
    (fun _ _ => rfl)
    (fun io h p b d k _ => congrFun (hio io h p b d) k)
    (fun _ _ h => h) (fun _ _ h => h) (fun hf => hf.2.2.2.2)

/-- C38: with no trap installed and a port handler that leaves the CPU memory alone, one
`i8080_exec` call leaves every memory byte unchanged unless the instruction is a store
(MOV M,r, MVI M, STAX B, STAX D, STA, SHLD, INR M, DCR M, XTHL, PUSH B/D/H/PSW, CALL, RST or
a conditional call whose condition holds); whatever the instruction, at most two bytes
change, and they are among the indices that the case body assigns. -/
theorem memory_frame {H : Type} (m : machine_t H) (ht : m.instr_func = none)
    (hio : ∀ io, m.io_handler = some io → ∀ p b d,
      (io p b d m.state m.host).2.1.mem = m.state.mem) :
    (¬ is_store m.state (m.state.mem m.state.pc) →
      (i8080_exec m).2.state.mem = m.state.mem) ∧
    (∃ i j : Int, ∀ k, k ≠ i → k ≠ j → (i8080_exec m).2.state.mem k = m.state.mem k) ∧
    (∀ k, k ∉ mem_writes m.state (m.state.mem m.state.pc) →
      (i8080_exec m).2.state.mem k = m.state.mem k) := by
  have key := exec_mem_frame m ht hio
  refine ⟨fun hns => ?_, ?_, key⟩
  · funext k
    apply key
    rw [mem_writes_nil _ _ hns]
    exact List.not_mem_nil k
  · obtain ⟨i, j, hij⟩ := mem_writes_indices m.state (m.state.mem m.state.pc)
    exact ⟨i, j, fun k hi hj => key k (fun hk => (hij k hk).elim hi hj)⟩

/-! ## The invalid-selector branch of `reg_ptr` -/

theorem reg_ptr_invalid (st : i8080_state_t) (s : Nat) (h : s ∉ valid_selectors) :
    reg_ptr st s = ({ st with halt_req := 1 }, reg_t.a) := by
  unfold reg_ptr
  split
  all_goals first
    | rfl
    | exact absurd (by decide) h

set_option maxRecDepth 100000 in
theorem selectors_valid (op : Nat) : ∀ s ∈ reg_ptr_selectors op, s ∈ valid_selectors := by
  unfold reg_ptr_selectors
  apply ite_pred (fun l : List Nat => ∀ s ∈ l, s ∈ valid_selectors)
  · exact (by decide : ∀ x ∈ movr2r_opcodes,
      ∀ s ∈ [x &&& 0x7, (x &&& 0x38) >>> 3], s ∈ valid_selectors) op
  apply ite_pred (fun l : List Nat => ∀ s ∈ l, s ∈ valid_selectors)
  · exact (by decide : ∀ x ∈ movr2m_opcodes ++ add_opcodes ++ adc_opcodes ++ sub_opcodes ++
      sbb_opcodes ++ cmp_opcodes ++ ana_opcodes ++ xra_opcodes ++ ora_opcodes,
      ∀ s ∈ [x &&& 0x7], s ∈ valid_selectors) op
  apply ite_pred (fun l : List Nat => ∀ s ∈ l, s ∈ valid_selectors)
  · exact (by decide : ∀ x ∈ movm2r_opcodes ++ mvi_opcodes ++ inr_opcodes ++ dcr_opcodes,
      ∀ s ∈ [(x &&& 0x38) >>> 3], s ∈ valid_selectors) op
  exact fun s hs => absurd hs (List.not_mem_nil s)

/-- C40: the invalid-selector branch of `reg_ptr` (taken for a selector outside
{0, 1, 2, 3, 4, 5, 7}: it sets `halt_req` and falls back to register A) is not reachable from
`i8080_exec`: for every opcode, each selector that the dispatched helper (movr2r, movr2m,
movm2r, mvi, add, adc, sub, sbb, cmp, ana, xra, ora, inr, dcr) hands to `reg_ptr` is in
{0, 1, 2, 3, 4, 5, 7}, for which `reg_ptr` returns the state as it is; and one
`i8080_exec` call (no trap, a port handler that leaves `halt_req` alone) never changes
`halt_req`. -/
theorem reg_ptr_invalid_unreachable {H : Type} (m : machine_t H) (ht : m.instr_func = none)
    (hio : ∀ io, m.io_handler = some io → ∀ p b d,
      (io p b d m.state m.host).2.1.halt_req = m.state.halt_req) :
    (∀ s, s ∉ valid_selectors → reg_ptr m.state s = ({ m.state with halt_req := 1 }, reg_t.a)) ∧
    (∀ s, s ∈ valid_selectors → (reg_ptr m.state s).1 = m.state) ∧
    (∀ op, ∀ s ∈ reg_ptr_selectors op, s ∈ valid_selectors) ∧
    (i8080_exec m).2.state.halt_req = m.state.halt_req :=
  ⟨reg_ptr_invalid m.state,
    fun s hs => by
      obtain ⟨r, hr⟩ := reg_ptr_valid m.state s hs
      rw [hr],
    selectors_valid,
    exec_keep m ht (fun s => s.halt_req = m.state.halt_req) rfl hio
      (fun _ _ h => h) (fun _ _ h => h) (fun hf => hf.2.2.2.1)⟩

theorem memory_frame_witness :
    demo_push_b.instr_func = none ∧
    is_store demo_push_b.state (demo_push_b.state.mem demo_push_b.state.pc) ∧
    (i8080_exec demo_push_b).2.state.mem 0x23ff = 0x12 ∧
    (i8080_exec demo_push_b).2.state.mem 0x23fe = 0x34 ∧
    (∀ k, k ∉ mem_writes demo_push_b.state (demo_push_b.state.mem demo_push_b.state.pc) →
      (i8080_exec demo_push_b).2.state.mem k = demo_push_b.state.mem k) ∧
    ¬ is_store demo_in.state (demo_in.state.mem demo_in.state.pc) ∧
    (i8080_exec demo_in).2.state.mem = demo_in.state.mem :=
  ⟨rfl, by decide!, by decide!, by decide!,
    (memory_frame demo_push_b rfl (fun io h p b d => by
      cases h
      rfl)).2.2,
    by decide!,
    (memory_frame demo_in rfl (fun io h p b d => by
      cases h
      rfl)).1 (by decide!)⟩

theorem reg_ptr_invalid_unreachable_witness :
    demo_add_io.instr_func = none ∧ demo_add_io.state.mem demo_add_io.state.pc = 0x80 ∧
    reg_ptr_selectors 0x80 = [0] ∧
    (reg_ptr demo_add_io.state 6).1.halt_req = 1 ∧
    (i8080_exec demo_add_io).1 = 0 ∧
    (i8080_exec demo_add_io).2.state.a = 0x96 ∧
    (i8080_exec demo_add_io).2.state.halt_req = demo_add_io.state.halt_req :=
  ⟨rfl, by decide!, by decide!, by decide!, by decide!, by decide!,
    (reg_ptr_invalid_unreachable demo_add_io rfl (fun io h p b d => by
      cases h
      rfl)).2.2.2⟩

/-! ## Memory indices of one step -/

theorem mem_writes_bounds (st : i8080_state_t) (op : Nat)
    (hsp : 2 ≤ st.sp ∧ st.sp ≤ 0xfffe) (haddr : op = 0x22 → imm16 st ≤ 0xfffe) :
    ∀ k ∈ mem_writes st op, 0 ≤ k ∧ k ≤ 65535 := by
  have hbc := reg_pair_lt st.b st.c
  have hde := reg_pair_lt st.d st.e
  have hhl := reg_pair_lt st.h st.l
  have him := imm16_lt st
  unfold mem_writes
  dsimp only
  apply ite_pred (fun l : List Int => ∀ k ∈ l, 0 ≤ k ∧ k ≤ 65535)
  · intro _ k hk
    simp only [List.mem_singleton] at hk
    omega
  apply ite_pred (fun l : List Int => ∀ k ∈ l, 0 ≤ k ∧ k ≤ 65535)
  · intro _ k hk
    simp only [List.mem_singleton] at hk
    omega
  apply ite_pred (fun l : List Int => ∀ k ∈ l, 0 ≤ k ∧ k ≤ 65535)
  · intro _ k hk
    simp only [List.mem_singleton] at hk
    omega
  apply ite_pred (fun l : List Int => ∀ k ∈ l, 0 ≤ k ∧ k ≤ 65535)
  · intro _ k hk
    simp only [List.mem_singleton] at hk
    omega
  apply ite_pred (fun l : List Int => ∀ k ∈ l, 0 ≤ k ∧ k ≤ 65535)
  · intro h k hk
    have := haddr h
    simp only [List.mem_cons, List.mem_singleton, List.not_mem_nil, or_false] at hk
    omega
  iterate 3
    (apply ite_pred (fun l : List Int => ∀ k ∈ l, 0 ≤ k ∧ k ≤ 65535)
     · intro _ k hk
       simp only [List.mem_cons, List.mem_singleton, List.not_mem_nil, or_false] at hk
       omega)
  exact fun k hk => absurd hk (List.not_mem_nil k)

theorem mem_reads_bounds (st : i8080_state_t) (op : Nat) (hpc : st.pc ≤ 0xfffd)
    (hsp : 2 ≤ st.sp ∧ st.sp ≤ 0xfffe) (haddr : op = 0x2a → imm16 st ≤ 0xfffe) :
    ∀ k ∈ mem_reads st op, 0 ≤ k ∧ k ≤ 65535 := by
  have hbc := reg_pair_lt st.b st.c
  have hde := reg_pair_lt st.d st.e
  have hhl := reg_pair_lt st.h st.l
  have him := imm16_lt st
  unfold mem_reads
  dsimp only
  iterate 9
    (apply ite_pred (fun l : List Int => ∀ k ∈ l, 0 ≤ k ∧ k ≤ 65535)
     · intro _ k hk
       simp only [List.mem_cons, List.mem_singleton, List.not_mem_nil, or_false] at hk
       omega)
  apply ite_pred (fun l : List Int => ∀ k ∈ l, 0 ≤ k ∧ k ≤ 65535)
  · intro h k hk
    have := haddr h
    simp only [List.mem_cons, List.mem_singleton, List.not_mem_nil, or_false] at hk
    omega
  iterate 2
    (apply ite_pred (fun l : List Int => ∀ k ∈ l, 0 ≤ k ∧ k ≤ 65535)
     · intro _ k hk
       simp only [List.mem_cons, List.mem_singleton, List.not_mem_nil, or_false] at hk
       omega)
  exact fun k hk => absurd hk (List.not_mem_nil k)

/-- C36: with mem_size = 65536 and no trap, if PC <= 0xFFFD, 2 <= SP <= 0xFFFE and, when the
opcode is LHLD or SHLD, its 16-bit operand address is <= 0xFFFE, then every memory index
that one `i8080_exec` call reads or writes (the fetch at PC, the reads and the writes of
the case body) lies in [0, 65535], for every opcode and every register content; with
`halt_req` set the call touches no memory at all. -/
theorem exec_accesses_in_bounds (st : i8080_state_t) (hsz : st.mem_sizeb = 65536)
    (hpc : st.pc ≤ 0xfffd) (hsp : 2 ≤ st.sp ∧ st.sp ≤ 0xfffe)
    (haddr : st.mem st.pc = 0x2a ∨ st.mem st.pc = 0x22 → imm16 st ≤ 0xfffe) :
    ∀ k ∈ i8080_exec_accesses st, 0 ≤ k ∧ k < st.mem_sizeb := by
  intro k hk
  rw [hsz]
  unfold i8080_exec_accesses at hk
  split_ifs at hk with h1 h2
  · exact absurd hk (List.not_mem_nil k)
  · exact absurd hk (List.not_mem_nil k)
  · rcases List.mem_cons.mp hk with h | h
    · omega
    · rcases List.mem_append.mp h with h | h
      · have := mem_reads_bounds st _ hpc hsp (fun e => haddr (Or.inl e)) k h
        omega
      · have := mem_writes_bounds st _ hsp (fun e => haddr (Or.inr e)) k h
        omega

theorem exec_accesses_in_bounds_witness :
    demo_lhld.mem_sizeb = 65536 ∧ demo_lhld.pc ≤ 0xfffd ∧
    (2 ≤ demo_lhld.sp ∧ demo_lhld.sp ≤ 0xfffe) ∧
    demo_lhld.mem demo_lhld.pc = 0x2a ∧ imm16 demo_lhld = 0x2000 ∧
    i8080_exec_accesses demo_lhld = [0, 1, 2, 0x2000, 0x2001] ∧
    (∀ k ∈ i8080_exec_accesses demo_lhld, 0 ≤ k ∧ k < demo_lhld.mem_sizeb) :=
  ⟨rfl, by decide, by decide, by decide!, by decide!, by decide!,
    exec_accesses_in_bounds demo_lhld rfl (by decide) (by decide) (fun _ => by decide!)⟩

/-! ## The drive loop -/

theorem interrupt_counters (st : i8080_state_t) (n : Nat) :
    (i8080_interrupt st n).irq_set_cnt = st.irq_set_cnt ∧
    (i8080_interrupt st n).irq_clr_cnt = st.irq_clr_cnt := by
  unfold i8080_interrupt
  split_ifs <;> exact ⟨rfl, rfl⟩

theorem body_raise (st : i8080_state_t) (h : st.irq_set_cnt ≠ st.irq_clr_cnt) :
    exec_invaders_body st =
      { i8080_interrupt st (if st.irq_set_cnt % 2 = 0 then 2 else 1) with
        irq_clr_cnt := (st.irq_clr_cnt + 1) % 4294967296 } := by
  unfold exec_invaders_body
  rw [if_pos h, Nat.and_one_is_mod]
  dsimp only
  by_cases hp : st.irq_set_cnt % 2 = 0
  · rw [if_pos hp, if_pos hp, (interrupt_counters st 2).2]
  · rw [if_neg hp, if_neg hp, (interrupt_counters st 1).2]

theorem body_counters (st : i8080_state_t) (hinv : st.irq_clr_cnt ≤ st.irq_set_cnt)
    (hw : st.irq_set_cnt < 4294967296) :
    (exec_invaders_body st).irq_set_cnt = st.irq_set_cnt ∧
    st.irq_clr_cnt ≤ (exec_invaders_body st).irq_clr_cnt ∧
    (exec_invaders_body st).irq_clr_cnt ≤ st.irq_set_cnt := by
  by_cases h : st.irq_set_cnt = st.irq_clr_cnt
  · have e : exec_invaders_body st = st := by
      unfold exec_invaders_body
      rw [if_neg (not_not.mpr h)]
    rw [e]
    exact ⟨rfl, le_refl _, hinv⟩
  · rw [body_raise st h]
    refine ⟨(interrupt_counters st _).1, ?_, ?_⟩
    · show st.irq_clr_cnt ≤ (st.irq_clr_cnt + 1) % 4294967296
      omega
    · show (st.irq_clr_cnt + 1) % 4294967296 ≤ st.irq_set_cnt
      omega

theorem timer_ticks (n : Nat) : ∀ st : i8080_state_t, st.irq_set_cnt + n < 4294967296 →
    (Nat.iterate timer_irq_handler n st).irq_set_cnt = st.irq_set_cnt + n ∧
    (Nat.iterate timer_irq_handler n st).irq_clr_cnt = st.irq_clr_cnt := by
  induction n with
  | zero => exact fun st _ => ⟨rfl, rfl⟩
  | succ n ih =>
    intro st h
    have h1 : (timer_irq_handler st).irq_set_cnt = st.irq_set_cnt + 1 := by
      show (st.irq_set_cnt + 1) % 4294967296 = _
      omega
    obtain ⟨a, b⟩ := ih (timer_irq_handler st) (by rw [h1]; omega)
    rw [Function.iterate_succ_apply, a, b, h1]
    exact ⟨by omega, rfl⟩

theorem exec_counters {H : Type} (m : machine_t H) (ht : m.instr_func = none)
    (hio : ∀ io, m.io_handler = some io → ∀ p b d st h,
      (io p b d st h).2.1.irq_set_cnt = st.irq_set_cnt ∧
      (io p b d st h).2.1.irq_clr_cnt = st.irq_clr_cnt) :
    (i8080_exec m).2.state.irq_set_cnt = m.state.irq_set_cnt ∧
    (i8080_exec m).2.state.irq_clr_cnt = m.state.irq_clr_cnt :=
  exec_keep m ht
    (fun s => s.irq_set_cnt = m.state.irq_set_cnt ∧ s.irq_clr_cnt = m.state.irq_clr_cnt)
    ⟨rfl, rfl⟩ (fun io h p b d => hio io h p b d m.state m.host)
    (fun _ _ h => h) (fun _ _ h => h) (fun hf => ⟨hf.1, hf.2.1⟩)

theorem loop_counters {H : Type} (ticks : List Nat) : ∀ m : machine_t H,
    m.instr_func = none →
    (∀ io, m.io_handler = some io → ∀ p b d st h,
      (io p b d st h).2.1.irq_set_cnt = st.irq_set_cnt ∧
      (io p b d st h).2.1.irq_clr_cnt = st.irq_clr_cnt) →
    m.state.irq_clr_cnt ≤ m.state.irq_set_cnt →
    m.state.irq_set_cnt + ticks.sum < 4294967296 →
    (exec_invaders_loop ticks m).2.state.irq_clr_cnt ≤
      (exec_invaders_loop ticks m).2.state.irq_set_cnt ∧
    m.state.irq_clr_cnt ≤ (exec_invaders_loop ticks m).2.state.irq_clr_cnt ∧
    (exec_invaders_loop ticks m).2.state.irq_set_cnt ≤ m.state.irq_set_cnt + ticks.sum := by
  induction ticks with
  | nil => exact fun m _ _ hinv _ => ⟨hinv, le_refl _, le_refl _⟩
  | cons n ticks ih =>
    intro m ht hio hinv hw
    rw [List.sum_cons] at hw ⊢
    obtain ⟨e1, e2⟩ := exec_counters m ht hio
    obtain ⟨g1, g2⟩ := exec_handlers m
    obtain ⟨t1, t2⟩ := timer_ticks n (i8080_exec m).2.state (by rw [e1]; omega)
    rw [e1] at t1
    rw [e2] at t2
    unfold exec_invaders_loop
    dsimp only
    by_cases hs : (i8080_exec m).1 ≠ 0
    · rw [if_pos hs]
      show (Nat.iterate timer_irq_handler n (i8080_exec m).2.state).irq_clr_cnt ≤
        (Nat.iterate timer_irq_handler n (i8080_exec m).2.state).irq_set_cnt ∧
        m.state.irq_clr_cnt ≤
          (Nat.iterate timer_irq_handler n (i8080_exec m).2.state).irq_clr_cnt ∧
        (Nat.iterate timer_irq_handler n (i8080_exec m).2.state).irq_set_cnt ≤ _
      rw [t1, t2]
      omega
    · rw [if_neg hs]
      obtain ⟨b1, b2, b3⟩ := body_counters
        (Nat.iterate timer_irq_handler n (i8080_exec m).2.state)
        (by rw [t1, t2]; omega) (by rw [t1]; omega)
      rw [t1] at b1 b3
      rw [t2] at b2
      obtain ⟨k1, k2, k3⟩ := ih
        { (i8080_exec m).2 with
          state := exec_invaders_body (Nat.iterate timer_irq_handler n (i8080_exec m).2.state) }
        (g2.trans ht) (fun io h => hio io (g1.symm.trans h))
        (by show (exec_invaders_body _).irq_clr_cnt ≤ (exec_invaders_body _).irq_set_cnt
            rw [b1]; exact b3)
        (by show (exec_invaders_body _).irq_set_cnt + _ < _
            rw [b1]; omega)
      refine ⟨k1, ?_, ?_⟩
      · exact le_trans b2 k2
      · refine le_trans k3 ?_
        show (exec_invaders_body _).irq_set_cnt + _ ≤ _
        rw [b1]
        omega

theorem io_handler_counters (p b : Nat) (d : Int) (st : i8080_state_t) (io : invaders_io_t) :
    (io_handler p b d st io).2.1.irq_set_cnt = st.irq_set_cnt ∧
    (io_handler p b d st io).2.1.irq_clr_cnt = st.irq_clr_cnt := by
  unfold io_handler
  dsimp only
  split_ifs <;> exact ⟨rfl, rfl⟩

/-- C31: the body of the Space Invaders drive loop, run each time `i8080_exec` returned 0:
if `irq_set_cnt` differs from `irq_clr_cnt` it calls `i8080_interrupt` once, with vector 2
when `irq_set_cnt` is even and vector 1 when it is odd, and increments `irq_clr_cnt` by
exactly 1; if the counters are equal it changes nothing. `i8080_exec` itself (no trap, a
port handler that leaves the counters alone) keeps both counters. So from
`irq_clr_cnt <= irq_set_cnt` the loop never makes `irq_clr_cnt` exceed `irq_set_cnt`,
whatever the number of timer ticks in each iteration (as long as `irq_set_cnt` does not
wrap around 2^32). -/
theorem drive_loop_irq {H : Type} (m : machine_t H) (ticks : List Nat)
    (ht : m.instr_func = none)
    (hio : ∀ io, m.io_handler = some io → ∀ p b d st h,
      (io p b d st h).2.1.irq_set_cnt = st.irq_set_cnt ∧
      (io p b d st h).2.1.irq_clr_cnt = st.irq_clr_cnt)
    (hinv : m.state.irq_clr_cnt ≤ m.state.irq_set_cnt)
    (hw : m.state.irq_set_cnt + ticks.sum < 4294967296) :
    (∀ st : i8080_state_t, st.irq_clr_cnt ≤ st.irq_set_cnt → st.irq_set_cnt < 4294967296 →
      (st.irq_set_cnt ≠ st.irq_clr_cnt →
        exec_invaders_body st =
          { i8080_interrupt st (if st.irq_set_cnt % 2 = 0 then 2 else 1) with
            irq_clr_cnt := st.irq_clr_cnt + 1 }) ∧
      (st.irq_set_cnt = st.irq_clr_cnt → exec_invaders_body st = st) ∧
      (exec_invaders_body st).irq_set_cnt = st.irq_set_cnt ∧
      (exec_invaders_body st).irq_clr_cnt ≤ st.irq_set_cnt) ∧
    (i8080_exec m).2.state.irq_set_cnt = m.state.irq_set_cnt ∧
    (i8080_exec m).2.state.irq_clr_cnt = m.state.irq_clr_cnt ∧
    (exec_invaders_loop ticks m).2.state.irq_clr_cnt ≤
      (exec_invaders_loop ticks m).2.state.irq_set_cnt := by
  refine ⟨fun st hi hs => ⟨fun hne => ?_, fun he => ?_, (body_counters st hi hs).1,
    (body_counters st hi hs).2.2⟩, (exec_counters m ht hio).1, (exec_counters m ht hio).2,
    (loop_counters ticks m ht hio hinv hw).1⟩
  · rw [body_raise st hne,
      Nat.mod_eq_of_lt (show st.irq_clr_cnt + 1 < 4294967296 by omega)]
  · unfold exec_invaders_body
    rw [if_neg (not_not.mpr he)]

theorem drive_loop_irq_witness :
    demo_invaders.state.irq_clr_cnt ≤ demo_invaders.state.irq_set_cnt ∧
    (exec_invaders_loop [1, 0, 1] demo_invaders).1 = 0 ∧
    (exec_invaders_loop [1, 0, 1] demo_invaders).2.state.irq_set_cnt = 2 ∧
    (exec_invaders_loop [1, 0, 1] demo_invaders).2.state.irq_clr_cnt = 2 ∧
    (exec_invaders_loop [1] demo_invaders).2.state.pc = 0x0008 ∧
    (exec_invaders_loop [1, 0, 1] demo_invaders).2.state.irq_clr_cnt ≤
      (exec_invaders_loop [1, 0, 1] demo_invaders).2.state.irq_set_cnt :=
  ⟨by decide, by decide!, by decide!, by decide!, by decide!,
    (drive_loop_irq demo_invaders [1, 0, 1] rfl
      (fun io h p b d st host => by
        cases h
        exact io_handler_counters p b d st host)
      (by decide) (by decide)).2.2.2⟩

end I8080
